import Mathlib

/-! # librender: lifecycle of the Vulkan rendering context

A shallow embedding of `src/render.c` (with the error codes of
`include/render.h`).  The C context `struct render` becomes the record
`Render`; every call that leaves the library (a Vulkan entry point reached
through the function table of the context, or a libc / libwindow function)
is answered by an environment `World` and is appended to a trace, so that
"which calls were made, in which order, with which handles" is a property
of the final state.

Conventions of the embedding
* handles, pointers and function pointers are natural numbers, `0` is
  `NULL` / `VK_NULL_HANDLE`;
* a C function returning an error code is a computation `M Int`;
* calling through a function-table entry that is `NULL` stops the run with
  `Outcome.nullCall f`; indexing an array whose pointer is `NULL` stops it
  with `Outcome.nullDeref`;
* the contents of the heap blocks the context points to are kept in
  `Arrays`, next to (not inside) the context, so `memset` of the context
  does not touch them; a fresh block is modelled as zero-filled;
* sizes are computed for a 64-bit target (`size_t` is 64 bits, handles are
  8 bytes).
-/

namespace Librender

set_option linter.unusedTactic false
set_option linter.unreachableTactic false

/-! ## Error codes (`include/render.h`) -/

abbrev RENDER_ERROR_NONE : Int := 0
abbrev RENDER_ERROR_MEMORY : Int := -1
abbrev RENDER_ERROR_FILE : Int := -2
abbrev RENDER_ERROR_NULL : Int := -3
abbrev RENDER_ERROR_VULKAN_LOAD : Int := -4
abbrev RENDER_ERROR_VULKAN_INSTANCE : Int := -5
abbrev RENDER_ERROR_VULKAN_PREINST_LOAD : Int := -6
abbrev RENDER_ERROR_VULKAN_INST_LOAD : Int := -7
abbrev RENDER_ERROR_VULKAN_PHYSICAL_DEVICE : Int := -8
abbrev RENDER_ERROR_VULKAN_NO_DEVICES : Int := -9
abbrev RENDER_ERROR_VULKAN_INSTANCE_FUNC_LOAD : Int := -10
abbrev RENDER_ERROR_VULKAN_DEVICE_FUNC_LOAD : Int := -11
abbrev RENDER_ERROR_VULKAN_SURFACE : Int := -12
abbrev RENDER_ERROR_SURFACE_CAPS_IMAGE_USAGE : Int := -13
abbrev RENDER_ERROR_VULKAN_QUEUE_INDICES : Int := -14
abbrev RENDER_ERROR_VULKAN_QUEUE_INDEX_MISMATCH : Int := -15
abbrev RENDER_ERROR_VULKAN_CREATE_DEVICE : Int := -16
abbrev RENDER_ERROR_VULKAN_SURFACE_FORMAT : Int := -17
abbrev RENDER_ERROR_VULKAN_FORMAT_PROPERTIES_LINEAR : Int := -18
abbrev RENDER_ERROR_VULKAN_FORMAT_PROPERTIES_OPTIMAL : Int := -19
abbrev RENDER_ERROR_VULKAN_FORMAT_PROPERTIES_BUFFER : Int := -20
abbrev RENDER_ERROR_VULKAN_SURFACE_CAPABILITIES : Int := -21
abbrev RENDER_ERROR_VULKAN_SWAPCHAIN : Int := -22
abbrev RENDER_ERROR_VULKAN_SHADER_MODULE : Int := -23
abbrev RENDER_ERROR_VULKAN_SHADER_READ : Int := -24
abbrev RENDER_ERROR_VULKAN_DESCRIPTOR_SET_LAYOUT : Int := -25
abbrev RENDER_ERROR_VULKAN_PIPELINE_LAYOUT : Int := -26
abbrev RENDER_ERROR_VULKAN_CREATE_PIPELINE : Int := -27
abbrev RENDER_ERROR_VULKAN_RENDER_PASS : Int := -28
abbrev RENDER_ERROR_VULKAN_SWAPCHAIN_IMAGES : Int := -29
abbrev RENDER_ERROR_VULKAN_IMAGE_VIEW : Int := -30
abbrev RENDER_ERROR_VULKAN_FRAMEBUFFER : Int := -31
abbrev RENDER_ERROR_VULKAN_COMMAND_POOL : Int := -32
abbrev RENDER_ERROR_VULKAN_COMMAND_BUFFER : Int := -33
abbrev RENDER_ERROR_VULKAN_BUFFER : Int := -34
abbrev RENDER_ERROR_VULKAN_MEMORY : Int := -35
abbrev RENDER_ERROR_VULKAN_MEMORY_MAP : Int := -36
abbrev RENDER_ERROR_VULKAN_COMMAND_BUFFER_BEGIN : Int := -37
abbrev RENDER_ERROR_VULKAN_COMMAND_BUFFER_END : Int := -38
abbrev RENDER_ERROR_VULKAN_SEMAPHORE : Int := -39
abbrev RENDER_ERROR_VULKAN_ACQUIRE_IMAGE : Int := -40
abbrev RENDER_ERROR_VULKAN_QUEUE_SUBMIT : Int := -41
abbrev RENDER_ERROR_VULKAN_QUEUE_PRESENT : Int := -42

/-! ## Constants of the Vulkan headers used by `render.c` -/

abbrev VK_SUCCESS : Int := 0
abbrev VK_QUEUE_GRAPHICS_BIT : Nat := 1
abbrev VK_MEMORY_PROPERTY_HOST_VISIBLE_BIT : Nat := 2
abbrev VK_BUFFER_USAGE_INDEX_BUFFER_BIT : Nat := 64
abbrev VK_BUFFER_USAGE_VERTEX_BUFFER_BIT : Nat := 128
abbrev VK_COMMAND_BUFFER_USAGE_SIMULTANEOUS_USE_BIT : Nat := 4
abbrev VK_PIPELINE_STAGE_COLOR_ATTACHMENT_OUTPUT_BIT : Nat := 1024
abbrev VK_PRESENT_MODE_FIFO_KHR : Nat := 2
abbrev VK_INDEX_TYPE_UINT16 : Nat := 0
abbrev SEEK_SET : Nat := 0
abbrev SEEK_END : Nat := 2

/-- The value of a `size_t` expression on the 64-bit target. -/
def size_t (n : Nat) : Nat := n % 18446744073709551616

/-! ## The function table -/

/-- The entries `vkfunc(f)` of `struct render`. -/
inductive Fn where
  | vkGetInstanceProcAddr
  | vkCreateInstance
  | vkDestroyInstance
  | vkGetDeviceProcAddr
  | vkEnumeratePhysicalDevices
  | vkGetPhysicalDeviceProperties
  | vkCreateXcbSurfaceKHR
  | vkGetPhysicalDeviceQueueFamilyProperties
  | vkCreateDevice
  | vkGetDeviceQueue
  | vkGetPhysicalDeviceSurfaceSupportKHR
  | vkGetPhysicalDeviceSurfaceCapabilitiesKHR
  | vkGetPhysicalDeviceSurfaceFormatsKHR
  | vkGetPhysicalDeviceMemoryProperties
  | vkDestroyDevice
  | vkDestroySwapchainKHR
  | vkDestroySurfaceKHR
  | vkCreateSwapchainKHR
  | vkCreateShaderModule
  | vkCreatePipelineLayout
  | vkCreateRenderPass
  | vkCreateGraphicsPipelines
  | vkGetSwapchainImagesKHR
  | vkCreateImageView
  | vkCreateFramebuffer
  | vkCreateCommandPool
  | vkAllocateCommandBuffers
  | vkCreateBuffer
  | vkGetBufferMemoryRequirements
  | vkAllocateMemory
  | vkBindBufferMemory
  | vkMapMemory
  | vkFlushMappedMemoryRanges
  | vkInvalidateMappedMemoryRanges
  | vkUnmapMemory
  | vkBeginCommandBuffer
  | vkCmdBeginRenderPass
  | vkCmdBindPipeline
  | vkCmdBindVertexBuffers
  | vkCmdBindIndexBuffer
  | vkCmdDrawIndexed
  | vkCmdEndRenderPass
  | vkEndCommandBuffer
  | vkCreateSemaphore
  | vkAcquireNextImageKHR
  | vkQueueSubmit
  | vkQueuePresentKHR
  | vkQueueWaitIdle
  | vkDestroyShaderModule
  | vkDestroyRenderPass
  | vkDestroyPipelineLayout
  | vkDestroyPipeline
  | vkDestroyImageView
  | vkDestroyFramebuffer
  | vkDestroyCommandPool
  | vkFreeCommandBuffers
  | vkDestroyBuffer
  | vkFreeMemory
  | vkDestroySemaphore
  | vkCreateDescriptorSetLayout
  | vkDestroyDescriptorSetLayout
  deriving DecidableEq, Repr

/-- The libc, libdl and libwindow functions `render.c` calls directly. -/
inductive Sys where
  | dlopen
  | dlsym
  | dlclose
  | malloc
  | free
  | fopen
  | fseek
  | ftell
  | fread
  | fclose
  | memcpy
  | window_xcb_connection
  | window_xcb_window
  deriving DecidableEq, Repr

/-- What a call is made to. -/
inductive Op where
  | vk (f : Fn)
  | sys (f : Sys)
  deriving DecidableEq, Repr

/-! ## Data exchanged with the environment -/

/-- The fields of `VkQueueFamilyProperties` that are read. -/
structure QueueFamilyProperties where
  queueFlags : Nat
  queueCount : Nat
  deriving DecidableEq, Repr

/-- The type `VkSurfaceFormatKHR`. -/
structure SurfaceFormat where
  format : Nat
  colorSpace : Nat
  deriving DecidableEq, Repr

/-- The type `VkExtent2D`. -/
structure Extent2D where
  width : Nat
  height : Nat
  deriving DecidableEq, Repr

/-- The fields of `VkSurfaceCapabilitiesKHR` that are read. -/
structure SurfaceCapabilities where
  currentExtent : Extent2D
  supportedUsageFlags : Nat
  currentTransform : Nat
  supportedCompositeAlpha : Nat
  deriving DecidableEq, Repr

/-- One call leaving the library: the callee, its scalar and handle
arguments in source order, the symbol name passed to a loader function, and
the bytes or handles of an array argument. -/
structure Call where
  op : Op
  args : List Nat := []
  sym : Option Fn := none
  data : List Nat := []
  deriving DecidableEq, Repr

/-- What the environment hands back: the `VkResult` (or the `long` returned
by `ftell`), the returned or written scalar (pointer, handle, count), and the
arrays and records written through out-parameters. -/
structure Reply where
  result : Int := 0
  value : Nat := 0
  values : List Nat := []
  props : List QueueFamilyProperties := []
  formats : List SurfaceFormat := []
  caps : SurfaceCapabilities := ⟨⟨0, 0⟩, 0, 0, 0⟩
  deriving DecidableEq, Repr

/-- A call together with its answer. -/
structure Event where
  call : Call
  reply : Reply
  deriving DecidableEq, Repr

/-- The environment (driver, loader, libc, file system): it answers a call
knowing everything that happened before. -/
abbrev World := List Event → Call → Reply

/-! ## The context -/

/-- The record `struct render`. -/
structure Render where
  vklib : Nat
  fn : Fn → Nat
  instance_ : Nat
  n_devices : Nat
  phys_id : Nat
  phys_devices : Nat
  surface : Nat
  n_queue_props : Nat
  queue_index_graphics : Nat
  queue_index_present : Nat
  queue_props : Nat
  device : Nat
  format : SurfaceFormat
  swapchain : Nat
  swap_extent : Extent2D
  vertex_buffer : Nat
  index_buffer : Nat
  vertex_memory : Nat
  index_memory : Nat
  graphics_queue : Nat
  present_queue : Nat
  has_pipeline : Int
  vert_module : Nat
  frag_module : Nat
  render_pass : Nat
  pipeline : Nat
  n_swapchain_images : Nat
  swapchain_images : Nat
  image_views : Nat
  framebuffers : Nat
  command_pool : Nat
  command_buffers : Nat
  image_semaphore : Nat
  render_semaphore : Nat

/-- The all-zero context: what `memset(r, 0, sizeof(struct render))` leaves. -/
def Render.zero : Render :=
  { vklib := 0, fn := fun _ => 0, instance_ := 0, n_devices := 0, phys_id := 0,
    phys_devices := 0, surface := 0, n_queue_props := 0, queue_index_graphics := 0,
    queue_index_present := 0, queue_props := 0, device := 0, format := ⟨0, 0⟩,
    swapchain := 0, swap_extent := ⟨0, 0⟩, vertex_buffer := 0, index_buffer := 0,
    vertex_memory := 0, index_memory := 0, graphics_queue := 0, present_queue := 0,
    has_pipeline := 0, vert_module := 0, frag_module := 0, render_pass := 0,
    pipeline := 0, n_swapchain_images := 0, swapchain_images := 0, image_views := 0,
    framebuffers := 0, command_pool := 0, command_buffers := 0, image_semaphore := 0,
    render_semaphore := 0 }

/-- Contents of the heap blocks the array pointers of the context point to. -/
structure Arrays where
  phys_devices : List Nat := []
  queue_props : List QueueFamilyProperties := []
  swapchain_images : List Nat := []
  image_views : List Nat := []
  framebuffers : List Nat := []
  command_buffers : List Nat := []
  deriving DecidableEq, Repr

/-- The pointer argument `struct render *r` of the public functions. -/
inductive RenderPtr where
  | null
  | valid
  deriving DecidableEq, Repr

/-- Everything a run can read or change. -/
structure State where
  r : Render
  mem : Arrays
  trace : List Event

/-- How a run ends: it returns, or it stops at a call through a `NULL`
function-table entry, or at an access through a `NULL` data pointer. -/
inductive Outcome (α : Type) where
  | ret (a : α)
  | nullCall (f : Fn)
  | nullDeref
  deriving DecidableEq, Repr

/-- The end of a run with the state it ended in. -/
structure Res (α : Type) where
  val : Outcome α
  st : State

/-- A computation over the state. -/
def M (α : Type) : Type := State → Res α

/-- Return without touching the state. -/
def M.pure {α : Type} (a : α) : M α := fun s => ⟨.ret a, s⟩

/-- Sequencing: a run that stopped stays stopped. -/
def M.bind {α β : Type} (m : M α) (k : α → M β) : M β := fun s =>
  match (m s).val with
  | .ret a => k a (m s).st
  | .nullCall f => ⟨.nullCall f, (m s).st⟩
  | .nullDeref => ⟨.nullDeref, (m s).st⟩

instance : Monad M where
  pure := M.pure
  bind := M.bind

/-- Read the whole state. -/
def getS : M State := fun s => ⟨.ret s, s⟩

/-- Read the context. -/
def getR : M Render := fun s => ⟨.ret s.r, s⟩

/-- Assign to fields of the context. -/
def setR (f : Render → Render) : M Unit := fun s => ⟨.ret (), { s with r := f s.r }⟩

/-- Write into the heap blocks. -/
def setMem (f : Arrays → Arrays) : M Unit := fun s => ⟨.ret (), { s with mem := f s.mem }⟩

/-- Assign the function-table entry `r->f`. -/
def setFn (f : Fn) (p : Nat) : M Unit :=
  setR fun r => { r with fn := Function.update r.fn f p }

/-- A call that does not go through the function table. -/
def extcall (w : World) (c : Call) : M Reply := fun s =>
  ⟨.ret (w s.trace c), { s with trace := s.trace ++ [⟨c, w s.trace c⟩] }⟩

/-- The call `r->f(...)` through the function table. -/
def invoke (w : World) (f : Fn) (args : List Nat) (sym : Option Fn) (data : List Nat) :
    M Reply := fun s =>
  if s.r.fn f = 0 then ⟨.nullCall f, s⟩
  else extcall w { op := .vk f, args := args, sym := sym, data := data } s

/-- The read `p[i]` of an array with pointer `p` and contents `xs`. -/
def deref {α : Type} (p : Nat) (xs : List α) (i : Nat) (dflt : α) : M α := fun s =>
  if p = 0 then ⟨.nullDeref, s⟩ else ⟨.ret (xs.getD i dflt), s⟩

/-- What an array of contents `old` holds after the environment wrote the
elements `new` into it from index 0, never beyond its capacity. -/
def overwrite {α : Type} (old new : List α) : List α :=
  new.take old.length ++ old.drop new.length

/-- Modelled from the spec: the macro `chkerr` of `error.h`, which is not
among the sources; "failures abort the remaining steps of the current
multi-step operation immediately and propagate to the immediate caller":
a non-zero code of `x` is returned at once, otherwise the run goes on
with `k`. -/
def chkerr (x : M Int) (k : M Int) : M Int := do
  let err ← x
  if err ≠ 0 then pure err else k

/-- The loop `for (i = i0; ...; ++i) body`, with `n` iterations left; a body
yields a non-zero code exactly when the C body executes `return code`, and
the loop yields 0 when it runs to its end. -/
def for_loop (body : Nat → M Int) : Nat → Nat → M Int
  | 0, _ => pure 0
  | n + 1, i => chkerr (body i) (for_loop body n (i + 1))

/-! ## `render.c`: loading and instance -/

/-- The function `load_vulkan`. -/
def load_vulkan (w : World) : M Int := do
  let lib ← extcall w { op := .sys .dlopen }
  setR fun r => { r with vklib := lib.value }
  if lib.value = 0 then pure RENDER_ERROR_VULKAN_LOAD
  else do
    let p ← extcall w { op := .sys .dlsym, args := [lib.value],
                        sym := some .vkGetInstanceProcAddr }
    setFn .vkGetInstanceProcAddr p.value
    pure RENDER_ERROR_NONE

/-- A sequence of `load(f);` lines, each returning on failure. -/
def load_all (load : Fn → M Int) : List Fn → M Int
  | [] => pure RENDER_ERROR_NONE
  | f :: fs => chkerr (load f) (load_all load fs)

/-- The macro `load(f)` of `load_preinstance_functions`. -/
def load_preinstance (w : World) (f : Fn) : M Int := do
  let p ← invoke w .vkGetInstanceProcAddr [0] (some f) []
  setFn f p.value
  if p.value = 0 then pure RENDER_ERROR_VULKAN_PREINST_LOAD else pure 0

/-- The function `load_preinstance_functions`. -/
def load_preinstance_functions (w : World) : M Int :=
  load_all (load_preinstance w) [.vkCreateInstance]

/-- The function `create_instance`. -/
def create_instance (w : World) : M Int := do
  let rep ← invoke w .vkCreateInstance [2] none []
  setR fun r => { r with instance_ := rep.value }
  if rep.result ≠ VK_SUCCESS then pure RENDER_ERROR_VULKAN_INSTANCE
  else pure RENDER_ERROR_NONE

/-- The macro `load(f)` of `load_instance_functions`. -/
def load_instance (w : World) (f : Fn) : M Int := do
  let r ← getR
  let p ← invoke w .vkGetInstanceProcAddr [r.instance_] (some f) []
  setFn f p.value
  if p.value = 0 then pure RENDER_ERROR_VULKAN_INSTANCE_FUNC_LOAD else pure 0

/-- The entries `load_instance_functions` resolves, in source order. -/
def instance_functions : List Fn :=
  [.vkGetDeviceProcAddr, .vkEnumeratePhysicalDevices, .vkGetPhysicalDeviceProperties,
   .vkCreateXcbSurfaceKHR, .vkGetPhysicalDeviceQueueFamilyProperties, .vkCreateDevice,
   .vkGetDeviceQueue, .vkGetPhysicalDeviceSurfaceSupportKHR,
   .vkGetPhysicalDeviceSurfaceFormatsKHR, .vkGetPhysicalDeviceSurfaceCapabilitiesKHR,
   .vkGetPhysicalDeviceMemoryProperties, .vkCreateImageView, .vkCreateFramebuffer,
   .vkCreateCommandPool, .vkDestroyDevice, .vkDestroySwapchainKHR, .vkDestroySurfaceKHR,
   .vkDestroyInstance, .vkDestroyImageView, .vkDestroyFramebuffer, .vkDestroyCommandPool,
   .vkFreeCommandBuffers]

/-- The function `load_instance_functions`. -/
def load_instance_functions (w : World) : M Int :=
  load_all (load_instance w) instance_functions

/-- The function `get_devices`. -/
def get_devices (w : World) : M Int := do
  let r ← getR
  let q ← invoke w .vkEnumeratePhysicalDevices [r.instance_, 0] none []
  if q.result ≠ VK_SUCCESS then pure RENDER_ERROR_VULKAN_PHYSICAL_DEVICE
  else if q.value = 0 then pure RENDER_ERROR_VULKAN_NO_DEVICES
  else do
    setR fun r => { r with n_devices := q.value }
    let m ← extcall w { op := .sys .malloc, args := [size_t (8 * q.value)] }
    setR fun r => { r with phys_devices := m.value }
    if m.value = 0 then pure RENDER_ERROR_MEMORY
    else do
      setMem fun a => { a with phys_devices := List.replicate q.value 0 }
      let f ← invoke w .vkEnumeratePhysicalDevices [r.instance_, q.value, m.value] none []
      setMem fun a => { a with phys_devices := overwrite a.phys_devices f.values }
      if f.result ≠ VK_SUCCESS then pure RENDER_ERROR_VULKAN_PHYSICAL_DEVICE
      else pure RENDER_ERROR_NONE

/-- The function `create_surface`; `win` is the `struct window *`. -/
def create_surface (w : World) (win : Nat) : M Int := do
  let conn ← extcall w { op := .sys .window_xcb_connection, args := [win] }
  let xid ← extcall w { op := .sys .window_xcb_window, args := [win] }
  let r ← getR
  let rep ← invoke w .vkCreateXcbSurfaceKHR [r.instance_, conn.value, xid.value] none []
  setR fun r => { r with surface := rep.value }
  if rep.result ≠ VK_SUCCESS then pure RENDER_ERROR_VULKAN_SURFACE
  else pure RENDER_ERROR_NONE

/-! ## `render.c`: device selection and logical device -/

/-- The expression `r->phys_devices[r->phys_id]`. -/
def phys_device : M Nat := do
  let s ← getS
  deref s.r.phys_devices s.mem.phys_devices s.r.phys_id 0

/-- The function `get_queue_props`. -/
def get_queue_props (w : World) : M Int := do
  let phys ← phys_device
  let q ← invoke w .vkGetPhysicalDeviceQueueFamilyProperties [phys, 0] none []
  if q.value = 0 then pure RENDER_ERROR_VULKAN_QUEUE_INDICES
  else do
    setR fun r => { r with n_queue_props := q.value }
    let m ← extcall w { op := .sys .malloc, args := [size_t (24 * q.value)] }
    setR fun r => { r with queue_props := m.value }
    if m.value = 0 then pure RENDER_ERROR_MEMORY
    else do
      setMem fun a => { a with queue_props := List.replicate q.value ⟨0, 0⟩ }
      let phys2 ← phys_device
      let f ← invoke w .vkGetPhysicalDeviceQueueFamilyProperties [phys2, q.value, m.value]
                none []
      setMem fun a => { a with queue_props := overwrite a.queue_props f.props }
      pure RENDER_ERROR_NONE

/-- The body of the loop of `get_present_and_graphics_indices` for family `i`. -/
def queue_index_step (w : World) (i : Nat) : M Int := do
  let s ← getS
  let qp ← deref s.r.queue_props s.mem.queue_props i ⟨0, 0⟩
  if qp.queueCount > 0 ∧ Nat.land qp.queueFlags VK_QUEUE_GRAPHICS_BIT ≠ 0 then
    setR fun r => { r with queue_index_graphics := i }
  else pure ()
  let phys ← phys_device
  let rep ← invoke w .vkGetPhysicalDeviceSurfaceSupportKHR [phys, i, s.r.surface] none []
  if rep.result ≠ VK_SUCCESS then pure RENDER_ERROR_VULKAN_QUEUE_INDICES
  else do
    if qp.queueCount > 0 ∧ rep.value ≠ 0 then
      setR fun r => { r with queue_index_present := i }
    else pure ()
    pure 0

/-- The function `get_present_and_graphics_indices`; the locals
`graphics_isset` and `present_isset` are written and never read. -/
def get_present_and_graphics_indices (w : World) : M Int := do
  let r ← getR
  chkerr (for_loop (queue_index_step w) r.n_queue_props 0) (pure RENDER_ERROR_NONE)

/-- The function `create_device`. -/
def create_device (w : World) : M Int := do
  let r ← getR
  if r.queue_index_present ≠ r.queue_index_graphics then
    pure RENDER_ERROR_VULKAN_QUEUE_INDEX_MISMATCH
  else do
    let phys ← phys_device
    let rep ← invoke w .vkCreateDevice [phys, r.queue_index_graphics, r.queue_index_present]
                none []
    setR fun r => { r with device := rep.value }
    if rep.result ≠ VK_SUCCESS then pure RENDER_ERROR_VULKAN_CREATE_DEVICE
    else do
      let g ← invoke w .vkGetDeviceQueue [rep.value, r.queue_index_graphics, 0] none []
      setR fun r => { r with graphics_queue := g.value }
      let p ← invoke w .vkGetDeviceQueue [rep.value, r.queue_index_present, 0] none []
      setR fun r => { r with present_queue := p.value }
      pure RENDER_ERROR_NONE

/-- The macro `load(f)` of `load_device_functions`. -/
def load_device (w : World) (f : Fn) : M Int := do
  let r ← getR
  let p ← invoke w .vkGetDeviceProcAddr [r.device] (some f) []
  setFn f p.value
  if p.value = 0 then pure RENDER_ERROR_VULKAN_DEVICE_FUNC_LOAD else pure 0

/-- The entries `load_device_functions` resolves, in source order. -/
def device_functions : List Fn :=
  [.vkCreateSwapchainKHR, .vkCreateShaderModule, .vkCreatePipelineLayout,
   .vkCreateRenderPass, .vkCreateGraphicsPipelines, .vkGetSwapchainImagesKHR,
   .vkAllocateCommandBuffers, .vkCreateBuffer, .vkGetBufferMemoryRequirements,
   .vkAllocateMemory, .vkBindBufferMemory, .vkMapMemory, .vkFlushMappedMemoryRanges,
   .vkInvalidateMappedMemoryRanges, .vkUnmapMemory, .vkBeginCommandBuffer,
   .vkCmdBeginRenderPass, .vkCmdBindPipeline, .vkCmdBindVertexBuffers,
   .vkCmdBindIndexBuffer, .vkCmdDrawIndexed, .vkCmdEndRenderPass, .vkEndCommandBuffer,
   .vkCreateSemaphore, .vkAcquireNextImageKHR, .vkQueueSubmit, .vkQueuePresentKHR,
   .vkQueueWaitIdle, .vkDestroyShaderModule, .vkDestroyRenderPass,
   .vkDestroyPipelineLayout, .vkDestroyPipeline, .vkFreeCommandBuffers, .vkDestroyBuffer,
   .vkFreeMemory, .vkDestroySemaphore]

/-- The function `load_device_functions`. -/
def load_device_functions (w : World) : M Int :=
  load_all (load_device w) device_functions

/-! ## `render.c`: surface format and swapchain -/

/-- The function `get_surface_format`; the block `formats` is local. -/
def get_surface_format (w : World) : M Int := do
  let phys ← phys_device
  let r ← getR
  let q ← invoke w .vkGetPhysicalDeviceSurfaceFormatsKHR [phys, r.surface, 0] none []
  if q.result ≠ VK_SUCCESS then pure RENDER_ERROR_VULKAN_SURFACE_FORMAT
  else do
    let m ← extcall w { op := .sys .malloc, args := [size_t (8 * q.value)] }
    if m.value = 0 then pure RENDER_ERROR_MEMORY
    else do
      let phys2 ← phys_device
      let f ← invoke w .vkGetPhysicalDeviceSurfaceFormatsKHR
                [phys2, r.surface, q.value, m.value] none []
      if f.result ≠ VK_SUCCESS then pure RENDER_ERROR_VULKAN_SURFACE_FORMAT
      else do
        let formats := overwrite (List.replicate q.value (⟨0, 0⟩ : SurfaceFormat)) f.formats
        setR fun r => { r with format := formats.getD 0 ⟨0, 0⟩ }
        let _ ← extcall w { op := .sys .free, args := [m.value] }
        pure RENDER_ERROR_NONE

/-- The function `get_surface_caps`: the code and the value of `*out_caps`,
which is only meaningful when the code is 0. -/
def get_surface_caps (w : World) : M (Int × SurfaceCapabilities) := do
  let phys ← phys_device
  let r ← getR
  let rep ← invoke w .vkGetPhysicalDeviceSurfaceCapabilitiesKHR [phys, r.surface] none []
  if rep.result ≠ VK_SUCCESS then
    pure (RENDER_ERROR_VULKAN_SURFACE_CAPABILITIES, ⟨⟨0, 0⟩, 0, 0, 0⟩)
  else pure (RENDER_ERROR_NONE, rep.caps)

/-- The use `chkerr(f(..., &out))` of a function with an out-parameter. -/
def chkerr_out {β : Type} (x : M (Int × β)) (k : β → M Int) : M Int := do
  let res ← x
  if res.1 ≠ 0 then pure res.1 else k res.2

/-- The function `get_swapchain_images`. -/
def get_swapchain_images (w : World) : M Int := do
  let r ← getR
  let q ← invoke w .vkGetSwapchainImagesKHR [r.device, r.swapchain, 0] none []
  if q.result ≠ VK_SUCCESS then pure RENDER_ERROR_VULKAN_SWAPCHAIN_IMAGES
  else do
    let m ← extcall w { op := .sys .malloc, args := [size_t (8 * q.value)] }
    setR fun r => { r with swapchain_images := m.value }
    if m.value = 0 then pure RENDER_ERROR_MEMORY
    else do
      setMem fun a => { a with swapchain_images := List.replicate q.value 0 }
      let f ← invoke w .vkGetSwapchainImagesKHR [r.device, r.swapchain, q.value, m.value]
                none []
      setMem fun a => { a with swapchain_images := overwrite a.swapchain_images f.values }
      if f.result ≠ VK_SUCCESS then pure RENDER_ERROR_VULKAN_SWAPCHAIN_IMAGES
      else do
        setR fun r => { r with n_swapchain_images := f.value }
        pure RENDER_ERROR_NONE

/-- The function `create_swapchain`; the arguments recorded for
`vkCreateSwapchainKHR` are the device, then the fields surface,
minImageCount, imageFormat, imageColorSpace, imageExtent (width, height),
imageUsage, preTransform, compositeAlpha and presentMode of the create
info. -/
def create_swapchain (w : World) : M Int :=
  chkerr_out (get_surface_caps w) fun caps => do
    let r ← getR
    let rep ← invoke w .vkCreateSwapchainKHR
      [r.device, r.surface, 2, r.format.format, r.format.colorSpace,
       caps.currentExtent.width, caps.currentExtent.height, caps.supportedUsageFlags,
       caps.currentTransform, caps.supportedCompositeAlpha, VK_PRESENT_MODE_FIFO_KHR]
      none []
    setR fun r => { r with swapchain := rep.value }
    if rep.result ≠ VK_SUCCESS then pure RENDER_ERROR_VULKAN_SWAPCHAIN
    else do
      setR fun r => { r with swap_extent := caps.currentExtent }
      chkerr (get_swapchain_images w) (pure RENDER_ERROR_NONE)

/-! ## `render.c`: shaders and pipeline -/

/-- A shader binary in memory: the block, its length and its bytes. -/
structure ShaderSource where
  buf : Nat
  len : Nat
  bytes : List Nat
  deriving DecidableEq, Repr

/-- The function `read_shader`; `filename` is the `char *` path.  The file
is not closed on the error paths, as in the source. -/
def read_shader (w : World) (filename : Nat) : M (Int × ShaderSource) := do
  let f ← extcall w { op := .sys .fopen, args := [filename] }
  if f.value = 0 then pure (RENDER_ERROR_FILE, ⟨0, 0, []⟩)
  else do
    let _ ← extcall w { op := .sys .fseek, args := [f.value, 0, SEEK_END] }
    let size ← extcall w { op := .sys .ftell, args := [f.value] }
    if Int.tmod size.result 4 ≠ 0 then pure (RENDER_ERROR_VULKAN_SHADER_READ, ⟨0, 0, []⟩)
    else do
      let len := (size.result % 18446744073709551616).toNat
      let buf ← extcall w { op := .sys .malloc, args := [len] }
      if buf.value = 0 then pure (RENDER_ERROR_MEMORY, ⟨0, 0, []⟩)
      else do
        let _ ← extcall w { op := .sys .fseek, args := [f.value, 0, SEEK_SET] }
        let rd ← extcall w { op := .sys .fread, args := [buf.value, 1, len, f.value] }
        if rd.value ≠ len then pure (RENDER_ERROR_FILE, ⟨0, 0, []⟩)
        else do
          let _ ← extcall w { op := .sys .fclose, args := [f.value] }
          pure (RENDER_ERROR_NONE, ⟨buf.value, len, overwrite (List.replicate len 0) rd.values⟩)

/-- The function `create_shader`; `out_module` is the field the module
handle is written to. -/
def create_shader (w : World) (source : ShaderSource)
    (out_module : Nat → Render → Render) : M Int := do
  let r ← getR
  let rep ← invoke w .vkCreateShaderModule [r.device, source.len, source.buf] none source.bytes
  setR (out_module rep.value)
  if rep.result ≠ VK_SUCCESS then pure RENDER_ERROR_VULKAN_SHADER_MODULE
  else pure 0

/-- The function `create_pipeline_layout`: the code and `*out_layout`. -/
def create_pipeline_layout (w : World) : M (Int × Nat) := do
  let r ← getR
  let rep ← invoke w .vkCreatePipelineLayout [r.device] none []
  if rep.result ≠ VK_SUCCESS then pure (RENDER_ERROR_VULKAN_PIPELINE_LAYOUT, rep.value)
  else pure (RENDER_ERROR_NONE, rep.value)

/-- The function `create_render_pass`. -/
def create_render_pass (w : World) : M Int := do
  let r ← getR
  let rep ← invoke w .vkCreateRenderPass [r.device, r.format.format] none []
  setR fun r => { r with render_pass := rep.value }
  if rep.result ≠ VK_SUCCESS then pure RENDER_ERROR_VULKAN_RENDER_PASS
  else pure RENDER_ERROR_NONE

/-- The number of low bits of `n` that do not fit the 24-bit significand of a binary32
number: the number of halvings that bring `n` below 2^24; `k` bounds the count. -/
def float_exponent : Nat → Nat → Nat
  | 0, _ => 0
  | k + 1, n => if n < 16777216 then 0 else float_exponent k (n / 2) + 1

/-- The conversion `(float) n` of an unsigned integer, as the integer value of the
resulting binary32 number: `n` rounded to 24 significant bits, to nearest, ties to even
(the default rounding of IEEE 754 arithmetic); every `n` below 2^24 is kept. -/
def float_cast (n : Nat) : Nat :=
  let e := float_exponent n n
  let q := n / 2 ^ e
  let r := n % 2 ^ e
  if 2 * r > 2 ^ e ∨ (2 * r = 2 ^ e ∧ q % 2 = 1) then (q + 1) * 2 ^ e else q * 2 ^ e

/-- The function `create_pipeline`; the arguments recorded for
`vkCreateGraphicsPipelines` are the device, the two shader modules, the
layout, the render pass, width and height of the viewport, which are
`float` values converted from `swap_extent`, and width and height of the
scissor. -/
def create_pipeline (w : World) (vshader fshader : Nat) : M Int :=
  chkerr_out (read_shader w vshader) fun vert_shader =>
  chkerr_out (read_shader w fshader) fun frag_shader =>
  chkerr (create_shader w vert_shader fun h r => { r with vert_module := h }) <|
  chkerr (create_shader w frag_shader fun h r => { r with frag_module := h }) <| do
    let _ ← extcall w { op := .sys .free, args := [vert_shader.buf] }
    let _ ← extcall w { op := .sys .free, args := [frag_shader.buf] }
    let r0 ← getR
    chkerr_out (create_pipeline_layout w) fun layout =>
      chkerr (create_render_pass w) <| do
        let r ← getR
        let rep ← invoke w .vkCreateGraphicsPipelines
          [r.device, r.vert_module, r.frag_module, layout, r.render_pass,
           float_cast r0.swap_extent.width, float_cast r0.swap_extent.height,
           r0.swap_extent.width, r0.swap_extent.height] none []
        setR fun r => { r with pipeline := rep.value }
        if rep.result ≠ VK_SUCCESS then pure RENDER_ERROR_VULKAN_CREATE_PIPELINE
        else do
          let _ ← invoke w .vkDestroyPipelineLayout [r.device, layout] none []
          pure 0

/-! ## `render.c`: framebuffers and command buffers -/

/-- The function `create_image_view`, writing `r->image_views[swapchain_index]`
(the out-pointer is `r->image_views + i` at both call sites). -/
def create_image_view (w : World) (swapchain_index : Nat) : M Int := do
  let s ← getS
  let image ← deref s.r.swapchain_images s.mem.swapchain_images swapchain_index 0
  let rep ← invoke w .vkCreateImageView [s.r.device, image, s.r.format.format] none []
  setMem fun a => { a with image_views := a.image_views.set swapchain_index rep.value }
  if rep.result ≠ VK_SUCCESS then pure RENDER_ERROR_VULKAN_IMAGE_VIEW
  else pure RENDER_ERROR_NONE

/-- The body of the second loop of `create_framebuffers`; the arguments
recorded for `vkCreateFramebuffer` are the device, the render pass, the
attachment `r->image_views[i]`, and width and height. -/
def create_framebuffer_step (w : World) (i : Nat) : M Int := do
  let s ← getS
  let rep ← invoke w .vkCreateFramebuffer
    [s.r.device, s.r.render_pass, s.mem.image_views.getD i 0,
     s.r.swap_extent.width, s.r.swap_extent.height] none []
  if rep.result ≠ VK_SUCCESS then pure RENDER_ERROR_VULKAN_FRAMEBUFFER
  else do
    setMem fun a => { a with framebuffers := a.framebuffers.set i rep.value }
    pure 0

/-- The function `create_framebuffers`. -/
def create_framebuffers (w : World) : M Int := do
  let r ← getR
  let m ← extcall w { op := .sys .malloc, args := [size_t (8 * r.n_swapchain_images)] }
  setR fun r => { r with image_views := m.value }
  if m.value = 0 then pure RENDER_ERROR_MEMORY
  else do
    setMem fun a => { a with image_views := List.replicate r.n_swapchain_images 0 }
    chkerr (for_loop (create_image_view w) r.n_swapchain_images 0) <| do
      let m2 ← extcall w { op := .sys .malloc, args := [size_t (8 * r.n_swapchain_images)] }
      setR fun r => { r with framebuffers := m2.value }
      if m2.value = 0 then pure RENDER_ERROR_MEMORY
      else do
        setMem fun a => { a with framebuffers := List.replicate r.n_swapchain_images 0 }
        chkerr (for_loop (create_framebuffer_step w) r.n_swapchain_images 0)
          (pure RENDER_ERROR_NONE)

/-- The function `create_command_pool`. -/
def create_command_pool (w : World) : M Int := do
  let r ← getR
  let rep ← invoke w .vkCreateCommandPool [r.device, r.queue_index_graphics] none []
  setR fun r => { r with command_pool := rep.value }
  if rep.result ≠ VK_SUCCESS then pure RENDER_ERROR_VULKAN_COMMAND_POOL
  else pure RENDER_ERROR_NONE

/-- The function `create_command_buffers`. -/
def create_command_buffers (w : World) : M Int := do
  let r ← getR
  let m ← extcall w { op := .sys .malloc, args := [size_t (8 * r.n_swapchain_images)] }
  setR fun r => { r with command_buffers := m.value }
  if m.value = 0 then pure RENDER_ERROR_MEMORY
  else do
    setMem fun a => { a with command_buffers := List.replicate r.n_swapchain_images 0 }
    let rep ← invoke w .vkAllocateCommandBuffers
      [r.device, r.command_pool, r.n_swapchain_images % 4294967296, m.value] none []
    setMem fun a => { a with command_buffers := overwrite a.command_buffers rep.values }
    if rep.result ≠ VK_SUCCESS then pure RENDER_ERROR_VULKAN_COMMAND_BUFFER
    else pure RENDER_ERROR_NONE

/-! ## `render.c`: vertex data -/

/-- The function `create_buffer`; `out_buf` is the field the handle is
written to. -/
def create_buffer (w : World) (out_buf : Nat → Render → Render) (size flags : Nat) :
    M Int := do
  let r ← getR
  let rep ← invoke w .vkCreateBuffer [r.device, size, flags] none []
  setR (out_buf rep.value)
  if rep.result ≠ VK_SUCCESS then pure RENDER_ERROR_VULKAN_BUFFER
  else pure RENDER_ERROR_NONE

/-- The loop of `get_heap_index` from index `i` with `n` iterations left:
the first index whose property flags meet `flags`, and 0 when there is
none. -/
def heap_index_from (types : List Nat) (flags : Nat) : Nat → Nat → Nat
  | 0, _ => 0
  | n + 1, i =>
    if Nat.land (types.getD i 0) flags ≠ 0 then i
    else heap_index_from types flags n (i + 1)

/-- The function `get_heap_index`; the reply carries `memoryTypeCount` as
its value and the `propertyFlags` of `memoryTypes` as its values. -/
def get_heap_index (w : World) (flags : Nat) : M Nat := do
  let phys ← phys_device
  let props ← invoke w .vkGetPhysicalDeviceMemoryProperties [phys] none []
  pure (heap_index_from props.values flags props.value 0)

/-- The function `write_data` on the memory handle `mem`. -/
def write_data (w : World) (mem : Nat) (data : List Nat) (size : Nat) : M Int := do
  let r ← getR
  let dst ← invoke w .vkMapMemory [r.device, mem, 0, size, 0] none []
  if dst.result ≠ VK_SUCCESS then pure RENDER_ERROR_VULKAN_MEMORY_MAP
  else do
    let _ ← extcall w { op := .sys .memcpy, args := [dst.value, size], data := data.take size }
    let fl ← invoke w .vkFlushMappedMemoryRanges [r.device, 1, mem, 0, size] none []
    if fl.result ≠ VK_SUCCESS then pure RENDER_ERROR_VULKAN_MEMORY_MAP
    else do
      let iv ← invoke w .vkInvalidateMappedMemoryRanges [r.device, 1, mem, 0, size] none []
      if iv.result ≠ VK_SUCCESS then pure RENDER_ERROR_VULKAN_MEMORY_MAP
      else do
        let _ ← invoke w .vkUnmapMemory [r.device, mem] none []
        pure RENDER_ERROR_NONE

/-- The function `allocate_buffer` for the buffer handle `buf`; `out_mem` is
the field the memory handle is written to. -/
def allocate_buffer (w : World) (buf : Nat) (out_mem : Nat → Render → Render) : M Int := do
  let r ← getR
  let reqs ← invoke w .vkGetBufferMemoryRequirements [r.device, buf] none []
  let index ← get_heap_index w VK_MEMORY_PROPERTY_HOST_VISIBLE_BIT
  let rep ← invoke w .vkAllocateMemory [r.device, reqs.value, index] none []
  setR (out_mem rep.value)
  if rep.result ≠ VK_SUCCESS then pure RENDER_ERROR_VULKAN_MEMORY
  else do
    let b ← invoke w .vkBindBufferMemory [r.device, buf, rep.value, 0] none []
    if b.result ≠ VK_SUCCESS then pure RENDER_ERROR_VULKAN_MEMORY
    else pure RENDER_ERROR_NONE

/-- The four bytes of a 32-bit word, least significant first. -/
def bytes32 (x : Nat) : List Nat :=
  [x % 256, x / 256 % 256, x / 65536 % 256, x / 16777216 % 256]

/-- The two bytes of a 16-bit word, least significant first. -/
def bytes16 (x : Nat) : List Nat := [x % 256, x / 256 % 256]

/-- The array `vertices` of `create_vertex_data`, each `float` as its
IEEE-754 single-precision bit pattern: `-1.0f` is `0xBF800000`, `1.0f` is
`0x3F800000`, `0.0f` is `0`. -/
def vertices : List Nat :=
  [0xBF800000, 0xBF800000, 0, 0x3F800000, 0, 0,
   0xBF800000, 0x3F800000, 0, 0, 0x3F800000, 0,
   0x3F800000, 0x3F800000, 0, 0, 0, 0x3F800000,
   0x3F800000, 0xBF800000, 0, 0, 0x3F800000, 0]

/-- The array `indices` of `create_vertex_data`. -/
def indices : List Nat := [0, 1, 2, 2, 3, 0]

/-- The bytes of `vertices` in memory. -/
def vertex_bytes : List Nat := vertices.flatMap bytes32

/-- The bytes of `indices` in memory. -/
def index_bytes : List Nat := indices.flatMap bytes16

/-- The function `create_vertex_data`. -/
def create_vertex_data (w : World) : M Int :=
  let size_verts := 4 * 6 * 4
  let size_indices := 2 * 3 * 2
  chkerr (create_buffer w (fun h r => { r with vertex_buffer := h }) size_verts
            VK_BUFFER_USAGE_VERTEX_BUFFER_BIT) <|
  chkerr (create_buffer w (fun h r => { r with index_buffer := h }) size_indices
            VK_BUFFER_USAGE_INDEX_BUFFER_BIT) <|
  chkerr (do let r ← getR
             allocate_buffer w r.vertex_buffer fun h r => { r with vertex_memory := h }) <|
  chkerr (do let r ← getR
             allocate_buffer w r.index_buffer fun h r => { r with index_memory := h }) <|
  chkerr (do let r ← getR
             write_data w r.vertex_memory vertex_bytes size_verts) <|
  chkerr (do let r ← getR
             write_data w r.index_memory index_bytes size_indices) <|
  pure RENDER_ERROR_NONE

/-- The body of the loop of `write_buffers` for image `i`. -/
def write_buffers_step (w : World) (i : Nat) : M Int := do
  let s ← getS
  let cb ← deref s.r.command_buffers s.mem.command_buffers i 0
  let b ← invoke w .vkBeginCommandBuffer [cb, VK_COMMAND_BUFFER_USAGE_SIMULTANEOUS_USE_BIT]
            none []
  if b.result ≠ VK_SUCCESS then pure RENDER_ERROR_VULKAN_COMMAND_BUFFER_BEGIN
  else do
    let fb ← deref s.r.framebuffers s.mem.framebuffers i 0
    let _ ← invoke w .vkCmdBeginRenderPass
      [cb, s.r.render_pass, fb, s.r.swap_extent.width, s.r.swap_extent.height] none []
    let _ ← invoke w .vkCmdBindPipeline [cb, s.r.pipeline] none []
    let _ ← invoke w .vkCmdBindVertexBuffers [cb, 0, 1, s.r.vertex_buffer, 0] none []
    let _ ← invoke w .vkCmdBindIndexBuffer [cb, s.r.index_buffer, 0, VK_INDEX_TYPE_UINT16]
              none []
    let _ ← invoke w .vkCmdDrawIndexed [cb, 6, 1, 0, 0, 0] none []
    let _ ← invoke w .vkCmdEndRenderPass [cb] none []
    let e ← invoke w .vkEndCommandBuffer [cb] none []
    if e.result ≠ VK_SUCCESS then pure RENDER_ERROR_VULKAN_COMMAND_BUFFER_END
    else pure 0

/-- The function `write_buffers`. -/
def write_buffers (w : World) : M Int := do
  let r ← getR
  chkerr (for_loop (write_buffers_step w) r.n_swapchain_images 0) (pure RENDER_ERROR_NONE)

/-- The function `create_semaphores`. -/
def create_semaphores (w : World) : M Int := do
  let r ← getR
  let a ← invoke w .vkCreateSemaphore [r.device] none []
  setR fun r => { r with image_semaphore := a.value }
  if a.result ≠ VK_SUCCESS then pure RENDER_ERROR_VULKAN_SEMAPHORE
  else do
    let b ← invoke w .vkCreateSemaphore [r.device] none []
    setR fun r => { r with render_semaphore := b.value }
    if b.result ≠ VK_SUCCESS then pure RENDER_ERROR_VULKAN_SEMAPHORE
    else pure RENDER_ERROR_NONE

/-! ## `render.c`: the public functions -/

/-- The body of the loop of `render_destroy_pipeline` for image `i`. -/
def destroy_image_step (w : World) (i : Nat) : M Int := do
  let s ← getS
  let fb ← deref s.r.framebuffers s.mem.framebuffers i 0
  let _ ← invoke w .vkDestroyFramebuffer [s.r.device, fb] none []
  let view ← deref s.r.image_views s.mem.image_views i 0
  let _ ← invoke w .vkDestroyImageView [s.r.device, view] none []
  pure 0

/-- The function `render_destroy_pipeline`. -/
def render_destroy_pipeline (w : World) (p : RenderPtr) : M Unit :=
  match p with
  | .null => pure ()
  | .valid => do
    let r ← getR
    if r.has_pipeline ≠ 0 then do
      let _ ← invoke w .vkDestroySemaphore [r.device, r.image_semaphore] none []
      let _ ← invoke w .vkDestroySemaphore [r.device, r.render_semaphore] none []
      let _ ← invoke w .vkDestroyBuffer [r.device, r.vertex_buffer] none []
      let _ ← invoke w .vkDestroyBuffer [r.device, r.index_buffer] none []
      let _ ← invoke w .vkFreeMemory [r.device, r.vertex_memory] none []
      let _ ← invoke w .vkFreeMemory [r.device, r.index_memory] none []
      let s ← getS
      let _ ← invoke w .vkFreeCommandBuffers
        [r.device, r.command_pool, r.n_swapchain_images % 4294967296, r.command_buffers]
        none s.mem.command_buffers
      let _ ← extcall w { op := .sys .free, args := [r.command_buffers] }
      let _ ← invoke w .vkDestroyCommandPool [r.device, r.command_pool] none []
      let _ ← for_loop (destroy_image_step w) r.n_swapchain_images 0
      let _ ← extcall w { op := .sys .free, args := [r.framebuffers] }
      let _ ← extcall w { op := .sys .free, args := [r.image_views] }
      let _ ← extcall w { op := .sys .free, args := [r.swapchain_images] }
      let _ ← invoke w .vkDestroyShaderModule [r.device, r.vert_module] none []
      let _ ← invoke w .vkDestroyShaderModule [r.device, r.frag_module] none []
      let _ ← invoke w .vkDestroyPipeline [r.device, r.pipeline] none []
      let _ ← invoke w .vkDestroyRenderPass [r.device, r.render_pass] none []
      let _ ← extcall w { op := .sys .free, args := [r.queue_props] }
      setR fun r => { r with has_pipeline := 0 }
    else pure ()

/-- The function `render_init`; `win` is the `struct window *`. -/
def render_init (w : World) (p : RenderPtr) (win : Nat) : M Int :=
  match p with
  | .null => pure RENDER_ERROR_NULL
  | .valid => do
    setR fun _ => Render.zero
    chkerr (load_vulkan w) <|
    chkerr (load_preinstance_functions w) <|
    chkerr (create_instance w) <|
    chkerr (load_instance_functions w) <|
    chkerr (create_surface w win) <|
    chkerr (get_devices w) <|
    pure RENDER_ERROR_NONE

/-- The function `render_deinit`. -/
def render_deinit (w : World) (p : RenderPtr) : M Unit :=
  match p with
  | .null => pure ()
  | .valid => do
    render_destroy_pipeline w .valid
    let r ← getR
    let _ ← extcall w { op := .sys .free, args := [r.phys_devices] }
    let _ ← invoke w .vkDestroySwapchainKHR [r.device, r.swapchain] none []
    let _ ← invoke w .vkDestroySurfaceKHR [r.instance_, r.surface] none []
    let _ ← invoke w .vkDestroyDevice [r.device] none []
    let _ ← invoke w .vkDestroyInstance [r.instance_] none []
    let _ ← extcall w { op := .sys .dlclose, args := [r.vklib] }
    setR fun _ => Render.zero

set_option linter.unusedVariables false in
/-- The function `render_configure`; `width` and `height` are not used by
the body. -/
def render_configure (w : World) (p : RenderPtr) (width height : Nat)
    (vshader fshader : Nat) : M Int :=
  match p with
  | .null => pure RENDER_ERROR_NULL
  | .valid => do
    render_destroy_pipeline w .valid
    setR fun r => { r with phys_id := 0 }
    chkerr (get_queue_props w) <|
    chkerr (get_present_and_graphics_indices w) <|
    chkerr (create_device w) <|
    chkerr (load_device_functions w) <|
    chkerr (get_surface_format w) <|
    chkerr (create_swapchain w) <|
    chkerr (create_pipeline w vshader fshader) <|
    chkerr (create_framebuffers w) <|
    chkerr (create_command_pool w) <|
    chkerr (create_command_buffers w) <|
    chkerr (create_vertex_data w) <|
    chkerr (write_buffers w) <|
    chkerr (create_semaphores w) <| do
      setR fun r => { r with has_pipeline := 1 }
      pure RENDER_ERROR_NONE

/-- The function `render_update`; it has no `NULL` check, so a `NULL`
context is dereferenced.  The arguments recorded for `vkQueueSubmit` are the
queue, the wait semaphore, the wait stage, the command buffer
`r->command_buffers[image_index]` and the signal semaphore; for
`vkQueuePresentKHR` the queue, the wait semaphore, the swapchain and the
image index. -/
def render_update (w : World) (p : RenderPtr) : M Int :=
  match p with
  | .null => fun s => ⟨.nullDeref, s⟩
  | .valid => do
    let s ← getS
    let acq ← invoke w .vkAcquireNextImageKHR
      [s.r.device, s.r.swapchain, 2000000000, s.r.image_semaphore, 0] none []
    if acq.result ≠ VK_SUCCESS then pure RENDER_ERROR_VULKAN_ACQUIRE_IMAGE
    else do
      let image_index := acq.value
      let sub ← invoke w .vkQueueSubmit
        [s.r.graphics_queue, s.r.image_semaphore,
         VK_PIPELINE_STAGE_COLOR_ATTACHMENT_OUTPUT_BIT,
         s.mem.command_buffers.getD image_index 0, s.r.render_semaphore] none []
      if sub.result ≠ VK_SUCCESS then pure RENDER_ERROR_VULKAN_QUEUE_SUBMIT
      else do
        let prs ← invoke w .vkQueuePresentKHR
          [s.r.present_queue, s.r.render_semaphore, s.r.swapchain, image_index] none []
        if prs.result ≠ VK_SUCCESS then pure RENDER_ERROR_VULKAN_QUEUE_PRESENT
        else do
          let _ ← invoke w .vkQueueWaitIdle [s.r.present_queue] none []
          pure RENDER_ERROR_NONE

/-! ## Environments and states used as concrete inputs -/

/-- A state with the given context, empty heap blocks and no history. -/
def State.ofRender (r : Render) : State := { r := r, mem := {}, trace := [] }

/-- The state of a process that has not called the library yet. -/
def State.zero : State := State.ofRender Render.zero

/-- An environment in which every call succeeds: one physical device, two
queue families that both support graphics and present, one surface format,
two swapchain images, 8-byte shader files, and handles numbered by the
position of the call in the history. -/
def goodWorld : World := fun t c =>
  match c.op with
  | .vk .vkEnumeratePhysicalDevices => { value := 1, values := [7] }
  | .vk .vkGetPhysicalDeviceQueueFamilyProperties =>
      { value := 2, props := [⟨1, 1⟩, ⟨1, 1⟩] }
  | .vk .vkGetPhysicalDeviceSurfaceSupportKHR => { value := 1 }
  | .vk .vkGetPhysicalDeviceSurfaceFormatsKHR => { value := 1, formats := [⟨44, 0⟩] }
  | .vk .vkGetPhysicalDeviceSurfaceCapabilitiesKHR => { caps := ⟨⟨640, 480⟩, 16, 1, 1⟩ }
  | .vk .vkGetSwapchainImagesKHR =>
      { value := 2, values := [t.length + 1000, t.length + 1001] }
  | .vk .vkAllocateCommandBuffers => { values := [t.length + 1000, t.length + 1001] }
  | .vk .vkGetPhysicalDeviceMemoryProperties => { value := 2, values := [1, 6] }
  | .vk .vkGetBufferMemoryRequirements => { value := 256 }
  | .vk .vkAcquireNextImageKHR => { value := 1 }
  | .sys .ftell => { result := 8 }
  | .sys .fread => { value := 8, values := [3, 2, 35, 7, 0, 0, 1, 0] }
  | _ => { value := t.length + 1000 }


/-! ## Frames: what a computation leaves alone -/

/-- A reflexive and transitive relation between the state before and the
state after a run. -/
structure Frame where
  rel : State → State → Prop
  refl : ∀ s, rel s s
  trans : ∀ a b c, rel a b → rel b c → rel a c

/-- The computation `m` relates every state to the state it ends in, also
when the run stops early. -/
def Keeps (F : Frame) {α : Type} (m : M α) : Prop := ∀ s, F.rel s (m s).st

/-- The frame of a computation that changes the context only where `erase`
forgets it, and that extends the trace by calls to functions in `ops`
only. -/
def Frame.foot (erase : Render → Render) (ops : List Op) : Frame where
  rel s t := erase t.r = erase s.r ∧
    ∃ es, t.trace = s.trace ++ es ∧ ∀ e ∈ es, e.call.op ∈ ops
  refl s := ⟨rfl, [], by simp, by simp⟩
  trans a b c := by
    rintro ⟨h1, es1, ht1, hp1⟩ ⟨h2, es2, ht2, hp2⟩
    refine ⟨h2.trans h1, es1 ++ es2, by rw [ht2, ht1, List.append_assoc], ?_⟩
    intro e he
    rcases List.mem_append.mp he with h | h
    · exact hp1 e h
    · exact hp2 e h

/-- Forget the function table. -/
def erase_fn (r : Render) : Render := { r with fn := fun _ => 0 }

/-- Forget what `render_configure` may write: everything except the fields
set by `render_init` (library, instance, surface, physical devices). -/
def erase_pipeline (r : Render) : Render :=
  { Render.zero with vklib := r.vklib, instance_ := r.instance_, n_devices := r.n_devices,
                     phys_devices := r.phys_devices, surface := r.surface }

/-- The functions `load_vulkan` calls. -/
def load_vulkan_ops : List Op := [.sys .dlopen, .sys .dlsym]

/-- The functions `get_devices` calls. -/
def get_devices_ops : List Op := [.vk .vkEnumeratePhysicalDevices, .sys .malloc]

/-- The functions `create_surface` calls. -/
def create_surface_ops : List Op :=
  [.sys .window_xcb_connection, .sys .window_xcb_window, .vk .vkCreateXcbSurfaceKHR]

/-- The functions `render_init` calls. -/
def render_init_ops : List Op :=
  [.sys .dlopen, .sys .dlsym, .vk .vkGetInstanceProcAddr, .vk .vkCreateInstance,
   .sys .window_xcb_connection, .sys .window_xcb_window, .vk .vkCreateXcbSurfaceKHR,
   .vk .vkEnumeratePhysicalDevices, .sys .malloc]

/-- The functions `get_queue_props` calls. -/
def get_queue_props_ops : List Op :=
  [.vk .vkGetPhysicalDeviceQueueFamilyProperties, .sys .malloc]

/-- The functions `create_device` calls. -/
def create_device_ops : List Op := [.vk .vkCreateDevice, .vk .vkGetDeviceQueue]

/-- The functions `get_surface_format` calls. -/
def get_surface_format_ops : List Op :=
  [.vk .vkGetPhysicalDeviceSurfaceFormatsKHR, .sys .malloc, .sys .free]

/-- The functions `create_swapchain` calls. -/
def create_swapchain_ops : List Op :=
  [.vk .vkGetPhysicalDeviceSurfaceCapabilitiesKHR, .vk .vkCreateSwapchainKHR,
   .vk .vkGetSwapchainImagesKHR, .sys .malloc]

/-- The functions `read_shader` calls. -/
def read_shader_ops : List Op :=
  [.sys .fopen, .sys .fseek, .sys .ftell, .sys .malloc, .sys .fread, .sys .fclose]

/-- The functions `create_pipeline` calls. -/
def create_pipeline_ops : List Op :=
  [.sys .fopen, .sys .fseek, .sys .ftell, .sys .malloc, .sys .fread, .sys .fclose,
   .vk .vkCreateShaderModule, .sys .free, .vk .vkCreatePipelineLayout,
   .vk .vkCreateRenderPass, .vk .vkCreateGraphicsPipelines, .vk .vkDestroyPipelineLayout]

/-- The functions `create_framebuffers` calls. -/
def create_framebuffers_ops : List Op :=
  [.sys .malloc, .vk .vkCreateImageView, .vk .vkCreateFramebuffer]

/-- The functions `create_command_buffers` calls. -/
def create_command_buffers_ops : List Op := [.sys .malloc, .vk .vkAllocateCommandBuffers]

/-- The functions `write_data` calls. -/
def write_data_ops : List Op :=
  [.vk .vkMapMemory, .sys .memcpy, .vk .vkFlushMappedMemoryRanges,
   .vk .vkInvalidateMappedMemoryRanges, .vk .vkUnmapMemory]

/-- The functions `allocate_buffer` calls. -/
def allocate_buffer_ops : List Op :=
  [.vk .vkGetBufferMemoryRequirements, .vk .vkGetPhysicalDeviceMemoryProperties,
   .vk .vkAllocateMemory, .vk .vkBindBufferMemory]

/-- The functions `create_vertex_data` calls. -/
def create_vertex_data_ops : List Op :=
  [.vk .vkCreateBuffer, .vk .vkGetBufferMemoryRequirements,
   .vk .vkGetPhysicalDeviceMemoryProperties, .vk .vkAllocateMemory, .vk .vkBindBufferMemory,
   .vk .vkMapMemory, .sys .memcpy, .vk .vkFlushMappedMemoryRanges,
   .vk .vkInvalidateMappedMemoryRanges, .vk .vkUnmapMemory]

/-- The functions `write_buffers` calls. -/
def write_buffers_ops : List Op :=
  [.vk .vkBeginCommandBuffer, .vk .vkCmdBeginRenderPass, .vk .vkCmdBindPipeline,
   .vk .vkCmdBindVertexBuffers, .vk .vkCmdBindIndexBuffer, .vk .vkCmdDrawIndexed,
   .vk .vkCmdEndRenderPass, .vk .vkEndCommandBuffer]

/-- The functions `render_destroy_pipeline` calls. -/
def render_destroy_pipeline_ops : List Op :=
  [.vk .vkDestroySemaphore, .vk .vkDestroyBuffer, .vk .vkFreeMemory,
   .vk .vkFreeCommandBuffers, .sys .free, .vk .vkDestroyCommandPool,
   .vk .vkDestroyFramebuffer, .vk .vkDestroyImageView, .vk .vkDestroyShaderModule,
   .vk .vkDestroyPipeline, .vk .vkDestroyRenderPass]

/-- The functions `render_update` calls. -/
def render_update_ops : List Op :=
  [.vk .vkAcquireNextImageKHR, .vk .vkQueueSubmit, .vk .vkQueuePresentKHR,
   .vk .vkQueueWaitIdle]

/-- The functions `render_configure` calls. -/
def render_configure_ops : List Op :=
  render_destroy_pipeline_ops ++ get_queue_props_ops ++
  [.vk .vkGetPhysicalDeviceSurfaceSupportKHR] ++ create_device_ops ++
  [.vk .vkGetDeviceProcAddr] ++ get_surface_format_ops ++ create_swapchain_ops ++
  create_pipeline_ops ++ create_framebuffers_ops ++ [.vk .vkCreateCommandPool] ++
  create_command_buffers_ops ++ create_vertex_data_ops ++ write_buffers_ops ++
  [.vk .vkCreateSemaphore]

/-- The functions `render_deinit` calls. -/
def render_deinit_ops : List Op :=
  render_destroy_pipeline_ops ++
  [.sys .free, .vk .vkDestroySwapchainKHR, .vk .vkDestroySurfaceKHR, .vk .vkDestroyDevice,
   .vk .vkDestroyInstance, .sys .dlclose]

/-! ## Notions used in the statements -/

/-- Every run of `m` that returns ends in a state satisfying `Q`. -/
def Ensures {α : Type} (Q : State → Prop) (m : M α) : Prop :=
  ∀ s a, (m s).val = .ret a → Q (m s).st

/-- The answers, in order, of the calls to `o` among the events `es`. -/
def returned (o : Op) (es : List Event) : List Nat :=
  (es.filter fun e => e.call.op = o).map fun e => e.reply.value

/-- The number of calls of the creating entry `f` in the trace that answered
`VK_SUCCESS`. -/
def created (f : Fn) (t : List Event) : Nat :=
  (t.filter fun e => e.call.op = .vk f ∧ e.reply.result = VK_SUCCESS).length

/-- The number of calls of the destroying entry `f` in the trace. -/
def destroyed (f : Fn) (t : List Event) : Nat :=
  (t.filter fun e => e.call.op = .vk f).length

/-- The number of objects created by `c` that no call of `d` has destroyed. -/
def live (c d : Fn) (t : List Event) : Int :=
  (created c t : Int) - (destroyed d t : Int)

/-- The context after a successful `render_init` in `goodWorld`. -/
def initState : State := (render_init goodWorld .valid 5 State.zero).st

/-- The context after `render_init` and one `render_configure` in `goodWorld`;
the shader paths are `1` and `2`. -/
def configuredState : State := (render_configure goodWorld .valid 640 480 1 2 initState).st

/-- The context after a second `render_configure` in a row. -/
def reconfiguredState : State :=
  (render_configure goodWorld .valid 640 480 1 2 configuredState).st

/-- An environment like `goodWorld` whose library lacks the symbol
`vkGetInstanceProcAddr`: `dlsym` answers `NULL`. -/
def noBootstrapWorld : World := fun t c =>
  match c.op with
  | .sys .dlsym => { value := 0 }
  | _ => goodWorld t c

/-- Forget what the steps of `render_init` write after the initial `memset`. -/
def erase_init (r : Render) : Render :=
  { r with vklib := 0, fn := fun _ => 0, instance_ := 0, surface := 0, n_devices := 0,
           phys_devices := 0 }

/-- Forget what the steps of `render_init` before `get_devices` write after
the initial `memset`. -/
def erase_loaded (r : Render) : Render :=
  { r with vklib := 0, fn := fun _ => 0, instance_ := 0, surface := 0 }

/-- The steps of `render_init` before `get_devices`: the run of `render_init`
on a valid context up to and including `create_surface`. -/
def init_before_devices (w : World) (win : Nat) : M Int := do
  setR fun _ => Render.zero
  chkerr (load_vulkan w) <|
  chkerr (load_preinstance_functions w) <|
  chkerr (create_instance w) <|
  chkerr (load_instance_functions w) <|
  chkerr (create_surface w win) <|
  pure RENDER_ERROR_NONE

/-- Partial correctness: from a state satisfying `P`, a run of `m` that
returns `a` ends in a state satisfying `Q a`. -/
def Triple {α : Type} (P : State → Prop) (m : M α) (Q : α → State → Prop) : Prop :=
  ∀ s, P s → ∀ a, (m s).val = .ret a → Q a (m s).st

/-- The steps of `render_configure` before `create_device`: the run of
`render_configure` on a valid context up to and including
`get_present_and_graphics_indices`. -/
def configure_before_device (w : World) : M Int := do
  render_destroy_pipeline w .valid
  setR fun r => { r with phys_id := 0 }
  chkerr (get_queue_props w) <|
  chkerr (get_present_and_graphics_indices w) <|
  pure RENDER_ERROR_NONE

/-- The steps of `render_configure` from `create_device` on. -/
def configure_from_device (w : World) (vshader fshader : Nat) : M Int :=
  chkerr (create_device w) <|
  chkerr (load_device_functions w) <|
  chkerr (get_surface_format w) <|
  chkerr (create_swapchain w) <|
  chkerr (create_pipeline w vshader fshader) <|
  chkerr (create_framebuffers w) <|
  chkerr (create_command_pool w) <|
  chkerr (create_command_buffers w) <|
  chkerr (create_vertex_data w) <|
  chkerr (write_buffers w) <|
  chkerr (create_semaphores w) <| do
    setR fun r => { r with has_pipeline := 1 }
    pure RENDER_ERROR_NONE

/-- The steps of `render_configure` before `create_pipeline`: the run of
`render_configure` on a valid context up to and including
`create_swapchain`. -/
def configure_before_pipeline (w : World) : M Int := do
  render_destroy_pipeline w .valid
  setR fun r => { r with phys_id := 0 }
  chkerr (get_queue_props w) <|
  chkerr (get_present_and_graphics_indices w) <|
  chkerr (create_device w) <|
  chkerr (load_device_functions w) <|
  chkerr (get_surface_format w) <|
  chkerr (create_swapchain w) <|
  pure RENDER_ERROR_NONE

/-- The steps of `render_configure` after `create_pipeline`. -/
def configure_after_pipeline (w : World) : M Int :=
  chkerr (create_framebuffers w) <|
  chkerr (create_command_pool w) <|
  chkerr (create_command_buffers w) <|
  chkerr (create_vertex_data w) <|
  chkerr (write_buffers w) <|
  chkerr (create_semaphores w) <| do
    setR fun r => { r with has_pipeline := 1 }
    pure RENDER_ERROR_NONE

/-- An environment like `goodWorld` in which the driver reports no physical
device. -/
def noDeviceWorld : World := fun t c =>
  match c.op with
  | .vk .vkEnumeratePhysicalDevices => { value := 0 }
  | _ => goodWorld t c

/-- The index a scan of the `n` indices from `i` on leaves in a variable
holding `d` when it overwrites the variable at every index satisfying `p`. -/
def last_match (p : Nat → Bool) : Nat → Nat → Nat → Nat
  | 0, _, d => d
  | n + 1, i, d => last_match p n (i + 1) (if p i then i else d)

/-- Family `i` has queues and the graphics bit. -/
def is_graphics_family (props : List QueueFamilyProperties) (i : Nat) : Bool :=
  decide ((props.getD i ⟨0, 0⟩).queueCount > 0 ∧
    Nat.land (props.getD i ⟨0, 0⟩).queueFlags VK_QUEUE_GRAPHICS_BIT ≠ 0)

/-- The event read at an index where a list of events has none. -/
def no_event : Event := ⟨{ op := .sys .free }, {}⟩

/-- Family `j` has queues and the present-support query for it, whose event
is `es[j - i]` when the queries started at family `i`, answered
"supported". -/
def present_from (props : List QueueFamilyProperties) (es : List Event) (i j : Nat) :
    Bool :=
  decide ((props.getD j ⟨0, 0⟩).queueCount > 0 ∧ (es.getD (j - i) no_event).reply.value ≠ 0)

/-- Family `j` has queues and the `j`-th present-support query, whose event
is `es[j]`, answered "supported". -/
def is_present_family (props : List QueueFamilyProperties) (es : List Event) (j : Nat) :
    Bool :=
  present_from props es 0 j

/-- An environment like `goodWorld` with three queue families: family 0 and
family 1 have the graphics bit, family 2 has not; present is supported on
families 0 and 2. -/
def mixedQueueWorld : World := fun t c =>
  match c.op with
  | .vk .vkGetPhysicalDeviceQueueFamilyProperties =>
      { value := 3, props := [⟨1, 1⟩, ⟨1, 2⟩, ⟨2, 1⟩] }
  | .vk .vkGetPhysicalDeviceSurfaceSupportKHR =>
      { value := if c.args.getD 1 0 = 1 then 0 else 1 }
  | _ => goodWorld t c

/-- The context after `render_init` and `get_queue_props` in `mixedQueueWorld`. -/
def queueState : State :=
  (get_queue_props mixedQueueWorld (render_init mixedQueueWorld .valid 5 State.zero).st).st

/-- The functions the steps of `render_configure` before `create_device` call. -/
def configure_before_device_ops : List Op :=
  render_destroy_pipeline_ops ++ get_queue_props_ops ++
  [.vk .vkGetPhysicalDeviceSurfaceSupportKHR]

/-- The context after a successful `render_init` in `mixedQueueWorld`. -/
def mixedInitState : State := (render_init mixedQueueWorld .valid 5 State.zero).st

/-- The functions the steps of `render_configure` before `create_pipeline` call. -/
def configure_before_pipeline_ops : List Op :=
  configure_before_device_ops ++ create_device_ops ++ [.vk .vkGetDeviceProcAddr] ++
  get_surface_format_ops ++ create_swapchain_ops

/-- The answer of the environment to `fopen(filename, "rb")` after the history `t`. -/
def file_opened (w : World) (t : List Event) (filename : Nat) : Reply :=
  w t { op := .sys .fopen, args := [filename] }

/-- The length the environment reports for the file `filename` opened after the
history `t`: the answer of `ftell` after `fopen` and `fseek(f, 0, SEEK_END)`. -/
def file_length (w : World) (t : List Event) (filename : Nat) : Int :=
  let f := file_opened w t filename
  let t1 := t ++ [⟨{ op := .sys .fopen, args := [filename] }, f⟩]
  let c2 : Call := { op := .sys .fseek, args := [f.value, 0, SEEK_END] }
  let t2 := t1 ++ [⟨c2, w t1 c2⟩]
  (w t2 { op := .sys .ftell, args := [f.value] }).result

/-- An environment like `goodWorld` whose shader files are 6 bytes long. -/
def oddShaderWorld : World := fun t c =>
  match c.op with
  | .sys .ftell => { result := 6 }
  | _ => goodWorld t c

/-- An environment like `goodWorld` in which the file with path 2, the fragment
shader of the examples, is 6 bytes long: `ftell` answers 6 when the last file opened is
the one with path 2. -/
def oddFragmentWorld : World := fun t c =>
  match c.op with
  | .sys .ftell =>
      if ((t.filter fun e => e.call.op = .sys .fopen).getLast?.map fun e => e.call.args)
          = some [2] then { result := 6 }
      else goodWorld t c
  | _ => goodWorld t c

/-- The call `vkAcquireNextImageKHR` made by `render_update` on the context of `s`. -/
def acquire_call (s : State) : Call :=
  { op := .vk .vkAcquireNextImageKHR,
    args := [s.r.device, s.r.swapchain, 2000000000, s.r.image_semaphore, 0] }

/-- The call `vkQueueSubmit` made by `render_update` for the image `image_index`. -/
def submit_call (s : State) (image_index : Nat) : Call :=
  { op := .vk .vkQueueSubmit,
    args := [s.r.graphics_queue, s.r.image_semaphore,
             VK_PIPELINE_STAGE_COLOR_ATTACHMENT_OUTPUT_BIT,
             s.mem.command_buffers.getD image_index 0, s.r.render_semaphore] }

/-- The call `vkQueuePresentKHR` made by `render_update` for the image `image_index`. -/
def present_call (s : State) (image_index : Nat) : Call :=
  { op := .vk .vkQueuePresentKHR,
    args := [s.r.present_queue, s.r.render_semaphore, s.r.swapchain, image_index] }

/-- The call `vkQueueWaitIdle` made by `render_update`. -/
def wait_idle_call (s : State) : Call :=
  { op := .vk .vkQueueWaitIdle, args := [s.r.present_queue] }

/-- The events of a run of `render_update` in which nothing fails, in order. -/
def update_events (w : World) (s : State) : List Event :=
  let acq : Event := ⟨acquire_call s, w s.trace (acquire_call s)⟩
  let t1 := s.trace ++ [acq]
  let sub : Event := ⟨submit_call s acq.reply.value, w t1 (submit_call s acq.reply.value)⟩
  let t2 := t1 ++ [sub]
  let prs : Event := ⟨present_call s acq.reply.value, w t2 (present_call s acq.reply.value)⟩
  let t3 := t2 ++ [prs]
  [acq, sub, prs, ⟨wait_idle_call s, w t3 (wait_idle_call s)⟩]

/-- The steps of `render_configure` after `render_destroy_pipeline` and the assignment
of `phys_id`, in source order. -/
def configure_steps (w : World) (vshader fshader : Nat) : List (M Int) :=
  [get_queue_props w, get_present_and_graphics_indices w, create_device w,
   load_device_functions w, get_surface_format w, create_swapchain w,
   create_pipeline w vshader fshader, create_framebuffers w, create_command_pool w,
   create_command_buffers w, create_vertex_data w, write_buffers w, create_semaphores w]

/-- The state in which the steps of `render_configure` start: the state
`render_destroy_pipeline` ends in, with `phys_id` set to 0. -/
def configure_start (w : World) (s : State) : State :=
  { (render_destroy_pipeline w .valid s).st with
    r := { (render_destroy_pipeline w .valid s).st.r with phys_id := 0 } }

/-- The state after running the computations of a list one after the other, whatever
they return. -/
def after_steps : List (M Int) → State → State
  | [], s => s
  | m :: ms, s => after_steps ms (m s).st

/-- The outcome and state of step `k` of `render_configure`, run in the state the steps
before it leave. -/
def configure_step (w : World) (vshader fshader : Nat) (s : State) (k : Nat) : Res Int :=
  (configure_steps w vshader fshader).getD k (pure 0)
    (after_steps ((configure_steps w vshader fshader).take k) (configure_start w s))

/-- An environment like `goodWorld` in which creating a command pool fails. -/
def noCommandPoolWorld : World := fun t c =>
  match c.op with
  | .vk .vkCreateCommandPool => { result := -1 }
  | _ => goodWorld t c

/-- An environment like `goodWorld` in which creating a semaphore fails. -/
def noSemaphoreWorld : World := fun t c =>
  match c.op with
  | .vk .vkCreateSemaphore => { result := -1 }
  | _ => goodWorld t c

/-- The context after `render_init` and a `render_configure` that fails in its last
step, `create_semaphores`, in `noSemaphoreWorld`. -/
def failedConfigureState : State :=
  (render_configure noSemaphoreWorld .valid 640 480 1 2
    (render_init noSemaphoreWorld .valid 5 State.zero).st).st

/-- The context after `render_destroy_pipeline` and then `render_deinit` on
`failedConfigureState`. -/
def reclaimedState : State :=
  (render_deinit noSemaphoreWorld .valid
    (render_destroy_pipeline noSemaphoreWorld .valid failedConfigureState).st).st

/-- The blocks passed to `free` in the trace. -/
def freed (t : List Event) : List Nat :=
  (t.filter fun e => e.call.op = .sys .free).map fun e => e.call.args.getD 0 0

/-- The memory type `i` of the table has one of the bits of `flags`. -/
def has_flags (types : List Nat) (flags : Nat) (i : Nat) : Bool :=
  decide (Nat.land (types.getD i 0) flags ≠ 0)

/-- An environment like `goodWorld` whose memory types are: device-local (1),
host-visible and host-coherent (6), host-visible only (2). -/
def coherentFirstWorld : World := fun t c =>
  match c.op with
  | .vk .vkGetPhysicalDeviceMemoryProperties => { value := 3, values := [1, 6, 2] }
  | _ => goodWorld t c

/-- The frame of a computation that keeps the invariant `I` of the state and extends
the trace by events satisfying `P` only, when it starts in a state satisfying `I`. -/
def Frame.inv (I : State → Prop) (P : Event → Prop) : Frame where
  rel s t := I s → I t ∧ ∃ es, t.trace = s.trace ++ es ∧ ∀ e ∈ es, P e
  refl s := fun h => ⟨h, [], by simp, by simp⟩
  trans a b c := by
    intro h1 h2 ha
    obtain ⟨hb, es1, ht1, hp1⟩ := h1 ha
    obtain ⟨hc, es2, ht2, hp2⟩ := h2 hb
    refine ⟨hc, es1 ++ es2, by rw [ht2, ht1, List.append_assoc], ?_⟩
    intro e he
    rcases List.mem_append.mp he with h | h
    · exact hp1 e h
    · exact hp2 e h

/-- The extent `ext` is the one an event of the four kinds that carry an extent shows:
the extent reported by `vkGetPhysicalDeviceSurfaceCapabilitiesKHR`, the `imageExtent`
passed to `vkCreateSwapchainKHR`, the scissor passed to `vkCreateGraphicsPipelines`,
whose viewport is `ext` converted to `float`, and the size passed to
`vkCreateFramebuffer`. -/
def extent_event (ext : Extent2D) (e : Event) : Prop :=
  (e.call.op = .vk .vkGetPhysicalDeviceSurfaceCapabilitiesKHR →
    e.reply.caps.currentExtent = ext) ∧
  (e.call.op = .vk .vkCreateSwapchainKHR →
    e.call.args.getD 5 0 = ext.width ∧ e.call.args.getD 6 0 = ext.height) ∧
  (e.call.op = .vk .vkCreateGraphicsPipelines →
    e.call.args.drop 5
      = [float_cast ext.width, float_cast ext.height, ext.width, ext.height]) ∧
  (e.call.op = .vk .vkCreateFramebuffer →
    e.call.args.drop 3 = [ext.width, ext.height])

/-- The functions called with an extent or answering one. -/
def extent_ops : List Op :=
  [.vk .vkGetPhysicalDeviceSurfaceCapabilitiesKHR, .vk .vkCreateSwapchainKHR,
   .vk .vkCreateGraphicsPipelines, .vk .vkCreateFramebuffer]

/-- The steps of `render_configure` before `create_swapchain`: the run of
`render_configure` on a valid context up to and including `get_surface_format`. -/
def configure_before_swapchain (w : World) : M Int := do
  render_destroy_pipeline w .valid
  setR fun r => { r with phys_id := 0 }
  chkerr (get_queue_props w) <|
  chkerr (get_present_and_graphics_indices w) <|
  chkerr (create_device w) <|
  chkerr (load_device_functions w) <|
  chkerr (get_surface_format w) <|
  pure RENDER_ERROR_NONE

/-- The functions the steps of `render_configure` before `create_swapchain` call. -/
def configure_before_swapchain_ops : List Op :=
  configure_before_device_ops ++ create_device_ops ++ [.vk .vkGetDeviceProcAddr] ++
  get_surface_format_ops

/-- The steps of `render_configure` from `create_pipeline` on. -/
def configure_from_pipeline (w : World) (vshader fshader : Nat) : M Int :=
  chkerr (create_pipeline w vshader fshader) <|
  chkerr (create_framebuffers w) <|
  chkerr (create_command_pool w) <|
  chkerr (create_command_buffers w) <|
  chkerr (create_vertex_data w) <|
  chkerr (write_buffers w) <|
  chkerr (create_semaphores w) <| do
    setR fun r => { r with has_pipeline := 1 }
    pure RENDER_ERROR_NONE

/-- The call `vkGetPhysicalDeviceSurfaceCapabilitiesKHR` made by `get_surface_caps`. -/
def surface_caps_call (s : State) : Call :=
  { op := .vk .vkGetPhysicalDeviceSurfaceCapabilitiesKHR,
    args := [s.mem.phys_devices.getD s.r.phys_id 0, s.r.surface] }

/-- The call `vkCreateSwapchainKHR` made by `create_swapchain` with the capabilities
`caps`. -/
def create_swapchain_call (s : State) (caps : SurfaceCapabilities) : Call :=
  { op := .vk .vkCreateSwapchainKHR,
    args := [s.r.device, s.r.surface, 2, s.r.format.format, s.r.format.colorSpace,
             caps.currentExtent.width, caps.currentExtent.height, caps.supportedUsageFlags,
             caps.currentTransform, caps.supportedCompositeAlpha, VK_PRESENT_MODE_FIFO_KHR] }

/-- The values of the `RENDER_ERROR_*` macros of `include/render.h` other than
`RENDER_ERROR_NONE`, in the order of the header. -/
def error_codes : List Int :=
  [RENDER_ERROR_MEMORY, RENDER_ERROR_FILE, RENDER_ERROR_NULL, RENDER_ERROR_VULKAN_LOAD,
   RENDER_ERROR_VULKAN_INSTANCE, RENDER_ERROR_VULKAN_PREINST_LOAD,
   RENDER_ERROR_VULKAN_INST_LOAD, RENDER_ERROR_VULKAN_PHYSICAL_DEVICE,
   RENDER_ERROR_VULKAN_NO_DEVICES, RENDER_ERROR_VULKAN_INSTANCE_FUNC_LOAD,
   RENDER_ERROR_VULKAN_DEVICE_FUNC_LOAD, RENDER_ERROR_VULKAN_SURFACE,
   RENDER_ERROR_SURFACE_CAPS_IMAGE_USAGE, RENDER_ERROR_VULKAN_QUEUE_INDICES,
   RENDER_ERROR_VULKAN_QUEUE_INDEX_MISMATCH, RENDER_ERROR_VULKAN_CREATE_DEVICE,
   RENDER_ERROR_VULKAN_SURFACE_FORMAT, RENDER_ERROR_VULKAN_FORMAT_PROPERTIES_LINEAR,
   RENDER_ERROR_VULKAN_FORMAT_PROPERTIES_OPTIMAL,
   RENDER_ERROR_VULKAN_FORMAT_PROPERTIES_BUFFER, RENDER_ERROR_VULKAN_SURFACE_CAPABILITIES,
   RENDER_ERROR_VULKAN_SWAPCHAIN, RENDER_ERROR_VULKAN_SHADER_MODULE,
   RENDER_ERROR_VULKAN_SHADER_READ, RENDER_ERROR_VULKAN_DESCRIPTOR_SET_LAYOUT,
   RENDER_ERROR_VULKAN_PIPELINE_LAYOUT, RENDER_ERROR_VULKAN_CREATE_PIPELINE,
   RENDER_ERROR_VULKAN_RENDER_PASS, RENDER_ERROR_VULKAN_SWAPCHAIN_IMAGES,
   RENDER_ERROR_VULKAN_IMAGE_VIEW, RENDER_ERROR_VULKAN_FRAMEBUFFER,
   RENDER_ERROR_VULKAN_COMMAND_POOL, RENDER_ERROR_VULKAN_COMMAND_BUFFER,
   RENDER_ERROR_VULKAN_BUFFER, RENDER_ERROR_VULKAN_MEMORY, RENDER_ERROR_VULKAN_MEMORY_MAP,
   RENDER_ERROR_VULKAN_COMMAND_BUFFER_BEGIN, RENDER_ERROR_VULKAN_COMMAND_BUFFER_END,
   RENDER_ERROR_VULKAN_SEMAPHORE, RENDER_ERROR_VULKAN_ACQUIRE_IMAGE,
   RENDER_ERROR_VULKAN_QUEUE_SUBMIT, RENDER_ERROR_VULKAN_QUEUE_PRESENT]

/-- An environment like `goodWorld` in which the call number `n` (from 0) of `o` fails:
it answers a result of -1 and a null pointer, handle or count. -/
def failWorld (o : Op) (n : Nat) : World := fun t c =>
  if c.op = o ∧ (t.filter fun e => e.call.op = o).length = n then { result := -1 }
  else goodWorld t c

/-- The outcomes of `render_init`, `render_configure` and `render_update` called one
after the other on the context `p`, from the state of a process that has not called the
library yet. -/
def session (w : World) (p : RenderPtr) : List (Outcome Int) :=
  [(render_init w p 5 State.zero).val,
   (render_configure w p 640 480 1 2 (render_init w p 5 State.zero).st).val,
   (render_update w p
     (render_configure w p 640 480 1 2 (render_init w p 5 State.zero).st).st).val]

/-- Some environment and context make one of `render_init`, `render_configure` and
`render_update` return the code `c`. -/
def returnable (c : Int) : Prop := ∃ (w : World) (p : RenderPtr), Outcome.ret c ∈ session w p

/-- For each code that a return statement of `render.c` names, an environment and a
context in which it is returned. -/
def error_scenarios : List (Int × World × RenderPtr) :=
  [(RENDER_ERROR_MEMORY, failWorld (.sys .malloc) 0, .valid),
   (RENDER_ERROR_FILE, failWorld (.sys .fopen) 0, .valid),
   (RENDER_ERROR_NULL, goodWorld, .null),
   (RENDER_ERROR_VULKAN_LOAD, failWorld (.sys .dlopen) 0, .valid),
   (RENDER_ERROR_VULKAN_INSTANCE, failWorld (.vk .vkCreateInstance) 0, .valid),
   (RENDER_ERROR_VULKAN_PREINST_LOAD, failWorld (.vk .vkGetInstanceProcAddr) 0, .valid),
   (RENDER_ERROR_VULKAN_PHYSICAL_DEVICE, failWorld (.vk .vkEnumeratePhysicalDevices) 0,
     .valid),
   (RENDER_ERROR_VULKAN_NO_DEVICES, noDeviceWorld, .valid),
   (RENDER_ERROR_VULKAN_INSTANCE_FUNC_LOAD, failWorld (.vk .vkGetInstanceProcAddr) 1,
     .valid),
   (RENDER_ERROR_VULKAN_DEVICE_FUNC_LOAD, failWorld (.vk .vkGetDeviceProcAddr) 0, .valid),
   (RENDER_ERROR_VULKAN_SURFACE, failWorld (.vk .vkCreateXcbSurfaceKHR) 0, .valid),
   (RENDER_ERROR_VULKAN_QUEUE_INDICES,
     failWorld (.vk .vkGetPhysicalDeviceQueueFamilyProperties) 0, .valid),
   (RENDER_ERROR_VULKAN_QUEUE_INDEX_MISMATCH, mixedQueueWorld, .valid),
   (RENDER_ERROR_VULKAN_CREATE_DEVICE, failWorld (.vk .vkCreateDevice) 0, .valid),
   (RENDER_ERROR_VULKAN_SURFACE_FORMAT,
     failWorld (.vk .vkGetPhysicalDeviceSurfaceFormatsKHR) 0, .valid),
   (RENDER_ERROR_VULKAN_SURFACE_CAPABILITIES,
     failWorld (.vk .vkGetPhysicalDeviceSurfaceCapabilitiesKHR) 0, .valid),
   (RENDER_ERROR_VULKAN_SWAPCHAIN, failWorld (.vk .vkCreateSwapchainKHR) 0, .valid),
   (RENDER_ERROR_VULKAN_SHADER_MODULE, failWorld (.vk .vkCreateShaderModule) 0, .valid),
   (RENDER_ERROR_VULKAN_SHADER_READ, failWorld (.sys .ftell) 0, .valid),
   (RENDER_ERROR_VULKAN_PIPELINE_LAYOUT, failWorld (.vk .vkCreatePipelineLayout) 0, .valid),
   (RENDER_ERROR_VULKAN_CREATE_PIPELINE, failWorld (.vk .vkCreateGraphicsPipelines) 0,
     .valid),
   (RENDER_ERROR_VULKAN_RENDER_PASS, failWorld (.vk .vkCreateRenderPass) 0, .valid),
   (RENDER_ERROR_VULKAN_SWAPCHAIN_IMAGES, failWorld (.vk .vkGetSwapchainImagesKHR) 0,
     .valid),
   (RENDER_ERROR_VULKAN_IMAGE_VIEW, failWorld (.vk .vkCreateImageView) 0, .valid),
   (RENDER_ERROR_VULKAN_FRAMEBUFFER, failWorld (.vk .vkCreateFramebuffer) 0, .valid),
   (RENDER_ERROR_VULKAN_COMMAND_POOL, failWorld (.vk .vkCreateCommandPool) 0, .valid),
   (RENDER_ERROR_VULKAN_COMMAND_BUFFER, failWorld (.vk .vkAllocateCommandBuffers) 0,
     .valid),
   (RENDER_ERROR_VULKAN_BUFFER, failWorld (.vk .vkCreateBuffer) 0, .valid),
   (RENDER_ERROR_VULKAN_MEMORY, failWorld (.vk .vkAllocateMemory) 0, .valid),
   (RENDER_ERROR_VULKAN_MEMORY_MAP, failWorld (.vk .vkMapMemory) 0, .valid),
   (RENDER_ERROR_VULKAN_COMMAND_BUFFER_BEGIN, failWorld (.vk .vkBeginCommandBuffer) 0,
     .valid),
   (RENDER_ERROR_VULKAN_COMMAND_BUFFER_END, failWorld (.vk .vkEndCommandBuffer) 0, .valid),
   (RENDER_ERROR_VULKAN_SEMAPHORE, failWorld (.vk .vkCreateSemaphore) 0, .valid),
   (RENDER_ERROR_VULKAN_ACQUIRE_IMAGE, failWorld (.vk .vkAcquireNextImageKHR) 0, .valid),
   (RENDER_ERROR_VULKAN_QUEUE_SUBMIT, failWorld (.vk .vkQueueSubmit) 0, .valid),
   (RENDER_ERROR_VULKAN_QUEUE_PRESENT, failWorld (.vk .vkQueuePresentKHR) 0, .valid)]

/-- The codes of `error_scenarios`: the codes that a return statement of `render.c`
names. -/
def returned_codes : List Int := error_scenarios.map fun x => x.1

/-- The last call made in a run from `s`, if any. -/
def last_op (s : State) (r : Res Int) : Option Op :=
  ((r.st.trace.drop s.trace.length).getLast?).map fun e => e.call.op

/-- Device memory as seen through mappings: which host pointer maps which allocation
(most recent first), and the bytes each allocation holds from offset 0. -/
structure DeviceMemory where
  mapped : List (Nat × Nat)
  bytes : Nat → List Nat

/-- Device memory before any call. -/
def DeviceMemory.empty : DeviceMemory := ⟨[], fun _ => []⟩

/-- The effect of one call on device memory: a successful `vkMapMemory` (at offset 0, as
`write_data` maps) makes the returned pointer map the allocation; `memcpy` to a mapped
pointer writes its bytes at the start of the allocation; `vkUnmapMemory` ends the
mappings of the allocation; no other call of the library touches device memory. -/
def DeviceMemory.step (d : DeviceMemory) (e : Event) : DeviceMemory :=
  match e.call.op with
  | .vk .vkMapMemory =>
      if e.reply.result = VK_SUCCESS then
        { d with mapped := (e.reply.value, e.call.args.getD 1 0) :: d.mapped }
      else d
  | .sys .memcpy =>
      match d.mapped.lookup (e.call.args.getD 0 0) with
      | some m =>
          { d with bytes := Function.update d.bytes m
                              (e.call.data ++ (d.bytes m).drop e.call.data.length) }
      | none => d
  | .vk .vkUnmapMemory =>
      { d with mapped := d.mapped.filter fun x => x.2 ≠ e.call.args.getD 1 0 }
  | _ => d

/-- Device memory after the history `t`. -/
def device_memory (t : List Event) : DeviceMemory := t.foldl DeviceMemory.step DeviceMemory.empty

/-- What a second map of the allocation `mem` reads in its first `n` bytes after the
history `t`. -/
def read_back (t : List Event) (mem n : Nat) : List Nat := ((device_memory t).bytes mem).take n

/-- The steps of `create_vertex_data` before the two `write_data` calls: the two
buffers and their allocations. -/
def create_vertex_buffers (w : World) : M Int :=
  chkerr (create_buffer w (fun h r => { r with vertex_buffer := h }) (4 * 6 * 4)
            VK_BUFFER_USAGE_VERTEX_BUFFER_BIT) <|
  chkerr (create_buffer w (fun h r => { r with index_buffer := h }) (2 * 3 * 2)
            VK_BUFFER_USAGE_INDEX_BUFFER_BIT) <|
  chkerr (do let r ← getR
             allocate_buffer w r.vertex_buffer fun h r => { r with vertex_memory := h }) <|
  chkerr (do let r ← getR
             allocate_buffer w r.index_buffer fun h r => { r with index_memory := h }) <|
  pure RENDER_ERROR_NONE

/-- The call `write_data(r, &r->vertex_memory, vertices, size_verts)` of
`create_vertex_data`. -/
def write_vertices (w : World) : M Int := do
  let r ← getR
  write_data w r.vertex_memory vertex_bytes (4 * 6 * 4)

/-- The call `write_data(r, &r->index_memory, indices, size_indices)` of
`create_vertex_data`. -/
def write_indices (w : World) : M Int := do
  let r ← getR
  write_data w r.index_memory index_bytes (2 * 3 * 2)

/-- The state in which `create_vertex_data` starts in the first `render_configure` of
`goodWorld`. -/
def uploadState : State :=
  after_steps ((configure_steps goodWorld 1 2).take 10) (configure_start goodWorld initState)

/-- The two calls of one iteration of the loop of `render_destroy_pipeline`: the
framebuffer of image `i`, then its image view. -/
def destroy_image_calls (s : State) (i : Nat) : List Call :=
  [{ op := .vk .vkDestroyFramebuffer, args := [s.r.device, s.mem.framebuffers.getD i 0] },
   { op := .vk .vkDestroyImageView, args := [s.r.device, s.mem.image_views.getD i 0] }]

/-- The calls `render_destroy_pipeline` makes on a context with a pipeline, in order. -/
def destroy_pipeline_calls (s : State) : List Call :=
  [{ op := .vk .vkDestroySemaphore, args := [s.r.device, s.r.image_semaphore] },
   { op := .vk .vkDestroySemaphore, args := [s.r.device, s.r.render_semaphore] },
   { op := .vk .vkDestroyBuffer, args := [s.r.device, s.r.vertex_buffer] },
   { op := .vk .vkDestroyBuffer, args := [s.r.device, s.r.index_buffer] },
   { op := .vk .vkFreeMemory, args := [s.r.device, s.r.vertex_memory] },
   { op := .vk .vkFreeMemory, args := [s.r.device, s.r.index_memory] },
   { op := .vk .vkFreeCommandBuffers,
     args := [s.r.device, s.r.command_pool, s.r.n_swapchain_images % 4294967296,
              s.r.command_buffers],
     data := s.mem.command_buffers },
   { op := .sys .free, args := [s.r.command_buffers] },
   { op := .vk .vkDestroyCommandPool, args := [s.r.device, s.r.command_pool] }] ++
  (List.range' 0 s.r.n_swapchain_images).flatMap (destroy_image_calls s) ++
  [{ op := .sys .free, args := [s.r.framebuffers] },
   { op := .sys .free, args := [s.r.image_views] },
   { op := .sys .free, args := [s.r.swapchain_images] },
   { op := .vk .vkDestroyShaderModule, args := [s.r.device, s.r.vert_module] },
   { op := .vk .vkDestroyShaderModule, args := [s.r.device, s.r.frag_module] },
   { op := .vk .vkDestroyPipeline, args := [s.r.device, s.r.pipeline] },
   { op := .vk .vkDestroyRenderPass, args := [s.r.device, s.r.render_pass] },
   { op := .sys .free, args := [s.r.queue_props] }]

/-- The calls `render_deinit` makes on a context with a pipeline, in order: those of
`render_destroy_pipeline`, then the release of what `render_init` and the first steps of
`render_configure` acquired. -/
def deinit_calls (s : State) : List Call :=
  destroy_pipeline_calls s ++
  [{ op := .sys .free, args := [s.r.phys_devices] },
   { op := .vk .vkDestroySwapchainKHR, args := [s.r.device, s.r.swapchain] },
   { op := .vk .vkDestroySurfaceKHR, args := [s.r.instance_, s.r.surface] },
   { op := .vk .vkDestroyDevice, args := [s.r.device] },
   { op := .vk .vkDestroyInstance, args := [s.r.instance_] },
   { op := .sys .dlclose, args := [s.r.vklib] }]

/-- The entries `render_deinit` calls through. -/
def teardown_functions : List Fn :=
  [.vkDestroySemaphore, .vkDestroyBuffer, .vkFreeMemory, .vkFreeCommandBuffers,
   .vkDestroyCommandPool, .vkDestroyFramebuffer, .vkDestroyImageView,
   .vkDestroyShaderModule, .vkDestroyPipeline, .vkDestroyRenderPass,
   .vkDestroySwapchainKHR, .vkDestroySurfaceKHR, .vkDestroyDevice, .vkDestroyInstance]

/-- The functions that release an object; the object is their last argument. -/
def release_ops : List Op :=
  [.vk .vkDestroySemaphore, .vk .vkDestroyBuffer, .vk .vkFreeMemory, .sys .free,
   .vk .vkDestroyCommandPool, .vk .vkDestroyFramebuffer, .vk .vkDestroyImageView,
   .vk .vkDestroyShaderModule, .vk .vkDestroyPipeline, .vk .vkDestroyRenderPass,
   .vk .vkDestroyPipelineLayout, .vk .vkDestroySwapchainKHR, .vk .vkDestroySurfaceKHR,
   .vk .vkDestroyDevice, .vk .vkDestroyInstance, .sys .dlclose]

/-- The position in the trace of the call that returned the handle `h`, or the length
of the trace when there is none. -/
def acquired_at (t : List Event) (h : Nat) : Nat :=
  t.findIdx fun e => decide (e.reply.value = h)

/-- The position in the trace of the call that released the object `h`, or the length
of the trace when there is none. -/
def released_at (t : List Event) (h : Nat) : Nat :=
  t.findIdx fun e => decide (e.call.op ∈ release_ops ∧ e.call.args.getLast? = some h)

/-- The trace after `render_init`, `render_configure` and `render_deinit` in
`goodWorld`. -/
def lifetimeTrace : List Event := (render_deinit goodWorld .valid configuredState).st.trace

/-- The call `vkCreateImageView` made by `create_image_view` for image `i`. -/
def image_view_call (s : State) (i : Nat) : Call :=
  { op := .vk .vkCreateImageView,
    args := [s.r.device, s.mem.swapchain_images.getD i 0, s.r.format.format] }

/-- The call `vkCreateFramebuffer` made by `create_framebuffers` for image `i`. -/
def framebuffer_call (s : State) (i : Nat) : Call :=
  { op := .vk .vkCreateFramebuffer,
    args := [s.r.device, s.r.render_pass, s.mem.image_views.getD i 0,
             s.r.swap_extent.width, s.r.swap_extent.height] }

/-- The fields of the context that the per-image arrays are described with: the image
count, the device, the surface format and the pointers to the views and to the
framebuffers. -/
def image_fields (r : Render) : Nat × Nat × SurfaceFormat × Nat × Nat :=
  (r.n_swapchain_images, r.device, r.format, r.image_views, r.framebuffers)

/-- The steps of `render_configure` after `create_command_buffers`. -/
def configure_tail (w : World) : M Int :=
  chkerr (create_vertex_data w) <|
  chkerr (write_buffers w) <|
  chkerr (create_semaphores w) <| do
    setR fun r => { r with has_pipeline := 1 }
    pure RENDER_ERROR_NONE

/-- An environment like `goodWorld` whose swapchain has three images. -/
def threeImageWorld : World := fun t c =>
  match c.op with
  | .vk .vkGetSwapchainImagesKHR =>
      { value := 3, values := [t.length + 1000, t.length + 1001, t.length + 1002] }
  | .vk .vkAllocateCommandBuffers =>
      { values := [t.length + 1000, t.length + 1001, t.length + 1002] }
  | _ => goodWorld t c

/-- The events of a run of `write_data` in which nothing fails, in order: map of the
range [0, `size`) of the allocation, copy of `size` bytes to the mapped pointer, flush
and invalidate of the same range, unmap. -/
def write_data_events (w : World) (mem : Nat) (data : List Nat) (size : Nat) (s : State) :
    List Event :=
  let c1 : Call := { op := .vk .vkMapMemory, args := [s.r.device, mem, 0, size, 0] }
  let e1 : Event := ⟨c1, w s.trace c1⟩
  let t1 := s.trace ++ [e1]
  let c2 : Call := { op := .sys .memcpy, args := [e1.reply.value, size],
                     data := data.take size }
  let e2 : Event := ⟨c2, w t1 c2⟩
  let t2 := t1 ++ [e2]
  let c3 : Call := { op := .vk .vkFlushMappedMemoryRanges, args := [s.r.device, 1, mem, 0, size] }
  let e3 : Event := ⟨c3, w t2 c3⟩
  let t3 := t2 ++ [e3]
  let c4 : Call := { op := .vk .vkInvalidateMappedMemoryRanges,
                     args := [s.r.device, 1, mem, 0, size] }
  let e4 : Event := ⟨c4, w t3 c4⟩
  let t4 := t3 ++ [e4]
  let c5 : Call := { op := .vk .vkUnmapMemory, args := [s.r.device, mem] }
  [e1, e2, e3, e4, ⟨c5, w t4 c5⟩]

/-- The present-support query that `get_present_and_graphics_indices` makes for family
`i` from the state `s`. -/
def support_call (s : State) (i : Nat) : Call :=
  { op := .vk .vkGetPhysicalDeviceSurfaceSupportKHR,
    args := [s.mem.phys_devices.getD s.r.phys_id 0, i, s.r.surface] }

/-- The events a run that started in state `s` added to the trace. -/
def calls_since {α : Type} (s : State) (r : Res α) : List Event :=
  r.st.trace.drop s.trace.length

/-- The functions the steps of `render_configure` from `create_device` on call. -/
def configure_from_device_ops : List Op :=
  create_device_ops ++
  [.vk .vkGetDeviceProcAddr] ++ get_surface_format_ops ++ create_swapchain_ops ++
  create_pipeline_ops ++ create_framebuffers_ops ++ [.vk .vkCreateCommandPool] ++
  create_command_buffers_ops ++ create_vertex_data_ops ++ write_buffers_ops ++
  [.vk .vkCreateSemaphore]

/-- An environment like `goodWorld` in which the present-support query for the second
queue family fails. -/
def noSupportWorld : World := fun t c =>
  match c.op with
  | .vk .vkGetPhysicalDeviceSurfaceSupportKHR =>
      if c.args.getD 1 0 = 1 then { result := -1 } else { value := 1 }
  | .vk .vkGetPhysicalDeviceQueueFamilyProperties =>
      { value := 3, props := [⟨1, 1⟩, ⟨1, 1⟩, ⟨1, 1⟩] }
  | _ => goodWorld t c

/-- The context after `render_init` in `noSupportWorld`. -/
def noSupportInit : State := (render_init noSupportWorld .valid 5 State.zero).st

/-- The context after `render_init` and `get_queue_props` in `noSupportWorld`. -/
def noSupportState : State := (get_queue_props noSupportWorld noSupportInit).st

/-- The body of the loop of `get_present_and_graphics_indices` with the locals
`graphics_isset` and `present_isset` kept: it takes their values before the iteration
and yields, with the code, their values after it. -/
def queue_index_step_locals (w : World) (i : Nat) (isset : Int × Int) :
    M (Int × (Int × Int)) := do
  let s ← getS
  let qp ← deref s.r.queue_props s.mem.queue_props i ⟨0, 0⟩
  let graphics_isset ←
    if qp.queueCount > 0 ∧ Nat.land qp.queueFlags VK_QUEUE_GRAPHICS_BIT ≠ 0 then do
      setR fun r => { r with queue_index_graphics := i }
      pure (1 : Int)
    else pure isset.1
  let phys ← phys_device
  let rep ← invoke w .vkGetPhysicalDeviceSurfaceSupportKHR [phys, i, s.r.surface] none []
  if rep.result ≠ VK_SUCCESS then
    pure (RENDER_ERROR_VULKAN_QUEUE_INDICES, (graphics_isset, isset.2))
  else do
    let present_isset ←
      if qp.queueCount > 0 ∧ rep.value ≠ 0 then do
        setR fun r => { r with queue_index_present := i }
        pure (1 : Int)
      else pure isset.2
    pure (0, (graphics_isset, present_isset))

/-- The loop `for (i = i0; ...; ++i) body` with locals of type `β` that the body reads
and writes, with `n` iterations left. -/
def for_loop_locals {β : Type} (body : Nat → β → M (Int × β)) : Nat → Nat → β → M (Int × β)
  | 0, _, b => pure (0, b)
  | n + 1, i, b => do
    let res ← body i b
    if res.1 ≠ 0 then pure res else for_loop_locals body n (i + 1) res.2

/-- The function `get_present_and_graphics_indices` with the locals `graphics_isset` and
`present_isset` kept; `g0` and `p0` are their initial values, which are 0 in the
source, and the result carries their final values. -/
def get_present_and_graphics_indices_locals (w : World) (g0 p0 : Int) :
    M (Int × (Int × Int)) := do
  let r ← getR
  let res ← for_loop_locals (queue_index_step_locals w) r.n_queue_props 0 (g0, p0)
  if res.1 ≠ 0 then pure res else pure (RENDER_ERROR_NONE, res.2)

/-- The code of an outcome that carries locals with it. -/
def Outcome.code {β : Type} : Outcome (Int × β) → Outcome Int
  | .ret a => .ret a.1
  | .nullCall f => .nullCall f
  | .nullDeref => .nullDeref

/-- An environment like `goodWorld` with two queue families, a compute-only and a
transfer-only one, neither of which can present to the surface. -/
def noQueueWorld : World := fun t c =>
  match c.op with
  | .vk .vkGetPhysicalDeviceQueueFamilyProperties =>
      { value := 2, props := [⟨2, 1⟩, ⟨4, 1⟩] }
  | .vk .vkGetPhysicalDeviceSurfaceSupportKHR => { value := 0 }
  | _ => goodWorld t c

/-- The context after `render_init` in `noQueueWorld`. -/
def noQueueInit : State := (render_init noQueueWorld .valid 5 State.zero).st

/-- The context after `render_init` and `get_queue_props` in `noQueueWorld`. -/
def noQueueState : State := (get_queue_props noQueueWorld noQueueInit).st

/-- The query `get_heap_index` makes from the state `s`. -/
def memory_props_call (s : State) : Call :=
  { op := .vk .vkGetPhysicalDeviceMemoryProperties,
    args := [s.mem.phys_devices.getD s.r.phys_id 0] }

/-- The four calls of `allocate_buffer` for the buffer `buf` from the state `s`, with the
answers of the environment `w`: the memory requirements, the memory properties, the
allocation, with the size and the index read from the two answers before, and the
binding of the allocated memory. -/
def allocate_buffer_events (w : World) (buf : Nat) (s : State) : List Event :=
  let c1 : Call := { op := .vk .vkGetBufferMemoryRequirements, args := [s.r.device, buf] }
  let e1 : Event := ⟨c1, w s.trace c1⟩
  let e2 : Event := ⟨memory_props_call s, w (s.trace ++ [e1]) (memory_props_call s)⟩
  let c3 : Call :=
    { op := .vk .vkAllocateMemory,
      args := [s.r.device, e1.reply.value,
               heap_index_from e2.reply.values VK_MEMORY_PROPERTY_HOST_VISIBLE_BIT
                 e2.reply.value 0] }
  let e3 : Event := ⟨c3, w (s.trace ++ [e1, e2]) c3⟩
  let c4 : Call :=
    { op := .vk .vkBindBufferMemory, args := [s.r.device, buf, e3.reply.value, 0] }
  [e1, e2, e3, ⟨c4, w (s.trace ++ [e1, e2, e3]) c4⟩]

/-- An environment like `goodWorld` whose two memory types are device-local only: none
is host-visible. -/
def noHostVisibleWorld : World := fun t c =>
  match c.op with
  | .vk .vkGetPhysicalDeviceMemoryProperties => { value := 2, values := [1, 1] }
  | _ => goodWorld t c

/-- An environment like `goodWorld` that reports no memory type at all. -/
def noMemoryTypeWorld : World := fun t c =>
  match c.op with
  | .vk .vkGetPhysicalDeviceMemoryProperties => { value := 0, values := [] }
  | _ => goodWorld t c

/-- The context in `noHostVisibleWorld` when `create_vertex_data` has created its two
buffers and is about to allocate memory for the first. -/
def noHostVisibleState : State :=
  (chkerr (create_buffer noHostVisibleWorld (fun h r => { r with vertex_buffer := h })
            (4 * 6 * 4) VK_BUFFER_USAGE_VERTEX_BUFFER_BIT)
          (create_buffer noHostVisibleWorld (fun h r => { r with index_buffer := h })
            (2 * 3 * 2) VK_BUFFER_USAGE_INDEX_BUFFER_BIT) uploadState).st

/-- The function-table entries among a list of functions. -/
def entries (ops : List Op) : List Fn :=
  ops.filterMap fun o => match o with
    | .vk f => some f
    | .sys _ => none

/-- The instance-level entries that `load_device_functions` does not assign again: all of
`instance_functions` but `vkFreeCommandBuffers`. -/
def kept_instance_functions : List Fn :=
  instance_functions.filter fun f => decide (f ∉ device_functions)

/-- The entries `load_instance_functions` and `load_device_functions` resolve. -/
def all_functions : List Fn := kept_instance_functions ++ device_functions

/-- The computation `m`, run with the entries of `R` resolved, does not call through a
null entry and leaves the entries of `R` resolved. -/
def Resolves (R : List Fn) {α : Type} (m : M α) : Prop :=
  ∀ s, (∀ f ∈ R, s.r.fn f ≠ 0) →
    (∀ f, (m s).val ≠ .nullCall f) ∧ ∀ f ∈ R, (m s).st.r.fn f ≠ 0

/-- The contexts reachable from a `render_init` that returned `RENDER_ERROR_NONE` by
calls, in any order, of `render_configure`, of `render_update` when the most recent
`render_configure` returned `RENDER_ERROR_NONE`, and of `render_destroy_pipeline`, each on
the valid context and each returning; the flag tells whether the most recent
`render_configure` returned `RENDER_ERROR_NONE`. -/
inductive Reachable (w : World) : Bool → State → Prop
  | init (win : Nat) (s : State) :
      (render_init w .valid win s).val = .ret RENDER_ERROR_NONE →
      Reachable w false (render_init w .valid win s).st
  | configure (b : Bool) (width height vshader fshader : Nat) (s : State) (c : Int) :
      Reachable w b s →
      (render_configure w .valid width height vshader fshader s).val = .ret c →
      Reachable w (decide (c = RENDER_ERROR_NONE))
        (render_configure w .valid width height vshader fshader s).st
  | update (s : State) (c : Int) :
      Reachable w true s →
      (render_update w .valid s).val = .ret c →
      Reachable w true (render_update w .valid s).st
  | destroy (b : Bool) (s : State) :
      Reachable w b s →
      (render_destroy_pipeline w .valid s).val = .ret () →
      Reachable w b (render_destroy_pipeline w .valid s).st

/-- An environment like `goodWorld` whose surface reports the extent 16777217 x 480; the
width, 2^24 + 1, is not a binary32 number. -/
def wideSurfaceWorld : World := fun t c =>
  match c.op with
  | .vk .vkGetPhysicalDeviceSurfaceCapabilitiesKHR =>
      { caps := ⟨⟨16777217, 480⟩, 16, 1, 1⟩ }
  | _ => goodWorld t c

/-- An environment like `goodWorld` in which the first `vkGetSwapchainImagesKHR` query,
the one for the count, reports three images, and the second, the one that fills the
array, reports two. -/
def fewerImagesWorld : World := fun t c =>
  match c.op with
  | .vk .vkGetSwapchainImagesKHR =>
      if c.args.length = 3 then { value := 3 }
      else { value := 2, values := [t.length + 1000, t.length + 1001] }
  | _ => goodWorld t c

/-! # Theorems -/

/-! ## The monad and the frame rules -/

theorem pure_apply {α : Type} (a : α) (s : State) : (Pure.pure a : M α) s = ⟨.ret a, s⟩ := rfl

theorem bind_apply {α β : Type} (m : M α) (k : α → M β) (s : State) :
    (m >>= k) s = match (m s).val with
      | .ret a => k a (m s).st
      | .nullCall f => ⟨.nullCall f, (m s).st⟩
      | .nullDeref => ⟨.nullDeref, (m s).st⟩ := rfl

theorem keeps_pure (F : Frame) {α : Type} (a : α) : Keeps F (pure a : M α) :=
  fun s => F.refl s

theorem keeps_bind {F : Frame} {α β : Type} {m : M α} {k : α → M β}
    (hm : Keeps F m) (hk : ∀ a, Keeps F (k a)) : Keeps F (m >>= k) := by
  intro s
  rw [bind_apply]
  cases h : (m s).val with
  | ret a => exact F.trans _ _ _ (hm s) (hk a _)
  | nullCall f => exact hm s
  | nullDeref => exact hm s

theorem keeps_ite {F : Frame} {α : Type} {c : Prop} [Decidable c] {a b : M α}
    (ha : Keeps F a) (hb : Keeps F b) : Keeps F (if c then a else b) := by
  split <;> assumption

theorem keeps_getS (F : Frame) : Keeps F getS := fun s => F.refl s

theorem keeps_getR (F : Frame) : Keeps F getR := fun s => F.refl s

theorem keeps_deref (F : Frame) {α : Type} (p : Nat) (xs : List α) (i : Nat) (d : α) :
    Keeps F (deref p xs i d) := by
  intro s
  unfold Librender.deref
  split <;> exact F.refl s

theorem keeps_chkerr {F : Frame} {x k : M Int} (hx : Keeps F x) (hk : Keeps F k) :
    Keeps F (chkerr x k) := by
  unfold Librender.chkerr
  exact keeps_bind hx fun e => keeps_ite (keeps_pure F e) hk

theorem keeps_chkerr_out {F : Frame} {β : Type} {x : M (Int × β)} {k : β → M Int}
    (hx : Keeps F x) (hk : ∀ b, Keeps F (k b)) : Keeps F (chkerr_out x k) := by
  unfold Librender.chkerr_out
  exact keeps_bind hx fun e => keeps_ite (keeps_pure F _) (hk _)

theorem keeps_for_loop {F : Frame} {body : Nat → M Int} (hb : ∀ i, Keeps F (body i)) :
    ∀ n i, Keeps F (for_loop body n i)
  | 0, _ => keeps_pure F 0
  | n + 1, i => keeps_chkerr (hb i) (keeps_for_loop hb n (i + 1))

theorem keeps_load_all {F : Frame} {load : Fn → M Int} (hl : ∀ f, Keeps F (load f)) :
    ∀ fs, Keeps F (load_all load fs)
  | [] => keeps_pure F _
  | f :: fs => keeps_chkerr (hl f) (keeps_load_all hl fs)

theorem keeps_foot_setR {erase : Render → Render} {ops : List Op} {f : Render → Render}
    (h : ∀ r, erase (f r) = erase r) : Keeps (Frame.foot erase ops) (setR f) :=
  fun s => ⟨h s.r, [], by simp [setR], by simp⟩

theorem keeps_foot_setFn {erase : Render → Render} {ops : List Op} {f : Fn} {p : Nat}
    (h : ∀ r g, erase { r with fn := g } = erase r) :
    Keeps (Frame.foot erase ops) (setFn f p) :=
  keeps_foot_setR fun r => h r _

theorem keeps_foot_setMem {erase : Render → Render} {ops : List Op} (f : Arrays → Arrays) :
    Keeps (Frame.foot erase ops) (setMem f) :=
  fun s => ⟨rfl, [], by simp [setMem], by simp⟩

theorem keeps_foot_extcall {erase : Render → Render} {ops : List Op} {w : World} {op : Op}
    {args : List Nat} {sym : Option Fn} {data : List Nat} (h : op ∈ ops) :
    Keeps (Frame.foot erase ops)
      (extcall w { op := op, args := args, sym := sym, data := data }) :=
  fun s => ⟨rfl, [⟨_, w s.trace _⟩], rfl, by simpa using h⟩

theorem keeps_foot_invoke {erase : Render → Render} {ops : List Op} {w : World} {f : Fn}
    {args : List Nat} {sym : Option Fn} {data : List Nat}
    (h : Op.vk f ∈ ops) : Keeps (Frame.foot erase ops) (invoke w f args sym data) := by
  intro s
  unfold Librender.invoke
  split
  · exact (Frame.foot erase ops).refl s
  · exact keeps_foot_extcall h s

theorem keeps_foot_mono {e1 e2 : Render → Render} {o1 o2 : List Op} {α : Type} {m : M α}
    (he : ∀ r, e2 (e1 r) = e2 r) (ho : ∀ o ∈ o1, o ∈ o2)
    (h : Keeps (Frame.foot e1 o1) m) : Keeps (Frame.foot e2 o2) m := by
  intro s
  obtain ⟨h1, es, ht, hp⟩ := h s
  refine ⟨?_, es, ht, fun e he' => ho _ (hp e he')⟩
  rw [← he (m s).st.r, h1, he]

/-- A field that `erase` does not forget is unchanged by a run. -/
theorem keeps_field {erase : Render → Render} {ops : List Op} {α β : Type} {m : M α}
    (h : Keeps (Frame.foot erase ops) m) (π : Render → β) (hπ : ∀ r, π (erase r) = π r)
    (s : State) : π (m s).st.r = π s.r := by
  rw [← hπ (m s).st.r, (h s).1, hπ]

/-- A run only appends to the trace, and only calls from its list. -/
theorem keeps_calls {erase : Render → Render} {ops : List Op} {α : Type} {m : M α}
    (h : Keeps (Frame.foot erase ops) m) (s : State) :
    ∃ es, (m s).st.trace = s.trace ++ es ∧ ∀ e ∈ es, e.call.op ∈ ops :=
  (h s).2

/-! ## Footprints: the fields each function writes and the functions it calls -/

theorem phys_device_foot (erase : Render → Render) (ops : List Op) :
    Keeps (Frame.foot erase ops) phys_device := by
  unfold phys_device
  exact keeps_bind (keeps_getS _) fun _ => keeps_deref _ _ _ _ _

theorem load_vulkan_foot (w : World) :
    Keeps (Frame.foot (fun r => { r with vklib := 0, fn := fun _ => 0 }) load_vulkan_ops) (load_vulkan w) := by
  unfold load_vulkan
  with_reducible repeat' first
    | exact keeps_pure _ _
    | exact keeps_getS _
    | exact keeps_getR _
    | exact keeps_deref _ _ _ _ _
    | exact phys_device_foot _ _
    | exact keeps_foot_setMem _
    | refine keeps_bind ?_ (fun _ => ?_)
    | refine keeps_ite ?_ ?_
    | refine keeps_chkerr ?_ ?_
    | refine keeps_chkerr_out ?_ (fun _ => ?_)
    | refine keeps_for_loop (fun _ => ?_) _ _
    | refine keeps_load_all (fun _ => ?_) _
    | refine keeps_foot_setR ?_
    | refine keeps_foot_setFn ?_
    | refine keeps_foot_extcall ?_
    | refine keeps_foot_invoke ?_
  all_goals first | (intro _; rfl) | (intro _ _; rfl) | decide | assumption | (intro _; exact rfl)

theorem load_preinstance_foot (w : World) (f : Fn) :
    Keeps (Frame.foot erase_fn [.vk .vkGetInstanceProcAddr]) (load_preinstance w f) := by
  unfold load_preinstance
  with_reducible repeat' first
    | exact keeps_pure _ _
    | exact keeps_getS _
    | exact keeps_getR _
    | exact keeps_deref _ _ _ _ _
    | exact phys_device_foot _ _
    | exact keeps_foot_setMem _
    | refine keeps_bind ?_ (fun _ => ?_)
    | refine keeps_ite ?_ ?_
    | refine keeps_chkerr ?_ ?_
    | refine keeps_chkerr_out ?_ (fun _ => ?_)
    | refine keeps_for_loop (fun _ => ?_) _ _
    | refine keeps_load_all (fun _ => ?_) _
    | refine keeps_foot_setR ?_
    | refine keeps_foot_setFn ?_
    | refine keeps_foot_extcall ?_
    | refine keeps_foot_invoke ?_
  all_goals first | (intro _; rfl) | (intro _ _; rfl) | decide | assumption | (intro _; exact rfl)

theorem load_preinstance_functions_foot (w : World) :
    Keeps (Frame.foot erase_fn [.vk .vkGetInstanceProcAddr]) (load_preinstance_functions w) := by
  unfold load_preinstance_functions
  with_reducible repeat' first
    | exact keeps_pure _ _
    | exact keeps_getS _
    | exact keeps_getR _
    | exact keeps_deref _ _ _ _ _
    | exact phys_device_foot _ _
    | exact keeps_foot_setMem _
    | refine keeps_foot_mono ?_ ?_ (load_preinstance_foot w _)
    | refine keeps_bind ?_ (fun _ => ?_)
    | refine keeps_ite ?_ ?_
    | refine keeps_chkerr ?_ ?_
    | refine keeps_chkerr_out ?_ (fun _ => ?_)
    | refine keeps_for_loop (fun _ => ?_) _ _
    | refine keeps_load_all (fun _ => ?_) _
    | refine keeps_foot_setR ?_
    | refine keeps_foot_setFn ?_
    | refine keeps_foot_extcall ?_
    | refine keeps_foot_invoke ?_
  all_goals first | (intro _; rfl) | (intro _ _; rfl) | decide | assumption | (intro _; exact rfl)

theorem create_instance_foot (w : World) :
    Keeps (Frame.foot (fun r => { r with instance_ := 0 }) [.vk .vkCreateInstance]) (create_instance w) := by
  unfold create_instance
  with_reducible repeat' first
    | exact keeps_pure _ _
    | exact keeps_getS _
    | exact keeps_getR _
    | exact keeps_deref _ _ _ _ _
    | exact phys_device_foot _ _
    | exact keeps_foot_setMem _
    | refine keeps_bind ?_ (fun _ => ?_)
    | refine keeps_ite ?_ ?_
    | refine keeps_chkerr ?_ ?_
    | refine keeps_chkerr_out ?_ (fun _ => ?_)
    | refine keeps_for_loop (fun _ => ?_) _ _
    | refine keeps_load_all (fun _ => ?_) _
    | refine keeps_foot_setR ?_
    | refine keeps_foot_setFn ?_
    | refine keeps_foot_extcall ?_
    | refine keeps_foot_invoke ?_
  all_goals first | (intro _; rfl) | (intro _ _; rfl) | decide | assumption | (intro _; exact rfl)

theorem load_instance_foot (w : World) (f : Fn) :
    Keeps (Frame.foot erase_fn [.vk .vkGetInstanceProcAddr]) (load_instance w f) := by
  unfold load_instance
  with_reducible repeat' first
    | exact keeps_pure _ _
    | exact keeps_getS _
    | exact keeps_getR _
    | exact keeps_deref _ _ _ _ _
    | exact phys_device_foot _ _
    | exact keeps_foot_setMem _
    | refine keeps_bind ?_ (fun _ => ?_)
    | refine keeps_ite ?_ ?_
    | refine keeps_chkerr ?_ ?_
    | refine keeps_chkerr_out ?_ (fun _ => ?_)
    | refine keeps_for_loop (fun _ => ?_) _ _
    | refine keeps_load_all (fun _ => ?_) _
    | refine keeps_foot_setR ?_
    | refine keeps_foot_setFn ?_
    | refine keeps_foot_extcall ?_
    | refine keeps_foot_invoke ?_
  all_goals first | (intro _; rfl) | (intro _ _; rfl) | decide | assumption | (intro _; exact rfl)

theorem load_instance_functions_foot (w : World) :
    Keeps (Frame.foot erase_fn [.vk .vkGetInstanceProcAddr]) (load_instance_functions w) := by
  unfold load_instance_functions
  with_reducible repeat' first
    | exact keeps_pure _ _
    | exact keeps_getS _
    | exact keeps_getR _
    | exact keeps_deref _ _ _ _ _
    | exact phys_device_foot _ _
    | exact keeps_foot_setMem _
    | refine keeps_foot_mono ?_ ?_ (load_instance_foot w _)
    | refine keeps_bind ?_ (fun _ => ?_)
    | refine keeps_ite ?_ ?_
    | refine keeps_chkerr ?_ ?_
    | refine keeps_chkerr_out ?_ (fun _ => ?_)
    | refine keeps_for_loop (fun _ => ?_) _ _
    | refine keeps_load_all (fun _ => ?_) _
    | refine keeps_foot_setR ?_
    | refine keeps_foot_setFn ?_
    | refine keeps_foot_extcall ?_
    | refine keeps_foot_invoke ?_
  all_goals first | (intro _; rfl) | (intro _ _; rfl) | decide | assumption | (intro _; exact rfl)

theorem get_devices_foot (w : World) :
    Keeps (Frame.foot (fun r => { r with n_devices := 0, phys_devices := 0 }) get_devices_ops) (get_devices w) := by
  unfold get_devices
  with_reducible repeat' first
    | exact keeps_pure _ _
    | exact keeps_getS _
    | exact keeps_getR _
    | exact keeps_deref _ _ _ _ _
    | exact phys_device_foot _ _
    | exact keeps_foot_setMem _
    | refine keeps_bind ?_ (fun _ => ?_)
    | refine keeps_ite ?_ ?_
    | refine keeps_chkerr ?_ ?_
    | refine keeps_chkerr_out ?_ (fun _ => ?_)
    | refine keeps_for_loop (fun _ => ?_) _ _
    | refine keeps_load_all (fun _ => ?_) _
    | refine keeps_foot_setR ?_
    | refine keeps_foot_setFn ?_
    | refine keeps_foot_extcall ?_
    | refine keeps_foot_invoke ?_
  all_goals first | (intro _; rfl) | (intro _ _; rfl) | decide | assumption | (intro _; exact rfl)

theorem create_surface_foot (w : World) (win : Nat) :
    Keeps (Frame.foot (fun r => { r with surface := 0 }) create_surface_ops) (create_surface w win) := by
  unfold create_surface
  with_reducible repeat' first
    | exact keeps_pure _ _
    | exact keeps_getS _
    | exact keeps_getR _
    | exact keeps_deref _ _ _ _ _
    | exact phys_device_foot _ _
    | exact keeps_foot_setMem _
    | refine keeps_bind ?_ (fun _ => ?_)
    | refine keeps_ite ?_ ?_
    | refine keeps_chkerr ?_ ?_
    | refine keeps_chkerr_out ?_ (fun _ => ?_)
    | refine keeps_for_loop (fun _ => ?_) _ _
    | refine keeps_load_all (fun _ => ?_) _
    | refine keeps_foot_setR ?_
    | refine keeps_foot_setFn ?_
    | refine keeps_foot_extcall ?_
    | refine keeps_foot_invoke ?_
  all_goals first | (intro _; rfl) | (intro _ _; rfl) | decide | assumption | (intro _; exact rfl)

theorem get_queue_props_foot (w : World) :
    Keeps (Frame.foot (fun r => { r with n_queue_props := 0, queue_props := 0 }) get_queue_props_ops) (get_queue_props w) := by
  unfold get_queue_props
  with_reducible repeat' first
    | exact keeps_pure _ _
    | exact keeps_getS _
    | exact keeps_getR _
    | exact keeps_deref _ _ _ _ _
    | exact phys_device_foot _ _
    | exact keeps_foot_setMem _
    | refine keeps_bind ?_ (fun _ => ?_)
    | refine keeps_ite ?_ ?_
    | refine keeps_chkerr ?_ ?_
    | refine keeps_chkerr_out ?_ (fun _ => ?_)
    | refine keeps_for_loop (fun _ => ?_) _ _
    | refine keeps_load_all (fun _ => ?_) _
    | refine keeps_foot_setR ?_
    | refine keeps_foot_setFn ?_
    | refine keeps_foot_extcall ?_
    | refine keeps_foot_invoke ?_
  all_goals first | (intro _; rfl) | (intro _ _; rfl) | decide | assumption | (intro _; exact rfl)

theorem queue_index_step_foot (w : World) (i : Nat) :
    Keeps (Frame.foot (fun r => { r with queue_index_graphics := 0, queue_index_present := 0 }) [.vk .vkGetPhysicalDeviceSurfaceSupportKHR]) (queue_index_step w i) := by
  unfold queue_index_step
  with_reducible repeat' first
    | exact keeps_pure _ _
    | exact keeps_getS _
    | exact keeps_getR _
    | exact keeps_deref _ _ _ _ _
    | exact phys_device_foot _ _
    | exact keeps_foot_setMem _
    | refine keeps_bind ?_ (fun _ => ?_)
    | refine keeps_ite ?_ ?_
    | refine keeps_chkerr ?_ ?_
    | refine keeps_chkerr_out ?_ (fun _ => ?_)
    | refine keeps_for_loop (fun _ => ?_) _ _
    | refine keeps_load_all (fun _ => ?_) _
    | refine keeps_foot_setR ?_
    | refine keeps_foot_setFn ?_
    | refine keeps_foot_extcall ?_
    | refine keeps_foot_invoke ?_
  all_goals first | (intro _; rfl) | (intro _ _; rfl) | decide | assumption | (intro _; exact rfl)

theorem get_present_and_graphics_indices_foot (w : World) :
    Keeps (Frame.foot (fun r => { r with queue_index_graphics := 0, queue_index_present := 0 }) [.vk .vkGetPhysicalDeviceSurfaceSupportKHR]) (get_present_and_graphics_indices w) := by
  unfold get_present_and_graphics_indices
  with_reducible repeat' first
    | exact keeps_pure _ _
    | exact keeps_getS _
    | exact keeps_getR _
    | exact keeps_deref _ _ _ _ _
    | exact phys_device_foot _ _
    | exact keeps_foot_setMem _
    | refine keeps_foot_mono ?_ ?_ (queue_index_step_foot w _)
    | refine keeps_bind ?_ (fun _ => ?_)
    | refine keeps_ite ?_ ?_
    | refine keeps_chkerr ?_ ?_
    | refine keeps_chkerr_out ?_ (fun _ => ?_)
    | refine keeps_for_loop (fun _ => ?_) _ _
    | refine keeps_load_all (fun _ => ?_) _
    | refine keeps_foot_setR ?_
    | refine keeps_foot_setFn ?_
    | refine keeps_foot_extcall ?_
    | refine keeps_foot_invoke ?_
  all_goals first | (intro _; rfl) | (intro _ _; rfl) | decide | assumption | (intro _; exact rfl)

theorem create_device_foot (w : World) :
    Keeps (Frame.foot (fun r => { r with device := 0, graphics_queue := 0, present_queue := 0 }) create_device_ops) (create_device w) := by
  unfold create_device
  with_reducible repeat' first
    | exact keeps_pure _ _
    | exact keeps_getS _
    | exact keeps_getR _
    | exact keeps_deref _ _ _ _ _
    | exact phys_device_foot _ _
    | exact keeps_foot_setMem _
    | refine keeps_bind ?_ (fun _ => ?_)
    | refine keeps_ite ?_ ?_
    | refine keeps_chkerr ?_ ?_
    | refine keeps_chkerr_out ?_ (fun _ => ?_)
    | refine keeps_for_loop (fun _ => ?_) _ _
    | refine keeps_load_all (fun _ => ?_) _
    | refine keeps_foot_setR ?_
    | refine keeps_foot_setFn ?_
    | refine keeps_foot_extcall ?_
    | refine keeps_foot_invoke ?_
  all_goals first | (intro _; rfl) | (intro _ _; rfl) | decide | assumption | (intro _; exact rfl)

theorem load_device_foot (w : World) (f : Fn) :
    Keeps (Frame.foot erase_fn [.vk .vkGetDeviceProcAddr]) (load_device w f) := by
  unfold load_device
  with_reducible repeat' first
    | exact keeps_pure _ _
    | exact keeps_getS _
    | exact keeps_getR _
    | exact keeps_deref _ _ _ _ _
    | exact phys_device_foot _ _
    | exact keeps_foot_setMem _
    | refine keeps_bind ?_ (fun _ => ?_)
    | refine keeps_ite ?_ ?_
    | refine keeps_chkerr ?_ ?_
    | refine keeps_chkerr_out ?_ (fun _ => ?_)
    | refine keeps_for_loop (fun _ => ?_) _ _
    | refine keeps_load_all (fun _ => ?_) _
    | refine keeps_foot_setR ?_
    | refine keeps_foot_setFn ?_
    | refine keeps_foot_extcall ?_
    | refine keeps_foot_invoke ?_
  all_goals first | (intro _; rfl) | (intro _ _; rfl) | decide | assumption | (intro _; exact rfl)

theorem load_device_functions_foot (w : World) :
    Keeps (Frame.foot erase_fn [.vk .vkGetDeviceProcAddr]) (load_device_functions w) := by
  unfold load_device_functions
  with_reducible repeat' first
    | exact keeps_pure _ _
    | exact keeps_getS _
    | exact keeps_getR _
    | exact keeps_deref _ _ _ _ _
    | exact phys_device_foot _ _
    | exact keeps_foot_setMem _
    | refine keeps_foot_mono ?_ ?_ (load_device_foot w _)
    | refine keeps_bind ?_ (fun _ => ?_)
    | refine keeps_ite ?_ ?_
    | refine keeps_chkerr ?_ ?_
    | refine keeps_chkerr_out ?_ (fun _ => ?_)
    | refine keeps_for_loop (fun _ => ?_) _ _
    | refine keeps_load_all (fun _ => ?_) _
    | refine keeps_foot_setR ?_
    | refine keeps_foot_setFn ?_
    | refine keeps_foot_extcall ?_
    | refine keeps_foot_invoke ?_
  all_goals first | (intro _; rfl) | (intro _ _; rfl) | decide | assumption | (intro _; exact rfl)

theorem get_surface_format_foot (w : World) :
    Keeps (Frame.foot (fun r => { r with format := ⟨0, 0⟩ }) get_surface_format_ops) (get_surface_format w) := by
  unfold get_surface_format
  with_reducible repeat' first
    | exact keeps_pure _ _
    | exact keeps_getS _
    | exact keeps_getR _
    | exact keeps_deref _ _ _ _ _
    | exact phys_device_foot _ _
    | exact keeps_foot_setMem _
    | refine keeps_bind ?_ (fun _ => ?_)
    | refine keeps_ite ?_ ?_
    | refine keeps_chkerr ?_ ?_
    | refine keeps_chkerr_out ?_ (fun _ => ?_)
    | refine keeps_for_loop (fun _ => ?_) _ _
    | refine keeps_load_all (fun _ => ?_) _
    | refine keeps_foot_setR ?_
    | refine keeps_foot_setFn ?_
    | refine keeps_foot_extcall ?_
    | refine keeps_foot_invoke ?_
  all_goals first | (intro _; rfl) | (intro _ _; rfl) | decide | assumption | (intro _; exact rfl)

theorem get_surface_caps_foot (w : World) :
    Keeps (Frame.foot (fun r => r) [.vk .vkGetPhysicalDeviceSurfaceCapabilitiesKHR]) (get_surface_caps w) := by
  unfold get_surface_caps
  with_reducible repeat' first
    | exact keeps_pure _ _
    | exact keeps_getS _
    | exact keeps_getR _
    | exact keeps_deref _ _ _ _ _
    | exact phys_device_foot _ _
    | exact keeps_foot_setMem _
    | refine keeps_bind ?_ (fun _ => ?_)
    | refine keeps_ite ?_ ?_
    | refine keeps_chkerr ?_ ?_
    | refine keeps_chkerr_out ?_ (fun _ => ?_)
    | refine keeps_for_loop (fun _ => ?_) _ _
    | refine keeps_load_all (fun _ => ?_) _
    | refine keeps_foot_setR ?_
    | refine keeps_foot_setFn ?_
    | refine keeps_foot_extcall ?_
    | refine keeps_foot_invoke ?_
  all_goals first | (intro _; rfl) | (intro _ _; rfl) | decide | assumption | (intro _; exact rfl)

theorem get_swapchain_images_foot (w : World) :
    Keeps (Frame.foot (fun r => { r with swapchain_images := 0, n_swapchain_images := 0 }) [.vk .vkGetSwapchainImagesKHR, .sys .malloc]) (get_swapchain_images w) := by
  unfold get_swapchain_images
  with_reducible repeat' first
    | exact keeps_pure _ _
    | exact keeps_getS _
    | exact keeps_getR _
    | exact keeps_deref _ _ _ _ _
    | exact phys_device_foot _ _
    | exact keeps_foot_setMem _
    | refine keeps_bind ?_ (fun _ => ?_)
    | refine keeps_ite ?_ ?_
    | refine keeps_chkerr ?_ ?_
    | refine keeps_chkerr_out ?_ (fun _ => ?_)
    | refine keeps_for_loop (fun _ => ?_) _ _
    | refine keeps_load_all (fun _ => ?_) _
    | refine keeps_foot_setR ?_
    | refine keeps_foot_setFn ?_
    | refine keeps_foot_extcall ?_
    | refine keeps_foot_invoke ?_
  all_goals first | (intro _; rfl) | (intro _ _; rfl) | decide | assumption | (intro _; exact rfl)

theorem create_swapchain_foot (w : World) :
    Keeps (Frame.foot (fun r => { r with swapchain := 0, swap_extent := ⟨0, 0⟩, swapchain_images := 0, n_swapchain_images := 0 }) create_swapchain_ops) (create_swapchain w) := by
  unfold create_swapchain
  with_reducible repeat' first
    | exact keeps_pure _ _
    | exact keeps_getS _
    | exact keeps_getR _
    | exact keeps_deref _ _ _ _ _
    | exact phys_device_foot _ _
    | exact keeps_foot_setMem _
    | refine keeps_foot_mono ?_ ?_ (get_surface_caps_foot w)
    | refine keeps_foot_mono ?_ ?_ (get_swapchain_images_foot w)
    | refine keeps_bind ?_ (fun _ => ?_)
    | refine keeps_ite ?_ ?_
    | refine keeps_chkerr ?_ ?_
    | refine keeps_chkerr_out ?_ (fun _ => ?_)
    | refine keeps_for_loop (fun _ => ?_) _ _
    | refine keeps_load_all (fun _ => ?_) _
    | refine keeps_foot_setR ?_
    | refine keeps_foot_setFn ?_
    | refine keeps_foot_extcall ?_
    | refine keeps_foot_invoke ?_
  all_goals first | (intro _; rfl) | (intro _ _; rfl) | decide | assumption | (intro _; exact rfl)

theorem read_shader_foot (w : World) (filename : Nat) :
    Keeps (Frame.foot (fun r => r) read_shader_ops) (read_shader w filename) := by
  unfold read_shader
  with_reducible repeat' first
    | exact keeps_pure _ _
    | exact keeps_getS _
    | exact keeps_getR _
    | exact keeps_deref _ _ _ _ _
    | exact phys_device_foot _ _
    | exact keeps_foot_setMem _
    | refine keeps_bind ?_ (fun _ => ?_)
    | refine keeps_ite ?_ ?_
    | refine keeps_chkerr ?_ ?_
    | refine keeps_chkerr_out ?_ (fun _ => ?_)
    | refine keeps_for_loop (fun _ => ?_) _ _
    | refine keeps_load_all (fun _ => ?_) _
    | refine keeps_foot_setR ?_
    | refine keeps_foot_setFn ?_
    | refine keeps_foot_extcall ?_
    | refine keeps_foot_invoke ?_
  all_goals first | (intro _; rfl) | (intro _ _; rfl) | decide | assumption | (intro _; exact rfl)

theorem create_pipeline_layout_foot (w : World) :
    Keeps (Frame.foot (fun r => r) [.vk .vkCreatePipelineLayout]) (create_pipeline_layout w) := by
  unfold create_pipeline_layout
  with_reducible repeat' first
    | exact keeps_pure _ _
    | exact keeps_getS _
    | exact keeps_getR _
    | exact keeps_deref _ _ _ _ _
    | exact phys_device_foot _ _
    | exact keeps_foot_setMem _
    | refine keeps_bind ?_ (fun _ => ?_)
    | refine keeps_ite ?_ ?_
    | refine keeps_chkerr ?_ ?_
    | refine keeps_chkerr_out ?_ (fun _ => ?_)
    | refine keeps_for_loop (fun _ => ?_) _ _
    | refine keeps_load_all (fun _ => ?_) _
    | refine keeps_foot_setR ?_
    | refine keeps_foot_setFn ?_
    | refine keeps_foot_extcall ?_
    | refine keeps_foot_invoke ?_
  all_goals first | (intro _; rfl) | (intro _ _; rfl) | decide | assumption | (intro _; exact rfl)

theorem create_render_pass_foot (w : World) :
    Keeps (Frame.foot (fun r => { r with render_pass := 0 }) [.vk .vkCreateRenderPass]) (create_render_pass w) := by
  unfold create_render_pass
  with_reducible repeat' first
    | exact keeps_pure _ _
    | exact keeps_getS _
    | exact keeps_getR _
    | exact keeps_deref _ _ _ _ _
    | exact phys_device_foot _ _
    | exact keeps_foot_setMem _
    | refine keeps_bind ?_ (fun _ => ?_)
    | refine keeps_ite ?_ ?_
    | refine keeps_chkerr ?_ ?_
    | refine keeps_chkerr_out ?_ (fun _ => ?_)
    | refine keeps_for_loop (fun _ => ?_) _ _
    | refine keeps_load_all (fun _ => ?_) _
    | refine keeps_foot_setR ?_
    | refine keeps_foot_setFn ?_
    | refine keeps_foot_extcall ?_
    | refine keeps_foot_invoke ?_
  all_goals first | (intro _; rfl) | (intro _ _; rfl) | decide | assumption | (intro _; exact rfl)

theorem create_pipeline_foot (w : World) (vshader fshader : Nat) :
    Keeps (Frame.foot (fun r => { r with vert_module := 0, frag_module := 0, render_pass := 0, pipeline := 0 }) create_pipeline_ops) (create_pipeline w vshader fshader) := by
  unfold create_pipeline create_shader
  with_reducible repeat' first
    | exact keeps_pure _ _
    | exact keeps_getS _
    | exact keeps_getR _
    | exact keeps_deref _ _ _ _ _
    | exact phys_device_foot _ _
    | exact keeps_foot_setMem _
    | refine keeps_foot_mono ?_ ?_ (read_shader_foot w _)
    | refine keeps_foot_mono ?_ ?_ (create_pipeline_layout_foot w)
    | refine keeps_foot_mono ?_ ?_ (create_render_pass_foot w)
    | refine keeps_bind ?_ (fun _ => ?_)
    | refine keeps_ite ?_ ?_
    | refine keeps_chkerr ?_ ?_
    | refine keeps_chkerr_out ?_ (fun _ => ?_)
    | refine keeps_for_loop (fun _ => ?_) _ _
    | refine keeps_load_all (fun _ => ?_) _
    | refine keeps_foot_setR ?_
    | refine keeps_foot_setFn ?_
    | refine keeps_foot_extcall ?_
    | refine keeps_foot_invoke ?_
  all_goals first | (intro _; rfl) | (intro _ _; rfl) | decide | assumption | (intro _; exact rfl)

theorem create_image_view_foot (w : World) (i : Nat) :
    Keeps (Frame.foot (fun r => r) [.vk .vkCreateImageView]) (create_image_view w i) := by
  unfold create_image_view
  with_reducible repeat' first
    | exact keeps_pure _ _
    | exact keeps_getS _
    | exact keeps_getR _
    | exact keeps_deref _ _ _ _ _
    | exact phys_device_foot _ _
    | exact keeps_foot_setMem _
    | refine keeps_bind ?_ (fun _ => ?_)
    | refine keeps_ite ?_ ?_
    | refine keeps_chkerr ?_ ?_
    | refine keeps_chkerr_out ?_ (fun _ => ?_)
    | refine keeps_for_loop (fun _ => ?_) _ _
    | refine keeps_load_all (fun _ => ?_) _
    | refine keeps_foot_setR ?_
    | refine keeps_foot_setFn ?_
    | refine keeps_foot_extcall ?_
    | refine keeps_foot_invoke ?_
  all_goals first | (intro _; rfl) | (intro _ _; rfl) | decide | assumption | (intro _; exact rfl)

theorem create_framebuffer_step_foot (w : World) (i : Nat) :
    Keeps (Frame.foot (fun r => r) [.vk .vkCreateFramebuffer]) (create_framebuffer_step w i) := by
  unfold create_framebuffer_step
  with_reducible repeat' first
    | exact keeps_pure _ _
    | exact keeps_getS _
    | exact keeps_getR _
    | exact keeps_deref _ _ _ _ _
    | exact phys_device_foot _ _
    | exact keeps_foot_setMem _
    | refine keeps_bind ?_ (fun _ => ?_)
    | refine keeps_ite ?_ ?_
    | refine keeps_chkerr ?_ ?_
    | refine keeps_chkerr_out ?_ (fun _ => ?_)
    | refine keeps_for_loop (fun _ => ?_) _ _
    | refine keeps_load_all (fun _ => ?_) _
    | refine keeps_foot_setR ?_
    | refine keeps_foot_setFn ?_
    | refine keeps_foot_extcall ?_
    | refine keeps_foot_invoke ?_
  all_goals first | (intro _; rfl) | (intro _ _; rfl) | decide | assumption | (intro _; exact rfl)

theorem create_framebuffers_foot (w : World) :
    Keeps (Frame.foot (fun r => { r with image_views := 0, framebuffers := 0 }) create_framebuffers_ops) (create_framebuffers w) := by
  unfold create_framebuffers
  with_reducible repeat' first
    | exact keeps_pure _ _
    | exact keeps_getS _
    | exact keeps_getR _
    | exact keeps_deref _ _ _ _ _
    | exact phys_device_foot _ _
    | exact keeps_foot_setMem _
    | refine keeps_foot_mono ?_ ?_ (create_image_view_foot w _)
    | refine keeps_foot_mono ?_ ?_ (create_framebuffer_step_foot w _)
    | refine keeps_bind ?_ (fun _ => ?_)
    | refine keeps_ite ?_ ?_
    | refine keeps_chkerr ?_ ?_
    | refine keeps_chkerr_out ?_ (fun _ => ?_)
    | refine keeps_for_loop (fun _ => ?_) _ _
    | refine keeps_load_all (fun _ => ?_) _
    | refine keeps_foot_setR ?_
    | refine keeps_foot_setFn ?_
    | refine keeps_foot_extcall ?_
    | refine keeps_foot_invoke ?_
  all_goals first | (intro _; rfl) | (intro _ _; rfl) | decide | assumption | (intro _; exact rfl)

theorem create_command_pool_foot (w : World) :
    Keeps (Frame.foot (fun r => { r with command_pool := 0 }) [.vk .vkCreateCommandPool]) (create_command_pool w) := by
  unfold create_command_pool
  with_reducible repeat' first
    | exact keeps_pure _ _
    | exact keeps_getS _
    | exact keeps_getR _
    | exact keeps_deref _ _ _ _ _
    | exact phys_device_foot _ _
    | exact keeps_foot_setMem _
    | refine keeps_bind ?_ (fun _ => ?_)
    | refine keeps_ite ?_ ?_
    | refine keeps_chkerr ?_ ?_
    | refine keeps_chkerr_out ?_ (fun _ => ?_)
    | refine keeps_for_loop (fun _ => ?_) _ _
    | refine keeps_load_all (fun _ => ?_) _
    | refine keeps_foot_setR ?_
    | refine keeps_foot_setFn ?_
    | refine keeps_foot_extcall ?_
    | refine keeps_foot_invoke ?_
  all_goals first | (intro _; rfl) | (intro _ _; rfl) | decide | assumption | (intro _; exact rfl)

theorem create_command_buffers_foot (w : World) :
    Keeps (Frame.foot (fun r => { r with command_buffers := 0 }) create_command_buffers_ops) (create_command_buffers w) := by
  unfold create_command_buffers
  with_reducible repeat' first
    | exact keeps_pure _ _
    | exact keeps_getS _
    | exact keeps_getR _
    | exact keeps_deref _ _ _ _ _
    | exact phys_device_foot _ _
    | exact keeps_foot_setMem _
    | refine keeps_bind ?_ (fun _ => ?_)
    | refine keeps_ite ?_ ?_
    | refine keeps_chkerr ?_ ?_
    | refine keeps_chkerr_out ?_ (fun _ => ?_)
    | refine keeps_for_loop (fun _ => ?_) _ _
    | refine keeps_load_all (fun _ => ?_) _
    | refine keeps_foot_setR ?_
    | refine keeps_foot_setFn ?_
    | refine keeps_foot_extcall ?_
    | refine keeps_foot_invoke ?_
  all_goals first | (intro _; rfl) | (intro _ _; rfl) | decide | assumption | (intro _; exact rfl)

theorem get_heap_index_foot (w : World) (flags : Nat) :
    Keeps (Frame.foot (fun r => r) [.vk .vkGetPhysicalDeviceMemoryProperties]) (get_heap_index w flags) := by
  unfold get_heap_index
  with_reducible repeat' first
    | exact keeps_pure _ _
    | exact keeps_getS _
    | exact keeps_getR _
    | exact keeps_deref _ _ _ _ _
    | exact phys_device_foot _ _
    | exact keeps_foot_setMem _
    | refine keeps_bind ?_ (fun _ => ?_)
    | refine keeps_ite ?_ ?_
    | refine keeps_chkerr ?_ ?_
    | refine keeps_chkerr_out ?_ (fun _ => ?_)
    | refine keeps_for_loop (fun _ => ?_) _ _
    | refine keeps_load_all (fun _ => ?_) _
    | refine keeps_foot_setR ?_
    | refine keeps_foot_setFn ?_
    | refine keeps_foot_extcall ?_
    | refine keeps_foot_invoke ?_
  all_goals first | (intro _; rfl) | (intro _ _; rfl) | decide | assumption | (intro _; exact rfl)

theorem write_data_foot (w : World) (mem : Nat) (data : List Nat) (size : Nat) :
    Keeps (Frame.foot (fun r => r) write_data_ops) (write_data w mem data size) := by
  unfold write_data
  with_reducible repeat' first
    | exact keeps_pure _ _
    | exact keeps_getS _
    | exact keeps_getR _
    | exact keeps_deref _ _ _ _ _
    | exact phys_device_foot _ _
    | exact keeps_foot_setMem _
    | refine keeps_bind ?_ (fun _ => ?_)
    | refine keeps_ite ?_ ?_
    | refine keeps_chkerr ?_ ?_
    | refine keeps_chkerr_out ?_ (fun _ => ?_)
    | refine keeps_for_loop (fun _ => ?_) _ _
    | refine keeps_load_all (fun _ => ?_) _
    | refine keeps_foot_setR ?_
    | refine keeps_foot_setFn ?_
    | refine keeps_foot_extcall ?_
    | refine keeps_foot_invoke ?_
  all_goals first | (intro _; rfl) | (intro _ _; rfl) | decide | assumption | (intro _; exact rfl)

theorem create_vertex_data_foot (w : World) :
    Keeps (Frame.foot (fun r => { r with vertex_buffer := 0, index_buffer := 0, vertex_memory := 0, index_memory := 0 }) create_vertex_data_ops) (create_vertex_data w) := by
  unfold create_vertex_data create_buffer allocate_buffer
  with_reducible repeat' first
    | exact keeps_pure _ _
    | exact keeps_getS _
    | exact keeps_getR _
    | exact keeps_deref _ _ _ _ _
    | exact phys_device_foot _ _
    | exact keeps_foot_setMem _
    | refine keeps_foot_mono ?_ ?_ (get_heap_index_foot w _)
    | refine keeps_foot_mono ?_ ?_ (write_data_foot w _ _ _)
    | refine keeps_bind ?_ (fun _ => ?_)
    | refine keeps_ite ?_ ?_
    | refine keeps_chkerr ?_ ?_
    | refine keeps_chkerr_out ?_ (fun _ => ?_)
    | refine keeps_for_loop (fun _ => ?_) _ _
    | refine keeps_load_all (fun _ => ?_) _
    | refine keeps_foot_setR ?_
    | refine keeps_foot_setFn ?_
    | refine keeps_foot_extcall ?_
    | refine keeps_foot_invoke ?_
  all_goals first | (intro _; rfl) | (intro _ _; rfl) | decide | assumption | (intro _; exact rfl)

theorem write_buffers_step_foot (w : World) (i : Nat) :
    Keeps (Frame.foot (fun r => r) write_buffers_ops) (write_buffers_step w i) := by
  unfold write_buffers_step
  with_reducible repeat' first
    | exact keeps_pure _ _
    | exact keeps_getS _
    | exact keeps_getR _
    | exact keeps_deref _ _ _ _ _
    | exact phys_device_foot _ _
    | exact keeps_foot_setMem _
    | refine keeps_bind ?_ (fun _ => ?_)
    | refine keeps_ite ?_ ?_
    | refine keeps_chkerr ?_ ?_
    | refine keeps_chkerr_out ?_ (fun _ => ?_)
    | refine keeps_for_loop (fun _ => ?_) _ _
    | refine keeps_load_all (fun _ => ?_) _
    | refine keeps_foot_setR ?_
    | refine keeps_foot_setFn ?_
    | refine keeps_foot_extcall ?_
    | refine keeps_foot_invoke ?_
  all_goals first | (intro _; rfl) | (intro _ _; rfl) | decide | assumption | (intro _; exact rfl)

theorem write_buffers_foot (w : World) :
    Keeps (Frame.foot (fun r => r) write_buffers_ops) (write_buffers w) := by
  unfold write_buffers
  with_reducible repeat' first
    | exact keeps_pure _ _
    | exact keeps_getS _
    | exact keeps_getR _
    | exact keeps_deref _ _ _ _ _
    | exact phys_device_foot _ _
    | exact keeps_foot_setMem _
    | refine keeps_foot_mono ?_ ?_ (write_buffers_step_foot w _)
    | refine keeps_bind ?_ (fun _ => ?_)
    | refine keeps_ite ?_ ?_
    | refine keeps_chkerr ?_ ?_
    | refine keeps_chkerr_out ?_ (fun _ => ?_)
    | refine keeps_for_loop (fun _ => ?_) _ _
    | refine keeps_load_all (fun _ => ?_) _
    | refine keeps_foot_setR ?_
    | refine keeps_foot_setFn ?_
    | refine keeps_foot_extcall ?_
    | refine keeps_foot_invoke ?_
  all_goals first | (intro _; rfl) | (intro _ _; rfl) | decide | assumption | (intro _; exact rfl)

theorem create_semaphores_foot (w : World) :
    Keeps (Frame.foot (fun r => { r with image_semaphore := 0, render_semaphore := 0 }) [.vk .vkCreateSemaphore]) (create_semaphores w) := by
  unfold create_semaphores
  with_reducible repeat' first
    | exact keeps_pure _ _
    | exact keeps_getS _
    | exact keeps_getR _
    | exact keeps_deref _ _ _ _ _
    | exact phys_device_foot _ _
    | exact keeps_foot_setMem _
    | refine keeps_bind ?_ (fun _ => ?_)
    | refine keeps_ite ?_ ?_
    | refine keeps_chkerr ?_ ?_
    | refine keeps_chkerr_out ?_ (fun _ => ?_)
    | refine keeps_for_loop (fun _ => ?_) _ _
    | refine keeps_load_all (fun _ => ?_) _
    | refine keeps_foot_setR ?_
    | refine keeps_foot_setFn ?_
    | refine keeps_foot_extcall ?_
    | refine keeps_foot_invoke ?_
  all_goals first | (intro _; rfl) | (intro _ _; rfl) | decide | assumption | (intro _; exact rfl)

theorem destroy_image_step_foot (w : World) (i : Nat) :
    Keeps (Frame.foot (fun r => r) [.vk .vkDestroyFramebuffer, .vk .vkDestroyImageView]) (destroy_image_step w i) := by
  unfold destroy_image_step
  with_reducible repeat' first
    | exact keeps_pure _ _
    | exact keeps_getS _
    | exact keeps_getR _
    | exact keeps_deref _ _ _ _ _
    | exact phys_device_foot _ _
    | exact keeps_foot_setMem _
    | refine keeps_bind ?_ (fun _ => ?_)
    | refine keeps_ite ?_ ?_
    | refine keeps_chkerr ?_ ?_
    | refine keeps_chkerr_out ?_ (fun _ => ?_)
    | refine keeps_for_loop (fun _ => ?_) _ _
    | refine keeps_load_all (fun _ => ?_) _
    | refine keeps_foot_setR ?_
    | refine keeps_foot_setFn ?_
    | refine keeps_foot_extcall ?_
    | refine keeps_foot_invoke ?_
  all_goals first | (intro _; rfl) | (intro _ _; rfl) | decide | assumption | (intro _; exact rfl)

theorem render_destroy_pipeline_foot (w : World) (p : RenderPtr) :
    Keeps (Frame.foot (fun r => { r with has_pipeline := 0 }) render_destroy_pipeline_ops) (render_destroy_pipeline w p) := by
  cases p
  · exact keeps_pure _ _
  unfold render_destroy_pipeline
  with_reducible repeat' first
    | exact keeps_pure _ _
    | exact keeps_getS _
    | exact keeps_getR _
    | exact keeps_deref _ _ _ _ _
    | exact phys_device_foot _ _
    | exact keeps_foot_setMem _
    | refine keeps_foot_mono ?_ ?_ (destroy_image_step_foot w _)
    | refine keeps_bind ?_ (fun _ => ?_)
    | refine keeps_ite ?_ ?_
    | refine keeps_chkerr ?_ ?_
    | refine keeps_chkerr_out ?_ (fun _ => ?_)
    | refine keeps_for_loop (fun _ => ?_) _ _
    | refine keeps_load_all (fun _ => ?_) _
    | refine keeps_foot_setR ?_
    | refine keeps_foot_setFn ?_
    | refine keeps_foot_extcall ?_
    | refine keeps_foot_invoke ?_
  all_goals first | (intro _; rfl) | (intro _ _; rfl) | decide | assumption | (intro _; exact rfl)

theorem render_init_foot (w : World) (p : RenderPtr) (win : Nat) :
    Keeps (Frame.foot (fun _ => Render.zero) render_init_ops) (render_init w p win) := by
  cases p
  · exact keeps_pure _ _
  unfold render_init
  with_reducible repeat' first
    | exact keeps_pure _ _
    | exact keeps_getS _
    | exact keeps_getR _
    | exact keeps_deref _ _ _ _ _
    | exact phys_device_foot _ _
    | exact keeps_foot_setMem _
    | refine keeps_foot_mono ?_ ?_ (load_vulkan_foot w)
    | refine keeps_foot_mono ?_ ?_ (load_preinstance_functions_foot w)
    | refine keeps_foot_mono ?_ ?_ (create_instance_foot w)
    | refine keeps_foot_mono ?_ ?_ (load_instance_functions_foot w)
    | refine keeps_foot_mono ?_ ?_ (create_surface_foot w _)
    | refine keeps_foot_mono ?_ ?_ (get_devices_foot w)
    | refine keeps_bind ?_ (fun _ => ?_)
    | refine keeps_ite ?_ ?_
    | refine keeps_chkerr ?_ ?_
    | refine keeps_chkerr_out ?_ (fun _ => ?_)
    | refine keeps_for_loop (fun _ => ?_) _ _
    | refine keeps_load_all (fun _ => ?_) _
    | refine keeps_foot_setR ?_
    | refine keeps_foot_setFn ?_
    | refine keeps_foot_extcall ?_
    | refine keeps_foot_invoke ?_
  all_goals first | (intro _; rfl) | (intro _ _; rfl) | decide | assumption | (intro _; exact rfl)

theorem render_configure_foot (w : World) (p : RenderPtr) (width height vshader fshader : Nat) :
    Keeps (Frame.foot erase_pipeline render_configure_ops) (render_configure w p width height vshader fshader) := by
  cases p
  · exact keeps_pure _ _
  unfold render_configure
  with_reducible repeat' first
    | exact keeps_pure _ _
    | exact keeps_getS _
    | exact keeps_getR _
    | exact keeps_deref _ _ _ _ _
    | exact phys_device_foot _ _
    | exact keeps_foot_setMem _
    | refine keeps_foot_mono ?_ ?_ (render_destroy_pipeline_foot w _)
    | refine keeps_foot_mono ?_ ?_ (get_queue_props_foot w)
    | refine keeps_foot_mono ?_ ?_ (get_present_and_graphics_indices_foot w)
    | refine keeps_foot_mono ?_ ?_ (create_device_foot w)
    | refine keeps_foot_mono ?_ ?_ (load_device_functions_foot w)
    | refine keeps_foot_mono ?_ ?_ (get_surface_format_foot w)
    | refine keeps_foot_mono ?_ ?_ (create_swapchain_foot w)
    | refine keeps_foot_mono ?_ ?_ (create_pipeline_foot w _ _)
    | refine keeps_foot_mono ?_ ?_ (create_framebuffers_foot w)
    | refine keeps_foot_mono ?_ ?_ (create_command_pool_foot w)
    | refine keeps_foot_mono ?_ ?_ (create_command_buffers_foot w)
    | refine keeps_foot_mono ?_ ?_ (create_vertex_data_foot w)
    | refine keeps_foot_mono ?_ ?_ (write_buffers_foot w)
    | refine keeps_foot_mono ?_ ?_ (create_semaphores_foot w)
    | refine keeps_bind ?_ (fun _ => ?_)
    | refine keeps_ite ?_ ?_
    | refine keeps_chkerr ?_ ?_
    | refine keeps_chkerr_out ?_ (fun _ => ?_)
    | refine keeps_for_loop (fun _ => ?_) _ _
    | refine keeps_load_all (fun _ => ?_) _
    | refine keeps_foot_setR ?_
    | refine keeps_foot_setFn ?_
    | refine keeps_foot_extcall ?_
    | refine keeps_foot_invoke ?_
  all_goals first | (intro _; rfl) | (intro _ _; rfl) | decide | assumption | (intro _; exact rfl)

theorem render_deinit_foot (w : World) (p : RenderPtr) :
    Keeps (Frame.foot (fun _ => Render.zero) render_deinit_ops) (render_deinit w p) := by
  cases p
  · exact keeps_pure _ _
  unfold render_deinit
  with_reducible repeat' first
    | exact keeps_pure _ _
    | exact keeps_getS _
    | exact keeps_getR _
    | exact keeps_deref _ _ _ _ _
    | exact phys_device_foot _ _
    | exact keeps_foot_setMem _
    | refine keeps_foot_mono ?_ ?_ (render_destroy_pipeline_foot w _)
    | refine keeps_bind ?_ (fun _ => ?_)
    | refine keeps_ite ?_ ?_
    | refine keeps_chkerr ?_ ?_
    | refine keeps_chkerr_out ?_ (fun _ => ?_)
    | refine keeps_for_loop (fun _ => ?_) _ _
    | refine keeps_load_all (fun _ => ?_) _
    | refine keeps_foot_setR ?_
    | refine keeps_foot_setFn ?_
    | refine keeps_foot_extcall ?_
    | refine keeps_foot_invoke ?_
  all_goals first | (intro _; rfl) | (intro _ _; rfl) | decide | assumption | (intro _; exact rfl)

theorem render_update_foot (w : World) (p : RenderPtr) :
    Keeps (Frame.foot (fun r => r) render_update_ops) (render_update w p) := by
  cases p
  · exact fun s => (Frame.foot _ _).refl s
  unfold render_update
  with_reducible repeat' first
    | exact keeps_pure _ _
    | exact keeps_getS _
    | exact keeps_getR _
    | exact keeps_deref _ _ _ _ _
    | exact phys_device_foot _ _
    | exact keeps_foot_setMem _
    | refine keeps_bind ?_ (fun _ => ?_)
    | refine keeps_ite ?_ ?_
    | refine keeps_chkerr ?_ ?_
    | refine keeps_chkerr_out ?_ (fun _ => ?_)
    | refine keeps_for_loop (fun _ => ?_) _ _
    | refine keeps_load_all (fun _ => ?_) _
    | refine keeps_foot_setR ?_
    | refine keeps_foot_setFn ?_
    | refine keeps_foot_extcall ?_
    | refine keeps_foot_invoke ?_
  all_goals first | (intro _; rfl) | (intro _ _; rfl) | decide | assumption | (intro _; exact rfl)


/-! ## Running computations -/

theorem getR_bind {β : Type} (k : Render → M β) (s : State) : (getR >>= k) s = k s.r s := rfl

theorem getS_bind {β : Type} (k : State → M β) (s : State) : (getS >>= k) s = k s s := rfl

theorem setR_bind {β : Type} (f : Render → Render) (k : Unit → M β) (s : State) :
    (setR f >>= k) s = k () { s with r := f s.r } := rfl

theorem setMem_bind {β : Type} (f : Arrays → Arrays) (k : Unit → M β) (s : State) :
    (setMem f >>= k) s = k () { s with mem := f s.mem } := rfl

theorem pure_bind_apply {α β : Type} (a : α) (k : α → M β) (s : State) :
    ((pure a : M α) >>= k) s = k a s := rfl

theorem extcall_bind {β : Type} (w : World) (c : Call) (k : Reply → M β) (s : State) :
    (extcall w c >>= k) s
      = k (w s.trace c) { s with trace := s.trace ++ [⟨c, w s.trace c⟩] } := rfl

theorem invoke_bind {β : Type} (w : World) (f : Fn) (args : List Nat) (sym : Option Fn)
    (data : List Nat) (k : Reply → M β) (s : State) :
    (invoke w f args sym data >>= k) s
      = if s.r.fn f = 0 then ⟨.nullCall f, s⟩
        else k (w s.trace { op := .vk f, args := args, sym := sym, data := data })
          { s with trace := s.trace ++
              [⟨{ op := .vk f, args := args, sym := sym, data := data },
                w s.trace { op := .vk f, args := args, sym := sym, data := data }⟩] } := by
  rw [bind_apply]
  unfold invoke
  by_cases h : s.r.fn f = 0
  · simp only [h, if_true]
  · simp only [h, if_false]
    rfl

theorem chkerr_apply (x k : M Int) (s : State) :
    chkerr x k s = match (x s).val with
      | .ret e => if e ≠ 0 then ⟨.ret e, (x s).st⟩ else k (x s).st
      | .nullCall f => ⟨.nullCall f, (x s).st⟩
      | .nullDeref => ⟨.nullDeref, (x s).st⟩ := by
  show (x >>= fun err => if err ≠ 0 then pure err else k) s = _
  rw [bind_apply]
  cases (x s).val <;> simp only []
  split <;> rfl

theorem ensures_bind {α β : Type} {Q : State → Prop} {m : M α} {k : α → M β}
    (hk : ∀ a, Ensures Q (k a)) : Ensures Q (m >>= k) := by
  intro s b hb
  rw [bind_apply] at hb ⊢
  cases h : (m s).val with
  | ret a => rw [h] at hb; exact hk a _ b hb
  | nullCall f => rw [h] at hb; cases hb
  | nullDeref => rw [h] at hb; cases hb

theorem ensures_setR {Q : State → Prop} {f : Render → Render}
    (h : ∀ s : State, Q { s with r := f s.r }) : Ensures Q (setR f) :=
  fun s _ _ => h s

/-! ## `render_destroy_pipeline` -/

/-- Without a pipeline, `render_destroy_pipeline` returns at once: the
state, trace included, is untouched. -/
theorem render_destroy_pipeline_noop (w : World) (p : RenderPtr) (s : State)
    (h : s.r.has_pipeline = 0) : render_destroy_pipeline w p s = ⟨.ret (), s⟩ := by
  cases p
  · rfl
  · unfold render_destroy_pipeline
    simp only [bind_apply, getR, h]
    rfl

/-- When `render_destroy_pipeline` returns, the flag is clear. -/
theorem render_destroy_pipeline_clears (w : World) (s : State)
    (h : (render_destroy_pipeline w .valid s).val = .ret ()) :
    (render_destroy_pipeline w .valid s).st.r.has_pipeline = 0 := by
  by_cases h0 : s.r.has_pipeline = 0
  · rw [render_destroy_pipeline_noop w _ s h0]; exact h0
  · unfold render_destroy_pipeline at h ⊢
    simp only [] at h ⊢
    rw [getR_bind, if_pos h0] at h ⊢
    refine (?_ : Ensures (fun t => t.r.has_pipeline = 0) _) s () h
    with_reducible repeat' first
      | exact ensures_setR fun _ => rfl
      | refine ensures_bind fun _ => ?_

/-- C1: `render_destroy_pipeline` is idempotent.  Calling it twice in a row
is the same run as calling it once (same outcome, same context, same
trace); and after a first call that returned, `has_pipeline` is false and
the second call returns at once leaving the state, trace included, exactly
as it found it, so it calls no destroy or free function. -/
theorem render_destroy_pipeline_idempotent (w : World) (p : RenderPtr) (s : State) :
    (render_destroy_pipeline w p >>= fun _ => render_destroy_pipeline w p) s
        = render_destroy_pipeline w p s ∧
    ((render_destroy_pipeline w .valid s).val = .ret () →
      (render_destroy_pipeline w .valid s).st.r.has_pipeline = 0 ∧
      render_destroy_pipeline w .valid (render_destroy_pipeline w .valid s).st
        = ⟨.ret (), (render_destroy_pipeline w .valid s).st⟩ ∧
      (render_destroy_pipeline w .valid (render_destroy_pipeline w .valid s).st).st.trace
        = (render_destroy_pipeline w .valid s).st.trace) := by
  have key : ∀ q : RenderPtr, (render_destroy_pipeline w q s).val = .ret () →
      render_destroy_pipeline w q (render_destroy_pipeline w q s).st
        = ⟨.ret (), (render_destroy_pipeline w q s).st⟩ := by
    intro q h
    cases q
    · rfl
    · exact render_destroy_pipeline_noop w _ _ (render_destroy_pipeline_clears w s h)
  refine ⟨?_, fun h => ⟨render_destroy_pipeline_clears w s h, key _ h, by rw [key _ h]⟩⟩
  rw [bind_apply]
  cases h : (render_destroy_pipeline w p s).val with
  | ret a =>
    simp only []
    rw [key p h]
    cases hh : render_destroy_pipeline w p s
    rw [hh] at h
    simp only at h ⊢
    rw [h]
  | nullCall f =>
    simp only []
    cases hh : render_destroy_pipeline w p s
    rw [hh] at h
    simp only at h ⊢
    rw [h]
  | nullDeref =>
    simp only []
    cases hh : render_destroy_pipeline w p s
    rw [hh] at h
    simp only at h ⊢
    rw [h]

set_option maxRecDepth 1000000 in
/-- Witness for C1: on the configured context of `goodWorld` the first call
returns, and the second one changes nothing. -/
theorem render_destroy_pipeline_idempotent_witness :
    (render_destroy_pipeline goodWorld .valid configuredState).val = .ret () ∧
    render_destroy_pipeline goodWorld .valid
        (render_destroy_pipeline goodWorld .valid configuredState).st
      = ⟨.ret (), (render_destroy_pipeline goodWorld .valid configuredState).st⟩ :=
  ⟨by decide,
   ((render_destroy_pipeline_idempotent goodWorld .valid configuredState).2 (by decide)).2.1⟩


theorem ite_apply_state {α : Type} (c : Prop) [Decidable c] (a b : M α) (s : State) :
    (if c then a else b) s = if c then a s else b s := by
  split <;> rfl

theorem ite_bind {α β : Type} (c : Prop) [Decidable c] (a b : M α) (k : α → M β) :
    ((if c then a else b) >>= k) = if c then a >>= k else b >>= k := by
  split <;> rfl

theorem chkerr_of_zero {x k : M Int} {s : State} (h : (x s).val = .ret 0) :
    chkerr x k s = k (x s).st := by
  rw [chkerr_apply, h]
  rfl

theorem chkerr_of_err {x k : M Int} {s : State} {e : Int} (h : (x s).val = .ret e)
    (he : e ≠ 0) : chkerr x k s = ⟨.ret e, (x s).st⟩ := by
  rw [chkerr_apply, h]
  simp only [he, ne_eq, not_false_eq_true, if_true]

/-- A `chkerr` that returns `c` either got the non-zero `c` from its first
part, or got 0 from it and `c` from the continuation. -/
theorem chkerr_ret {x k : M Int} {s : State} {c : Int} (h : (chkerr x k s).val = .ret c) :
    ((x s).val = .ret c ∧ c ≠ 0) ∨ ((x s).val = .ret 0 ∧ (k (x s).st).val = .ret c) := by
  rw [chkerr_apply] at h
  cases hx : (x s).val with
  | ret e =>
    rw [hx] at h
    simp only at h
    by_cases he : e = 0
    · subst he
      right
      exact ⟨rfl, by simpa using h⟩
    · left
      simp only [ne_eq, he, not_false_eq_true, if_true] at h
      cases h
      exact ⟨rfl, he⟩
  | nullCall f => rw [hx] at h; cases h
  | nullDeref => rw [hx] at h; cases h


/-! ## `render_init`, step by step -/

theorem chkerr_ret_zero {x k : M Int} {s : State} (h : (chkerr x k s).val = .ret 0) :
    (x s).val = .ret 0 ∧ (k (x s).st).val = .ret 0 ∧ chkerr x k s = k (x s).st := by
  rcases chkerr_ret h with ⟨_, h0⟩ | ⟨hx, hk⟩
  · exact absurd rfl h0
  · exact ⟨hx, hk, chkerr_of_zero hx⟩

theorem load_vulkan_ok (w : World) (s : State) (h : (load_vulkan w s).val = .ret 0) :
    ∃ lib sym : Reply, lib.value ≠ 0 ∧
      (load_vulkan w s).st.r =
        { s.r with
          vklib := lib.value
          fn := Function.update s.r.fn .vkGetInstanceProcAddr sym.value } ∧
      (load_vulkan w s).st.trace = s.trace ++
        [⟨{ op := .sys .dlopen }, lib⟩,
         ⟨{ op := .sys .dlsym, args := [lib.value], sym := some .vkGetInstanceProcAddr }, sym⟩] := by
  unfold load_vulkan at h ⊢
  simp only [extcall_bind, setR_bind, ite_apply_state, setFn, pure_apply] at h ⊢
  by_cases h0 : (w s.trace { op := .sys .dlopen }).value = 0
  · simp [h0] at h
  · simp only [h0, if_false]
    exact ⟨_, _, h0, rfl, by simp⟩

theorem load_vulkan_code (w : World) (s : State) (c : Int)
    (h : (load_vulkan w s).val = .ret c) : c = 0 ∨ c = RENDER_ERROR_VULKAN_LOAD := by
  unfold load_vulkan at h
  simp only [extcall_bind, setR_bind, ite_apply_state, setFn, pure_apply] at h
  by_cases h0 : (w s.trace { op := .sys .dlopen }).value = 0
  · simp only [h0, if_true] at h
    cases h
    exact Or.inr rfl
  · simp only [h0, if_false] at h
    cases h
    exact Or.inl rfl

theorem create_instance_ok (w : World) (s : State) (h : (create_instance w s).val = .ret 0) :
    ∃ rep : Reply, rep.result = VK_SUCCESS ∧
      (create_instance w s).st.r = { s.r with instance_ := rep.value } ∧
      (create_instance w s).st.trace = s.trace ++
        [⟨{ op := .vk .vkCreateInstance, args := [2] }, rep⟩] := by
  unfold create_instance at h ⊢
  simp only [invoke_bind, setR_bind, ite_apply_state, pure_apply] at h ⊢
  by_cases h0 : s.r.fn .vkCreateInstance = 0
  · simp [h0] at h
  simp only [h0, if_false] at h ⊢
  by_cases h1 : (w s.trace { op := .vk .vkCreateInstance, args := [2] }).result = VK_SUCCESS
  · simp only [h1, ne_eq, not_true_eq_false, if_false]
    exact ⟨_, h1, rfl, rfl⟩
  · simp [h1] at h

theorem create_instance_code (w : World) (s : State) (c : Int)
    (h : (create_instance w s).val = .ret c) : c = 0 ∨ c = RENDER_ERROR_VULKAN_INSTANCE := by
  unfold create_instance at h
  simp only [invoke_bind, setR_bind, ite_apply_state, pure_apply] at h
  by_cases h0 : s.r.fn .vkCreateInstance = 0
  · simp [h0] at h
  simp only [h0, if_false] at h
  by_cases h1 : (w s.trace { op := .vk .vkCreateInstance, args := [2] }).result = VK_SUCCESS
  · simp only [h1, ne_eq, not_true_eq_false, if_false] at h
    cases h
    exact Or.inl rfl
  · simp only [h1, ne_eq, not_false_eq_true, if_true] at h
    cases h
    exact Or.inr rfl

/-- What one `load(f)` line does when it returns: on 0 the entry `f` holds a non-`NULL`
pointer and nothing else changed; otherwise the code is the loader's error. -/
theorem load_preinstance_ret (w : World) (f : Fn) (s : State) (c : Int)
    (h : (load_preinstance w f s).val = .ret c) :
    (c = RENDER_ERROR_VULKAN_PREINST_LOAD) ∨
    (c = 0 ∧ ∃ p : Nat, p ≠ 0 ∧
      (load_preinstance w f s).st.r = { s.r with fn := Function.update s.r.fn f p }) := by
  unfold load_preinstance at h ⊢
  simp only [invoke_bind, getR_bind, setR_bind, ite_apply_state, pure_apply, setFn] at h ⊢
  by_cases h0 : s.r.fn .vkGetInstanceProcAddr = 0
  · simp [h0] at h
  simp only [h0, if_false] at h ⊢
  split_ifs at h ⊢ with h1
  · cases h; exact Or.inl rfl
  · cases h; exact Or.inr ⟨rfl, _, h1, rfl⟩

theorem load_instance_ret (w : World) (f : Fn) (s : State) (c : Int)
    (h : (load_instance w f s).val = .ret c) :
    (c = RENDER_ERROR_VULKAN_INSTANCE_FUNC_LOAD) ∨
    (c = 0 ∧ ∃ p : Nat, p ≠ 0 ∧
      (load_instance w f s).st.r = { s.r with fn := Function.update s.r.fn f p }) := by
  unfold load_instance at h ⊢
  simp only [invoke_bind, getR_bind, setR_bind, ite_apply_state, pure_apply, setFn] at h ⊢
  by_cases h0 : s.r.fn .vkGetInstanceProcAddr = 0
  · simp [h0] at h
  simp only [h0, if_false] at h ⊢
  split_ifs at h ⊢ with h1
  · cases h; exact Or.inl rfl
  · cases h; exact Or.inr ⟨rfl, _, h1, rfl⟩

theorem load_device_ret (w : World) (f : Fn) (s : State) (c : Int)
    (h : (load_device w f s).val = .ret c) :
    (c = RENDER_ERROR_VULKAN_DEVICE_FUNC_LOAD) ∨
    (c = 0 ∧ ∃ p : Nat, p ≠ 0 ∧
      (load_device w f s).st.r = { s.r with fn := Function.update s.r.fn f p }) := by
  unfold load_device at h ⊢
  simp only [invoke_bind, getR_bind, setR_bind, ite_apply_state, pure_apply, setFn] at h ⊢
  by_cases h0 : s.r.fn .vkGetDeviceProcAddr = 0
  · simp [h0] at h
  simp only [h0, if_false] at h ⊢
  split_ifs at h ⊢ with h1
  · cases h; exact Or.inl rfl
  · cases h; exact Or.inr ⟨rfl, _, h1, rfl⟩

/-- A sequence of `load(f)` lines returns 0 or the loader's error; when it returns 0,
every entry of the sequence is resolved and no resolved entry was lost. -/
theorem load_all_ret {load : Fn → M Int} {err : Int}
    (hl : ∀ f s c, (load f s).val = .ret c → c = err ∨
      (c = 0 ∧ ∃ p : Nat, p ≠ 0 ∧ (load f s).st.r = { s.r with fn := Function.update s.r.fn f p })) :
    ∀ (fs : List Fn) (s : State) (c : Int), (load_all load fs s).val = .ret c →
      c = err ∨ (c = 0 ∧ ∀ g, (g ∈ fs ∨ s.r.fn g ≠ 0) → (load_all load fs s).st.r.fn g ≠ 0)
  | [], s, c, h => by
    cases h
    exact Or.inr ⟨rfl, fun g hg => hg.elim (fun h => absurd h (List.not_mem_nil g)) id⟩
  | f :: fs, s, c, h => by
    unfold load_all at h ⊢
    rcases chkerr_ret h with ⟨hx, hc⟩ | ⟨hx, hk⟩
    · rcases hl f s c hx with h1 | ⟨h1, _⟩
      · exact Or.inl h1
      · exact absurd h1 hc
    · rcases hl f s 0 hx with h1 | ⟨_, p, hp, hr⟩
      · rcases load_all_ret hl fs _ c hk with h2 | ⟨h2, _⟩
        · exact Or.inl h2
        · exact Or.inl (h2.trans h1)
      · rcases load_all_ret hl fs _ c hk with h2 | ⟨h2, hres⟩
        · exact Or.inl h2
        · right
          rw [chkerr_of_zero hx]
          refine ⟨h2, fun g hg => hres g ?_⟩
          rcases hg with hg | hg
          · rcases List.mem_cons.mp hg with rfl | hg
            · right; rw [hr]; simp [hp]
            · exact Or.inl hg
          · right
            rw [hr]
            by_cases hgf : g = f
            · subst hgf; simp [hp]
            · simp [Function.update_noteq hgf, hg]



/-! ## `render_init` as a whole -/

theorem chkerr_assoc (a b c : M Int) : chkerr (chkerr a b) c = chkerr a (chkerr b c) := by
  funext s
  rw [chkerr_apply, chkerr_apply a, chkerr_apply a]
  cases (a s).val with
  | ret e =>
    simp only []
    by_cases he : e = 0
    · subst he
      simp only [ne_eq, not_true_eq_false, if_false]
      rw [chkerr_apply]
    · simp only [ne_eq, he, not_false_eq_true, if_true]
  | nullCall f => rfl
  | nullDeref => rfl

theorem chkerr_pure_zero_left (k : M Int) : chkerr (pure 0) k = k := by
  funext s
  rw [chkerr_apply]
  rfl

theorem chkerr_setR (f : Render → Render) (m k : M Int) :
    chkerr (setR f >>= fun _ => m) k = (setR f >>= fun _ => chkerr m k) := by
  funext s
  rw [chkerr_apply, setR_bind, setR_bind, chkerr_apply]

/-- The run of `render_init` is the steps before `get_devices`, then `get_devices`. -/
theorem render_init_eq (w : World) (win : Nat) :
    render_init w .valid win
      = chkerr (init_before_devices w win) (chkerr (get_devices w) (pure RENDER_ERROR_NONE)) := by
  unfold render_init init_before_devices
  simp only [chkerr_setR, chkerr_assoc, chkerr_pure_zero_left]

/-- Whatever its outcome, `render_init` leaves every field zero that its steps do not
write. -/
theorem render_init_erase (w : World) (win : Nat) (s : State) :
    erase_init (render_init w .valid win s).st.r = erase_init Render.zero := by
  unfold render_init
  simp only []
  rw [setR_bind]
  refine ((?_ : Keeps (Frame.foot erase_init render_init_ops) _) _).1
  with_reducible repeat' first
    | exact keeps_pure _ _
    | exact keeps_getS _
    | exact keeps_getR _
    | exact keeps_deref _ _ _ _ _
    | exact phys_device_foot _ _
    | exact keeps_foot_setMem _
    | refine keeps_foot_mono ?_ ?_ (load_vulkan_foot w)
    | refine keeps_foot_mono ?_ ?_ (load_preinstance_functions_foot w)
    | refine keeps_foot_mono ?_ ?_ (create_instance_foot w)
    | refine keeps_foot_mono ?_ ?_ (load_instance_functions_foot w)
    | refine keeps_foot_mono ?_ ?_ (create_surface_foot w _)
    | refine keeps_foot_mono ?_ ?_ (get_devices_foot w)
    | refine keeps_bind ?_ (fun _ => ?_)
    | refine keeps_ite ?_ ?_
    | refine keeps_chkerr ?_ ?_
    | refine keeps_chkerr_out ?_ (fun _ => ?_)
    | refine keeps_for_loop (fun _ => ?_) _ _
    | refine keeps_load_all (fun _ => ?_) _
    | refine keeps_foot_setR ?_
    | refine keeps_foot_setFn ?_
    | refine keeps_foot_extcall ?_
    | refine keeps_foot_invoke ?_
  all_goals first | (intro _; rfl) | (intro _ _; rfl) | decide

theorem init_before_devices_erase (w : World) (win : Nat) (s : State) :
    erase_loaded (init_before_devices w win s).st.r = erase_loaded Render.zero := by
  unfold init_before_devices
  rw [setR_bind]
  refine ((?_ : Keeps (Frame.foot erase_loaded render_init_ops) _) _).1
  with_reducible repeat' first
    | exact keeps_pure _ _
    | exact keeps_getS _
    | exact keeps_getR _
    | exact keeps_deref _ _ _ _ _
    | exact phys_device_foot _ _
    | exact keeps_foot_setMem _
    | refine keeps_foot_mono ?_ ?_ (load_vulkan_foot w)
    | refine keeps_foot_mono ?_ ?_ (load_preinstance_functions_foot w)
    | refine keeps_foot_mono ?_ ?_ (create_instance_foot w)
    | refine keeps_foot_mono ?_ ?_ (load_instance_functions_foot w)
    | refine keeps_foot_mono ?_ ?_ (create_surface_foot w _)
    | refine keeps_bind ?_ (fun _ => ?_)
    | refine keeps_ite ?_ ?_
    | refine keeps_chkerr ?_ ?_
    | refine keeps_chkerr_out ?_ (fun _ => ?_)
    | refine keeps_for_loop (fun _ => ?_) _ _
    | refine keeps_load_all (fun _ => ?_) _
    | refine keeps_foot_setR ?_
    | refine keeps_foot_setFn ?_
    | refine keeps_foot_extcall ?_
    | refine keeps_foot_invoke ?_
  all_goals first | (intro _; rfl) | (intro _ _; rfl) | decide

theorem create_surface_ok (w : World) (win : Nat) (s : State)
    (h : (create_surface w win s).val = .ret 0) :
    ∃ conn xid rep : Reply, rep.result = VK_SUCCESS ∧
      (create_surface w win s).st.r = { s.r with surface := rep.value } ∧
      (create_surface w win s).st.trace = s.trace ++
        [⟨{ op := .sys .window_xcb_connection, args := [win] }, conn⟩] ++
        [⟨{ op := .sys .window_xcb_window, args := [win] }, xid⟩] ++
        [⟨{ op := .vk .vkCreateXcbSurfaceKHR, args := [s.r.instance_, conn.value, xid.value] },
           rep⟩] := by
  unfold create_surface at h ⊢
  simp only [invoke_bind, extcall_bind, getR_bind, setR_bind, ite_apply_state, pure_apply] at h ⊢
  by_cases h0 : s.r.fn .vkCreateXcbSurfaceKHR = 0
  · simp [h0] at h
  simp only [h0, if_false] at h ⊢
  split_ifs at h ⊢ with h1
  · cases h
  · exact ⟨_, _, _, not_not.mp h1, rfl, rfl⟩

theorem returned_append (o : Op) (a b : List Event) :
    returned o (a ++ b) = returned o a ++ returned o b := by
  simp [returned, List.filter_append]

theorem returned_eq_nil (o : Op) {ops : List Op} {es : List Event}
    (h : ∀ e ∈ es, e.call.op ∈ ops) (ho : o ∉ ops) : returned o es = [] := by
  unfold returned
  rw [List.map_eq_nil_iff, List.filter_eq_nil_iff]
  intro e he
  simp only [decide_eq_true_eq]
  intro heq
  exact ho (heq ▸ h e he)

/-- What a successful run of the steps before `get_devices` leaves: every instance-level
entry is resolved, and the trace shows one `dlopen`, one `vkCreateInstance` and one
`vkCreateXcbSurfaceKHR`, whose answers are the handles stored in the context, and no
`malloc`. -/
theorem init_before_devices_ok (w : World) (win : Nat) (s : State)
    (h : (init_before_devices w win s).val = .ret 0) :
    (∀ g ∈ instance_functions, (init_before_devices w win s).st.r.fn g ≠ 0) ∧
    ∃ es, (init_before_devices w win s).st.trace = s.trace ++ es ∧
      returned (.sys .dlopen) es = [(init_before_devices w win s).st.r.vklib] ∧
      returned (.vk .vkCreateInstance) es = [(init_before_devices w win s).st.r.instance_] ∧
      returned (.vk .vkCreateXcbSurfaceKHR) es = [(init_before_devices w win s).st.r.surface] ∧
      returned (.sys .malloc) es = [] ∧
      returned (.sys .free) es = [] := by
  unfold init_before_devices at h ⊢
  rw [setR_bind] at h ⊢
  obtain ⟨h1, h, e1⟩ := chkerr_ret_zero h
  rw [e1]
  obtain ⟨h2, h, e2⟩ := chkerr_ret_zero h
  rw [e2]
  obtain ⟨h3, h, e3⟩ := chkerr_ret_zero h
  rw [e3]
  obtain ⟨h4, h, e4⟩ := chkerr_ret_zero h
  rw [e4]
  obtain ⟨h5, _, e5⟩ := chkerr_ret_zero h
  rw [e5]
  clear e1 e2 e3 e4 e5 h
  simp only [pure_apply]
  obtain ⟨lib, sym, hlib, r1, t1⟩ := load_vulkan_ok w _ h1
  generalize (load_vulkan w _).st = s1 at *
  obtain ⟨k2, es2, t2, o2⟩ := load_preinstance_functions_foot w s1
  generalize (load_preinstance_functions w s1).st = s2 at *
  obtain ⟨rep, -, r3, t3⟩ := create_instance_ok w _ h3
  generalize (create_instance w s2).st = s3 at *
  obtain ⟨k4, es4, t4, o4⟩ := load_instance_functions_foot w s3
  have res4 := load_all_ret (load_instance_ret w) instance_functions s3 0 h4
  change _ ∨ (_ ∧ ∀ g, _ → (load_instance_functions w s3).st.r.fn g ≠ 0) at res4
  generalize (load_instance_functions w s3).st = s4 at *
  obtain ⟨conn, xid, srf, -, r5, t5⟩ := create_surface_ok w win _ h5
  generalize (create_surface w win s4).st = s5 at *
  have hres : ∀ g ∈ instance_functions, s4.r.fn g ≠ 0 := by
    rcases res4 with hh | ⟨-, hh⟩
    · exact absurd hh (by decide)
    · exact fun g hg => hh g (Or.inl hg)
  have v2 : s2.r.vklib = s1.r.vklib := by
    have := congrArg Render.vklib k2
    exact this
  have v4 : s4.r.vklib = s3.r.vklib := by
    have := congrArg Render.vklib k4
    exact this
  have i4 : s4.r.instance_ = s3.r.instance_ := by
    have := congrArg Render.instance_ k4
    exact this
  refine ⟨?_,
    [⟨{ op := .sys .dlopen }, lib⟩,
     ⟨{ op := .sys .dlsym, args := [lib.value], sym := some .vkGetInstanceProcAddr }, sym⟩] ++
    es2 ++ [⟨{ op := .vk .vkCreateInstance, args := [2] }, rep⟩] ++ es4 ++
    [⟨{ op := .sys .window_xcb_connection, args := [win] }, conn⟩] ++
    [⟨{ op := .sys .window_xcb_window, args := [win] }, xid⟩] ++
    [⟨{ op := .vk .vkCreateXcbSurfaceKHR, args := [s4.r.instance_, conn.value, xid.value] },
      srf⟩], ?_, ?_, ?_, ?_, ?_, ?_⟩
  · intro g hg
    rw [r5]
    exact hres g hg
  · rw [t5, t4, t3, t2, t1]
    simp only [List.append_assoc]
  · simp only [returned_append, returned_eq_nil (.sys .dlopen) o2 (by decide),
      returned_eq_nil (.sys .dlopen) o4 (by decide)]
    rw [r5]
    simp [returned, v4, r3, v2, r1]
  · simp only [returned_append, returned_eq_nil (.vk .vkCreateInstance) o2 (by decide),
      returned_eq_nil (.vk .vkCreateInstance) o4 (by decide)]
    rw [r5]
    simp [returned, i4, r3]
  · simp only [returned_append, returned_eq_nil (.vk .vkCreateXcbSurfaceKHR) o2 (by decide),
      returned_eq_nil (.vk .vkCreateXcbSurfaceKHR) o4 (by decide)]
    rw [r5]
    simp [returned]
  · simp only [returned_append, returned_eq_nil (.sys .malloc) o2 (by decide),
      returned_eq_nil (.sys .malloc) o4 (by decide)]
    simp [returned]
  · simp only [returned_append, returned_eq_nil (.sys .free) o2 (by decide),
      returned_eq_nil (.sys .free) o4 (by decide)]
    simp [returned]


/-! ## `get_devices` and `render_deinit` -/

theorem get_devices_ok (w : World) (s : State) (h : (get_devices w s).val = .ret 0) :
    ∃ q m f : Reply, q.result = VK_SUCCESS ∧ q.value ≠ 0 ∧ m.value ≠ 0 ∧
      f.result = VK_SUCCESS ∧
      (get_devices w s).st.r = { s.r with n_devices := q.value, phys_devices := m.value } ∧
      (get_devices w s).st.trace = s.trace ++
        [⟨{ op := .vk .vkEnumeratePhysicalDevices, args := [s.r.instance_, 0] }, q⟩] ++
        [⟨{ op := .sys .malloc, args := [size_t (8 * q.value)] }, m⟩] ++
        [⟨{ op := .vk .vkEnumeratePhysicalDevices, args := [s.r.instance_, q.value, m.value] },
           f⟩] := by
  unfold get_devices at h ⊢
  simp only [invoke_bind, extcall_bind, getR_bind, setR_bind, setMem_bind, ite_apply_state,
    pure_apply] at h ⊢
  by_cases h0 : s.r.fn .vkEnumeratePhysicalDevices = 0
  · simp [h0] at h
  simp only [h0, if_false] at h ⊢
  split_ifs at h ⊢ with h1 h2 h3 h4
  · cases h
  · cases h
  · cases h
  · cases h
  · exact ⟨_, _, _, not_not.mp h1, h2, h3, not_not.mp h4, rfl, rfl⟩

/-- With the enumeration entry resolved, when the first enumeration succeeds and
reports no device, `get_devices` fails with `RENDER_ERROR_VULKAN_NO_DEVICES` after that
single call. -/
theorem get_devices_none (w : World) (s : State)
    (hfn : s.r.fn .vkEnumeratePhysicalDevices ≠ 0)
    (hq : (w s.trace { op := .vk .vkEnumeratePhysicalDevices, args := [s.r.instance_, 0] }).result
      = VK_SUCCESS)
    (h0 : (w s.trace { op := .vk .vkEnumeratePhysicalDevices, args := [s.r.instance_, 0] }).value
      = 0) :
    get_devices w s = ⟨.ret RENDER_ERROR_VULKAN_NO_DEVICES,
      { s with trace := s.trace ++
        [⟨{ op := .vk .vkEnumeratePhysicalDevices, args := [s.r.instance_, 0] },
          w s.trace { op := .vk .vkEnumeratePhysicalDevices, args := [s.r.instance_, 0] }⟩] }⟩ := by
  unfold get_devices
  simp only [invoke_bind, extcall_bind, getR_bind, setR_bind, setMem_bind, ite_apply_state,
    pure_apply, hfn, hq, h0, if_false, if_true, ne_eq, not_true_eq_false]

/-- With the enumeration entry resolved, if the trace of `get_devices` shows two
successful enumeration calls, then it returned `RENDER_ERROR_NONE` and stored the
non-zero count reported by the first one. -/
theorem created_nil (f : Fn) : created f [] = 0 := rfl

theorem created_cons (f : Fn) (e : Event) (t : List Event) :
    created f (e :: t)
      = (if e.call.op = .vk f ∧ e.reply.result = VK_SUCCESS then 1 else 0) + created f t := by
  unfold created
  rw [List.filter_cons]
  by_cases h : e.call.op = .vk f ∧ e.reply.result = VK_SUCCESS
  · simp [h]
    omega
  · simp [h]

theorem get_devices_two_calls (w : World) (s : State)
    (hfn : s.r.fn .vkEnumeratePhysicalDevices ≠ 0)
    (h2 : created .vkEnumeratePhysicalDevices
      ((get_devices w s).st.trace.drop s.trace.length) = 2) :
    (get_devices w s).val = .ret RENDER_ERROR_NONE ∧
    (get_devices w s).st.r.n_devices
      = (w s.trace { op := .vk .vkEnumeratePhysicalDevices, args := [s.r.instance_, 0] }).value ∧
    0 < (get_devices w s).st.r.n_devices := by
  unfold get_devices at h2 ⊢
  simp only [invoke_bind, extcall_bind, getR_bind, setR_bind, setMem_bind, ite_apply_state,
    pure_apply, hfn, if_false] at h2 ⊢
  split_ifs at h2 ⊢ with h1 h3 h4 h5
  · simp only [List.drop_left, created_cons, created_nil] at h2
    split_ifs at h2 <;> omega
  · simp only [List.drop_left, created_cons, created_nil] at h2
    split_ifs at h2 <;> omega
  · simp only [List.append_assoc, List.drop_left, created_cons, created_nil, List.cons_append,
      List.nil_append, reduceCtorEq, false_and, if_false] at h2
    split_ifs at h2 <;> omega
  · simp only [List.append_assoc, List.cons_append, List.nil_append] at h2 h5
    simp only [List.drop_left, created_cons, created_nil, reduceCtorEq, false_and,
      if_false] at h2
    split_ifs at h2 with a b c
    all_goals first | omega | exact absurd b.2 h5 | exact absurd c.2 h5
  · exact ⟨rfl, rfl, Nat.pos_of_ne_zero h3⟩

theorem render_deinit_ok (w : World) (s : State) (hp : s.r.has_pipeline = 0)
    (h1 : s.r.fn .vkDestroySwapchainKHR ≠ 0) (h2 : s.r.fn .vkDestroySurfaceKHR ≠ 0)
    (h3 : s.r.fn .vkDestroyDevice ≠ 0) (h4 : s.r.fn .vkDestroyInstance ≠ 0) :
    (render_deinit w .valid s).val = .ret () ∧
    (render_deinit w .valid s).st.r = Render.zero ∧
    (render_deinit w .valid s).st.trace.map Event.call = s.trace.map Event.call ++
      [{ op := .sys .free, args := [s.r.phys_devices] },
       { op := .vk .vkDestroySwapchainKHR, args := [s.r.device, s.r.swapchain] },
       { op := .vk .vkDestroySurfaceKHR, args := [s.r.instance_, s.r.surface] },
       { op := .vk .vkDestroyDevice, args := [s.r.device] },
       { op := .vk .vkDestroyInstance, args := [s.r.instance_] },
       { op := .sys .dlclose, args := [s.r.vklib] }] := by
  unfold render_deinit
  simp only []
  rw [bind_apply, render_destroy_pipeline_noop w .valid s hp]
  simp only [invoke_bind, extcall_bind, getR_bind, setR_bind, h1, h2, h3, h4, if_false]
  refine ⟨rfl, rfl, ?_⟩
  simp [setR]

theorem chkerr_pure_zero_right (x : M Int) : chkerr x (pure 0) = x := by
  funext s
  rw [chkerr_apply]
  cases h : x s with
  | mk v t =>
    cases v with
    | ret e =>
      by_cases he : e = 0
      · subst he; rfl
      · simp only [ne_eq, he, not_false_eq_true, if_true]
    | nullCall f => rfl
    | nullDeref => rfl

/-- The run of `render_init`: the steps before `get_devices`, then `get_devices`. -/
theorem render_init_eq_devices (w : World) (win : Nat) :
    render_init w .valid win = chkerr (init_before_devices w win) (get_devices w) := by
  rw [render_init_eq]
  exact congrArg _ (chkerr_pure_zero_right _)

/-- A `render_init` that returns a code other than the four loading and instance errors
got past `load_instance_functions`: the flag is clear and every instance-level entry is
resolved. -/
theorem render_init_resolved (w : World) (win : Nat) (s : State) (code : Int)
    (h : (render_init w .valid win s).val = .ret code)
    (c1 : code ≠ RENDER_ERROR_VULKAN_LOAD) (c2 : code ≠ RENDER_ERROR_VULKAN_PREINST_LOAD)
    (c3 : code ≠ RENDER_ERROR_VULKAN_INSTANCE)
    (c4 : code ≠ RENDER_ERROR_VULKAN_INSTANCE_FUNC_LOAD) :
    (render_init w .valid win s).st.r.has_pipeline = 0 ∧
    ∀ g ∈ instance_functions, (render_init w .valid win s).st.r.fn g ≠ 0 := by
  refine ⟨by have := congrArg Render.has_pipeline (render_init_erase w win s); exact this, ?_⟩
  unfold render_init at h ⊢
  simp only [] at h ⊢
  rw [setR_bind] at h ⊢
  rcases chkerr_ret h with ⟨hx, hc⟩ | ⟨h1, h⟩
  · rcases load_vulkan_code w _ code hx with e | e
    · exact absurd e hc
    · exact absurd e c1
  rw [chkerr_of_zero h1]
  rcases chkerr_ret h with ⟨hx, hc⟩ | ⟨h2, h⟩
  · rcases load_all_ret (load_preinstance_ret w) _ _ code hx with e | ⟨e, -⟩
    · exact absurd e c2
    · exact absurd e hc
  rw [chkerr_of_zero h2]
  rcases chkerr_ret h with ⟨hx, hc⟩ | ⟨h3, h⟩
  · rcases create_instance_code w _ code hx with e | e
    · exact absurd e hc
    · exact absurd e c3
  rw [chkerr_of_zero h3]
  rcases chkerr_ret h with ⟨hx, hc⟩ | ⟨h4, h⟩
  · rcases load_all_ret (load_instance_ret w) _ _ code hx with e | ⟨e, -⟩
    · exact absurd e c4
    · exact absurd e hc
  rw [chkerr_of_zero h4]
  have res := load_all_ret (load_instance_ret w) instance_functions _ 0 h4
  have tail : Keeps (Frame.foot
      (fun r => { r with surface := 0, n_devices := 0, phys_devices := 0 })
      (create_surface_ops ++ get_devices_ops))
      (chkerr (create_surface w win) (chkerr (get_devices w) (pure RENDER_ERROR_NONE))) := by
    refine keeps_chkerr (keeps_foot_mono ?_ ?_ (create_surface_foot w win))
      (keeps_chkerr (keeps_foot_mono ?_ ?_ (get_devices_foot w)) (keeps_pure _ _))
    all_goals first | (intro _; rfl) | decide
  intro g hg
  rw [keeps_field tail (fun r => r.fn) (fun _ => rfl)]
  rcases res with e | ⟨-, hres⟩
  · exact absurd e (by decide)
  · exact hres g (Or.inl hg)

/-- The trace of a successful `render_init` shows exactly one `dlopen`, one
`vkCreateInstance`, one `vkCreateXcbSurfaceKHR` and one `malloc`, whose answers are the
handles stored in the context, and no `free`. -/
theorem render_init_ok (w : World) (win : Nat) (s : State)
    (h : (render_init w .valid win s).val = .ret RENDER_ERROR_NONE) :
    ∃ es, (render_init w .valid win s).st.trace = s.trace ++ es ∧
      returned (.sys .dlopen) es = [(render_init w .valid win s).st.r.vklib] ∧
      returned (.vk .vkCreateInstance) es = [(render_init w .valid win s).st.r.instance_] ∧
      returned (.vk .vkCreateXcbSurfaceKHR) es = [(render_init w .valid win s).st.r.surface] ∧
      returned (.sys .malloc) es = [(render_init w .valid win s).st.r.phys_devices] ∧
      returned (.sys .free) es = [] := by
  rw [render_init_eq_devices] at h ⊢
  obtain ⟨h0, hg, e⟩ := chkerr_ret_zero h
  rw [e]
  obtain ⟨-, es, t0, a1, a2, a3, a4, a5⟩ := init_before_devices_ok w win s h0
  obtain ⟨q, m, f, -, -, -, -, r1, t1⟩ := get_devices_ok w _ hg
  refine ⟨es ++
    [⟨{ op := .vk .vkEnumeratePhysicalDevices,
        args := [(init_before_devices w win s).st.r.instance_, 0] }, q⟩] ++
    [⟨{ op := .sys .malloc, args := [size_t (8 * q.value)] }, m⟩] ++
    [⟨{ op := .vk .vkEnumeratePhysicalDevices,
        args := [(init_before_devices w win s).st.r.instance_, q.value, m.value] }, f⟩],
    ?_, ?_, ?_, ?_, ?_, ?_⟩
  · rw [t1, t0]
    simp only [List.append_assoc]
  · rw [r1]
    simp only [returned_append, a1]
    simp [returned]
  · rw [r1]
    simp only [returned_append, a2]
    simp [returned]
  · rw [r1]
    simp only [returned_append, a3]
    simp [returned]
  · rw [r1]
    simp only [returned_append, a4]
    simp [returned]
  · simp only [returned_append, a5]
    simp [returned]

/-- C6: for every display handle for which `render_init` succeeds, `render_init`
followed by `render_deinit` releases what `render_init` acquired, each exactly once.
The trace of `render_init` shows exactly one `dlopen`, one `vkCreateInstance`, one
`vkCreateXcbSurfaceKHR` and one `malloc`, whose answers are the library handle, the
instance, the surface and the device array stored in the context; `render_deinit` then
returns, its calls are exactly `free` of the device array, the destruction of the (null)
swapchain of the (null) device, of the surface, of the (null) device, of the instance,
and `dlclose` of the library, in this order, and the context ends all zeroes. -/
theorem render_init_deinit_releases (w : World) (win : Nat) (s : State)
    (h : (render_init w .valid win s).val = .ret RENDER_ERROR_NONE) :
    ∃ es, (render_init w .valid win s).st.trace = s.trace ++ es ∧
      returned (.sys .dlopen) es = [(render_init w .valid win s).st.r.vklib] ∧
      returned (.vk .vkCreateInstance) es = [(render_init w .valid win s).st.r.instance_] ∧
      returned (.vk .vkCreateXcbSurfaceKHR) es = [(render_init w .valid win s).st.r.surface] ∧
      returned (.sys .malloc) es = [(render_init w .valid win s).st.r.phys_devices] ∧
      returned (.sys .free) es = [] ∧
      (render_deinit w .valid (render_init w .valid win s).st).val = .ret () ∧
      (render_deinit w .valid (render_init w .valid win s).st).st.r = Render.zero ∧
      (render_deinit w .valid (render_init w .valid win s).st).st.trace.map Event.call
        = (render_init w .valid win s).st.trace.map Event.call ++
          [{ op := .sys .free, args := [(render_init w .valid win s).st.r.phys_devices] },
           { op := .vk .vkDestroySwapchainKHR, args := [0, 0] },
           { op := .vk .vkDestroySurfaceKHR,
             args := [(render_init w .valid win s).st.r.instance_,
                      (render_init w .valid win s).st.r.surface] },
           { op := .vk .vkDestroyDevice, args := [0] },
           { op := .vk .vkDestroyInstance, args := [(render_init w .valid win s).st.r.instance_] },
           { op := .sys .dlclose, args := [(render_init w .valid win s).st.r.vklib] }] := by
  obtain ⟨hp, hres⟩ := render_init_resolved w win s 0 h (by decide) (by decide) (by decide)
    (by decide)
  have hdev : (render_init w .valid win s).st.r.device = 0 := by
    have := congrArg Render.device (render_init_erase w win s); exact this
  have hsw : (render_init w .valid win s).st.r.swapchain = 0 := by
    have := congrArg Render.swapchain (render_init_erase w win s); exact this
  obtain ⟨d1, d2, d3⟩ := render_deinit_ok w _ hp (hres _ (by decide)) (hres _ (by decide))
    (hres _ (by decide)) (hres _ (by decide))
  rw [hdev, hsw] at d3
  obtain ⟨es, t, a1, a2, a3, a4, a5⟩ := render_init_ok w win s h
  exact ⟨es, t, a1, a2, a3, a4, a5, d1, d2, d3⟩


set_option maxRecDepth 1000000 in
/-- Witness for C6 in `goodWorld`. -/
theorem render_init_deinit_releases_witness :
    (render_init goodWorld .valid 5 State.zero).val = .ret RENDER_ERROR_NONE ∧
    (render_deinit goodWorld .valid (render_init goodWorld .valid 5 State.zero).st).val
      = .ret () ∧
    (render_deinit goodWorld .valid (render_init goodWorld .valid 5 State.zero).st).st.r
      = Render.zero := by
  obtain ⟨_, h⟩ := render_init_deinit_releases goodWorld 5 State.zero (by decide)
  exact ⟨by decide, h.2.2.2.2.2.2.1, h.2.2.2.2.2.2.2.1⟩

/-! ## C2: `render_deinit` on a context that is not initialized -/

set_option maxRecDepth 1000000 in
/-- C3 fails on the code: in `goodWorld`, two successful `render_configure` calls in a
row leave two live logical devices and two live swapchains, where one call leaves one
of each; the semaphores, buffers, image views and framebuffers of the first generation
are destroyed. -/
theorem render_configure_twice_leaks :
    (render_configure goodWorld .valid 640 480 1 2 initState).val = .ret RENDER_ERROR_NONE ∧
    (render_configure goodWorld .valid 640 480 1 2 configuredState).val
      = .ret RENDER_ERROR_NONE ∧
    live .vkCreateDevice .vkDestroyDevice configuredState.trace = 1 ∧
    live .vkCreateDevice .vkDestroyDevice reconfiguredState.trace = 2 ∧
    live .vkCreateSwapchainKHR .vkDestroySwapchainKHR configuredState.trace = 1 ∧
    live .vkCreateSwapchainKHR .vkDestroySwapchainKHR reconfiguredState.trace = 2 ∧
    live .vkCreateSemaphore .vkDestroySemaphore configuredState.trace = 2 ∧
    live .vkCreateSemaphore .vkDestroySemaphore reconfiguredState.trace = 2 ∧
    live .vkCreateBuffer .vkDestroyBuffer reconfiguredState.trace = 2 ∧
    live .vkCreateImageView .vkDestroyImageView reconfiguredState.trace = 2 ∧
    live .vkCreateFramebuffer .vkDestroyFramebuffer reconfiguredState.trace = 2 := by
  decide

set_option maxRecDepth 1000000 in
/-- C8 fails on the code: when the library loads but lacks the symbol
`vkGetInstanceProcAddr`, `render_init` returns no error; it calls through the unresolved
entry. -/
theorem render_init_missing_bootstrap_symbol :
    (noBootstrapWorld [] { op := .sys .dlopen }).value ≠ 0 ∧
    (noBootstrapWorld [⟨{ op := .sys .dlopen }, noBootstrapWorld [] { op := .sys .dlopen }⟩]
      { op := .sys .dlsym, args := [1000], sym := some .vkGetInstanceProcAddr }).value = 0 ∧
    (render_init noBootstrapWorld .valid 5 State.zero).val
      = .nullCall .vkGetInstanceProcAddr := by
  decide

/-! ## C9: the number of physical devices -/

/-- C9: when the steps of `render_init` before `get_devices` succeed: if the (successful)
enumeration reports zero physical devices, `render_init` fails with
`RENDER_ERROR_VULKAN_NO_DEVICES`, its whole trace contains no `malloc` and the array
pointer stays `NULL`; and if the trace of `get_devices` shows two successful enumeration
calls, `render_init` succeeds with `n_devices` the count `n` reported by the first
one, and `n > 0`. -/
theorem render_init_device_count (w : World) (win : Nat) (s : State)
    (h : (init_before_devices w win s).val = .ret RENDER_ERROR_NONE) :
    ((w (init_before_devices w win s).st.trace
        { op := .vk .vkEnumeratePhysicalDevices,
          args := [(init_before_devices w win s).st.r.instance_, 0] }).result = VK_SUCCESS →
     (w (init_before_devices w win s).st.trace
        { op := .vk .vkEnumeratePhysicalDevices,
          args := [(init_before_devices w win s).st.r.instance_, 0] }).value = 0 →
      (render_init w .valid win s).val = .ret RENDER_ERROR_VULKAN_NO_DEVICES ∧
      (∃ es, (render_init w .valid win s).st.trace = s.trace ++ es ∧
        returned (.sys .malloc) es = []) ∧
      (render_init w .valid win s).st.r.phys_devices = 0) ∧
    (created .vkEnumeratePhysicalDevices
        ((render_init w .valid win s).st.trace.drop
          (init_before_devices w win s).st.trace.length) = 2 →
      (render_init w .valid win s).val = .ret RENDER_ERROR_NONE ∧
      (render_init w .valid win s).st.r.n_devices
        = (w (init_before_devices w win s).st.trace
            { op := .vk .vkEnumeratePhysicalDevices,
              args := [(init_before_devices w win s).st.r.instance_, 0] }).value ∧
      0 < (render_init w .valid win s).st.r.n_devices) := by
  obtain ⟨hres, es, t0, -, -, -, a4, -⟩ := init_before_devices_ok w win s h
  have hfn := hres .vkEnumeratePhysicalDevices (by decide)
  have hpd : (init_before_devices w win s).st.r.phys_devices = 0 := by
    have := congrArg Render.phys_devices (init_before_devices_erase w win s); exact this
  rw [render_init_eq_devices, chkerr_of_zero h]
  constructor
  · intro hq h0
    rw [get_devices_none w _ hfn hq h0]
    refine ⟨rfl, ⟨_, by rw [t0, List.append_assoc], ?_⟩, hpd⟩
    simp only [returned_append, a4]
    simp [returned]
  · intro h2
    exact get_devices_two_calls w _ hfn h2

set_option maxRecDepth 1000000 in
/-- Witness for C9: no device in `noDeviceWorld`, one device in `goodWorld`. -/
theorem render_init_device_count_witness :
    (render_init noDeviceWorld .valid 5 State.zero).val = .ret RENDER_ERROR_VULKAN_NO_DEVICES ∧
    (render_init goodWorld .valid 5 State.zero).val = .ret RENDER_ERROR_NONE ∧
    (render_init goodWorld .valid 5 State.zero).st.r.n_devices = 1 :=
  ⟨((render_init_device_count noDeviceWorld 5 State.zero (by decide)).1 (by decide)
      (by decide)).1,
   ((render_init_device_count goodWorld 5 State.zero (by decide)).2 (by decide)).1,
   ((render_init_device_count goodWorld 5 State.zero (by decide)).2 (by decide)).2.1.trans
     (by decide)⟩


/-! ## C7: the flag `has_pipeline` -/

theorem chkerr_bind_left {α : Type} (m : M α) (n : α → M Int) (k : M Int) :
    chkerr (m >>= n) k = (m >>= fun a => chkerr (n a) k) := by
  funext s
  rw [chkerr_apply, bind_apply, bind_apply]
  cases (m s).val with
  | ret a => simp only []; rw [chkerr_apply]
  | nullCall f => rfl
  | nullDeref => rfl

/-- The run of `render_configure` on a valid context is the steps before
`create_device` followed by the steps from `create_device` on. -/
theorem render_configure_eq_device (w : World) (width height vshader fshader : Nat) :
    render_configure w .valid width height vshader fshader
      = chkerr (configure_before_device w) (configure_from_device w vshader fshader) := by
  unfold render_configure configure_before_device configure_from_device
  simp only [chkerr_bind_left, chkerr_assoc, chkerr_pure_zero_left]

/-- A step that leaves `has_pipeline` alone, inside `chkerr`, keeps a specification
that holds for every non-zero code in a state without pipeline. -/
theorem triple_chkerr_frame {erase : Render → Render} {ops : List Op} {x k : M Int}
    {Q : Int → State → Prop}
    (hx : Keeps (Frame.foot erase ops) x)
    (he : ∀ r, (erase r).has_pipeline = r.has_pipeline)
    (herr : ∀ c s, c ≠ 0 → s.r.has_pipeline = 0 → Q c s)
    (hk : Triple (fun s => s.r.has_pipeline = 0) k Q) :
    Triple (fun s => s.r.has_pipeline = 0) (chkerr x k) Q := by
  intro s hs c hc
  have hp : (x s).st.r.has_pipeline = 0 :=
    (keeps_field hx Render.has_pipeline he s).trans hs
  rcases chkerr_ret hc with ⟨h1, h2⟩ | ⟨h1, h2⟩
  · rw [chkerr_of_err h1 h2]
    exact herr c _ h2 hp
  · rw [chkerr_of_zero h1]
    exact hk _ hp c h2

/-- From a state without pipeline, the steps of `render_configure` from `create_device`
on set the flag exactly when they return 0. -/
theorem configure_from_device_flag (w : World) (vshader fshader : Nat) :
    Triple (fun s => s.r.has_pipeline = 0) (configure_from_device w vshader fshader)
      (fun c s => (c = 0 → s.r.has_pipeline = 1) ∧ (c ≠ 0 → s.r.has_pipeline = 0)) := by
  unfold configure_from_device
  refine triple_chkerr_frame (create_device_foot w) ?_ ?_ ?_
  rotate_left 2
  refine triple_chkerr_frame (load_device_functions_foot w) ?_ ?_ ?_
  rotate_left 2
  refine triple_chkerr_frame (get_surface_format_foot w) ?_ ?_ ?_
  rotate_left 2
  refine triple_chkerr_frame (create_swapchain_foot w) ?_ ?_ ?_
  rotate_left 2
  refine triple_chkerr_frame (create_pipeline_foot w _ _) ?_ ?_ ?_
  rotate_left 2
  refine triple_chkerr_frame (create_framebuffers_foot w) ?_ ?_ ?_
  rotate_left 2
  refine triple_chkerr_frame (create_command_pool_foot w) ?_ ?_ ?_
  rotate_left 2
  refine triple_chkerr_frame (create_command_buffers_foot w) ?_ ?_ ?_
  rotate_left 2
  refine triple_chkerr_frame (create_vertex_data_foot w) ?_ ?_ ?_
  rotate_left 2
  refine triple_chkerr_frame (write_buffers_foot w) ?_ ?_ ?_
  rotate_left 2
  refine triple_chkerr_frame (create_semaphores_foot w) ?_ ?_ ?_
  rotate_left 2
  · intro s _ c hc
    rw [setR_bind] at hc ⊢
    cases hc
    exact ⟨fun _ => rfl, fun h => absurd rfl h⟩
  all_goals first
    | (intro _; rfl)
    | (intro c s hc hs; exact ⟨fun h => absurd h hc, fun _ => hs⟩)

/-- The steps of `render_configure` before `create_device`, when they return, leave the
flag clear. -/
theorem configure_before_device_flag (w : World) (s : State) (c : Int)
    (h : (configure_before_device w s).val = .ret c) :
    (configure_before_device w s).st.r.has_pipeline = 0 := by
  unfold configure_before_device at h ⊢
  rw [bind_apply] at h ⊢
  cases hd : (render_destroy_pipeline w .valid s).val with
  | ret u =>
    rw [hd] at h
    simp only [] at h ⊢
    have hp := render_destroy_pipeline_clears w s hd
    rw [setR_bind]
    refine (keeps_field (?_ : Keeps (Frame.foot
      (fun r => { r with n_queue_props := 0, queue_props := 0, queue_index_graphics := 0,
                         queue_index_present := 0 })
      (get_queue_props_ops ++ [.vk .vkGetPhysicalDeviceSurfaceSupportKHR])) _)
      Render.has_pipeline (fun _ => rfl) _).trans hp
    refine keeps_chkerr (keeps_foot_mono ?_ ?_ (get_queue_props_foot w))
      (keeps_chkerr (keeps_foot_mono ?_ ?_ (get_present_and_graphics_indices_foot w))
        (keeps_pure _ _))
    all_goals first | (intro _; rfl) | decide
  | nullCall f => rw [hd] at h; cases h
  | nullDeref => rw [hd] at h; cases h

theorem render_deinit_zeroes (w : World) (s : State)
    (h : (render_deinit w .valid s).val = .ret ()) :
    (render_deinit w .valid s).st.r = Render.zero := by
  unfold render_deinit at h ⊢
  simp only [] at h ⊢
  refine (?_ : Ensures (fun t => t.r = Render.zero) _) s () h
  with_reducible repeat' first
    | exact ensures_setR fun _ => rfl
    | refine ensures_bind fun _ => ?_

/-- C7: the flag `has_pipeline` follows the lifecycle.  On a valid context: after
`render_init`, whatever its outcome, it is false; when `render_configure` returns, it is
true (1) if the code is `RENDER_ERROR_NONE` and false (0) otherwise; `render_update`
changes no field of the context; and when `render_destroy_pipeline` or `render_deinit`
return, it is false. -/
theorem has_pipeline_lifecycle (w : World) :
    (∀ (win : Nat) (s : State), (render_init w .valid win s).st.r.has_pipeline = 0) ∧
    (∀ (width height vshader fshader : Nat) (s : State) (code : Int),
      (render_configure w .valid width height vshader fshader s).val = .ret code →
      (code = RENDER_ERROR_NONE →
        (render_configure w .valid width height vshader fshader s).st.r.has_pipeline = 1) ∧
      (code ≠ RENDER_ERROR_NONE →
        (render_configure w .valid width height vshader fshader s).st.r.has_pipeline = 0)) ∧
    (∀ (p : RenderPtr) (s : State), (render_update w p s).st.r = s.r) ∧
    (∀ s : State, (render_destroy_pipeline w .valid s).val = .ret () →
      (render_destroy_pipeline w .valid s).st.r.has_pipeline = 0) ∧
    (∀ s : State, (render_deinit w .valid s).val = .ret () →
      (render_deinit w .valid s).st.r.has_pipeline = 0) := by
  refine ⟨?_, ?_, ?_, ?_, ?_⟩
  · intro win s
    have := congrArg Render.has_pipeline (render_init_erase w win s)
    exact this
  · intro width height vshader fshader s code h
    rw [render_configure_eq_device] at h ⊢
    rcases chkerr_ret h with ⟨h1, h2⟩ | ⟨h1, h2⟩
    · rw [chkerr_of_err h1 h2]
      exact ⟨fun h0 => absurd h0 h2, fun _ => configure_before_device_flag w s code h1⟩
    · rw [chkerr_of_zero h1]
      exact configure_from_device_flag w vshader fshader _
        (configure_before_device_flag w s 0 h1) code h2
  · intro p s
    exact keeps_field (render_update_foot w p) (fun r => r) (fun _ => rfl) s
  · intro s h
    exact render_destroy_pipeline_clears w s h
  · intro s h
    rw [render_deinit_zeroes w s h]
    rfl

set_option maxRecDepth 1000000 in
/-- Witness for C7 in `goodWorld`: a successful `render_configure` sets the flag, and
`render_destroy_pipeline` and `render_deinit` clear it. -/
theorem has_pipeline_lifecycle_witness :
    (render_configure goodWorld .valid 640 480 1 2 initState).val = .ret RENDER_ERROR_NONE ∧
    (render_configure goodWorld .valid 640 480 1 2 initState).st.r.has_pipeline = 1 ∧
    (render_destroy_pipeline goodWorld .valid configuredState).st.r.has_pipeline = 0 ∧
    (render_deinit goodWorld .valid configuredState).st.r.has_pipeline = 0 :=
  ⟨by decide,
   ((has_pipeline_lifecycle goodWorld).2.1 640 480 1 2 initState 0 (by decide)).1 rfl,
   (has_pipeline_lifecycle goodWorld).2.2.2.1 configuredState (by decide),
   (has_pipeline_lifecycle goodWorld).2.2.2.2 configuredState (by decide)⟩


/-! ## C10: selection of the queue families -/

/-- What `last_match` computes: the start value when no index of the range matches,
and otherwise the greatest matching index of the range. -/
theorem last_match_spec (p : Nat → Bool) :
    ∀ (n i d : Nat),
      (last_match p n i d = d ∧ ∀ j, i ≤ j → j < i + n → p j = false) ∨
      (i ≤ last_match p n i d ∧ last_match p n i d < i + n ∧
        p (last_match p n i d) = true ∧
        ∀ j, i ≤ j → j < i + n → p j = true → j ≤ last_match p n i d)
  | 0, i, d => Or.inl ⟨rfl, fun j h1 h2 => absurd h2 (by omega)⟩
  | n + 1, i, d => by
    unfold last_match
    rcases last_match_spec p n (i + 1) (if p i then i else d) with ⟨h1, h2⟩ | ⟨h1, h2, h3, h4⟩
    · by_cases hp : p i = true
      · right
        have e : (if p i = true then i else d) = i := by simp [hp]
        rw [h1, e]
        refine ⟨le_refl _, by omega, hp, fun j hj1 hj2 hj3 => ?_⟩
        by_cases hji : j = i
        · omega
        · have := h2 j (by omega) (by omega)
          rw [this] at hj3
          cases hj3
      · left
        have e : (if p i = true then i else d) = d := by simp [hp]
        rw [h1, e]
        refine ⟨rfl, fun j hj1 hj2 => ?_⟩
        by_cases hji : j = i
        · subst hji
          simpa using hp
        · exact h2 j (by omega) (by omega)
    · right
      refine ⟨by omega, by omega, h3, fun j hj1 hj2 hj3 => ?_⟩
      by_cases hji : j = i
      · omega
      · exact h4 j (by omega) (by omega) hj3

theorem last_match_succ (p : Nat → Bool) (n i d : Nat) :
    last_match p (n + 1) i d = last_match p n (i + 1) (if p i then i else d) := rfl

theorem last_match_congr (p q : Nat → Bool) :
    ∀ (n i d : Nat), (∀ j, i ≤ j → j < i + n → p j = q j) →
      last_match p n i d = last_match q n i d
  | 0, _, _, _ => rfl
  | n + 1, i, d, h => by
    unfold last_match
    rw [h i (le_refl _) (by omega)]
    exact last_match_congr p q n (i + 1) _ fun j h1 h2 => h j (by omega) (by omega)

theorem deref_bind {α β : Type} (p : Nat) (xs : List α) (i : Nat) (d : α) (k : α → M β)
    (s : State) :
    (deref p xs i d >>= k) s = if p = 0 then ⟨.nullDeref, s⟩ else k (xs.getD i d) s := by
  rw [bind_apply]
  unfold deref
  by_cases h : p = 0
  · simp only [h, if_true]
  · simp only [h, if_false]

theorem phys_device_bind {β : Type} (k : Nat → M β) (s : State) :
    (phys_device >>= k) s = if s.r.phys_devices = 0 then ⟨.nullDeref, s⟩
      else k (s.mem.phys_devices.getD s.r.phys_id 0) s := by
  rw [bind_apply]
  unfold phys_device
  rw [getS_bind]
  unfold deref
  by_cases h : s.r.phys_devices = 0
  · simp only [h, if_true]
  · simp only [h, if_false]

/-- One iteration of the loop of `get_present_and_graphics_indices`, when the entry is
resolved, the arrays exist and the query succeeds: it makes the query for family `i` and
overwrites each index when the family matches. -/
theorem queue_index_step_ok (w : World) (i : Nat) (s : State)
    (hfn : s.r.fn .vkGetPhysicalDeviceSurfaceSupportKHR ≠ 0)
    (hqp : s.r.queue_props ≠ 0) (hpd : s.r.phys_devices ≠ 0)
    (hw : ∀ t c, c.op = .vk .vkGetPhysicalDeviceSurfaceSupportKHR →
      (w t c).result = VK_SUCCESS) :
    ∃ e : Event,
      e.call = { op := .vk .vkGetPhysicalDeviceSurfaceSupportKHR,
                 args := [s.mem.phys_devices.getD s.r.phys_id 0, i, s.r.surface] } ∧
      (queue_index_step w i s).val = .ret 0 ∧
      (queue_index_step w i s).st.mem = s.mem ∧
      (queue_index_step w i s).st.trace = s.trace ++ [e] ∧
      (queue_index_step w i s).st.r =
        { s.r with
          queue_index_graphics :=
            if is_graphics_family s.mem.queue_props i then i else s.r.queue_index_graphics
          queue_index_present :=
            if present_from s.mem.queue_props [e] i i then i else s.r.queue_index_present } := by
  have hres := hw s.trace { op := .vk .vkGetPhysicalDeviceSurfaceSupportKHR, args := [s.mem.phys_devices.getD s.r.phys_id 0, i, s.r.surface] } rfl
  refine ⟨⟨_, w s.trace { op := .vk .vkGetPhysicalDeviceSurfaceSupportKHR, args := [s.mem.phys_devices.getD s.r.phys_id 0, i, s.r.surface] }⟩, rfl, ?_⟩
  unfold queue_index_step is_graphics_family present_from
  simp only [getS_bind, deref_bind, phys_device_bind, hqp, hpd, if_false, ite_bind,
    ite_apply_state, setR_bind, pure_bind_apply, invoke_bind, pure_apply]
  by_cases hc : (s.mem.queue_props.getD i ⟨0, 0⟩).queueCount > 0 <;>
  by_cases hf : Nat.land (s.mem.queue_props.getD i ⟨0, 0⟩).queueFlags VK_QUEUE_GRAPHICS_BIT = 0 <;>
  by_cases hv : (w s.trace { op := .vk .vkGetPhysicalDeviceSurfaceSupportKHR, args := [s.mem.phys_devices.getD s.r.phys_id 0, i, s.r.surface] }).value = 0 <;>
  simp [hc, hf, hv, hfn, hres, -List.getD_eq_getElem?_getD]

theorem present_from_cons_self (props : List QueueFamilyProperties) (e : Event)
    (es : List Event) (i : Nat) :
    present_from props (e :: es) i i = present_from props [e] i i := by
  simp [present_from]

theorem present_from_cons_later (props : List QueueFamilyProperties) (e : Event)
    (es : List Event) (i j : Nat) (h : i + 1 ≤ j) :
    present_from props (e :: es) i j = present_from props es (i + 1) j := by
  have hj : j - i = (j - (i + 1)) + 1 := by omega
  unfold present_from
  rw [hj, List.getD_cons_succ]

/-- The loop of `get_present_and_graphics_indices` over the `n` families from `i` on,
when the entry is resolved, the arrays exist and every query succeeds: it runs to its
end, makes one query per family, in order, and leaves in each index what a scan that
overwrites on every match leaves. -/
theorem queue_index_loop (w : World)
    (hw : ∀ t c, c.op = .vk .vkGetPhysicalDeviceSurfaceSupportKHR →
      (w t c).result = VK_SUCCESS) :
    ∀ (n i : Nat) (s : State), s.r.fn .vkGetPhysicalDeviceSurfaceSupportKHR ≠ 0 →
      s.r.queue_props ≠ 0 → s.r.phys_devices ≠ 0 →
      ∃ es : List Event,
        (for_loop (queue_index_step w) n i s).val = .ret 0 ∧
        (for_loop (queue_index_step w) n i s).st.mem = s.mem ∧
        (for_loop (queue_index_step w) n i s).st.trace = s.trace ++ es ∧
        es.length = n ∧
        (∀ j, j < n → (es.getD j no_event).call
          = { op := .vk .vkGetPhysicalDeviceSurfaceSupportKHR,
              args := [s.mem.phys_devices.getD s.r.phys_id 0, i + j, s.r.surface] }) ∧
        (for_loop (queue_index_step w) n i s).st.r =
          { s.r with
            queue_index_graphics :=
              last_match (is_graphics_family s.mem.queue_props) n i s.r.queue_index_graphics
            queue_index_present :=
              last_match (present_from s.mem.queue_props es i) n i s.r.queue_index_present }
  | 0, i, s, _, _, _ => ⟨[], rfl, rfl, by simp [for_loop, pure_apply], rfl,
      fun j hj => absurd hj (by omega), rfl⟩
  | n + 1, i, s, hfn, hqp, hpd => by
    obtain ⟨e, c0, h0, m0, t0, r0⟩ := queue_index_step_ok w i s hfn hqp hpd hw
    obtain ⟨es, e1, e2, e3, e4, e5, e6⟩ :=
      queue_index_loop w hw n (i + 1) (queue_index_step w i s).st
        (by rw [r0]; exact hfn) (by rw [r0]; exact hqp) (by rw [r0]; exact hpd)
    unfold for_loop
    rw [chkerr_of_zero h0]
    refine ⟨e :: es, e1, e2.trans m0, ?_, ?_, ?_, ?_⟩
    · rw [e3, t0]
      simp only [List.append_assoc, List.singleton_append]
    · simp only [List.length_cons, e4]
    · intro j hj
      cases j with
      | zero => exact c0
      | succ j =>
        rw [List.getD_cons_succ, e5 j (by omega), m0, r0]
        simp only [Nat.add_assoc, Nat.add_comm 1 j]
    · rw [e6, m0, r0]
      simp only [last_match_succ, present_from_cons_self]
      rw [last_match_congr (present_from s.mem.queue_props (e :: es) i)
        (present_from s.mem.queue_props es (i + 1)) n (i + 1) _
        (fun j h1 _ => present_from_cons_later _ _ _ _ _ h1)]

/-- C10: queue-family selection is last-match-wins.  With the present-support entry
resolved, the property and device arrays present, and every present-support query
succeeding, `get_present_and_graphics_indices` returns `RENDER_ERROR_NONE` after exactly
one query per family, in family order.  If some family has queues and the graphics bit,
`queue_index_graphics` ends as the greatest such index; if some family has queues and its
query answered "supported", `queue_index_present` ends as the greatest such index; an
index with no matching family keeps its previous value.  Each index is the result of its
own scan: the graphics index is computed from the property array alone, the present index
from the queue counts and the answers alone. -/
theorem queue_family_selection (w : World) (s : State)
    (hfn : s.r.fn .vkGetPhysicalDeviceSurfaceSupportKHR ≠ 0)
    (hqp : s.r.queue_props ≠ 0) (hpd : s.r.phys_devices ≠ 0)
    (hw : ∀ t c, c.op = .vk .vkGetPhysicalDeviceSurfaceSupportKHR →
      (w t c).result = VK_SUCCESS) :
    ∃ es : List Event,
      (get_present_and_graphics_indices w s).val = .ret RENDER_ERROR_NONE ∧
      (get_present_and_graphics_indices w s).st.trace = s.trace ++ es ∧
      es.length = s.r.n_queue_props ∧
      (∀ j, j < s.r.n_queue_props → (es.getD j no_event).call
        = { op := .vk .vkGetPhysicalDeviceSurfaceSupportKHR,
            args := [s.mem.phys_devices.getD s.r.phys_id 0, j, s.r.surface] }) ∧
      ((∃ j, j < s.r.n_queue_props ∧ is_graphics_family s.mem.queue_props j = true) →
        (get_present_and_graphics_indices w s).st.r.queue_index_graphics < s.r.n_queue_props ∧
        is_graphics_family s.mem.queue_props
          (get_present_and_graphics_indices w s).st.r.queue_index_graphics = true ∧
        ∀ j, j < s.r.n_queue_props → is_graphics_family s.mem.queue_props j = true →
          j ≤ (get_present_and_graphics_indices w s).st.r.queue_index_graphics) ∧
      ((∃ j, j < s.r.n_queue_props ∧ is_present_family s.mem.queue_props es j = true) →
        (get_present_and_graphics_indices w s).st.r.queue_index_present < s.r.n_queue_props ∧
        is_present_family s.mem.queue_props es
          (get_present_and_graphics_indices w s).st.r.queue_index_present = true ∧
        ∀ j, j < s.r.n_queue_props → is_present_family s.mem.queue_props es j = true →
          j ≤ (get_present_and_graphics_indices w s).st.r.queue_index_present) ∧
      (get_present_and_graphics_indices w s).st.r.queue_index_graphics
        = last_match (is_graphics_family s.mem.queue_props) s.r.n_queue_props 0
            s.r.queue_index_graphics ∧
      (get_present_and_graphics_indices w s).st.r.queue_index_present
        = last_match (is_present_family s.mem.queue_props es) s.r.n_queue_props 0
            s.r.queue_index_present := by
  obtain ⟨es, e1, -, e3, e4, e5, e6⟩ := queue_index_loop w hw s.r.n_queue_props 0 s hfn hqp hpd
  have hrun : get_present_and_graphics_indices w s
      = for_loop (queue_index_step w) s.r.n_queue_props 0 s := by
    unfold get_present_and_graphics_indices
    rw [getR_bind, chkerr_pure_zero_right]
  have hpf : present_from s.mem.queue_props es 0 = is_present_family s.mem.queue_props es :=
    rfl
  rw [hrun]
  refine ⟨es, e1, e3, e4, ?_, ?_, ?_, ?_, ?_⟩
  any_goals rw [e6]
  any_goals rfl
  · intro j hj
    rw [e5 j hj, Nat.zero_add]
  · rintro ⟨j, hj, hg⟩
    rcases last_match_spec (is_graphics_family s.mem.queue_props) s.r.n_queue_props 0
      s.r.queue_index_graphics with ⟨-, h2⟩ | ⟨-, h2, h3, h4⟩
    · rw [h2 j (Nat.zero_le _) (by omega)] at hg
      cases hg
    · rw [Nat.zero_add] at h2
      exact ⟨h2, h3, fun k hk hkg => h4 k (Nat.zero_le _) (by omega) hkg⟩
  · rintro ⟨j, hj, hg⟩
    show _ ∧ _ ∧ _
    rcases last_match_spec (is_present_family s.mem.queue_props es) s.r.n_queue_props 0
      s.r.queue_index_present with ⟨-, h2⟩ | ⟨-, h2, h3, h4⟩
    · rw [h2 j (Nat.zero_le _) (by omega)] at hg
      cases hg
    · rw [Nat.zero_add] at h2
      exact ⟨h2, h3, fun k hk hkg => h4 k (Nat.zero_le _) (by omega) hkg⟩

set_option maxRecDepth 1000000 in
/-- Witness for C10 in `mixedQueueWorld`: families 0 and 1 have the graphics bit and
present is supported on families 0 and 2, so the graphics index ends as 1 and the present
index as 2. -/
theorem queue_family_selection_witness :
    (get_present_and_graphics_indices mixedQueueWorld queueState).val
      = .ret RENDER_ERROR_NONE ∧
    (get_present_and_graphics_indices mixedQueueWorld queueState).st.r.queue_index_graphics
      = 1 ∧
    (get_present_and_graphics_indices mixedQueueWorld queueState).st.r.queue_index_present
      = 2 := by
  obtain ⟨es, h1, h2, -, -, -, -, h7, h8⟩ :=
    queue_family_selection mixedQueueWorld queueState (by decide) (by decide) (by decide)
      (fun t c h => by simp only [mixedQueueWorld, h])
  have hes : es = (get_present_and_graphics_indices mixedQueueWorld queueState).st.trace.drop
      queueState.trace.length := by
    rw [h2, List.drop_left]
  subst hes
  exact ⟨h1, h7.trans (by decide), h8.trans (by decide)⟩


/-! ## C5: the queue indices must be equal -/

theorem configure_before_device_foot (w : World) :
    Keeps (Frame.foot erase_pipeline configure_before_device_ops)
      (configure_before_device w) := by
  unfold configure_before_device
  with_reducible repeat' first
    | exact keeps_pure _ _
    | refine keeps_foot_mono ?_ ?_ (render_destroy_pipeline_foot w _)
    | refine keeps_foot_mono ?_ ?_ (get_queue_props_foot w)
    | refine keeps_foot_mono ?_ ?_ (get_present_and_graphics_indices_foot w)
    | refine keeps_bind ?_ (fun _ => ?_)
    | refine keeps_chkerr ?_ ?_
    | refine keeps_foot_setR ?_
  all_goals first | (intro _; rfl) | (intro _ _; rfl) | decide | assumption | (intro _; exact rfl)

/-- With different queue indices stored, `create_device` returns
`RENDER_ERROR_VULKAN_QUEUE_INDEX_MISMATCH` and does nothing else. -/
theorem create_device_mismatch (w : World) (s : State)
    (h : s.r.queue_index_present ≠ s.r.queue_index_graphics) :
    create_device w s = ⟨.ret RENDER_ERROR_VULKAN_QUEUE_INDEX_MISMATCH, s⟩ := by
  unfold create_device
  rw [getR_bind]
  simp only [h, ne_eq, not_false_eq_true, if_true]
  rfl

/-- C5: when the steps of `render_configure` before `create_device` succeed and leave a
present index different from the graphics index, `render_configure` returns
`RENDER_ERROR_VULKAN_QUEUE_INDEX_MISMATCH` and the calls it made include no
`vkCreateDevice`. -/
theorem render_configure_queue_index_mismatch (w : World)
    (width height vshader fshader : Nat) (s : State)
    (h : (configure_before_device w s).val = .ret RENDER_ERROR_NONE)
    (hd : (configure_before_device w s).st.r.queue_index_present
      ≠ (configure_before_device w s).st.r.queue_index_graphics) :
    (render_configure w .valid width height vshader fshader s).val
      = .ret RENDER_ERROR_VULKAN_QUEUE_INDEX_MISMATCH ∧
    ∃ es, (render_configure w .valid width height vshader fshader s).st.trace
        = s.trace ++ es ∧
      ∀ e ∈ es, e.call.op ≠ .vk .vkCreateDevice := by
  have hrun : render_configure w .valid width height vshader fshader s
      = ⟨.ret RENDER_ERROR_VULKAN_QUEUE_INDEX_MISMATCH, (configure_before_device w s).st⟩ := by
    rw [render_configure_eq_device, chkerr_of_zero h]
    unfold configure_from_device
    rw [chkerr_of_err (congrArg Res.val (create_device_mismatch w _ hd)) (by decide),
      create_device_mismatch w _ hd]
  rw [hrun]
  obtain ⟨es, h1, h2⟩ := keeps_calls (configure_before_device_foot w) s
  refine ⟨rfl, es, h1, fun e he hop => ?_⟩
  have := h2 e he
  rw [hop] at this
  revert this
  decide

set_option maxRecDepth 1000000 in
/-- Witness for C5 in `mixedQueueWorld`, where the graphics index is 1 and the present
index is 2. -/
theorem render_configure_queue_index_mismatch_witness :
    (render_configure mixedQueueWorld .valid 640 480 1 2 mixedInitState).val
      = .ret RENDER_ERROR_VULKAN_QUEUE_INDEX_MISMATCH ∧
    created .vkCreateDevice
      (render_configure mixedQueueWorld .valid 640 480 1 2 mixedInitState).st.trace = 0 :=
  ⟨(render_configure_queue_index_mismatch mixedQueueWorld 640 480 1 2 mixedInitState
      (by decide) (by decide)).1, by decide⟩


/-! ## C4: the length of the shader files -/

theorem configure_before_pipeline_foot (w : World) :
    Keeps (Frame.foot erase_pipeline configure_before_pipeline_ops)
      (configure_before_pipeline w) := by
  unfold configure_before_pipeline
  with_reducible repeat' first
    | exact keeps_pure _ _
    | refine keeps_foot_mono ?_ ?_ (render_destroy_pipeline_foot w _)
    | refine keeps_foot_mono ?_ ?_ (get_queue_props_foot w)
    | refine keeps_foot_mono ?_ ?_ (get_present_and_graphics_indices_foot w)
    | refine keeps_foot_mono ?_ ?_ (create_device_foot w)
    | refine keeps_foot_mono ?_ ?_ (load_device_functions_foot w)
    | refine keeps_foot_mono ?_ ?_ (get_surface_format_foot w)
    | refine keeps_foot_mono ?_ ?_ (create_swapchain_foot w)
    | refine keeps_bind ?_ (fun _ => ?_)
    | refine keeps_chkerr ?_ ?_
    | refine keeps_foot_setR ?_
  all_goals first | (intro _; rfl) | (intro _ _; rfl) | decide | assumption | (intro _; exact rfl)

/-- The run of `render_configure` on a valid context is the steps before
`create_pipeline`, then `create_pipeline`, then the steps after it. -/
theorem render_configure_eq_pipeline (w : World) (width height vshader fshader : Nat) :
    render_configure w .valid width height vshader fshader
      = chkerr (configure_before_pipeline w)
          (chkerr (create_pipeline w vshader fshader) (configure_after_pipeline w)) := by
  unfold render_configure configure_before_pipeline configure_after_pipeline
  simp only [chkerr_bind_left, chkerr_assoc, chkerr_pure_zero_left]

theorem chkerr_out_apply {β : Type} (x : M (Int × β)) (k : β → M Int) (s : State) :
    chkerr_out x k s = match (x s).val with
      | .ret e => if e.1 ≠ 0 then ⟨.ret e.1, (x s).st⟩ else k e.2 (x s).st
      | .nullCall f => ⟨.nullCall f, (x s).st⟩
      | .nullDeref => ⟨.nullDeref, (x s).st⟩ := by
  show (x >>= fun res => if res.1 ≠ 0 then pure res.1 else k res.2) s = _
  rw [bind_apply]
  cases (x s).val <;> simp only []
  split <;> rfl

theorem chkerr_out_of_err {β : Type} {x : M (Int × β)} {k : β → M Int} {s : State}
    {e : Int} {b : β} (h : (x s).val = .ret (e, b)) (he : e ≠ 0) :
    chkerr_out x k s = ⟨.ret e, (x s).st⟩ := by
  rw [chkerr_out_apply, h]
  simp only [he, ne_eq, not_false_eq_true, if_true]

theorem chkerr_out_of_zero {β : Type} {x : M (Int × β)} {k : β → M Int} {s : State}
    {b : β} (h : (x s).val = .ret (0, b)) :
    chkerr_out x k s = k b (x s).st := by
  rw [chkerr_out_apply, h]
  rfl

/-- A file that opens and whose reported length is not a multiple of 4 makes
`read_shader` return `RENDER_ERROR_VULKAN_SHADER_READ`. -/
theorem read_shader_bad_length (w : World) (filename : Nat) (s : State)
    (ho : (file_opened w s.trace filename).value ≠ 0)
    (hl : Int.tmod (file_length w s.trace filename) 4 ≠ 0) :
    (read_shader w filename s).val = .ret (RENDER_ERROR_VULKAN_SHADER_READ, ⟨0, 0, []⟩) := by
  unfold file_opened at ho
  unfold file_length file_opened at hl
  unfold read_shader
  simp only [extcall_bind, ho, if_false]
  simp only [] at hl
  simp only [hl, ne_eq, not_false_eq_true, if_true]
  rfl

/-- With a shader file that opens and has a length that is not a multiple of 4 (the
vertex file, or the fragment file after the vertex file was read), `create_pipeline`
returns `RENDER_ERROR_VULKAN_SHADER_READ` having called nothing but the file functions
of `read_shader`. -/
theorem create_pipeline_bad_length (w : World) (vshader fshader : Nat) (s : State)
    (hbad :
      ((file_opened w s.trace vshader).value ≠ 0 ∧
        Int.tmod (file_length w s.trace vshader) 4 ≠ 0) ∨
      ((∃ src, (read_shader w vshader s).val = .ret (RENDER_ERROR_NONE, src)) ∧
        (file_opened w (read_shader w vshader s).st.trace fshader).value ≠ 0 ∧
        Int.tmod (file_length w (read_shader w vshader s).st.trace fshader) 4 ≠ 0)) :
    (create_pipeline w vshader fshader s).val = .ret RENDER_ERROR_VULKAN_SHADER_READ ∧
    ∃ es, (create_pipeline w vshader fshader s).st.trace = s.trace ++ es ∧
      ∀ e ∈ es, e.call.op ∈ read_shader_ops := by
  unfold create_pipeline
  rcases hbad with ⟨ho, hl⟩ | ⟨⟨src, hv⟩, ho, hl⟩
  · rw [chkerr_out_of_err (read_shader_bad_length w vshader s ho hl) (by decide)]
    exact ⟨rfl, keeps_calls (read_shader_foot w vshader) s⟩
  · rw [chkerr_out_of_zero hv,
      chkerr_out_of_err (read_shader_bad_length w fshader _ ho hl) (by decide)]
    refine ⟨rfl, ?_⟩
    obtain ⟨es1, t1, c1⟩ := keeps_calls (read_shader_foot w vshader) s
    obtain ⟨es2, t2, c2⟩ := keeps_calls (read_shader_foot w fshader) (read_shader w vshader s).st
    refine ⟨es1 ++ es2, ?_, ?_⟩
    · show (read_shader w fshader (read_shader w vshader s).st).st.trace = _
      rw [t2, t1, List.append_assoc]
    · intro e he
      rcases List.mem_append.mp he with h | h
      · exact c1 e h
      · exact c2 e h

/-- C4: when the steps of `render_configure` before `create_pipeline` succeed, and either
the vertex file opens and has a length that is not a multiple of 4, or the vertex file is
read and the fragment file opens and has a length that is not a multiple of 4, then
`render_configure` returns `RENDER_ERROR_VULKAN_SHADER_READ` and the calls it made include
no `vkCreateShaderModule`. -/
theorem render_configure_shader_length (w : World) (width height vshader fshader : Nat)
    (s : State)
    (h : (configure_before_pipeline w s).val = .ret RENDER_ERROR_NONE)
    (hbad :
      ((file_opened w (configure_before_pipeline w s).st.trace vshader).value ≠ 0 ∧
        Int.tmod (file_length w (configure_before_pipeline w s).st.trace vshader) 4 ≠ 0) ∨
      ((∃ src, (read_shader w vshader (configure_before_pipeline w s).st).val
          = .ret (RENDER_ERROR_NONE, src)) ∧
        (file_opened w (read_shader w vshader (configure_before_pipeline w s).st).st.trace
          fshader).value ≠ 0 ∧
        Int.tmod (file_length w
          (read_shader w vshader (configure_before_pipeline w s).st).st.trace fshader) 4
          ≠ 0)) :
    (render_configure w .valid width height vshader fshader s).val
      = .ret RENDER_ERROR_VULKAN_SHADER_READ ∧
    ∃ es, (render_configure w .valid width height vshader fshader s).st.trace
        = s.trace ++ es ∧
      ∀ e ∈ es, e.call.op ≠ .vk .vkCreateShaderModule := by
  obtain ⟨hv, es2, t2, c2⟩ := create_pipeline_bad_length w vshader fshader _ hbad
  obtain ⟨es1, t1, c1⟩ := keeps_calls (configure_before_pipeline_foot w) s
  rw [render_configure_eq_pipeline, chkerr_of_zero h, chkerr_of_err hv (by decide)]
  refine ⟨rfl, es1 ++ es2, ?_, ?_⟩
  · show (create_pipeline w vshader fshader (configure_before_pipeline w s).st).st.trace = _
    rw [t2, t1, List.append_assoc]
  · intro e he hop
    rcases List.mem_append.mp he with h | h
    · have := c1 e h
      rw [hop] at this
      revert this
      decide
    · have := c2 e h
      rw [hop] at this
      revert this
      decide

set_option maxRecDepth 1000000 in
/-- Witness for C4: a vertex file of 6 bytes in `oddShaderWorld`, and a vertex file of 8
bytes with a fragment file of 6 bytes in `oddFragmentWorld`. -/
theorem render_configure_shader_length_witness :
    (render_configure oddShaderWorld .valid 640 480 1 2 initState).val
      = .ret RENDER_ERROR_VULKAN_SHADER_READ ∧
    (render_configure oddFragmentWorld .valid 640 480 1 2 initState).val
      = .ret RENDER_ERROR_VULKAN_SHADER_READ ∧
    created .vkCreateShaderModule
      (render_configure oddFragmentWorld .valid 640 480 1 2 initState).st.trace = 0 :=
  ⟨(render_configure_shader_length oddShaderWorld 640 480 1 2 initState (by decide)
      (Or.inl (by decide))).1,
   (render_configure_shader_length oddFragmentWorld 640 480 1 2 initState (by decide)
      (Or.inr ⟨⟨⟨1088, 8, [3, 2, 35, 7, 0, 0, 1, 0]⟩, by decide⟩, by decide⟩)).1,
   by decide⟩


/-! ## C11: the steps of `render_update` -/

/-- C11: with its four entries resolved, `render_update` on a valid context calls acquire,
submit, present and wait-idle in that order and stops at the first of the first three
that fails: a failed acquire returns `RENDER_ERROR_VULKAN_ACQUIRE_IMAGE` after that one
call; a failed submit returns `RENDER_ERROR_VULKAN_QUEUE_SUBMIT` after two calls; a failed
present returns `RENDER_ERROR_VULKAN_QUEUE_PRESENT` after three calls; when all three
succeed it returns `RENDER_ERROR_NONE` after the fourth call, the wait-idle on the present
queue; so it returns `RENDER_ERROR_NONE` exactly when all three succeed. -/
theorem render_update_steps (w : World) (s : State)
    (h1 : s.r.fn .vkAcquireNextImageKHR ≠ 0) (h2 : s.r.fn .vkQueueSubmit ≠ 0)
    (h3 : s.r.fn .vkQueuePresentKHR ≠ 0) (h4 : s.r.fn .vkQueueWaitIdle ≠ 0) :
    (((update_events w s).getD 0 no_event).reply.result ≠ VK_SUCCESS →
      (render_update w .valid s).val = .ret RENDER_ERROR_VULKAN_ACQUIRE_IMAGE ∧
      (render_update w .valid s).st.trace = s.trace ++ (update_events w s).take 1) ∧
    (((update_events w s).getD 0 no_event).reply.result = VK_SUCCESS →
      ((update_events w s).getD 1 no_event).reply.result ≠ VK_SUCCESS →
      (render_update w .valid s).val = .ret RENDER_ERROR_VULKAN_QUEUE_SUBMIT ∧
      (render_update w .valid s).st.trace = s.trace ++ (update_events w s).take 2) ∧
    (((update_events w s).getD 0 no_event).reply.result = VK_SUCCESS →
      ((update_events w s).getD 1 no_event).reply.result = VK_SUCCESS →
      ((update_events w s).getD 2 no_event).reply.result ≠ VK_SUCCESS →
      (render_update w .valid s).val = .ret RENDER_ERROR_VULKAN_QUEUE_PRESENT ∧
      (render_update w .valid s).st.trace = s.trace ++ (update_events w s).take 3) ∧
    (((update_events w s).getD 0 no_event).reply.result = VK_SUCCESS →
      ((update_events w s).getD 1 no_event).reply.result = VK_SUCCESS →
      ((update_events w s).getD 2 no_event).reply.result = VK_SUCCESS →
      (render_update w .valid s).val = .ret RENDER_ERROR_NONE ∧
      (render_update w .valid s).st.trace = s.trace ++ update_events w s) ∧
    ((render_update w .valid s).val = .ret RENDER_ERROR_NONE ↔
      ((update_events w s).getD 0 no_event).reply.result = VK_SUCCESS ∧
      ((update_events w s).getD 1 no_event).reply.result = VK_SUCCESS ∧
      ((update_events w s).getD 2 no_event).reply.result = VK_SUCCESS) := by
  have hrun : render_update w .valid s =
      if (w s.trace (acquire_call s)).result ≠ VK_SUCCESS then
        ⟨.ret RENDER_ERROR_VULKAN_ACQUIRE_IMAGE,
          { s with trace := s.trace ++ (update_events w s).take 1 }⟩
      else if ((update_events w s).getD 1 no_event).reply.result ≠ VK_SUCCESS then
        ⟨.ret RENDER_ERROR_VULKAN_QUEUE_SUBMIT,
          { s with trace := s.trace ++ (update_events w s).take 2 }⟩
      else if ((update_events w s).getD 2 no_event).reply.result ≠ VK_SUCCESS then
        ⟨.ret RENDER_ERROR_VULKAN_QUEUE_PRESENT,
          { s with trace := s.trace ++ (update_events w s).take 3 }⟩
      else ⟨.ret RENDER_ERROR_NONE, { s with trace := s.trace ++ update_events w s }⟩ := by
    unfold render_update
    simp only [getS_bind, invoke_bind, h1, h2, h3, h4, if_false, ite_bind, ite_apply_state,
      pure_bind_apply, pure_apply]
    simp only [update_events, acquire_call, submit_call, present_call, wait_idle_call,
      List.getD_cons_zero, List.getD_cons_succ, List.take_succ_cons, List.take_zero,
      List.append_assoc, List.singleton_append, List.cons_append, List.nil_append]
  have h0 : ((update_events w s).getD 0 no_event).reply.result
      = (w s.trace (acquire_call s)).result := rfl
  rw [hrun, h0]
  refine ⟨?_, ?_, ?_, ?_, ?_⟩
  · intro a
    rw [if_pos a]
    exact ⟨rfl, rfl⟩
  · intro a b
    rw [if_neg (not_not.mpr a), if_pos b]
    exact ⟨rfl, rfl⟩
  · intro a b c
    rw [if_neg (not_not.mpr a), if_neg (not_not.mpr b), if_pos c]
    exact ⟨rfl, rfl⟩
  · intro a b c
    rw [if_neg (not_not.mpr a), if_neg (not_not.mpr b), if_neg (not_not.mpr c)]
    exact ⟨rfl, rfl⟩
  · constructor
    · intro h
      by_cases a : (w s.trace (acquire_call s)).result = VK_SUCCESS
      · by_cases b : ((update_events w s).getD 1 no_event).reply.result = VK_SUCCESS
        · by_cases c : ((update_events w s).getD 2 no_event).reply.result = VK_SUCCESS
          · exact ⟨a, b, c⟩
          · rw [if_neg (not_not.mpr a), if_neg (not_not.mpr b), if_pos c] at h
            cases h
        · rw [if_neg (not_not.mpr a), if_pos b] at h
          cases h
      · rw [if_pos a] at h
        cases h
    · rintro ⟨a, b, c⟩
      rw [if_neg (not_not.mpr a), if_neg (not_not.mpr b), if_neg (not_not.mpr c)]

set_option maxRecDepth 1000000 in
/-- Witness for C11 on the configured context of `goodWorld`, where the three calls
succeed. -/
theorem render_update_steps_witness :
    (render_update goodWorld .valid configuredState).val = .ret RENDER_ERROR_NONE ∧
    (render_update goodWorld .valid configuredState).st.trace
      = configuredState.trace ++ update_events goodWorld configuredState :=
  (render_update_steps goodWorld configuredState (by decide) (by decide) (by decide)
    (by decide)).2.2.2.1 (by decide) (by decide) (by decide)


/-! ## C12: `render_configure` stops at the first step that fails -/

/-- A chain of `chkerr` stops at the first step returning a non-zero code, with that
code and in the state that step ended in. -/
theorem chkerr_chain_fail (fin : M Int) :
    ∀ (steps : List (M Int)) (k : Nat) (s : State) (c : Int),
      (∀ i, i < k → (steps.getD i (pure 0) (after_steps (steps.take i) s)).val = .ret 0) →
      (steps.getD k (pure 0) (after_steps (steps.take k) s)).val = .ret c → c ≠ 0 →
      steps.foldr chkerr fin s
        = ⟨.ret c, (steps.getD k (pure 0) (after_steps (steps.take k) s)).st⟩
  | [], k, s, c, _, hk, hc => by
    cases hk
    exact absurd rfl hc
  | m :: ms, 0, s, c, _, hk, hc => by
    exact chkerr_of_err hk hc
  | m :: ms, k + 1, s, c, hz, hk, hc => by
    have h0 : (m s).val = .ret 0 := hz 0 (Nat.succ_pos k)
    show chkerr m (ms.foldr chkerr fin) s = _
    rw [chkerr_of_zero h0]
    exact chkerr_chain_fail fin ms k (m s).st c
      (fun i hi => hz (i + 1) (Nat.succ_lt_succ hi)) hk hc

/-- A chain of `chkerr` whose steps all return 0 is the run of its last part in the
state after the steps. -/
theorem chkerr_chain_zero (fin : M Int) :
    ∀ (steps : List (M Int)) (s : State),
      (∀ i, i < steps.length →
        (steps.getD i (pure 0) (after_steps (steps.take i) s)).val = .ret 0) →
      steps.foldr chkerr fin s = fin (after_steps steps s)
  | [], _, _ => rfl
  | m :: ms, s, hz => by
    have h0 : (m s).val = .ret 0 := hz 0 (Nat.succ_pos _)
    show chkerr m (ms.foldr chkerr fin) s = _
    rw [chkerr_of_zero h0]
    exact chkerr_chain_zero fin ms (m s).st
      (fun i hi => hz (i + 1) (Nat.succ_lt_succ hi))

/-- A chain of `chkerr` that returns 0 had all its steps return 0. -/
theorem chkerr_chain_ret_zero (fin : M Int) :
    ∀ (steps : List (M Int)) (s : State), (steps.foldr chkerr fin s).val = .ret 0 →
      ∀ i, i < steps.length →
        (steps.getD i (pure 0) (after_steps (steps.take i) s)).val = .ret 0
  | [], _, _, i, hi => absurd hi (Nat.not_lt_zero i)
  | m :: ms, s, h, i, hi => by
    obtain ⟨h0, -, e⟩ := chkerr_ret_zero (x := m) (k := ms.foldr chkerr fin) h
    cases i with
    | zero => exact h0
    | succ i =>
      have h2 : (ms.foldr chkerr fin (m s).st).val = .ret 0 := by
        rw [← e]; exact h
      exact chkerr_chain_ret_zero fin ms (m s).st h2 i (Nat.lt_of_succ_lt_succ hi)

/-- The run of `render_configure` on a valid context, when `render_destroy_pipeline`
returns, is the chain of its steps from the start state. -/
theorem render_configure_eq_chain (w : World) (width height vshader fshader : Nat)
    (s : State) (hd : (render_destroy_pipeline w .valid s).val = .ret ()) :
    render_configure w .valid width height vshader fshader s
      = (configure_steps w vshader fshader).foldr chkerr
          (do setR fun r => { r with has_pipeline := 1 }
              pure RENDER_ERROR_NONE) (configure_start w s) := by
  unfold render_configure
  simp only []
  rw [bind_apply, hd]
  rfl

/-- C12: `render_configure` is fail-fast.  On a valid context on which
`render_destroy_pipeline` returns: if the steps before step `k` (of the 13 steps queue
props, queue indices, device, device functions, surface format, swapchain, pipeline,
framebuffers, command pool, command buffers, vertex data, command recording, semaphores)
return 0 and step `k` returns `c ≠ 0`, then `render_configure` returns `c` in the state
step `k` ended in, so that no call of a later step is made; and it returns
`RENDER_ERROR_NONE` exactly when every step returns 0. -/
theorem render_configure_fail_fast (w : World) (width height vshader fshader : Nat)
    (s : State) (hd : (render_destroy_pipeline w .valid s).val = .ret ()) :
    (∀ (k : Nat) (c : Int),
      (∀ i, i < k → (configure_step w vshader fshader s i).val = .ret 0) →
      (configure_step w vshader fshader s k).val = .ret c → c ≠ 0 →
      render_configure w .valid width height vshader fshader s
        = ⟨.ret c, (configure_step w vshader fshader s k).st⟩) ∧
    ((render_configure w .valid width height vshader fshader s).val
        = .ret RENDER_ERROR_NONE ↔
      ∀ i, i < 13 → (configure_step w vshader fshader s i).val = .ret 0) := by
  rw [render_configure_eq_chain w width height vshader fshader s hd]
  refine ⟨fun k c hz hk hc => chkerr_chain_fail _ _ k _ c hz hk hc, ?_, ?_⟩
  · intro h
    exact chkerr_chain_ret_zero _ (configure_steps w vshader fshader) _ h
  · intro h
    rw [chkerr_chain_zero _ (configure_steps w vshader fshader) (configure_start w s) h]
    rfl

set_option maxRecDepth 1000000 in
/-- Witness for C12: in `noCommandPoolWorld` the first eight steps succeed and the ninth,
`create_command_pool`, fails; in `goodWorld` every step succeeds. -/
theorem render_configure_fail_fast_witness :
    render_configure noCommandPoolWorld .valid 640 480 1 2 initState
      = ⟨.ret RENDER_ERROR_VULKAN_COMMAND_POOL,
         (configure_step noCommandPoolWorld 1 2 initState 8).st⟩ ∧
    (render_configure goodWorld .valid 640 480 1 2 initState).val = .ret RENDER_ERROR_NONE :=
  ⟨(render_configure_fail_fast noCommandPoolWorld 640 480 1 2 initState (by decide)).1 8
      RENDER_ERROR_VULKAN_COMMAND_POOL (by decide) (by decide) (by decide),
   (render_configure_fail_fast goodWorld 640 480 1 2 initState (by decide)).2.2
      (by decide)⟩


/-! ## C13: reclaiming after a failed `render_configure` -/

/-- A `render_configure` that returns a non-zero code on a valid context leaves the flag
`has_pipeline` clear. -/
theorem render_configure_failed_flag (w : World) (width height vshader fshader : Nat)
    (s : State) (c : Int)
    (h : (render_configure w .valid width height vshader fshader s).val = .ret c)
    (hc : c ≠ 0) :
    (render_configure w .valid width height vshader fshader s).st.r.has_pipeline = 0 := by
  rw [render_configure_eq_device] at h ⊢
  rcases chkerr_ret h with ⟨h1, -⟩ | ⟨h1, h2⟩
  · rw [chkerr_of_err h1 hc]
    exact configure_before_device_flag w s c h1
  · rw [chkerr_of_zero h1]
    exact (configure_from_device_flag w vshader fshader _
      (configure_before_device_flag w s 0 h1) c h2).2 hc

set_option maxRecDepth 1000000 in
/-- C13 fails on the code.  After a `render_configure` that fails, on a valid context,
`render_destroy_pipeline` does nothing, because the flag `has_pipeline` is only set by a
`render_configure` that succeeds.  In `noSemaphoreWorld`, where `render_configure` fails
in its last step: `render_destroy_pipeline` and then `render_deinit` return, the device
and the swapchain are destroyed, and the two shader modules, the render pass, the
pipeline, the two image views, the two framebuffers, the command pool, the two buffers
and the two memory allocations stay live, and the blocks of the queue properties, the
swapchain images, the image views, the framebuffers and the command buffers are not
freed. -/
theorem render_configure_failure_not_reclaimed :
    (∀ (w : World) (width height vshader fshader : Nat) (s : State) (c : Int),
      (render_configure w .valid width height vshader fshader s).val = .ret c → c ≠ 0 →
      render_destroy_pipeline w .valid
          (render_configure w .valid width height vshader fshader s).st
        = ⟨.ret (), (render_configure w .valid width height vshader fshader s).st⟩) ∧
    (render_configure noSemaphoreWorld .valid 640 480 1 2
        (render_init noSemaphoreWorld .valid 5 State.zero).st).val
      = .ret RENDER_ERROR_VULKAN_SEMAPHORE ∧
    (render_deinit noSemaphoreWorld .valid
        (render_destroy_pipeline noSemaphoreWorld .valid failedConfigureState).st).val
      = .ret () ∧
    live .vkCreateDevice .vkDestroyDevice reclaimedState.trace = 0 ∧
    live .vkCreateSwapchainKHR .vkDestroySwapchainKHR reclaimedState.trace = 0 ∧
    live .vkCreateShaderModule .vkDestroyShaderModule reclaimedState.trace = 2 ∧
    live .vkCreateRenderPass .vkDestroyRenderPass reclaimedState.trace = 1 ∧
    live .vkCreateGraphicsPipelines .vkDestroyPipeline reclaimedState.trace = 1 ∧
    live .vkCreateImageView .vkDestroyImageView reclaimedState.trace = 2 ∧
    live .vkCreateFramebuffer .vkDestroyFramebuffer reclaimedState.trace = 2 ∧
    live .vkCreateCommandPool .vkDestroyCommandPool reclaimedState.trace = 1 ∧
    live .vkCreateBuffer .vkDestroyBuffer reclaimedState.trace = 2 ∧
    live .vkAllocateMemory .vkFreeMemory reclaimedState.trace = 2 ∧
    failedConfigureState.r.queue_props ≠ 0 ∧
    failedConfigureState.r.queue_props ∉ freed reclaimedState.trace ∧
    failedConfigureState.r.swapchain_images ∉ freed reclaimedState.trace ∧
    failedConfigureState.r.image_views ∉ freed reclaimedState.trace ∧
    failedConfigureState.r.framebuffers ∉ freed reclaimedState.trace ∧
    failedConfigureState.r.command_buffers ∉ freed reclaimedState.trace := by
  refine ⟨fun w width height vshader fshader s c h hc =>
    render_destroy_pipeline_noop w .valid _
      (render_configure_failed_flag w width height vshader fshader s c h hc), ?_⟩
  decide

set_option maxRecDepth 1000000 in
/-- Witness for the first part of C13 in `noSemaphoreWorld`. -/
theorem render_configure_failure_not_reclaimed_witness :
    render_destroy_pipeline noSemaphoreWorld .valid failedConfigureState
      = ⟨.ret (), failedConfigureState⟩ :=
  render_configure_failure_not_reclaimed.1 noSemaphoreWorld 640 480 1 2
    (render_init noSemaphoreWorld .valid 5 State.zero).st RENDER_ERROR_VULKAN_SEMAPHORE
    (by decide) (by decide)


/-! ## C15: selection of the memory type -/

/-- What the loop of `get_heap_index` computes from index `i` on: 0 when no type of the
range has one of the bits, and otherwise the lowest index of the range that has. -/
theorem heap_index_from_spec (types : List Nat) (flags : Nat) :
    ∀ (n i : Nat),
      (heap_index_from types flags n i = 0 ∧
        ∀ j, i ≤ j → j < i + n → has_flags types flags j = false) ∨
      (i ≤ heap_index_from types flags n i ∧ heap_index_from types flags n i < i + n ∧
        has_flags types flags (heap_index_from types flags n i) = true ∧
        ∀ j, i ≤ j → j < heap_index_from types flags n i → has_flags types flags j = false)
  | 0, i => Or.inl ⟨rfl, fun j h1 h2 => absurd h2 (by omega)⟩
  | n + 1, i => by
    unfold heap_index_from
    by_cases h : Nat.land (types.getD i 0) flags ≠ 0
    · rw [if_pos h]
      exact Or.inr ⟨le_refl _, by omega, decide_eq_true h,
        fun j h1 h2 => absurd h2 (by omega)⟩
    · rw [if_neg h]
      have hi : has_flags types flags i = false := decide_eq_false h
      rcases heap_index_from_spec types flags n (i + 1) with ⟨h1, h2⟩ | ⟨h1, h2, h3, h4⟩
      · refine Or.inl ⟨h1, fun j hj1 hj2 => ?_⟩
        by_cases e : j = i
        · rw [e]; exact hi
        · exact h2 j (by omega) (by omega)
      · refine Or.inr ⟨by omega, by omega, h3, fun j hj1 hj2 => ?_⟩
        by_cases e : j = i
        · rw [e]; exact hi
        · exact h4 j (by omega) hj2

/-- The loop of `get_heap_index` reads nothing of the table but, for each type, whether
it has one of the bits of `flags`. -/
theorem heap_index_from_congr (t1 t2 : List Nat) (flags : Nat)
    (h : ∀ j, has_flags t1 flags j = has_flags t2 flags j) :
    ∀ (n i : Nat), heap_index_from t1 flags n i = heap_index_from t2 flags n i
  | 0, _ => rfl
  | n + 1, i => by
    unfold heap_index_from
    have hi := h i
    unfold has_flags at hi
    by_cases a : Nat.land (t1.getD i 0) flags ≠ 0
    · have b : Nat.land (t2.getD i 0) flags ≠ 0 := by
        have := hi ▸ (decide_eq_true a)
        exact of_decide_eq_true this
      rw [if_pos a, if_pos b]
    · have b : ¬ Nat.land (t2.getD i 0) flags ≠ 0 := by
        intro b
        have := hi.symm ▸ (decide_eq_true b)
        exact a (of_decide_eq_true this)
      rw [if_neg a, if_neg b]
      exact heap_index_from_congr t1 t2 flags h n (i + 1)

/-- C15: memory-type selection picks the first host-visible type.  With the entry
resolved and the device array present, `get_heap_index` called with the host-visible
flag makes one `vkGetPhysicalDeviceMemoryProperties` query and, when some type of the
reported table has the host-visible bit, returns the lowest index whose flags have it;
the result is the same for two tables that agree, type by type, on the host-visible
bit, whatever their other bits (host-coherent among them) are. -/
theorem get_heap_index_first_host_visible (w : World) (s : State)
    (hfn : s.r.fn .vkGetPhysicalDeviceMemoryProperties ≠ 0) (hpd : s.r.phys_devices ≠ 0) :
    ∃ rep : Reply,
      rep = w s.trace { op := .vk .vkGetPhysicalDeviceMemoryProperties,
                        args := [s.mem.phys_devices.getD s.r.phys_id 0] } ∧
      get_heap_index w VK_MEMORY_PROPERTY_HOST_VISIBLE_BIT s
        = ⟨.ret (heap_index_from rep.values VK_MEMORY_PROPERTY_HOST_VISIBLE_BIT rep.value 0),
           { s with trace := s.trace ++
              [⟨{ op := .vk .vkGetPhysicalDeviceMemoryProperties,
                  args := [s.mem.phys_devices.getD s.r.phys_id 0] }, rep⟩] }⟩ ∧
      ((∃ j, j < rep.value ∧
          has_flags rep.values VK_MEMORY_PROPERTY_HOST_VISIBLE_BIT j = true) →
        heap_index_from rep.values VK_MEMORY_PROPERTY_HOST_VISIBLE_BIT rep.value 0
          < rep.value ∧
        has_flags rep.values VK_MEMORY_PROPERTY_HOST_VISIBLE_BIT
          (heap_index_from rep.values VK_MEMORY_PROPERTY_HOST_VISIBLE_BIT rep.value 0)
          = true ∧
        ∀ j, j < heap_index_from rep.values VK_MEMORY_PROPERTY_HOST_VISIBLE_BIT rep.value 0 →
          has_flags rep.values VK_MEMORY_PROPERTY_HOST_VISIBLE_BIT j = false) ∧
      (∀ types : List Nat,
        (∀ j, has_flags types VK_MEMORY_PROPERTY_HOST_VISIBLE_BIT j
          = has_flags rep.values VK_MEMORY_PROPERTY_HOST_VISIBLE_BIT j) →
        heap_index_from types VK_MEMORY_PROPERTY_HOST_VISIBLE_BIT rep.value 0
          = heap_index_from rep.values VK_MEMORY_PROPERTY_HOST_VISIBLE_BIT rep.value 0) := by
  refine ⟨_, rfl, ?_, ?_, ?_⟩
  · unfold get_heap_index
    simp only [phys_device_bind, hpd, if_false, invoke_bind, hfn, pure_apply]
  · rintro ⟨j, hj, hv⟩
    rcases heap_index_from_spec
      (w s.trace { op := .vk .vkGetPhysicalDeviceMemoryProperties,
                   args := [s.mem.phys_devices.getD s.r.phys_id 0] }).values
      VK_MEMORY_PROPERTY_HOST_VISIBLE_BIT
      (w s.trace { op := .vk .vkGetPhysicalDeviceMemoryProperties,
                   args := [s.mem.phys_devices.getD s.r.phys_id 0] }).value 0
      with ⟨-, h2⟩ | ⟨-, h2, h3, h4⟩
    · rw [h2 j (Nat.zero_le _) (by omega)] at hv
      cases hv
    · rw [Nat.zero_add] at h2
      exact ⟨h2, h3, fun k hk => h4 k (Nat.zero_le _) hk⟩
  · intro types h
    exact heap_index_from_congr _ _ _ h _ _

set_option maxRecDepth 1000000 in
/-- Witness for C15: with the types device-local, host-visible and host-coherent,
host-visible only, the index is 1. -/
theorem get_heap_index_first_host_visible_witness :
    (get_heap_index coherentFirstWorld VK_MEMORY_PROPERTY_HOST_VISIBLE_BIT initState).val
      = .ret 1 := by
  obtain ⟨rep, h1, h2, -, -⟩ :=
    get_heap_index_first_host_visible coherentFirstWorld initState (by decide) (by decide)
  rw [h2, h1]
  decide


/-! ## Frames with an invariant -/

theorem keeps_inv_getR_bind {I : State → Prop} {P : Event → Prop} {β : Type}
    {k : Render → M β} (J : Render → Prop) (hJ : ∀ s, I s → J s.r)
    (h : ∀ r, J r → Keeps (Frame.inv I P) (k r)) : Keeps (Frame.inv I P) (getR >>= k) := by
  intro s hs
  exact h s.r (hJ s hs) s hs

theorem keeps_inv_getS_bind {I : State → Prop} {P : Event → Prop} {β : Type}
    {k : State → M β}
    (h : ∀ s, I s → Keeps (Frame.inv I P) (k s)) : Keeps (Frame.inv I P) (getS >>= k) := by
  intro s hs
  exact h s hs s hs

theorem keeps_inv_setR {I : State → Prop} {P : Event → Prop} {f : Render → Render}
    (h : ∀ s, I s → I { s with r := f s.r }) : Keeps (Frame.inv I P) (setR f) :=
  fun s hs => ⟨h s hs, [], by simp [setR], by simp⟩

theorem keeps_inv_setFn {I : State → Prop} {P : Event → Prop} {f : Fn} {p : Nat}
    (h : ∀ s g, I s → I { s with r := { s.r with fn := g } }) :
    Keeps (Frame.inv I P) (setFn f p) :=
  keeps_inv_setR fun s hs => h s _ hs

theorem keeps_inv_setMem {I : State → Prop} {P : Event → Prop} {f : Arrays → Arrays}
    (h : ∀ s, I s → I { s with mem := f s.mem }) : Keeps (Frame.inv I P) (setMem f) :=
  fun s hs => ⟨h s hs, [], by simp [setMem], by simp⟩

theorem keeps_inv_extcall {I : State → Prop} {P : Event → Prop} {w : World} {c : Call}
    (hI : ∀ s t, I s → I { s with trace := t }) (hP : ∀ rep, P ⟨c, rep⟩) :
    Keeps (Frame.inv I P) (extcall w c) :=
  fun s hs => ⟨hI s _ hs, [⟨c, w s.trace c⟩], rfl, by
    intro e he
    rw [List.mem_singleton] at he
    rw [he]
    exact hP _⟩

theorem keeps_inv_invoke {I : State → Prop} {P : Event → Prop} {w : World} {f : Fn}
    {args : List Nat} {sym : Option Fn} {data : List Nat}
    (hI : ∀ s t, I s → I { s with trace := t })
    (hP : ∀ rep, P ⟨{ op := .vk f, args := args, sym := sym, data := data }, rep⟩) :
    Keeps (Frame.inv I P) (invoke w f args sym data) := by
  intro s
  unfold Librender.invoke
  split
  · exact (Frame.inv I P).refl s
  · exact keeps_inv_extcall hI hP s

/-- A computation with a footprint keeps an invariant of the fields it does not write
and makes only calls of its list. -/
theorem keeps_inv_of_foot {I : State → Prop} {P : Event → Prop} {erase : Render → Render}
    {ops : List Op} {α : Type} {m : M α} (J : Render → Prop)
    (h : Keeps (Frame.foot erase ops) m)
    (hI : ∀ s, I s ↔ J (erase s.r))
    (hP : ∀ e, e.call.op ∈ ops → P e) : Keeps (Frame.inv I P) m := by
  intro s hs
  obtain ⟨h1, es, ht, hp⟩ := h s
  refine ⟨?_, es, ht, fun e he => hP e (hp e he)⟩
  rw [hI, h1, ← hI]
  exact hs

/-- An event of a function that carries no extent shows every extent. -/
theorem extent_event_of_not_mem (ext : Extent2D) (e : Event) (h : e.call.op ∉ extent_ops) :
    extent_event ext e := by
  refine ⟨?_, ?_, ?_, ?_⟩ <;> intro h2 <;> rw [h2] at h <;> exact absurd (by decide) h

/-- A computation with a footprint that neither writes `swap_extent` nor calls a
function that carries an extent keeps the extent. -/
theorem keeps_extent_of_foot {ext : Extent2D} {erase : Render → Render} {ops : List Op}
    {α : Type} {m : M α} (h : Keeps (Frame.foot erase ops) m)
    (he : ∀ r, (erase r).swap_extent = r.swap_extent) (ho : ∀ o ∈ ops, o ∉ extent_ops) :
    Keeps (Frame.inv (fun s => s.r.swap_extent = ext) (extent_event ext)) m := by
  refine keeps_inv_of_foot (fun r => r.swap_extent = ext) h (fun s => ?_)
    (fun e hm => extent_event_of_not_mem ext e (ho _ hm))
  show s.r.swap_extent = ext ↔ (erase s.r).swap_extent = ext
  rw [he]

/-- From `create_pipeline` on, `render_configure` leaves `swap_extent` alone and passes
it as the scissor and the framebuffer size and, converted to `float`, as the viewport. -/
theorem configure_from_pipeline_extent (w : World) (vshader fshader : Nat)
    (ext : Extent2D) :
    Keeps (Frame.inv (fun s => s.r.swap_extent = ext) (extent_event ext))
      (configure_from_pipeline w vshader fshader) := by
  unfold configure_from_pipeline create_pipeline create_shader create_pipeline_layout
    create_render_pass create_framebuffers create_image_view create_framebuffer_step
  with_reducible repeat' first
    | exact keeps_pure _ _
    | exact keeps_getS _
    | exact keeps_getR _
    | exact keeps_deref _ _ _ _ _
    | refine keeps_extent_of_foot (read_shader_foot w _) ?_ ?_
    | refine keeps_extent_of_foot (create_command_pool_foot w) ?_ ?_
    | refine keeps_extent_of_foot (create_command_buffers_foot w) ?_ ?_
    | refine keeps_extent_of_foot (create_vertex_data_foot w) ?_ ?_
    | refine keeps_extent_of_foot (write_buffers_foot w) ?_ ?_
    | refine keeps_extent_of_foot (create_semaphores_foot w) ?_ ?_
    | refine keeps_inv_getR_bind (fun r => r.swap_extent = ext) ?_ (fun _ _ => ?_)
    | refine keeps_inv_getS_bind (fun _ _ => ?_)
    | refine keeps_bind ?_ (fun _ => ?_)
    | refine keeps_ite ?_ ?_
    | refine keeps_chkerr ?_ ?_
    | refine keeps_chkerr_out ?_ (fun _ => ?_)
    | refine keeps_for_loop (fun _ => ?_) _ _
    | refine keeps_inv_setR ?_
    | refine keeps_inv_setMem ?_
    | refine keeps_inv_extcall ?_ ?_
    | refine keeps_inv_invoke ?_ ?_
  all_goals first
    | (intro _; rfl)
    | decide
    | (intro _ h; exact h)
    | (intro _ _ h; exact h)
    | (intro _; exact extent_event_of_not_mem _ _ (by decide))
    | (intro _
       refine ⟨?_, ?_, ?_, ?_⟩ <;> intro h <;> first | (cases h; done) | (clear h; simp_all))

/-- The run of `get_surface_caps`. -/
theorem get_surface_caps_apply (w : World) (s : State) :
    get_surface_caps w s =
      if s.r.phys_devices = 0 then ⟨.nullDeref, s⟩
      else if s.r.fn .vkGetPhysicalDeviceSurfaceCapabilitiesKHR = 0 then
        ⟨.nullCall .vkGetPhysicalDeviceSurfaceCapabilitiesKHR, s⟩
      else if (w s.trace { op := .vk .vkGetPhysicalDeviceSurfaceCapabilitiesKHR,
                           args := [s.mem.phys_devices.getD s.r.phys_id 0, s.r.surface] }).result
                ≠ VK_SUCCESS then
        ⟨.ret (RENDER_ERROR_VULKAN_SURFACE_CAPABILITIES, ⟨⟨0, 0⟩, 0, 0, 0⟩),
         { s with trace := s.trace ++
            [⟨{ op := .vk .vkGetPhysicalDeviceSurfaceCapabilitiesKHR,
                args := [s.mem.phys_devices.getD s.r.phys_id 0, s.r.surface] },
              w s.trace { op := .vk .vkGetPhysicalDeviceSurfaceCapabilitiesKHR,
                          args := [s.mem.phys_devices.getD s.r.phys_id 0, s.r.surface] }⟩] }⟩
      else
        ⟨.ret (RENDER_ERROR_NONE,
            (w s.trace { op := .vk .vkGetPhysicalDeviceSurfaceCapabilitiesKHR,
                         args := [s.mem.phys_devices.getD s.r.phys_id 0, s.r.surface] }).caps),
         { s with trace := s.trace ++
            [⟨{ op := .vk .vkGetPhysicalDeviceSurfaceCapabilitiesKHR,
                args := [s.mem.phys_devices.getD s.r.phys_id 0, s.r.surface] },
              w s.trace { op := .vk .vkGetPhysicalDeviceSurfaceCapabilitiesKHR,
                          args := [s.mem.phys_devices.getD s.r.phys_id 0, s.r.surface] }⟩] }⟩ := by
  unfold get_surface_caps
  simp only [phys_device_bind, getR_bind, invoke_bind, ite_apply_state, pure_apply]

/-- A `create_swapchain` that returns 0 stores the extent reported by the surface
capabilities query and passes it to `vkCreateSwapchainKHR`. -/
theorem create_swapchain_extent (w : World) (s : State)
    (h : (create_swapchain w s).val = .ret 0) :
    ∃ es, (create_swapchain w s).st.trace = s.trace ++ es ∧
      (∃ e ∈ es, e.call.op = .vk .vkGetPhysicalDeviceSurfaceCapabilitiesKHR) ∧
      ∀ e ∈ es, extent_event (create_swapchain w s).st.r.swap_extent e := by
  unfold create_swapchain at h ⊢
  rw [chkerr_out_apply, get_surface_caps_apply] at h ⊢
  by_cases h1 : s.r.phys_devices = 0
  · simp only [h1, if_true] at h
    cases h
  simp only [h1, if_false] at h ⊢
  by_cases h2 : s.r.fn .vkGetPhysicalDeviceSurfaceCapabilitiesKHR = 0
  · simp only [h2, if_true] at h
    cases h
  simp only [h2, if_false] at h ⊢
  by_cases h3 : (w s.trace { op := .vk .vkGetPhysicalDeviceSurfaceCapabilitiesKHR, args := [s.mem.phys_devices.getD s.r.phys_id 0, s.r.surface] }).result = VK_SUCCESS
  swap
  · simp only [h3, ne_eq, not_false_eq_true, if_true] at h
    cases h
  simp only [h3, ne_eq, not_true_eq_false, if_false, getR_bind, invoke_bind, setR_bind,
    ite_apply_state, pure_apply] at h ⊢
  by_cases h4 : s.r.fn .vkCreateSwapchainKHR = 0
  · simp only [h4, if_true] at h
    cases h
  simp only [h4, if_false] at h ⊢
  split at h
  · cases h
  rename_i h5
  simp only [h5, if_false, chkerr_pure_zero_right] at h ⊢
  obtain ⟨hr, es, ht, hp⟩ := get_swapchain_images_foot w _
  have hext := congrArg Render.swap_extent hr
  simp only [] at hext
  refine ⟨⟨surface_caps_call s, w s.trace (surface_caps_call s)⟩ ::
    ⟨create_swapchain_call s (w s.trace (surface_caps_call s)).caps,
      w (s.trace ++ [⟨surface_caps_call s, w s.trace (surface_caps_call s)⟩])
        (create_swapchain_call s (w s.trace (surface_caps_call s)).caps)⟩ :: es, ?_, ?_, ?_⟩
  · rw [ht, List.append_assoc, List.append_assoc]
    rfl
  · exact ⟨_, List.mem_cons_self _ _, rfl⟩
  · intro e he
    rw [hext]
    rcases List.mem_cons.mp he with h6 | h6
    · rw [h6]
      refine ⟨?_, ?_, ?_, ?_⟩ <;> intro h <;> first | (cases h; done) | rfl
    rcases List.mem_cons.mp h6 with h7 | h7
    · rw [h7]
      refine ⟨?_, ?_, ?_, ?_⟩ <;> intro h <;> first | (cases h; done) | exact ⟨rfl, rfl⟩
    · exact extent_event_of_not_mem _ _ (fun hm => by
        have := hp e h7
        revert this hm
        generalize e.call.op = o
        revert o
        decide)

theorem configure_before_swapchain_foot (w : World) :
    Keeps (Frame.foot erase_pipeline configure_before_swapchain_ops)
      (configure_before_swapchain w) := by
  unfold configure_before_swapchain
  with_reducible repeat' first
    | exact keeps_pure _ _
    | refine keeps_foot_mono ?_ ?_ (render_destroy_pipeline_foot w _)
    | refine keeps_foot_mono ?_ ?_ (get_queue_props_foot w)
    | refine keeps_foot_mono ?_ ?_ (get_present_and_graphics_indices_foot w)
    | refine keeps_foot_mono ?_ ?_ (create_device_foot w)
    | refine keeps_foot_mono ?_ ?_ (load_device_functions_foot w)
    | refine keeps_foot_mono ?_ ?_ (get_surface_format_foot w)
    | refine keeps_bind ?_ (fun _ => ?_)
    | refine keeps_chkerr ?_ ?_
    | refine keeps_foot_setR ?_
  all_goals first | (intro _; rfl) | (intro _ _; rfl) | decide | assumption | (intro _; exact rfl)

/-- The run of `render_configure` on a valid context is the steps before
`create_swapchain`, then `create_swapchain`, then the steps from `create_pipeline` on. -/
theorem render_configure_eq_swapchain (w : World) (width height vshader fshader : Nat) :
    render_configure w .valid width height vshader fshader
      = chkerr (configure_before_swapchain w)
          (chkerr (create_swapchain w) (configure_from_pipeline w vshader fshader)) := by
  unfold render_configure configure_before_swapchain configure_from_pipeline
  simp only [chkerr_bind_left, chkerr_assoc, chkerr_pure_zero_left]

/-! ## C14: the arguments `width` and `height` -/

/-- Two runs of `render_configure` that differ only in `width` and `height` are the same
run, and in a run that returns `RENDER_ERROR_NONE` the surface capabilities are queried
and every call that carries an extent shows the stored `swap_extent`. -/
theorem render_configure_extent_events (w : World) (p : RenderPtr)
    (width1 height1 width2 height2 vshader fshader : Nat) :
    render_configure w p width1 height1 vshader fshader
      = render_configure w p width2 height2 vshader fshader ∧
    ∀ s, (render_configure w p width1 height1 vshader fshader s).val
        = .ret RENDER_ERROR_NONE →
      ∃ es, (render_configure w p width1 height1 vshader fshader s).st.trace
          = s.trace ++ es ∧
        (∃ e ∈ es, e.call.op = .vk .vkGetPhysicalDeviceSurfaceCapabilitiesKHR) ∧
        ∀ e ∈ es, extent_event
          (render_configure w p width1 height1 vshader fshader s).st.r.swap_extent e := by
  refine ⟨by cases p <;> rfl, fun s h => ?_⟩
  cases p with
  | null => cases h
  | valid =>
    rw [render_configure_eq_swapchain] at h ⊢
    obtain ⟨h1, h2, e1⟩ := chkerr_ret_zero h
    rw [e1] at h ⊢
    obtain ⟨h3, h4, e2⟩ := chkerr_ret_zero h2
    rw [e2]
    obtain ⟨es1, t1, c1⟩ := keeps_calls (configure_before_swapchain_foot w) s
    obtain ⟨es2, t2, ⟨e0, m0, o0⟩, c2⟩ := create_swapchain_extent w _ h3
    obtain ⟨i3, es3, t3, c3⟩ := configure_from_pipeline_extent w vshader fshader
      (create_swapchain w (configure_before_swapchain w s).st).st.r.swap_extent _ rfl
    rw [i3]
    refine ⟨es1 ++ es2 ++ es3, ?_, ⟨e0, ?_, o0⟩, ?_⟩
    · rw [t3, t2, t1, List.append_assoc, List.append_assoc, List.append_assoc]
    · exact List.mem_append_left _ (List.mem_append_right _ m0)
    · intro e he
      rcases List.mem_append.mp he with h5 | h5
      · rcases List.mem_append.mp h5 with h6 | h6
        · exact extent_event_of_not_mem _ _ (fun hm => by
            have := c1 e h6
            revert this hm
            generalize e.call.op = o
            revert o
            decide)
        · exact c2 e h6
      · exact c3 e h5

theorem float_exponent_small (k n : Nat) (h : n < 16777216) : float_exponent k n = 0 := by
  cases k with
  | zero => rfl
  | succ k =>
    unfold float_exponent
    rw [if_pos h]

/-- The conversion to `float` keeps every integer below 2^24. -/
theorem float_cast_exact (n : Nat) (h : n < 16777216) : float_cast n = n := by
  unfold float_cast
  rw [float_exponent_small n n h]
  simp [Nat.mod_one]

/-- C14: the arguments `width` and `height` of `render_configure` have no effect.  Two
runs that differ only in them are the same run: same outcome, same final context and
heap blocks, same trace of calls.  And in a run that returns `RENDER_ERROR_NONE` the
surface capabilities are queried, and the extent they report is the stored
`swap_extent`, the `imageExtent` of every `vkCreateSwapchainKHR` call, the scissor of
every `vkCreateGraphicsPipelines` call and the size of every `vkCreateFramebuffer` call;
the viewport of every `vkCreateGraphicsPipelines` call is that extent converted to
`float`, which is the extent itself when its width and height are below 2^24. -/
theorem render_configure_ignores_size (w : World) (p : RenderPtr)
    (width1 height1 width2 height2 vshader fshader : Nat) :
    render_configure w p width1 height1 vshader fshader
      = render_configure w p width2 height2 vshader fshader ∧
    ∀ s, (render_configure w p width1 height1 vshader fshader s).val
        = .ret RENDER_ERROR_NONE →
      ∃ es, (render_configure w p width1 height1 vshader fshader s).st.trace
          = s.trace ++ es ∧
        (∃ e ∈ es, e.call.op = .vk .vkGetPhysicalDeviceSurfaceCapabilitiesKHR) ∧
        (∀ e ∈ es, extent_event
          (render_configure w p width1 height1 vshader fshader s).st.r.swap_extent e) ∧
        ((render_configure w p width1 height1 vshader fshader s).st.r.swap_extent.width
            < 16777216 →
         (render_configure w p width1 height1 vshader fshader s).st.r.swap_extent.height
            < 16777216 →
         ∀ e ∈ es, e.call.op = .vk .vkCreateGraphicsPipelines →
           e.call.args.drop 5
             = [(render_configure w p width1 height1 vshader fshader s).st.r.swap_extent.width,
                (render_configure w p width1 height1 vshader fshader s).st.r.swap_extent.height,
                (render_configure w p width1 height1 vshader fshader s).st.r.swap_extent.width,
                (render_configure w p width1 height1 vshader fshader
                  s).st.r.swap_extent.height]) := by
  obtain ⟨h1, h2⟩ :=
    render_configure_extent_events w p width1 height1 width2 height2 vshader fshader
  refine ⟨h1, fun s h => ?_⟩
  obtain ⟨es, t, c, a⟩ := h2 s h
  refine ⟨es, t, c, a, fun hw hh e he ho => ?_⟩
  rw [(a e he).2.2.1 ho, float_cast_exact _ hw, float_cast_exact _ hh]

set_option maxRecDepth 1000000 in
/-- C14 fails as stated: the viewport need not equal the reported extent.  In
`wideSurfaceWorld`, whose surface reports the extent 16777217 x 480, `render_configure`
returns `RENDER_ERROR_NONE` and stores that extent, and the viewport passed to
`vkCreateGraphicsPipelines` is 16777216 wide, the `float` nearest to 16777217, while the
scissor is 16777217 wide. -/
theorem viewport_not_current_extent :
    (render_configure wideSurfaceWorld .valid 640 480 1 2 initState).val
      = .ret RENDER_ERROR_NONE ∧
    (render_configure wideSurfaceWorld .valid 640 480 1 2 initState).st.r.swap_extent
      = ⟨16777217, 480⟩ ∧
    ∃ e ∈ calls_since initState
        (render_configure wideSurfaceWorld .valid 640 480 1 2 initState),
      e.call.op = .vk .vkCreateGraphicsPipelines ∧
      e.call.args.drop 5 = [16777216, 480, 16777217, 480] := by
  decide

set_option maxRecDepth 1000000 in
/-- Witness for C14 in `goodWorld`, whose surface reports the extent 640 x 480: a run
asking for 1 x 1 stores 640 x 480 and passes it as viewport and scissor. -/
theorem render_configure_ignores_size_witness :
    (render_configure goodWorld .valid 1 1 1 2 initState).val = .ret RENDER_ERROR_NONE ∧
    (render_configure goodWorld .valid 1 1 1 2 initState).st.r.swap_extent = ⟨640, 480⟩ ∧
    ∃ es, (render_configure goodWorld .valid 1 1 1 2 initState).st.trace
        = initState.trace ++ es ∧
      (∃ e ∈ es, e.call.op = .vk .vkGetPhysicalDeviceSurfaceCapabilitiesKHR) ∧
      (∀ e ∈ es, extent_event
        (render_configure goodWorld .valid 1 1 1 2 initState).st.r.swap_extent e) ∧
      ∀ e ∈ es, e.call.op = .vk .vkCreateGraphicsPipelines →
        e.call.args.drop 5 = [640, 480, 640, 480] := by
  obtain ⟨es, t, c, a, v⟩ :=
    (render_configure_ignores_size goodWorld .valid 1 1 640 480 1 2).2 initState
      (by decide)
  have hx : (render_configure goodWorld .valid 1 1 1 2 initState).st.r.swap_extent
      = ⟨640, 480⟩ := by decide
  rw [hx] at v
  exact ⟨by decide, hx, es, t, c, a, v (by decide) (by decide)⟩


/-! ## C17: the error codes -/

set_option maxRecDepth 1000000 in
set_option maxHeartbeats 4000000 in
theorem error_scenarios_run :
    ∀ x ∈ error_scenarios, Outcome.ret x.1 ∈ session x.2.1 x.2.2 := by
  decide

set_option maxRecDepth 1000000 in
/-- C17 fails as stated: failure sites share codes.  In `write_data`, a failed
`vkMapMemory` and a failed `vkFlushMappedMemoryRanges` are two return statements with
the one code `RENDER_ERROR_VULKAN_MEMORY_MAP`; a failed `malloc` in `get_queue_props`
and a failed `malloc` in `get_swapchain_images` both return `RENDER_ERROR_MEMORY`. -/
theorem error_code_shared_by_failure_sites :
    (render_configure (failWorld (.vk .vkMapMemory) 0) .valid 640 480 1 2 initState).val
      = .ret RENDER_ERROR_VULKAN_MEMORY_MAP ∧
    last_op initState
      (render_configure (failWorld (.vk .vkMapMemory) 0) .valid 640 480 1 2 initState)
      = some (.vk .vkMapMemory) ∧
    (render_configure (failWorld (.vk .vkFlushMappedMemoryRanges) 0) .valid 640 480 1 2
        initState).val
      = .ret RENDER_ERROR_VULKAN_MEMORY_MAP ∧
    last_op initState
      (render_configure (failWorld (.vk .vkFlushMappedMemoryRanges) 0) .valid 640 480 1 2
        initState)
      = some (.vk .vkFlushMappedMemoryRanges) ∧
    (render_configure (failWorld (.sys .malloc) 1) .valid 640 480 1 2 initState).val
      = .ret RENDER_ERROR_MEMORY ∧
    (last_op initState
      (render_configure (failWorld (.sys .malloc) 1) .valid 640 480 1 2 initState)
      = some (.sys .malloc) ∧
     created .vkCreateDevice
      (render_configure (failWorld (.sys .malloc) 1) .valid 640 480 1 2 initState).st.trace
      = 0) ∧
    (render_configure (failWorld (.sys .malloc) 3) .valid 640 480 1 2 initState).val
      = .ret RENDER_ERROR_MEMORY ∧
    (last_op initState
      (render_configure (failWorld (.sys .malloc) 3) .valid 640 480 1 2 initState)
      = some (.sys .malloc) ∧
     created .vkCreateSwapchainKHR
      (render_configure (failWorld (.sys .malloc) 3) .valid 640 480 1 2 initState).st.trace
      = 1) := by
  decide

/-- C17, amended: `RENDER_ERROR_NONE` is 0; the 42 other `RENDER_ERROR_*` values are
strictly negative and pairwise distinct; and 36 of them, pairwise distinct, are each
returned by `render_init`, `render_configure` or `render_update` in some environment. -/
theorem error_codes_distinct_negative :
    RENDER_ERROR_NONE = 0 ∧
    error_codes.length = 42 ∧
    (∀ c ∈ error_codes, c < 0) ∧
    error_codes.Nodup ∧
    returned_codes.Nodup ∧
    returned_codes.length = 36 ∧
    (∀ c ∈ returned_codes, c ∈ error_codes ∧ returnable c) := by
  refine ⟨rfl, rfl, by decide, by decide, by decide, rfl, fun c hc => ⟨?_, ?_⟩⟩
  · revert c
    decide
  · obtain ⟨x, hx, rfl⟩ := List.mem_map.mp hc
    exact ⟨x.2.1, x.2.2, error_scenarios_run x hx⟩

/-- Witness for C17: the code `RENDER_ERROR_VULKAN_MEMORY_MAP` is negative and is
returned in some environment. -/
theorem error_codes_distinct_negative_witness :
    RENDER_ERROR_VULKAN_MEMORY_MAP < 0 ∧ returnable RENDER_ERROR_VULKAN_MEMORY_MAP :=
  ⟨error_codes_distinct_negative.2.2.1 RENDER_ERROR_VULKAN_MEMORY_MAP (by decide),
   (error_codes_distinct_negative.2.2.2.2.2.2 RENDER_ERROR_VULKAN_MEMORY_MAP
     (by decide)).2⟩


/-! ## C16: the geometry written to device memory -/

theorem device_memory_snoc (t : List Event) (e : Event) :
    device_memory (t ++ [e]) = (device_memory t).step e := by
  unfold device_memory
  rw [List.foldl_append]
  rfl

/-- A `write_data` that returns 0 made five calls: a successful map of the allocation,
a `memcpy` of the data to the mapped pointer, flush, invalidate and unmap; and it
changed nothing but the trace. -/
theorem write_data_ok (w : World) (mem : Nat) (data : List Nat) (size : Nat) (s : State)
    (h : (write_data w mem data size s).val = .ret 0) :
    ∃ e1 e2 e3 e4 e5 : Event,
      (write_data w mem data size s).st
        = { s with trace := s.trace ++ [e1] ++ [e2] ++ [e3] ++ [e4] ++ [e5] } ∧
      e1.call = { op := .vk .vkMapMemory, args := [s.r.device, mem, 0, size, 0] } ∧
      e1.reply.result = VK_SUCCESS ∧
      e2.call = { op := .sys .memcpy, args := [e1.reply.value, size],
                  data := data.take size } ∧
      e3.call.op = .vk .vkFlushMappedMemoryRanges ∧
      e4.call.op = .vk .vkInvalidateMappedMemoryRanges ∧
      e5.call = { op := .vk .vkUnmapMemory, args := [s.r.device, mem] } := by
  unfold write_data at h ⊢
  simp only [getR_bind, invoke_bind, extcall_bind, ite_apply_state, pure_apply] at h ⊢
  by_cases h1 : s.r.fn .vkMapMemory = 0
  · simp only [h1, if_true] at h
    cases h
  simp only [h1, if_false] at h ⊢
  split at h
  · cases h
  rename_i h2
  simp only [h2, if_false] at h ⊢
  by_cases h3 : s.r.fn .vkFlushMappedMemoryRanges = 0
  · simp only [h3, if_true] at h
    cases h
  simp only [h3, if_false] at h ⊢
  split at h
  · cases h
  rename_i h4
  simp only [h4, if_false] at h ⊢
  by_cases h5 : s.r.fn .vkInvalidateMappedMemoryRanges = 0
  · simp only [h5, if_true] at h
    cases h
  simp only [h5, if_false] at h ⊢
  split at h
  · cases h
  rename_i h6
  simp only [h6, if_false] at h ⊢
  by_cases h7 : s.r.fn .vkUnmapMemory = 0
  · simp only [h7, if_true] at h
    cases h
  simp only [h7, if_false] at h ⊢
  exact ⟨_, _, _, _, _, rfl, rfl, not_not.mp h2, rfl, rfl, rfl, rfl⟩

/-- The five calls of a successful `write_data` leave the data at the start of the
allocation and leave every other allocation as it was. -/
theorem device_memory_write (d : DeviceMemory) (e1 e2 e3 e4 e5 : Event)
    (dev mem size : Nat) (data : List Nat)
    (c1 : e1.call = { op := .vk .vkMapMemory, args := [dev, mem, 0, size, 0] })
    (r1 : e1.reply.result = VK_SUCCESS)
    (c2 : e2.call = { op := .sys .memcpy, args := [e1.reply.value, size], data := data })
    (c3 : e3.call.op = .vk .vkFlushMappedMemoryRanges)
    (c4 : e4.call.op = .vk .vkInvalidateMappedMemoryRanges)
    (c5 : e5.call = { op := .vk .vkUnmapMemory, args := [dev, mem] }) :
    (((((d.step e1).step e2).step e3).step e4).step e5).bytes mem
      = data ++ (d.bytes mem).drop data.length ∧
    ∀ m, m ≠ mem →
      (((((d.step e1).step e2).step e3).step e4).step e5).bytes m = d.bytes m := by
  have s1 : d.step e1 = { d with mapped := (e1.reply.value, mem) :: d.mapped } := by
    unfold DeviceMemory.step
    simp only [c1, r1, if_true, List.getD_cons_succ, List.getD_cons_zero]
  have s2 : (d.step e1).step e2
      = { d with mapped := (e1.reply.value, mem) :: d.mapped,
                 bytes := Function.update d.bytes mem (data ++ (d.bytes mem).drop data.length) } := by
    rw [s1]
    unfold DeviceMemory.step
    simp only [c2, List.getD_cons_zero, List.lookup_cons, beq_self_eq_true]
  have s3 : ((d.step e1).step e2).step e3 = (d.step e1).step e2 := by
    generalize (d.step e1).step e2 = x
    unfold DeviceMemory.step
    simp only [c3]
  have s4 : (((d.step e1).step e2).step e3).step e4 = (d.step e1).step e2 := by
    rw [s3]
    generalize (d.step e1).step e2 = x
    unfold DeviceMemory.step
    simp only [c4]
  have s5 : ((((d.step e1).step e2).step e3).step e4).step e5
      = { (d.step e1).step e2 with
          mapped := ((d.step e1).step e2).mapped.filter fun x => x.2 ≠ mem } := by
    rw [s4]
    generalize (d.step e1).step e2 = x
    unfold DeviceMemory.step
    simp only [c5, List.getD_cons_succ, List.getD_cons_zero]
  rw [s5, s2]
  refine ⟨?_, fun m hm => ?_⟩
  · show Function.update d.bytes mem _ mem = _
    rw [Function.update_same]
  · show Function.update d.bytes mem _ m = _
    rw [Function.update_noteq hm]

/-- The device memory after a successful `write_data`, in terms of the device memory
before it. -/
theorem write_data_memory (w : World) (mem : Nat) (data : List Nat) (size : Nat) (s : State)
    (h : (write_data w mem data size s).val = .ret 0) :
    (write_data w mem data size s).st.r = s.r ∧
    (device_memory (write_data w mem data size s).st.trace).bytes mem
      = data.take size ++ ((device_memory s.trace).bytes mem).drop (data.take size).length ∧
    ∀ m, m ≠ mem →
      (device_memory (write_data w mem data size s).st.trace).bytes m
        = (device_memory s.trace).bytes m := by
  obtain ⟨e1, e2, e3, e4, e5, hs, c1, r1, c2, c3, c4, c5⟩ := write_data_ok w mem data size s h
  refine ⟨by rw [hs], ?_⟩
  rw [hs]
  simp only [device_memory_snoc]
  exact device_memory_write _ e1 e2 e3 e4 e5 s.r.device mem size _ c1 r1 c2 c3 c4 c5

/-- The run of `create_vertex_data` is the creation of the buffers, then the two
`write_data` calls. -/
theorem create_vertex_data_eq (w : World) :
    create_vertex_data w
      = chkerr (create_vertex_buffers w)
          (chkerr (write_vertices w) (chkerr (write_indices w) (pure RENDER_ERROR_NONE))) := by
  unfold create_vertex_data create_vertex_buffers write_vertices write_indices
  simp only [chkerr_assoc, chkerr_pure_zero_left]

/-- C16: the geometry upload round-trips.  With device memory modelled as a byte array
per allocation (`DeviceMemory`), after a `create_vertex_data` that returns
`RENDER_ERROR_NONE`, and so after its two successful `write_data` calls, with distinct
allocations for vertices and indices: a second map of the vertex allocation reads, in its
first 96 bytes, the bytes of the array `vertices` (4 vertices of 6 floats), and a second
map of the index allocation reads, in its first 12 bytes, the bytes of the array
`indices` (6 `uint16_t`). -/
theorem geometry_upload_round_trip (w : World) (s : State)
    (h : (create_vertex_data w s).val = .ret RENDER_ERROR_NONE)
    (hne : (create_vertex_data w s).st.r.vertex_memory
      ≠ (create_vertex_data w s).st.r.index_memory) :
    vertex_bytes.length = 96 ∧ index_bytes.length = 12 ∧
    read_back (create_vertex_data w s).st.trace
      (create_vertex_data w s).st.r.vertex_memory 96 = vertex_bytes ∧
    read_back (create_vertex_data w s).st.trace
      (create_vertex_data w s).st.r.index_memory 12 = index_bytes := by
  rw [create_vertex_data_eq] at h hne ⊢
  obtain ⟨-, h2, e1⟩ := chkerr_ret_zero h
  rw [e1] at hne ⊢
  obtain ⟨h3, h4, e2⟩ := chkerr_ret_zero h2
  rw [e2] at hne ⊢
  obtain ⟨h5, -, e3⟩ := chkerr_ret_zero h4
  rw [e3, pure_apply] at hne ⊢
  have h3' : (write_data w (create_vertex_buffers w s).st.r.vertex_memory vertex_bytes
      (4 * 6 * 4) (create_vertex_buffers w s).st).val = .ret 0 := h3
  obtain ⟨a1, a2, a3⟩ := write_data_memory w _ _ _ _ h3'
  have e4 : write_vertices w (create_vertex_buffers w s).st
      = write_data w (create_vertex_buffers w s).st.r.vertex_memory vertex_bytes
          (4 * 6 * 4) (create_vertex_buffers w s).st := rfl
  rw [e4] at h5 hne ⊢
  have e5 : write_indices w (write_data w (create_vertex_buffers w s).st.r.vertex_memory
        vertex_bytes (4 * 6 * 4) (create_vertex_buffers w s).st).st
      = write_data w (create_vertex_buffers w s).st.r.index_memory index_bytes (2 * 3 * 2)
          (write_data w (create_vertex_buffers w s).st.r.vertex_memory
            vertex_bytes (4 * 6 * 4) (create_vertex_buffers w s).st).st := by
    unfold write_indices
    rw [getR_bind, a1]
  rw [e5] at h5 hne ⊢
  obtain ⟨b1, b2, b3⟩ := write_data_memory w _ _ _ _ h5
  rw [b1, a1] at hne ⊢
  refine ⟨by decide, by decide, ?_, ?_⟩
  · unfold read_back
    rw [b3 _ hne, a2]
    have hl : (vertex_bytes.take (4 * 6 * 4)) = vertex_bytes := by decide
    rw [hl, List.take_left' (by decide)]
  · unfold read_back
    rw [b2]
    have hl : (index_bytes.take (2 * 3 * 2)) = index_bytes := by decide
    rw [hl, List.take_left' (by decide)]

set_option maxRecDepth 1000000 in
/-- Witness for C16 in `goodWorld`, whose allocations have distinct handles. -/
theorem geometry_upload_round_trip_witness :
    read_back (create_vertex_data goodWorld uploadState).st.trace
      (create_vertex_data goodWorld uploadState).st.r.vertex_memory 96 = vertex_bytes ∧
    read_back (create_vertex_data goodWorld uploadState).st.trace
      (create_vertex_data goodWorld uploadState).st.r.index_memory 12 = index_bytes :=
  (geometry_upload_round_trip goodWorld uploadState (by decide) (by decide)).2.2


/-! ## C19: rebuilding the pipeline -/

/-- The function `render_destroy_pipeline` writes no heap block. -/
theorem render_destroy_pipeline_mem (w : World) (p : RenderPtr) (s : State) :
    (render_destroy_pipeline w p s).st.mem = s.mem := by
  have h : Keeps (Frame.inv (fun t => t.mem = s.mem) (fun _ => True))
      (render_destroy_pipeline w p) := by
    cases p
    · exact keeps_pure _ _
    unfold render_destroy_pipeline destroy_image_step
    with_reducible repeat' first
      | exact keeps_pure _ _
      | exact keeps_getS _
      | exact keeps_getR _
      | exact keeps_deref _ _ _ _ _
      | refine keeps_bind ?_ (fun _ => ?_)
      | refine keeps_ite ?_ ?_
      | refine keeps_for_loop (fun _ => ?_) _ _
      | refine keeps_inv_setR ?_
      | refine keeps_inv_extcall ?_ ?_
      | refine keeps_inv_invoke ?_ ?_
    all_goals first
      | (intro _ h; exact h)
      | (intro _ _ h; exact h)
      | (intro _; trivial)
  exact (h s rfl).1

set_option maxRecDepth 1000000 in
/-- C19 fails on the code.  `render_destroy_pipeline` does leave the instance, the
surface, the logical device, the two queue handles and the list of physical devices as
they are.  But the `render_configure` that follows creates a logical device again: in
`goodWorld`, on the configured context, it returns `RENDER_ERROR_NONE` with the
same instance and surface and with a different `device`, after one more successful
`vkCreateDevice` and no `vkDestroyDevice`. -/
theorem render_reconfigure_creates_device :
    (∀ (w : World) (s : State),
      (render_destroy_pipeline w .valid s).st.r.instance_ = s.r.instance_ ∧
      (render_destroy_pipeline w .valid s).st.r.surface = s.r.surface ∧
      (render_destroy_pipeline w .valid s).st.r.device = s.r.device ∧
      (render_destroy_pipeline w .valid s).st.r.graphics_queue = s.r.graphics_queue ∧
      (render_destroy_pipeline w .valid s).st.r.present_queue = s.r.present_queue ∧
      (render_destroy_pipeline w .valid s).st.r.n_devices = s.r.n_devices ∧
      (render_destroy_pipeline w .valid s).st.r.phys_devices = s.r.phys_devices ∧
      (render_destroy_pipeline w .valid s).st.mem.phys_devices = s.mem.phys_devices) ∧
    (render_configure goodWorld .valid 640 480 1 2 configuredState).val
      = .ret RENDER_ERROR_NONE ∧
    reconfiguredState.r.instance_ = configuredState.r.instance_ ∧
    reconfiguredState.r.surface = configuredState.r.surface ∧
    reconfiguredState.r.device ≠ configuredState.r.device ∧
    created .vkCreateDevice (reconfiguredState.trace.drop configuredState.trace.length) = 1 ∧
    destroyed .vkDestroyDevice (reconfiguredState.trace.drop configuredState.trace.length)
      = 0 := by
  refine ⟨fun w s => ⟨?_, ?_, ?_, ?_, ?_, ?_, ?_, ?_⟩, ?_⟩
  · exact keeps_field (render_destroy_pipeline_foot w .valid) Render.instance_ (fun _ => rfl) s
  · exact keeps_field (render_destroy_pipeline_foot w .valid) Render.surface (fun _ => rfl) s
  · exact keeps_field (render_destroy_pipeline_foot w .valid) Render.device (fun _ => rfl) s
  · exact keeps_field (render_destroy_pipeline_foot w .valid) Render.graphics_queue
      (fun _ => rfl) s
  · exact keeps_field (render_destroy_pipeline_foot w .valid) Render.present_queue
      (fun _ => rfl) s
  · exact keeps_field (render_destroy_pipeline_foot w .valid) Render.n_devices (fun _ => rfl) s
  · exact keeps_field (render_destroy_pipeline_foot w .valid) Render.phys_devices
      (fun _ => rfl) s
  · rw [render_destroy_pipeline_mem]
  · decide


/-! ## C20: the order of teardown -/

/-- The loop of `render_destroy_pipeline` over the `n` images from `i` on, with the two
entries resolved and the two arrays present: it runs to its end, changes nothing but the
trace, and destroys for each image its framebuffer and then its view. -/
theorem destroy_image_loop (w : World) :
    ∀ (n i : Nat) (s : State), s.r.fn .vkDestroyFramebuffer ≠ 0 →
      s.r.fn .vkDestroyImageView ≠ 0 → s.r.framebuffers ≠ 0 → s.r.image_views ≠ 0 →
      ∃ es : List Event,
        for_loop (destroy_image_step w) n i s
          = ⟨.ret 0, { s with trace := s.trace ++ es }⟩ ∧
        es.map (fun e => e.call) = (List.range' i n).flatMap (destroy_image_calls s)
  | 0, i, s, _, _, _, _ => ⟨[], by simp [for_loop, pure_apply], rfl⟩
  | n + 1, i, s, h1, h2, h3, h4 => by
    have hstep : destroy_image_step w i s
        = ⟨.ret 0, { s with trace := s.trace ++
            [⟨{ op := .vk .vkDestroyFramebuffer, args := [s.r.device, s.mem.framebuffers.getD i 0] },
              w s.trace { op := .vk .vkDestroyFramebuffer, args := [s.r.device, s.mem.framebuffers.getD i 0] }⟩] ++
            [⟨{ op := .vk .vkDestroyImageView, args := [s.r.device, s.mem.image_views.getD i 0] },
              w (s.trace ++ [⟨{ op := .vk .vkDestroyFramebuffer, args := [s.r.device, s.mem.framebuffers.getD i 0] },
                w s.trace { op := .vk .vkDestroyFramebuffer, args := [s.r.device, s.mem.framebuffers.getD i 0] }⟩])
                { op := .vk .vkDestroyImageView, args := [s.r.device, s.mem.image_views.getD i 0] }⟩] }⟩ := by
      unfold destroy_image_step
      simp only [getS_bind, deref_bind, invoke_bind, h1, h2, h3, h4, if_false, pure_apply]
    obtain ⟨es, he, hm⟩ := destroy_image_loop w n (i + 1) (destroy_image_step w i s).st
      (by rw [hstep]; exact h1) (by rw [hstep]; exact h2) (by rw [hstep]; exact h3)
      (by rw [hstep]; exact h4)
    unfold for_loop
    rw [chkerr_of_zero (by rw [hstep]), he]
    rw [hstep] at hm ⊢
    simp only [List.append_assoc]
    refine ⟨_, rfl, ?_⟩
    simp only [List.map_append, List.map_cons, List.map_nil, hm, List.range'_succ,
      List.flatMap_cons]
    rfl

/-- On a context with a pipeline, with the entries resolved and the arrays of views and
framebuffers present, `render_destroy_pipeline` returns, clears the flag and makes
exactly the calls of `destroy_pipeline_calls`, in that order. -/
theorem render_destroy_pipeline_run (w : World) (s : State)
    (hp : s.r.has_pipeline ≠ 0) (hfn : ∀ f ∈ teardown_functions, s.r.fn f ≠ 0)
    (hfb : s.r.framebuffers ≠ 0) (hiv : s.r.image_views ≠ 0) :
    ∃ es : List Event,
      render_destroy_pipeline w .valid s
        = ⟨.ret (), { s with r := { s.r with has_pipeline := 0 },
                             trace := s.trace ++ es }⟩ ∧
      es.map (fun e => e.call) = destroy_pipeline_calls s := by
  have f1 := hfn .vkDestroySemaphore (by decide)
  have f2 := hfn .vkDestroyBuffer (by decide)
  have f3 := hfn .vkFreeMemory (by decide)
  have f4 := hfn .vkFreeCommandBuffers (by decide)
  have f5 := hfn .vkDestroyCommandPool (by decide)
  have f6 := hfn .vkDestroyFramebuffer (by decide)
  have f7 := hfn .vkDestroyImageView (by decide)
  have f8 := hfn .vkDestroyShaderModule (by decide)
  have f9 := hfn .vkDestroyPipeline (by decide)
  have f10 := hfn .vkDestroyRenderPass (by decide)
  unfold render_destroy_pipeline
  simp only [getR_bind, hp, ne_eq, not_false_eq_true, if_true, invoke_bind, f1, f2, f3, f4,
    f5, if_false, getS_bind, extcall_bind]
  rw [bind_apply]
  generalize hS : ({ r := s.r, mem := s.mem, trace := _ } : State) = S
  have hr : S.r = s.r := by rw [← hS]
  have hmem : S.mem = s.mem := by rw [← hS]
  obtain ⟨es, he, hm⟩ := destroy_image_loop w s.r.n_swapchain_images 0 S
    (by rw [hr]; exact f6) (by rw [hr]; exact f7) (by rw [hr]; exact hfb)
    (by rw [hr]; exact hiv)
  rw [he]
  simp only [extcall_bind, invoke_bind, hr, f8, f9, f10, if_false, setR_bind, pure_apply]
  have hc : (List.range' 0 s.r.n_swapchain_images).flatMap (destroy_image_calls S)
      = (List.range' 0 s.r.n_swapchain_images).flatMap (destroy_image_calls s) := by
    unfold destroy_image_calls
    rw [hr, hmem]
  rw [hc] at hm
  rw [← hS]
  simp only [List.append_assoc]
  refine ⟨_, rfl, ?_⟩
  simp only [List.map_append, List.map_cons, List.map_nil, hm]
  rfl

set_option maxRecDepth 1000000 in
/-- C20 fails as stated: the releases are not the exact reverse of the acquisitions, and
not every object is released before the objects it was created from.  In `goodWorld`:
the image semaphore is created before the render semaphore and also destroyed before it;
the vertex buffer is created before its memory is allocated and also destroyed before
the memory is freed; and the pipeline, created from the vertex shader module (an
argument of `vkCreateGraphicsPipelines`), is destroyed after that module. -/
theorem teardown_not_reverse_of_acquisition :
    (render_deinit goodWorld .valid configuredState).val = .ret () ∧
    acquired_at lifetimeTrace configuredState.r.image_semaphore
      < acquired_at lifetimeTrace configuredState.r.render_semaphore ∧
    released_at lifetimeTrace configuredState.r.image_semaphore
      < released_at lifetimeTrace configuredState.r.render_semaphore ∧
    released_at lifetimeTrace configuredState.r.render_semaphore < lifetimeTrace.length ∧
    acquired_at lifetimeTrace configuredState.r.vertex_buffer
      < acquired_at lifetimeTrace configuredState.r.vertex_memory ∧
    released_at lifetimeTrace configuredState.r.vertex_buffer
      < released_at lifetimeTrace configuredState.r.vertex_memory ∧
    released_at lifetimeTrace configuredState.r.vertex_memory < lifetimeTrace.length ∧
    configuredState.r.vert_module ∈
      ((lifetimeTrace.getD (acquired_at lifetimeTrace configuredState.r.pipeline)
        no_event).call.args) ∧
    (lifetimeTrace.getD (acquired_at lifetimeTrace configuredState.r.pipeline)
        no_event).call.op = .vk .vkCreateGraphicsPipelines ∧
    released_at lifetimeTrace configuredState.r.vert_module
      < released_at lifetimeTrace configuredState.r.pipeline ∧
    released_at lifetimeTrace configuredState.r.pipeline < lifetimeTrace.length := by
  decide

/-- C20, amended: on a context with a pipeline, with the entries resolved and the arrays
of views and framebuffers present, `render_deinit` returns and makes exactly the calls
of `deinit_calls`, in that order: first those of `render_destroy_pipeline` (semaphores,
buffers, memory, command buffers and their block, command pool, for each image its
framebuffer and then its view, the three blocks, shader modules, pipeline, render pass,
block of queue properties), then the block of physical devices, the swapchain, the
surface, the device, the instance and the library.  So the swapchain is destroyed before
the device, the device and the surface before the instance, each framebuffer before its
image view, the command buffers before the command pool, and the pipeline before the
render pass. -/
theorem render_deinit_order (w : World) (s : State)
    (hp : s.r.has_pipeline ≠ 0) (hfn : ∀ f ∈ teardown_functions, s.r.fn f ≠ 0)
    (hfb : s.r.framebuffers ≠ 0) (hiv : s.r.image_views ≠ 0) :
    (render_deinit w .valid s).val = .ret () ∧
    ∃ es : List Event,
      (render_deinit w .valid s).st.trace = s.trace ++ es ∧
      es.map (fun e => e.call) = deinit_calls s := by
  obtain ⟨es, he, hm⟩ := render_destroy_pipeline_run w s hp hfn hfb hiv
  have f1 := hfn .vkDestroySwapchainKHR (by decide)
  have f2 := hfn .vkDestroySurfaceKHR (by decide)
  have f3 := hfn .vkDestroyDevice (by decide)
  have f4 := hfn .vkDestroyInstance (by decide)
  unfold render_deinit
  simp only []
  rw [bind_apply, he]
  simp only [getR_bind, extcall_bind, invoke_bind, f1, f2, f3, f4, if_false, setR_bind]
  refine ⟨rfl, ?_⟩
  simp only [List.append_assoc]
  refine ⟨_, rfl, ?_⟩
  simp only [List.map_append, List.map_cons, List.map_nil, hm]
  rfl

set_option maxRecDepth 1000000 in
/-- Witness for C20 on the configured context of `goodWorld`. -/
theorem render_deinit_order_witness :
    (render_deinit goodWorld .valid configuredState).val = .ret () ∧
    ∃ es : List Event,
      (render_deinit goodWorld .valid configuredState).st.trace
        = configuredState.trace ++ es ∧
      es.map (fun e => e.call) = deinit_calls configuredState :=
  render_deinit_order goodWorld configuredState (by decide) (by decide) (by decide)
    (by decide)


/-! ## C18: the per-image arrays -/

/-- A `create_image_view` that returns 0 made one successful call and stored the view
at index `i`. -/
theorem create_image_view_ok (w : World) (i : Nat) (s : State)
    (h : (create_image_view w i s).val = .ret 0) :
    ∃ e : Event, e.call = image_view_call s i ∧
      create_image_view w i s
        = ⟨.ret 0, { s with mem := { s.mem with
                                     image_views := s.mem.image_views.set i e.reply.value },
                            trace := s.trace ++ [e] }⟩ := by
  unfold create_image_view at h ⊢
  simp only [getS_bind, deref_bind, invoke_bind, setMem_bind, ite_apply_state,
    pure_apply] at h ⊢
  by_cases h1 : s.r.swapchain_images = 0
  · simp only [h1, if_true] at h
    cases h
  simp only [h1, if_false] at h ⊢
  by_cases h2 : s.r.fn .vkCreateImageView = 0
  · simp only [h2, if_true] at h
    cases h
  simp only [h2, if_false] at h ⊢
  split at h
  · cases h
  rename_i h3
  simp only [h3, if_false]
  exact ⟨⟨_, _⟩, rfl, rfl⟩

/-- The first loop of `create_framebuffers` over the `n` images from `i` on, when it
returns 0: it writes only elements of `image_views` from index `i` on, keeps the length
of the array, and each element written is the view created for the swapchain image of
the same index. -/
theorem create_image_view_loop (w : World) :
    ∀ (n i : Nat) (s : State), (for_loop (create_image_view w) n i s).val = .ret 0 →
      (for_loop (create_image_view w) n i s).st.r = s.r ∧
      (for_loop (create_image_view w) n i s).st.mem
        = { s.mem with image_views := (for_loop (create_image_view w) n i s).st.mem.image_views } ∧
      (for_loop (create_image_view w) n i s).st.mem.image_views.length
        = s.mem.image_views.length ∧
      (∀ j, j < i → (for_loop (create_image_view w) n i s).st.mem.image_views.getD j 0
        = s.mem.image_views.getD j 0) ∧
      ∃ es : List Event,
        (for_loop (create_image_view w) n i s).st.trace = s.trace ++ es ∧
        (∀ e ∈ es, e.call.op = .vk .vkCreateImageView) ∧
        ∀ j, i ≤ j → j < i + n → j < s.mem.image_views.length →
          ∃ e ∈ es, e.call = image_view_call s j ∧
            e.reply.value = (for_loop (create_image_view w) n i s).st.mem.image_views.getD j 0
  | 0, i, s, _ => ⟨rfl, rfl, rfl, fun _ _ => rfl, [], by simp [for_loop, pure_apply],
      fun _ he => absurd he (List.not_mem_nil _), fun j h1 h2 => absurd h2 (by omega)⟩
  | n + 1, i, s, h => by
    unfold for_loop at h ⊢
    obtain ⟨h0, h1, e0⟩ := chkerr_ret_zero h
    rw [e0]
    obtain ⟨e, c, hs⟩ := create_image_view_ok w i s h0
    rw [hs] at h1 ⊢
    obtain ⟨a1, a2, a3, a4, es, a5, a6, a7⟩ := create_image_view_loop w n (i + 1) _ h1
    simp only [] at a1 a2 a3 a4 a5 a7 ⊢
    refine ⟨a1, ?_, ?_, ?_, e :: es, ?_, ?_, ?_⟩
    · rw [a2]
    · rw [a3, List.length_set]
    · intro j hj
      rw [a4 j (by omega), List.getD_eq_getElem?_getD, List.getD_eq_getElem?_getD,
        List.getElem?_set_ne (by omega)]
    · rw [a5, List.append_assoc]
      rfl
    · intro x hx
      rcases List.mem_cons.mp hx with hx | hx
      · rw [hx, c]
        rfl
      · exact a6 x hx
    · intro j hj1 hj2 hj3
      by_cases hji : j = i
      · subst hji
        refine ⟨e, List.mem_cons_self _ _, c, ?_⟩
        rw [a4 j (by omega), List.getD_eq_getElem?_getD, List.getElem?_set_eq_of_lt _ hj3]
        rfl
      · obtain ⟨x, hx, cx, vx⟩ := a7 j (by omega) (by omega) (by rw [List.length_set]; exact hj3)
        exact ⟨x, List.mem_cons_of_mem _ hx, cx, vx⟩

/-- A `create_framebuffer_step` that returns 0 made one successful call and stored the
framebuffer at index `i`. -/
theorem create_framebuffer_step_ok (w : World) (i : Nat) (s : State)
    (h : (create_framebuffer_step w i s).val = .ret 0) :
    ∃ e : Event, e.call = framebuffer_call s i ∧
      create_framebuffer_step w i s
        = ⟨.ret 0, { s with mem := { s.mem with
                                     framebuffers := s.mem.framebuffers.set i e.reply.value },
                            trace := s.trace ++ [e] }⟩ := by
  unfold create_framebuffer_step at h ⊢
  simp only [getS_bind, invoke_bind, setMem_bind, ite_apply_state, pure_apply] at h ⊢
  by_cases h2 : s.r.fn .vkCreateFramebuffer = 0
  · simp only [h2, if_true] at h
    cases h
  simp only [h2, if_false] at h ⊢
  split at h
  · cases h
  rename_i h3
  simp only [h3, if_false]
  exact ⟨⟨_, _⟩, rfl, rfl⟩

/-- The second loop of `create_framebuffers` over the `n` images from `i` on, when it
returns 0: it writes only elements of `framebuffers` from index `i` on, keeps the length
of the array, and each element written is the framebuffer created with the image view of
the same index as attachment. -/
theorem create_framebuffer_loop (w : World) :
    ∀ (n i : Nat) (s : State), (for_loop (create_framebuffer_step w) n i s).val = .ret 0 →
      (for_loop (create_framebuffer_step w) n i s).st.r = s.r ∧
      (for_loop (create_framebuffer_step w) n i s).st.mem
        = { s.mem with
            framebuffers := (for_loop (create_framebuffer_step w) n i s).st.mem.framebuffers } ∧
      (for_loop (create_framebuffer_step w) n i s).st.mem.framebuffers.length
        = s.mem.framebuffers.length ∧
      (∀ j, j < i → (for_loop (create_framebuffer_step w) n i s).st.mem.framebuffers.getD j 0
        = s.mem.framebuffers.getD j 0) ∧
      ∃ es : List Event,
        (for_loop (create_framebuffer_step w) n i s).st.trace = s.trace ++ es ∧
        (∀ e ∈ es, e.call.op = .vk .vkCreateFramebuffer) ∧
        ∀ j, i ≤ j → j < i + n → j < s.mem.framebuffers.length →
          ∃ e ∈ es, e.call = framebuffer_call s j ∧
            e.reply.value
              = (for_loop (create_framebuffer_step w) n i s).st.mem.framebuffers.getD j 0
  | 0, i, s, _ => ⟨rfl, rfl, rfl, fun _ _ => rfl, [], by simp [for_loop, pure_apply],
      fun _ he => absurd he (List.not_mem_nil _), fun j h1 h2 => absurd h2 (by omega)⟩
  | n + 1, i, s, h => by
    unfold for_loop at h ⊢
    obtain ⟨h0, h1, e0⟩ := chkerr_ret_zero h
    rw [e0]
    obtain ⟨e, c, hs⟩ := create_framebuffer_step_ok w i s h0
    rw [hs] at h1 ⊢
    obtain ⟨a1, a2, a3, a4, es, a5, a6, a7⟩ := create_framebuffer_loop w n (i + 1) _ h1
    simp only [] at a1 a2 a3 a4 a5 a7 ⊢
    refine ⟨a1, ?_, ?_, ?_, e :: es, ?_, ?_, ?_⟩
    · rw [a2]
    · rw [a3, List.length_set]
    · intro j hj
      rw [a4 j (by omega), List.getD_eq_getElem?_getD, List.getD_eq_getElem?_getD,
        List.getElem?_set_ne (by omega)]
    · rw [a5, List.append_assoc]
      rfl
    · intro x hx
      rcases List.mem_cons.mp hx with hx | hx
      · rw [hx, c]
        rfl
      · exact a6 x hx
    · intro j hj1 hj2 hj3
      by_cases hji : j = i
      · subst hji
        refine ⟨e, List.mem_cons_self _ _, c, ?_⟩
        rw [a4 j (by omega), List.getD_eq_getElem?_getD, List.getElem?_set_eq_of_lt _ hj3]
        rfl
      · obtain ⟨x, hx, cx, vx⟩ := a7 j (by omega) (by omega) (by rw [List.length_set]; exact hj3)
        exact ⟨x, List.mem_cons_of_mem _ hx, cx, vx⟩

/-- A `create_framebuffers` that returns 0 allocated the two arrays `image_views` and
`framebuffers` with `n_swapchain_images` elements each and nothing else of the context,
and filled them: element `i` of `image_views` is the view created for swapchain image
`i`, element `i` of `framebuffers` the framebuffer created with that view. -/
theorem create_framebuffers_ok (w : World) (s : State)
    (h : (create_framebuffers w s).val = .ret 0) :
    (create_framebuffers w s).st.r
      = { s.r with image_views := (create_framebuffers w s).st.r.image_views
                   framebuffers := (create_framebuffers w s).st.r.framebuffers } ∧
    (create_framebuffers w s).st.r.image_views ≠ 0 ∧
    (create_framebuffers w s).st.r.framebuffers ≠ 0 ∧
    (create_framebuffers w s).st.mem
      = { s.mem with image_views := (create_framebuffers w s).st.mem.image_views
                     framebuffers := (create_framebuffers w s).st.mem.framebuffers } ∧
    (create_framebuffers w s).st.mem.image_views.length = s.r.n_swapchain_images ∧
    (create_framebuffers w s).st.mem.framebuffers.length = s.r.n_swapchain_images ∧
    ∃ es : List Event,
      (create_framebuffers w s).st.trace = s.trace ++ es ∧
      (∀ i, i < s.r.n_swapchain_images → ∃ e ∈ es, e.call = image_view_call s i ∧
        e.reply.value = (create_framebuffers w s).st.mem.image_views.getD i 0) ∧
      (∀ i, i < s.r.n_swapchain_images → ∃ e ∈ es,
        e.call.op = .vk .vkCreateFramebuffer ∧
        e.call.args.getD 2 0 = (create_framebuffers w s).st.mem.image_views.getD i 0 ∧
        e.reply.value = (create_framebuffers w s).st.mem.framebuffers.getD i 0) := by
  unfold create_framebuffers at h ⊢
  simp only [getR_bind, extcall_bind, setR_bind, ite_apply_state, pure_apply,
    setMem_bind] at h ⊢
  split at h
  · cases h
  rename_i h1
  simp only [h1, if_false] at h ⊢
  generalize hs1 : ({ r := _, mem := _, trace := _ } : State) = s1 at h ⊢
  have r1 : s1.r = { s.r with image_views := (w s.trace { op := .sys .malloc, args := [size_t (8 * s.r.n_swapchain_images)] }).value } := by
    rw [← hs1]
  have m1 : s1.mem = { s.mem with image_views := List.replicate s.r.n_swapchain_images 0 } := by
    rw [← hs1]
  have t1 : ∃ e, s1.trace = s.trace ++ [e] := ⟨_, by rw [← hs1]⟩
  clear hs1
  obtain ⟨h2, h3, e1⟩ := chkerr_ret_zero h
  rw [e1]
  clear e1 h
  obtain ⟨a1, a2, a3, a4, es1, a5, a6, a7⟩ := create_image_view_loop w _ _ _ h2
  clear a4 h2
  revert h3 a1 a2 a3 a5 a7
  generalize (for_loop (create_image_view w) s.r.n_swapchain_images 0 s1).st = L
  intro h3 a1 a2 a3 a5 a7
  simp only [extcall_bind, setR_bind, ite_apply_state, pure_apply, setMem_bind] at h3 ⊢
  split at h3
  · cases h3
  rename_i h4
  simp only [h4, if_false, chkerr_pure_zero_right] at h3 ⊢
  generalize hs3 : ({ r := _, mem := _, trace := _ } : State) = s3 at h3 ⊢
  have r3 : s3.r = { L.r with framebuffers := (w L.trace { op := .sys .malloc, args := [size_t (8 * s.r.n_swapchain_images)] }).value } := by
    rw [← hs3]
  have m3 : s3.mem = { L.mem with framebuffers := List.replicate s.r.n_swapchain_images 0 } := by
    rw [← hs3]
  have t3 : ∃ e, s3.trace = L.trace ++ [e] := ⟨_, by rw [← hs3]⟩
  clear hs3
  obtain ⟨b1, b2, b3, b4, es2, b5, b6, b7⟩ := create_framebuffer_loop w _ _ _ h3
  clear b4 h3
  revert b1 b2 b3 b5 b7
  generalize (for_loop (create_framebuffer_step w) s.r.n_swapchain_images 0 s3).st = S
  intro b1 b2 b3 b5 b7
  obtain ⟨e1, t1⟩ := t1
  obtain ⟨e3, t3⟩ := t3
  rw [m1] at a2 a3 a7
  rw [m3] at b2 b3 b7
  simp only [List.length_replicate] at a3 a7 b3 b7
  have hiv : S.mem.image_views = L.mem.image_views := by rw [b2]
  refine ⟨?_, ?_, ?_, ?_, ?_, ?_, ?_⟩
  · rw [b1, r3, a1, r1]
  · rw [b1, r3, a1, r1]
    exact h1
  · rw [b1, r3]
    exact h4
  · rw [b2, a2]
  · rw [hiv]
    exact a3
  · exact b3
  · refine ⟨e1 :: (es1 ++ e3 :: es2), ?_, ?_, ?_⟩
    · rw [b5, t3, a5, t1]
      simp only [List.append_assoc, List.singleton_append, List.cons_append,
        List.nil_append]
    · intro i hi
      obtain ⟨e, he, c, v⟩ := a7 i (Nat.zero_le _) (by omega) hi
      refine ⟨e, List.mem_cons_of_mem _ (List.mem_append_left _ he), ?_, ?_⟩
      · rw [c]
        unfold image_view_call
        rw [r1, m1]
      · rw [v, hiv]
    · intro i hi
      obtain ⟨e, he, c, v⟩ := b7 i (Nat.zero_le _) (by omega) hi
      refine ⟨e, List.mem_cons_of_mem _ (List.mem_append_right _ (List.mem_cons_of_mem _ he)),
        ?_, ?_, v⟩
      · rw [c]
        rfl
      · rw [c, hiv]
        unfold framebuffer_call
        rw [m3]
        rfl

theorem overwrite_length {α : Type} (old new : List α) :
    (overwrite old new).length = old.length := by
  unfold overwrite
  rw [List.length_append, List.length_take, List.length_drop]
  omega

/-- A `get_swapchain_images` that returns 0 made two successful queries with a
successful `malloc` in between: the array has as many elements as the first query
reported, which is the capacity passed to the second, and `n_swapchain_images` is the
count the second query reported. -/
theorem get_swapchain_images_ok (w : World) (s : State)
    (h : (get_swapchain_images w s).val = .ret 0) :
    (get_swapchain_images w s).st.r.swapchain_images ≠ 0 ∧
    (get_swapchain_images w s).st.mem
      = { s.mem with swapchain_images := (get_swapchain_images w s).st.mem.swapchain_images } ∧
    ∃ e1 e2 e3 : Event,
      (get_swapchain_images w s).st.trace = s.trace ++ [e1] ++ [e2] ++ [e3] ∧
      e1.call.op = .vk .vkGetSwapchainImagesKHR ∧
      e3.call.op = .vk .vkGetSwapchainImagesKHR ∧
      (get_swapchain_images w s).st.mem.swapchain_images.length = e1.reply.value ∧
      (get_swapchain_images w s).st.r.n_swapchain_images = e3.reply.value ∧
      e3.call.args.getD 2 0 = e1.reply.value := by
  unfold get_swapchain_images at h ⊢
  simp only [getR_bind, invoke_bind, extcall_bind, setR_bind, setMem_bind, ite_apply_state,
    pure_apply] at h ⊢
  by_cases h1 : s.r.fn .vkGetSwapchainImagesKHR = 0
  · simp only [h1, if_true] at h
    cases h
  simp only [h1, if_false] at h ⊢
  split at h
  · cases h
  rename_i h2
  simp only [h2, if_false] at h ⊢
  split at h
  · cases h
  rename_i h3
  simp only [h3, if_false] at h ⊢
  split at h
  · cases h
  rename_i h4
  simp only [h4, if_false]
  refine ⟨h3, trivial, ⟨_, _⟩, ⟨_, _⟩, ⟨_, _⟩, rfl, rfl, rfl, ?_, rfl, rfl⟩
  simp only [overwrite_length, List.length_replicate]

/-- A `create_swapchain` that returns 0 allocated the array `swapchain_images` and no
other block; among its calls are two `vkGetSwapchainImagesKHR` queries, the array has as
many elements as the first reported, which is the capacity passed to the second, and
`n_swapchain_images` is the count the second reported. -/
theorem create_swapchain_count (w : World) (s : State)
    (h : (create_swapchain w s).val = .ret 0) :
    (create_swapchain w s).st.r.swapchain_images ≠ 0 ∧
    (create_swapchain w s).st.mem
      = { s.mem with swapchain_images := (create_swapchain w s).st.mem.swapchain_images } ∧
    ∃ es : List Event,
      (create_swapchain w s).st.trace = s.trace ++ es ∧
      ∃ e1 ∈ es, ∃ e3 ∈ es,
        e1.call.op = .vk .vkGetSwapchainImagesKHR ∧
        e3.call.op = .vk .vkGetSwapchainImagesKHR ∧
        (create_swapchain w s).st.mem.swapchain_images.length = e1.reply.value ∧
        (create_swapchain w s).st.r.n_swapchain_images = e3.reply.value ∧
        e3.call.args.getD 2 0 = e1.reply.value := by
  unfold create_swapchain at h ⊢
  rw [chkerr_out_apply, get_surface_caps_apply] at h ⊢
  by_cases h1 : s.r.phys_devices = 0
  · simp only [h1, if_true] at h
    cases h
  simp only [h1, if_false] at h ⊢
  by_cases h2 : s.r.fn .vkGetPhysicalDeviceSurfaceCapabilitiesKHR = 0
  · simp only [h2, if_true] at h
    cases h
  simp only [h2, if_false] at h ⊢
  by_cases h3 : (w s.trace { op := .vk .vkGetPhysicalDeviceSurfaceCapabilitiesKHR, args := [s.mem.phys_devices.getD s.r.phys_id 0, s.r.surface] }).result = VK_SUCCESS
  swap
  · simp only [h3, ne_eq, not_false_eq_true, if_true] at h
    cases h
  simp only [h3, ne_eq, not_true_eq_false, if_false, getR_bind, invoke_bind, setR_bind,
    ite_apply_state, pure_apply] at h ⊢
  by_cases h4 : s.r.fn .vkCreateSwapchainKHR = 0
  · simp only [h4, if_true] at h
    cases h
  simp only [h4, if_false] at h ⊢
  split at h
  · cases h
  rename_i h5
  simp only [h5, if_false, chkerr_pure_zero_right] at h ⊢
  generalize hs2 : ({ r := _, mem := _, trace := _ } : State) = s2 at h ⊢
  have m2 : s2.mem = s.mem := by rw [← hs2]
  have t2 : ∃ e e', s2.trace = s.trace ++ [e] ++ [e'] := ⟨_, _, by rw [← hs2]⟩
  clear hs2
  obtain ⟨a1, a2, e1, e2, e3, a3, a4, a5, a6, a7, a8⟩ := get_swapchain_images_ok w s2 h
  obtain ⟨x, y, t2⟩ := t2
  refine ⟨a1, ?_, x :: y :: e1 :: e2 :: [e3], ?_, e1, by simp, e3, by simp, a4, a5, a6, a7, a8⟩
  · rw [a2, m2]
  · rw [a3, t2]
    simp only [List.append_assoc, List.singleton_append, List.cons_append, List.nil_append]

/-- A `create_command_buffers` that returns 0 allocated the array `command_buffers` with
`n_swapchain_images` elements and nothing else. -/
theorem create_command_buffers_ok (w : World) (s : State)
    (h : (create_command_buffers w s).val = .ret 0) :
    (create_command_buffers w s).st.r
      = { s.r with command_buffers := (create_command_buffers w s).st.r.command_buffers } ∧
    (create_command_buffers w s).st.mem
      = { s.mem with
          command_buffers := (create_command_buffers w s).st.mem.command_buffers } ∧
    (create_command_buffers w s).st.mem.command_buffers.length = s.r.n_swapchain_images ∧
    ∃ es : List Event, (create_command_buffers w s).st.trace = s.trace ++ es := by
  unfold create_command_buffers at h ⊢
  simp only [getR_bind, invoke_bind, extcall_bind, setR_bind, setMem_bind, ite_apply_state,
    pure_apply] at h ⊢
  split at h
  · cases h
  rename_i h1
  simp only [h1, if_false] at h ⊢
  by_cases h2 : s.r.fn .vkAllocateCommandBuffers = 0
  · simp only [h2, if_true] at h
    cases h
  simp only [h2, if_false] at h ⊢
  split at h
  · cases h
  rename_i h3
  simp only [h3, if_false]
  refine ⟨trivial, trivial, ?_, _, List.append_assoc _ _ _⟩
  simp only [overwrite_length, List.length_replicate]

/-- The function `create_pipeline` writes no heap block and none of the fields the
per-image arrays are described with. -/
theorem create_pipeline_image_state (w : World) (vshader fshader : Nat) (m : Arrays)
    (v : Nat × Nat × SurfaceFormat × Nat × Nat) :
    Keeps (Frame.inv (fun t => t.mem = m ∧ image_fields t.r = v) (fun _ => True))
      (create_pipeline w vshader fshader) := by
  unfold create_pipeline create_shader read_shader create_pipeline_layout create_render_pass
  with_reducible repeat' first
    | exact keeps_pure _ _
    | exact keeps_getS _
    | exact keeps_getR _
    | exact keeps_deref _ _ _ _ _
    | refine keeps_bind ?_ (fun _ => ?_)
    | refine keeps_ite ?_ ?_
    | refine keeps_chkerr ?_ ?_
    | refine keeps_chkerr_out ?_ (fun _ => ?_)
    | refine keeps_for_loop (fun _ => ?_) _ _
    | refine keeps_inv_setR ?_
    | refine keeps_inv_extcall ?_ ?_
    | refine keeps_inv_invoke ?_ ?_
  all_goals first
    | (intro _ h; exact h)
    | (intro _ _ h; exact h)
    | (intro _; trivial)

/-- The function `create_command_pool` writes no heap block and none of the fields the
per-image arrays are described with. -/
theorem create_command_pool_image_state (w : World) (m : Arrays)
    (v : Nat × Nat × SurfaceFormat × Nat × Nat) :
    Keeps (Frame.inv (fun t => t.mem = m ∧ image_fields t.r = v) (fun _ => True))
      (create_command_pool w) := by
  unfold create_command_pool
  with_reducible repeat' first
    | exact keeps_pure _ _
    | exact keeps_getR _
    | refine keeps_bind ?_ (fun _ => ?_)
    | refine keeps_ite ?_ ?_
    | refine keeps_inv_setR ?_
    | refine keeps_inv_invoke ?_ ?_
  all_goals first
    | (intro _ h; exact h)
    | (intro _ _ h; exact h)
    | (intro _; trivial)

/-- The steps of `render_configure` after `create_command_buffers` write no heap block
and none of the fields the per-image arrays are described with. -/
theorem configure_tail_image_state (w : World) (m : Arrays)
    (v : Nat × Nat × SurfaceFormat × Nat × Nat) :
    Keeps (Frame.inv (fun t => t.mem = m ∧ image_fields t.r = v) (fun _ => True))
      (configure_tail w) := by
  unfold configure_tail create_vertex_data create_buffer allocate_buffer get_heap_index
    phys_device write_data write_buffers write_buffers_step create_semaphores
  with_reducible repeat' first
    | exact keeps_pure _ _
    | exact keeps_getS _
    | exact keeps_getR _
    | exact keeps_deref _ _ _ _ _
    | refine keeps_bind ?_ (fun _ => ?_)
    | refine keeps_ite ?_ ?_
    | refine keeps_chkerr ?_ ?_
    | refine keeps_for_loop (fun _ => ?_) _ _
    | refine keeps_inv_setR ?_
    | refine keeps_inv_extcall ?_ ?_
    | refine keeps_inv_invoke ?_ ?_
  all_goals first
    | (intro _ h; exact h)
    | (intro _ _ h; exact h)
    | (intro _; trivial)

theorem configure_from_pipeline_eq (w : World) (vshader fshader : Nat) :
    configure_from_pipeline w vshader fshader
      = chkerr (create_pipeline w vshader fshader)
          (chkerr (create_framebuffers w)
            (chkerr (create_command_pool w)
              (chkerr (create_command_buffers w) (configure_tail w)))) := rfl

theorem image_fields_eq {a b : Render} (h : image_fields a = image_fields b) :
    a.n_swapchain_images = b.n_swapchain_images ∧ a.device = b.device ∧
    a.format = b.format ∧ a.image_views = b.image_views ∧
    a.framebuffers = b.framebuffers := by
  unfold image_fields at h
  simp only [Prod.mk.injEq] at h
  exact h

/-- A `render_configure` that returns 0 on a valid context leaves the flag
`has_pipeline` set. -/
theorem render_configure_ok_flag (w : World) (width height vshader fshader : Nat)
    (s : State)
    (h : (render_configure w .valid width height vshader fshader s).val = .ret 0) :
    (render_configure w .valid width height vshader fshader s).st.r.has_pipeline = 1 := by
  rw [render_configure_eq_device] at h ⊢
  obtain ⟨h1, h2, e⟩ := chkerr_ret_zero h
  rw [e]
  exact (configure_from_device_flag w vshader fshader _
    (configure_before_device_flag w s 0 h1) 0 h2).1 rfl

/-- C18: the per-image arrays.  After a `render_configure` that returns
`RENDER_ERROR_NONE`: among its calls are two `vkGetSwapchainImagesKHR` queries, the
second of which was passed the count the first reported; the array `swapchain_images`
has as many elements as the first reported and `n_swapchain_images` is the count the
second reported, so that the array has `n_swapchain_images` elements when the two counts
agree; the arrays `image_views`, `framebuffers` and `command_buffers` have
`n_swapchain_images` elements each; for every `i` below `n_swapchain_images`,
`image_views[i]` is the view returned by a `vkCreateImageView` call, made for
`swapchain_images[i]` when the array has an element `i`, and `framebuffers[i]` is the
framebuffer returned by a `vkCreateFramebuffer` call with `image_views[i]` as
attachment; and, with the entries it calls resolved, `render_destroy_pipeline` returns
after exactly the calls of `destroy_pipeline_calls`, which destroy the framebuffer and
the view of every image and free the four arrays. -/
theorem per_image_arrays (w : World) (width height vshader fshader : Nat) (s : State)
    (h : (render_configure w .valid width height vshader fshader s).val
      = .ret RENDER_ERROR_NONE) :
    (∃ q ∈ (render_configure w .valid width height vshader fshader s).st.trace.drop
        s.trace.length,
      ∃ f ∈ (render_configure w .valid width height vshader fshader s).st.trace.drop
          s.trace.length,
        q.call.op = .vk .vkGetSwapchainImagesKHR ∧
        f.call.op = .vk .vkGetSwapchainImagesKHR ∧
        f.call.args.getD 2 0 = q.reply.value ∧
        (render_configure w .valid width height vshader fshader s).st.mem.swapchain_images.length
          = q.reply.value ∧
        (render_configure w .valid width height vshader fshader s).st.r.n_swapchain_images
          = f.reply.value ∧
        (q.reply.value = f.reply.value →
          (render_configure w .valid width height vshader fshader s).st.mem.swapchain_images.length
            = (render_configure w .valid width height vshader fshader s).st.r.n_swapchain_images)) ∧
    (render_configure w .valid width height vshader fshader s).st.mem.image_views.length
      = (render_configure w .valid width height vshader fshader s).st.r.n_swapchain_images ∧
    (render_configure w .valid width height vshader fshader s).st.mem.framebuffers.length
      = (render_configure w .valid width height vshader fshader s).st.r.n_swapchain_images ∧
    (render_configure w .valid width height vshader fshader s).st.mem.command_buffers.length
      = (render_configure w .valid width height vshader fshader s).st.r.n_swapchain_images ∧
    (∀ i, i < (render_configure w .valid width height vshader fshader s).st.r.n_swapchain_images →
      ∃ e ∈ (render_configure w .valid width height vshader fshader s).st.trace.drop
          s.trace.length,
        e.call.op = .vk .vkCreateImageView ∧
        e.reply.value
          = (render_configure w .valid width height vshader fshader s).st.mem.image_views.getD
              i 0 ∧
        (i < (render_configure w .valid width height vshader fshader s).st.mem.swapchain_images.length →
          e.call = image_view_call
            (render_configure w .valid width height vshader fshader s).st i)) ∧
    (∀ i, i < (render_configure w .valid width height vshader fshader s).st.r.n_swapchain_images →
      ∃ e ∈ (render_configure w .valid width height vshader fshader s).st.trace.drop
          s.trace.length,
        e.call.op = .vk .vkCreateFramebuffer ∧
        e.call.args.getD 2 0
          = (render_configure w .valid width height vshader fshader s).st.mem.image_views.getD
              i 0 ∧
        e.reply.value
          = (render_configure w .valid width height vshader fshader s).st.mem.framebuffers.getD
              i 0) ∧
    ((∀ f ∈ teardown_functions,
        (render_configure w .valid width height vshader fshader s).st.r.fn f ≠ 0) →
      ∃ es : List Event,
        render_destroy_pipeline w .valid
            (render_configure w .valid width height vshader fshader s).st
          = ⟨.ret (),
             { (render_configure w .valid width height vshader fshader s).st with
               r := { (render_configure w .valid width height vshader fshader s).st.r with
                      has_pipeline := 0 },
               trace := (render_configure w .valid width height vshader fshader s).st.trace
                          ++ es }⟩ ∧
        es.map (fun e => e.call)
          = destroy_pipeline_calls
              (render_configure w .valid width height vshader fshader s).st) := by
  have hflag := render_configure_ok_flag w width height vshader fshader s h
  revert hflag
  rw [render_configure_eq_swapchain] at h ⊢
  obtain ⟨-, h2, e1⟩ := chkerr_ret_zero h
  rw [e1]
  obtain ⟨h_sw, h3, e2⟩ := chkerr_ret_zero h2
  rw [e2]
  rw [configure_from_pipeline_eq] at h3 ⊢
  obtain ⟨h_cp, h4, e3⟩ := chkerr_ret_zero h3
  rw [e3]
  obtain ⟨h_cf, h5, e4⟩ := chkerr_ret_zero h4
  rw [e4]
  obtain ⟨h_pool, h6, e5⟩ := chkerr_ret_zero h5
  rw [e5]
  obtain ⟨h_cb, h_tail, e6⟩ := chkerr_ret_zero h6
  rw [e6]
  clear e1 e2 e3 e4 e5 e6 h h2 h3 h4 h5 h6
  obtain ⟨es0, t5, -⟩ := keeps_calls (configure_before_swapchain_foot w) s
  revert h_sw h_cp h_cf h_pool h_cb h_tail t5
  generalize (configure_before_swapchain w s).st = s5
  intro h_sw h_cp h_cf h_pool h_cb h_tail t5
  obtain ⟨-, m6, es1, t6, x1, hx1, x3, hx3, o1, o3, l6, n6, g6⟩ :=
    create_swapchain_count w s5 h_sw
  revert h_cp h_cf h_pool h_cb h_tail m6 t6 l6 n6
  generalize (create_swapchain w s5).st = s6
  intro h_cp h_cf h_pool h_cb h_tail m6 t6 l6 n6
  obtain ⟨⟨m7, f7⟩, es2, t7, -⟩ :=
    create_pipeline_image_state w vshader fshader s6.mem (image_fields s6.r) s6 ⟨rfl, rfl⟩
  revert h_cf h_pool h_cb h_tail m7 f7 t7
  generalize (create_pipeline w vshader fshader s6).st = s7
  intro h_cf h_pool h_cb h_tail m7 f7 t7
  obtain ⟨r8, p8, q8, m8, lv, lf, es3, t8, ev, ef⟩ := create_framebuffers_ok w s7 h_cf
  revert h_pool h_cb h_tail r8 p8 q8 m8 lv lf t8 ev ef
  generalize (create_framebuffers w s7).st = s8
  intro h_pool h_cb h_tail r8 p8 q8 m8 lv lf t8 ev ef
  obtain ⟨⟨m9, f9⟩, es4, t9, -⟩ :=
    create_command_pool_image_state w s8.mem (image_fields s8.r) s8 ⟨rfl, rfl⟩
  revert h_cb h_tail m9 f9 t9
  generalize (create_command_pool w s8).st = s9
  intro h_cb h_tail m9 f9 t9
  obtain ⟨r10, m10, lc, es5, t10⟩ := create_command_buffers_ok w s9 h_cb
  revert h_tail r10 m10 lc t10
  generalize (create_command_buffers w s9).st = s10
  intro h_tail r10 m10 lc t10
  obtain ⟨⟨mS, fS⟩, es6, tS, -⟩ :=
    configure_tail_image_state w s10.mem (image_fields s10.r) s10 ⟨rfl, rfl⟩
  revert mS fS tS
  generalize (configure_tail w s10).st = S
  intro mS fS tS hflag
  clear h_tail
  obtain ⟨a1, a2, a3, -, -⟩ := image_fields_eq f7
  obtain ⟨b1, b2, b3, b4, b5⟩ := image_fields_eq f9
  obtain ⟨c1, c2, c3, c4, c5⟩ := image_fields_eq fS
  have n10 : s10.r.n_swapchain_images = s9.r.n_swapchain_images := by rw [r10]
  have d10 : s10.r.device = s9.r.device := by rw [r10]
  have g10 : s10.r.format = s9.r.format := by rw [r10]
  have v10 : s10.r.image_views = s9.r.image_views := by rw [r10]
  have w10 : s10.r.framebuffers = s9.r.framebuffers := by rw [r10]
  have n8 : s8.r.n_swapchain_images = s7.r.n_swapchain_images := by rw [r8]
  have d8 : s8.r.device = s7.r.device := by rw [r8]
  have g8 : s8.r.format = s7.r.format := by rw [r8]
  have hn : S.r.n_swapchain_images = s7.r.n_swapchain_images := by
    rw [c1, n10, b1, n8]
  have hS1 : S.mem.swapchain_images = s7.mem.swapchain_images := by
    rw [mS, m10, m9, m8]
  have hS2 : S.mem.image_views = s8.mem.image_views := by
    rw [mS, m10, m9]
  have hS3 : S.mem.framebuffers = s8.mem.framebuffers := by
    rw [mS, m10, m9]
  have hS4 : S.mem.command_buffers = s10.mem.command_buffers := by
    rw [mS]
  have hdrop : S.trace.drop s.trace.length
      = es0 ++ (es1 ++ (es2 ++ (es3 ++ (es4 ++ (es5 ++ es6))))) := by
    rw [tS, t10, t9, t8, t7, t6, t5]
    simp only [List.append_assoc, List.drop_left]
  rw [hdrop]
  have k1 : x1 ∈ es0 ++ (es1 ++ (es2 ++ (es3 ++ (es4 ++ (es5 ++ es6))))) :=
    List.mem_append_right _ (List.mem_append_left _ hx1)
  have k3 : x3 ∈ es0 ++ (es1 ++ (es2 ++ (es3 ++ (es4 ++ (es5 ++ es6))))) :=
    List.mem_append_right _ (List.mem_append_left _ hx3)
  have hn6 : s7.r.n_swapchain_images = s6.r.n_swapchain_images := a1
  have hlen : S.mem.swapchain_images.length = x1.reply.value := by rw [hS1, m7, l6]
  have hcnt : S.r.n_swapchain_images = x3.reply.value := by rw [hn, hn6, n6]
  refine ⟨⟨x1, k1, x3, k3, o1, o3, g6, hlen, hcnt, fun e => ?_⟩, ?_, ?_, ?_, ?_, ?_, ?_⟩
  · rw [hlen, hcnt, e]
  · rw [hS2, lv, hn]
  · rw [hS3, lf, hn]
  · rw [hS4, lc, hn, ← n8, ← b1]
  · intro i hi
    rw [hn] at hi
    obtain ⟨e, he, c, v⟩ := ev i hi
    refine ⟨e, ?_, ?_, ?_, fun _ => ?_⟩
    · exact List.mem_append_right _ (List.mem_append_right _ (List.mem_append_right _
        (List.mem_append_left _ he)))
    · rw [c]
      rfl
    · rw [v, hS2]
    · rw [c]
      unfold image_view_call
      rw [hS1, c2, d10, b2, d8, c3, g10, b3, g8]
  · intro i hi
    rw [hn] at hi
    obtain ⟨e, he, c, a, v⟩ := ef i hi
    refine ⟨e, ?_, c, ?_, ?_⟩
    · exact List.mem_append_right _ (List.mem_append_right _ (List.mem_append_right _
        (List.mem_append_left _ he)))
    · rw [a, hS2]
    · rw [v, hS3]
  · intro hfn
    refine render_destroy_pipeline_run w S ?_ hfn ?_ ?_
    · rw [hflag]
      decide
    · rw [c5, w10, b5]
      exact q8
    · rw [c4, v10, b4]
      exact p8

set_option maxRecDepth 1000000 in
/-- C18 fails as stated: the array `swapchain_images` need not have `n_swapchain_images`
elements.  In `fewerImagesWorld`, where the first `vkGetSwapchainImagesKHR` query reports
three images and the second, passed an array of three, reports two, `render_configure`
returns `RENDER_ERROR_NONE`, `n_swapchain_images` is 2, the array `swapchain_images` has
the three elements it was allocated with, and the other three arrays have two. -/
theorem swapchain_images_not_image_count :
    (render_configure fewerImagesWorld .valid 640 480 1 2 initState).val
      = .ret RENDER_ERROR_NONE ∧
    (render_configure fewerImagesWorld .valid 640 480 1 2 initState).st.r.n_swapchain_images
      = 2 ∧
    (render_configure fewerImagesWorld .valid 640 480 1 2
      initState).st.mem.swapchain_images.length = 3 ∧
    (render_configure fewerImagesWorld .valid 640 480 1 2 initState).st.mem.image_views.length
      = 2 ∧
    (render_configure fewerImagesWorld .valid 640 480 1 2 initState).st.mem.framebuffers.length
      = 2 ∧
    (render_configure fewerImagesWorld .valid 640 480 1 2
      initState).st.mem.command_buffers.length = 2 := by
  decide

set_option maxRecDepth 1000000 in
set_option maxHeartbeats 4000000 in
/-- Witness for C18 in `threeImageWorld`: the driver reports three images, twice, where
two were asked for, and the four arrays have three elements. -/
theorem per_image_arrays_witness :
    (render_configure threeImageWorld .valid 640 480 1 2 initState).st.r.n_swapchain_images
      = 3 ∧
    (render_configure threeImageWorld .valid 640 480 1 2
      initState).st.mem.swapchain_images.length = 3 ∧
    (render_configure threeImageWorld .valid 640 480 1 2 initState).st.mem.image_views.length
      = (render_configure threeImageWorld .valid 640 480 1 2
          initState).st.r.n_swapchain_images ∧
    (render_configure threeImageWorld .valid 640 480 1 2 initState).st.mem.framebuffers.length
      = (render_configure threeImageWorld .valid 640 480 1 2
          initState).st.r.n_swapchain_images ∧
    (render_configure threeImageWorld .valid 640 480 1 2
      initState).st.mem.command_buffers.length
      = (render_configure threeImageWorld .valid 640 480 1 2
          initState).st.r.n_swapchain_images := by
  have T := per_image_arrays threeImageWorld 640 480 1 2 initState (by decide)
  exact ⟨by decide, by decide, T.2.1, T.2.2.1, T.2.2.2.1⟩


/-! ## C22: the steps of `write_data` -/

/-- C22: with its four entries resolved, `write_data` calls map, copy, flush, invalidate
and unmap in that order, over the range [0, `size`) of the allocation, and changes
nothing but the trace.  A failed map returns `RENDER_ERROR_VULKAN_MEMORY_MAP` after that
one call; a failed flush returns it after map, copy and flush; a failed invalidate
returns it after map, copy, flush and invalidate; when the three succeed it returns
`RENDER_ERROR_NONE` after the fifth call, the unmap; so it returns `RENDER_ERROR_NONE`
exactly when the three succeed. -/
theorem write_data_steps (w : World) (mem : Nat) (data : List Nat) (size : Nat) (s : State)
    (h1 : s.r.fn .vkMapMemory ≠ 0) (h2 : s.r.fn .vkFlushMappedMemoryRanges ≠ 0)
    (h3 : s.r.fn .vkInvalidateMappedMemoryRanges ≠ 0) (h4 : s.r.fn .vkUnmapMemory ≠ 0) :
    ((write_data_events w mem data size s).map fun e => e.call.op)
      = [.vk .vkMapMemory, .sys .memcpy, .vk .vkFlushMappedMemoryRanges,
         .vk .vkInvalidateMappedMemoryRanges, .vk .vkUnmapMemory] ∧
    (((write_data_events w mem data size s).getD 0 no_event).reply.result ≠ VK_SUCCESS →
      write_data w mem data size s
        = ⟨.ret RENDER_ERROR_VULKAN_MEMORY_MAP,
           { s with trace := s.trace ++ (write_data_events w mem data size s).take 1 }⟩) ∧
    (((write_data_events w mem data size s).getD 0 no_event).reply.result = VK_SUCCESS →
      ((write_data_events w mem data size s).getD 2 no_event).reply.result ≠ VK_SUCCESS →
      write_data w mem data size s
        = ⟨.ret RENDER_ERROR_VULKAN_MEMORY_MAP,
           { s with trace := s.trace ++ (write_data_events w mem data size s).take 3 }⟩) ∧
    (((write_data_events w mem data size s).getD 0 no_event).reply.result = VK_SUCCESS →
      ((write_data_events w mem data size s).getD 2 no_event).reply.result = VK_SUCCESS →
      ((write_data_events w mem data size s).getD 3 no_event).reply.result ≠ VK_SUCCESS →
      write_data w mem data size s
        = ⟨.ret RENDER_ERROR_VULKAN_MEMORY_MAP,
           { s with trace := s.trace ++ (write_data_events w mem data size s).take 4 }⟩) ∧
    (((write_data_events w mem data size s).getD 0 no_event).reply.result = VK_SUCCESS →
      ((write_data_events w mem data size s).getD 2 no_event).reply.result = VK_SUCCESS →
      ((write_data_events w mem data size s).getD 3 no_event).reply.result = VK_SUCCESS →
      write_data w mem data size s
        = ⟨.ret RENDER_ERROR_NONE,
           { s with trace := s.trace ++ write_data_events w mem data size s }⟩) ∧
    ((write_data w mem data size s).val = .ret RENDER_ERROR_NONE ↔
      ((write_data_events w mem data size s).getD 0 no_event).reply.result = VK_SUCCESS ∧
      ((write_data_events w mem data size s).getD 2 no_event).reply.result = VK_SUCCESS ∧
      ((write_data_events w mem data size s).getD 3 no_event).reply.result = VK_SUCCESS) := by
  have hrun : write_data w mem data size s =
      if ((write_data_events w mem data size s).getD 0 no_event).reply.result ≠ VK_SUCCESS then
        ⟨.ret RENDER_ERROR_VULKAN_MEMORY_MAP,
          { s with trace := s.trace ++ (write_data_events w mem data size s).take 1 }⟩
      else if ((write_data_events w mem data size s).getD 2 no_event).reply.result
          ≠ VK_SUCCESS then
        ⟨.ret RENDER_ERROR_VULKAN_MEMORY_MAP,
          { s with trace := s.trace ++ (write_data_events w mem data size s).take 3 }⟩
      else if ((write_data_events w mem data size s).getD 3 no_event).reply.result
          ≠ VK_SUCCESS then
        ⟨.ret RENDER_ERROR_VULKAN_MEMORY_MAP,
          { s with trace := s.trace ++ (write_data_events w mem data size s).take 4 }⟩
      else ⟨.ret RENDER_ERROR_NONE,
          { s with trace := s.trace ++ write_data_events w mem data size s }⟩ := by
    unfold write_data
    simp only [getR_bind, invoke_bind, extcall_bind, h1, h2, h3, h4, if_false, ite_bind,
      ite_apply_state, pure_bind_apply, pure_apply]
    simp only [write_data_events, List.getD_cons_zero, List.getD_cons_succ,
      List.take_succ_cons, List.take_zero, List.append_assoc, List.singleton_append,
      List.cons_append, List.nil_append]
  rw [hrun]
  refine ⟨rfl, ?_, ?_, ?_, ?_, ?_⟩
  · intro a
    rw [if_pos a]
  · intro a b
    rw [if_neg (not_not.mpr a), if_pos b]
  · intro a b c
    rw [if_neg (not_not.mpr a), if_neg (not_not.mpr b), if_pos c]
  · intro a b c
    rw [if_neg (not_not.mpr a), if_neg (not_not.mpr b), if_neg (not_not.mpr c)]
  · constructor
    · intro h
      by_cases a : ((write_data_events w mem data size s).getD 0 no_event).reply.result
          = VK_SUCCESS
      · by_cases b : ((write_data_events w mem data size s).getD 2 no_event).reply.result
            = VK_SUCCESS
        · by_cases c : ((write_data_events w mem data size s).getD 3 no_event).reply.result
              = VK_SUCCESS
          · exact ⟨a, b, c⟩
          · rw [if_neg (not_not.mpr a), if_neg (not_not.mpr b), if_pos c] at h
            cases h
        · rw [if_neg (not_not.mpr a), if_pos b] at h
          cases h
      · rw [if_pos a] at h
        cases h
    · rintro ⟨a, b, c⟩
      rw [if_neg (not_not.mpr a), if_neg (not_not.mpr b), if_neg (not_not.mpr c)]

set_option maxRecDepth 1000000 in
/-- Witness for C22 in `goodWorld`, in the state in which `create_vertex_data` writes the
vertices. -/
theorem write_data_steps_witness :
    write_data goodWorld (create_vertex_buffers goodWorld uploadState).st.r.vertex_memory
        vertex_bytes 96 (create_vertex_buffers goodWorld uploadState).st
      = ⟨.ret RENDER_ERROR_NONE,
         { (create_vertex_buffers goodWorld uploadState).st with
           trace := (create_vertex_buffers goodWorld uploadState).st.trace ++
             write_data_events goodWorld
               (create_vertex_buffers goodWorld uploadState).st.r.vertex_memory
               vertex_bytes 96 (create_vertex_buffers goodWorld uploadState).st }⟩ :=
  (write_data_steps goodWorld (create_vertex_buffers goodWorld uploadState).st.r.vertex_memory
    vertex_bytes 96 (create_vertex_buffers goodWorld uploadState).st
    (by decide) (by decide) (by decide) (by decide)).2.2.2.2.1
    (by decide) (by decide) (by decide)


/-! ## C23: what `render_update` submits and presents -/

/-- C23: a `render_update` that returns `RENDER_ERROR_NONE` on a valid context made four
calls and changed nothing else: with `k` the image index answered by
`vkAcquireNextImageKHR`, which was asked to signal the image semaphore, the call
`vkQueueSubmit` went to the graphics queue with the command buffer `command_buffers[k]`,
waiting on the image semaphore at the color-attachment-output stage and signalling the
render semaphore; the call `vkQueuePresentKHR` went to the present queue with the
swapchain and the image index `k`, waiting on the render semaphore; the fourth call is
`vkQueueWaitIdle` on the present queue. -/
theorem render_update_submits_acquired_image (w : World) (s : State)
    (h : (render_update w .valid s).val = .ret RENDER_ERROR_NONE) :
    ∃ acq sub prs idle : Event,
      (render_update w .valid s).st
        = { s with trace := s.trace ++ [acq] ++ [sub] ++ [prs] ++ [idle] } ∧
      acq.call = { op := .vk .vkAcquireNextImageKHR,
                   args := [s.r.device, s.r.swapchain, 2000000000, s.r.image_semaphore, 0] } ∧
      acq.reply.result = VK_SUCCESS ∧
      sub.call = { op := .vk .vkQueueSubmit,
                   args := [s.r.graphics_queue, s.r.image_semaphore,
                            VK_PIPELINE_STAGE_COLOR_ATTACHMENT_OUTPUT_BIT,
                            s.mem.command_buffers.getD acq.reply.value 0,
                            s.r.render_semaphore] } ∧
      sub.reply.result = VK_SUCCESS ∧
      prs.call = { op := .vk .vkQueuePresentKHR,
                   args := [s.r.present_queue, s.r.render_semaphore, s.r.swapchain,
                            acq.reply.value] } ∧
      prs.reply.result = VK_SUCCESS ∧
      idle.call = { op := .vk .vkQueueWaitIdle, args := [s.r.present_queue] } := by
  unfold render_update at h ⊢
  simp only [getS_bind, invoke_bind, ite_apply_state, pure_apply] at h ⊢
  by_cases h1 : s.r.fn .vkAcquireNextImageKHR = 0
  · simp only [h1, if_true] at h
    cases h
  simp only [h1, if_false] at h ⊢
  split at h
  · cases h
  rename_i h2
  simp only [h2, if_false] at h ⊢
  by_cases h3 : s.r.fn .vkQueueSubmit = 0
  · simp only [h3, if_true] at h
    cases h
  simp only [h3, if_false] at h ⊢
  split at h
  · cases h
  rename_i h4
  simp only [h4, if_false] at h ⊢
  by_cases h5 : s.r.fn .vkQueuePresentKHR = 0
  · simp only [h5, if_true] at h
    cases h
  simp only [h5, if_false] at h ⊢
  split at h
  · cases h
  rename_i h6
  simp only [h6, if_false] at h ⊢
  by_cases h7 : s.r.fn .vkQueueWaitIdle = 0
  · simp only [h7, if_true] at h
    cases h
  simp only [h7, if_false] at h ⊢
  exact ⟨⟨_, _⟩, ⟨_, _⟩, ⟨_, _⟩, ⟨_, _⟩, rfl, rfl, not_not.mp h2, rfl, not_not.mp h4, rfl,
    not_not.mp h6, rfl⟩

set_option maxRecDepth 1000000 in
/-- Witness for C23 on the configured context of `goodWorld`. -/
theorem render_update_submits_acquired_image_witness :
    ∃ acq sub prs idle : Event,
      (render_update goodWorld .valid configuredState).st
        = { configuredState with
            trace := configuredState.trace ++ [acq] ++ [sub] ++ [prs] ++ [idle] } ∧
      sub.call.args.getD 3 0
        = configuredState.mem.command_buffers.getD acq.reply.value 0 ∧
      prs.call.args.getD 3 0 = acq.reply.value := by
  obtain ⟨acq, sub, prs, idle, hs, -, -, cs, -, cp, -, -⟩ :=
    render_update_submits_acquired_image goodWorld configuredState (by decide)
  refine ⟨acq, sub, prs, idle, hs, ?_, ?_⟩
  · rw [cs]
    simp only [List.getD_cons_succ, List.getD_cons_zero]
  · rw [cp]
    simp only [List.getD_cons_succ, List.getD_cons_zero]


/-! ## C21: a failing present-support query -/

theorem calls_since_eq {α : Type} (s : State) (r : Res α) (es : List Event)
    (h : r.st.trace = s.trace ++ es) : calls_since s r = es := by
  unfold calls_since
  rw [h, List.drop_left]

/-- A first part that does not return stops the whole `chkerr`. -/
theorem chkerr_of_stop {x k : M Int} {s : State} (h : ∀ c, (x s).val ≠ .ret c) :
    chkerr x k s = x s := by
  rw [chkerr_apply]
  cases hx : (x s).val with
  | ret c => exact absurd hx (h c)
  | nullCall f =>
    simp only []
    rw [← hx]
  | nullDeref =>
    simp only []
    rw [← hx]

/-- One iteration of the loop of `get_present_and_graphics_indices`, in any state: it
leaves the arrays alone, and either stops before the query, on an absent array or
entry, or makes the query for family `i` and then returns
`RENDER_ERROR_VULKAN_QUEUE_INDICES` if the result is not `VK_SUCCESS` and 0 if it is. -/
theorem queue_index_step_cases (w : World) (i : Nat) (s : State) :
    (queue_index_step w i s).st.mem = s.mem ∧
    (((queue_index_step w i s).st.trace = s.trace ∧
        ∀ c, (queue_index_step w i s).val ≠ .ret c) ∨
     ((queue_index_step w i s).st.trace
          = s.trace ++ [⟨support_call s i, w s.trace (support_call s i)⟩] ∧
      ((w s.trace (support_call s i)).result ≠ VK_SUCCESS →
        (queue_index_step w i s).val = .ret RENDER_ERROR_VULKAN_QUEUE_INDICES) ∧
      ((w s.trace (support_call s i)).result = VK_SUCCESS →
        (queue_index_step w i s).val = .ret 0))) := by
  unfold queue_index_step support_call
  simp only [getS_bind, deref_bind, phys_device_bind, ite_bind,
    ite_apply_state, setR_bind, pure_bind_apply, invoke_bind, pure_apply]
  by_cases hqp : s.r.queue_props = 0
  · simp [hqp]
  by_cases hpd : s.r.phys_devices = 0
  · by_cases hc : (s.mem.queue_props.getD i ⟨0, 0⟩).queueCount > 0 <;>
    by_cases hf : Nat.land (s.mem.queue_props.getD i ⟨0, 0⟩).queueFlags VK_QUEUE_GRAPHICS_BIT = 0 <;>
    simp [hqp, hpd, hc, hf, -List.getD_eq_getElem?_getD]
  by_cases hfn : s.r.fn .vkGetPhysicalDeviceSurfaceSupportKHR = 0
  · by_cases hc : (s.mem.queue_props.getD i ⟨0, 0⟩).queueCount > 0 <;>
    by_cases hf : Nat.land (s.mem.queue_props.getD i ⟨0, 0⟩).queueFlags VK_QUEUE_GRAPHICS_BIT = 0 <;>
    simp [hqp, hpd, hfn, hc, hf, -List.getD_eq_getElem?_getD]
  by_cases hres : (w s.trace { op := .vk .vkGetPhysicalDeviceSurfaceSupportKHR, args := [s.mem.phys_devices.getD s.r.phys_id 0, i, s.r.surface] }).result = VK_SUCCESS <;>
  by_cases hc : (s.mem.queue_props.getD i ⟨0, 0⟩).queueCount > 0 <;>
  by_cases hf : Nat.land (s.mem.queue_props.getD i ⟨0, 0⟩).queueFlags VK_QUEUE_GRAPHICS_BIT = 0 <;>
  by_cases hv : (w s.trace { op := .vk .vkGetPhysicalDeviceSurfaceSupportKHR, args := [s.mem.phys_devices.getD s.r.phys_id 0, i, s.r.surface] }).value = 0 <;>
  simp [hqp, hpd, hc, hf, hv, hfn, hres, -List.getD_eq_getElem?_getD]

/-- The query of a family is the same from the state an iteration leaves. -/
theorem support_call_step (w : World) (i j : Nat) (s : State) :
    support_call (queue_index_step w i s).st j = support_call s j := by
  unfold support_call
  rw [(queue_index_step_cases w i s).1,
    keeps_field (queue_index_step_foot w i) (fun r => r.phys_id) (fun _ => rfl) s,
    keeps_field (queue_index_step_foot w i) (fun r => r.surface) (fun _ => rfl) s]

/-- The loop of `get_present_and_graphics_indices` over the `n` families from `i` on, in
any state: it queries families `i`, `i + 1`, ... in order, and a query that fails is the
last call of the loop, which then returns `RENDER_ERROR_VULKAN_QUEUE_INDICES`. -/
theorem queue_index_loop_run (w : World) :
    ∀ (n i : Nat) (s : State),
      ∃ es : List Event,
        (for_loop (queue_index_step w) n i s).st.trace = s.trace ++ es ∧
        es.length ≤ n ∧
        (∀ j, j < es.length → (es.getD j no_event).call = support_call s (i + j)) ∧
        (∀ e ∈ es, e.reply.result ≠ VK_SUCCESS →
          (for_loop (queue_index_step w) n i s).val
              = .ret RENDER_ERROR_VULKAN_QUEUE_INDICES ∧
          es.getLast? = some e ∧ i + es.length = e.call.args.getD 1 0 + 1)
  | 0, i, s => ⟨[], by simp [for_loop, pure_apply], Nat.le_refl 0,
      fun j hj => absurd hj (Nat.not_lt_zero j), fun e he => absurd he (List.not_mem_nil e)⟩
  | n + 1, i, s => by
    unfold for_loop
    obtain ⟨hm, ⟨ht, hv⟩ | ⟨ht, hbad, hok⟩⟩ := queue_index_step_cases w i s
    · rw [chkerr_of_stop hv]
      exact ⟨[], by rw [ht, List.append_nil], Nat.zero_le _,
        fun j hj => absurd hj (Nat.not_lt_zero j), fun e he => absurd he (List.not_mem_nil e)⟩
    · by_cases hres : (w s.trace (support_call s i)).result = VK_SUCCESS
      · rw [chkerr_of_zero (hok hres)]
        obtain ⟨es, e1, e2, e3, e4⟩ := queue_index_loop_run w n (i + 1) (queue_index_step w i s).st
        refine ⟨⟨support_call s i, w s.trace (support_call s i)⟩ :: es, ?_, ?_, ?_, ?_⟩
        · rw [e1, ht]
          simp only [List.append_assoc, List.singleton_append]
        · simp only [List.length_cons]
          omega
        · intro j hj
          cases j with
          | zero => rfl
          | succ j =>
            rw [List.getD_cons_succ, e3 j (by simpa using hj), support_call_step]
            simp only [Nat.add_assoc, Nat.add_comm 1 j]
        · intro e he hne
          rcases List.mem_cons.mp he with h | h
          · rw [h] at hne
            exact absurd hres hne
          · obtain ⟨a, b, c⟩ := e4 e h hne
            refine ⟨a, ?_, ?_⟩
            · cases es with
              | nil => exact absurd h (List.not_mem_nil e)
              | cons x xs =>
                rw [List.getLast?_cons_cons]
                exact b
            · simp only [List.length_cons]
              omega
      · rw [chkerr_of_err (hbad hres) (by decide)]
        refine ⟨[⟨support_call s i, w s.trace (support_call s i)⟩], ht, ?_, ?_, ?_⟩
        · simp
        · intro j hj
          have : j = 0 := by simpa using hj
          subst this
          rfl
        · intro e he _
          have : e = ⟨support_call s i, w s.trace (support_call s i)⟩ := by simpa using he
          subst this
          exact ⟨rfl, rfl, rfl⟩

/-- The run of `get_present_and_graphics_indices` in any state: it queries families 0,
1, ... in order, and a query that fails is its last call, after which it returns
`RENDER_ERROR_VULKAN_QUEUE_INDICES`. -/
theorem get_present_and_graphics_indices_run (w : World) (s : State) :
    ∃ es : List Event,
      (get_present_and_graphics_indices w s).st.trace = s.trace ++ es ∧
      es.length ≤ s.r.n_queue_props ∧
      (∀ j, j < es.length → (es.getD j no_event).call = support_call s j) ∧
      (∀ e ∈ es, e.reply.result ≠ VK_SUCCESS →
        (get_present_and_graphics_indices w s).val
            = .ret RENDER_ERROR_VULKAN_QUEUE_INDICES ∧
        es.getLast? = some e ∧ es.length = e.call.args.getD 1 0 + 1) := by
  obtain ⟨es, e1, e2, e3, e4⟩ := queue_index_loop_run w s.r.n_queue_props 0 s
  have hst : (get_present_and_graphics_indices w s).st
      = (for_loop (queue_index_step w) s.r.n_queue_props 0 s).st := by
    unfold get_present_and_graphics_indices
    rw [getR_bind, chkerr_apply]
    cases hx : (for_loop (queue_index_step w) s.r.n_queue_props 0 s).val with
    | ret c =>
      simp only []
      split <;> rfl
    | nullCall f => rfl
    | nullDeref => rfl
  refine ⟨es, by rw [hst, e1], e2, ?_, ?_⟩
  · intro j hj
    rw [e3 j hj, Nat.zero_add]
  · intro e he hne
    obtain ⟨a, b, c⟩ := e4 e he hne
    refine ⟨?_, b, by omega⟩
    unfold get_present_and_graphics_indices
    rw [getR_bind, chkerr_of_err a (by decide)]

theorem configure_from_device_foot (w : World) (vshader fshader : Nat) :
    Keeps (Frame.foot erase_pipeline configure_from_device_ops)
      (configure_from_device w vshader fshader) := by
  unfold configure_from_device
  with_reducible repeat' first
    | exact keeps_pure _ _
    | refine keeps_foot_mono ?_ ?_ (create_device_foot w)
    | refine keeps_foot_mono ?_ ?_ (load_device_functions_foot w)
    | refine keeps_foot_mono ?_ ?_ (get_surface_format_foot w)
    | refine keeps_foot_mono ?_ ?_ (create_swapchain_foot w)
    | refine keeps_foot_mono ?_ ?_ (create_pipeline_foot w _ _)
    | refine keeps_foot_mono ?_ ?_ (create_framebuffers_foot w)
    | refine keeps_foot_mono ?_ ?_ (create_command_pool_foot w)
    | refine keeps_foot_mono ?_ ?_ (create_command_buffers_foot w)
    | refine keeps_foot_mono ?_ ?_ (create_vertex_data_foot w)
    | refine keeps_foot_mono ?_ ?_ (write_buffers_foot w)
    | refine keeps_foot_mono ?_ ?_ (create_semaphores_foot w)
    | refine keeps_bind ?_ (fun _ => ?_)
    | refine keeps_chkerr ?_ ?_
    | refine keeps_foot_setR ?_
  all_goals first | (intro _; rfl) | (intro _ _; rfl) | decide | assumption | (intro _; exact rfl)

/-- Every call of `get_present_and_graphics_indices` is a present-support query. -/
theorem get_present_and_graphics_indices_calls (s : State) (es : List Event)
    (h : ∀ j, j < es.length → (es.getD j no_event).call = support_call s j) :
    ∀ e ∈ es, e.call.op = .vk .vkGetPhysicalDeviceSurfaceSupportKHR := by
  intro e he
  obtain ⟨j, hj, hje⟩ := List.mem_iff_getElem.mp he
  have := h j hj
  rw [List.getD_eq_getElem _ _ hj, hje] at this
  rw [this]
  rfl

/-- A `chkerr` either got 0 from its first part and is its continuation, or is its first
part. -/
theorem chkerr_cases (x k : M Int) (s : State) :
    ((x s).val = .ret 0 ∧ chkerr x k s = k (x s).st) ∨
    ((x s).val ≠ .ret 0 ∧ chkerr x k s = x s) := by
  cases hx : (x s).val with
  | ret c =>
    by_cases hc : c = 0
    · subst hc
      exact Or.inl ⟨rfl, chkerr_of_zero hx⟩
    · refine Or.inr ⟨fun h => hc (by cases h; rfl), ?_⟩
      rw [chkerr_of_err hx hc, ← hx]
  | nullCall f =>
    refine Or.inr ⟨fun h => Outcome.noConfusion h, chkerr_of_stop fun c h => ?_⟩
    rw [hx] at h
    cases h
  | nullDeref =>
    refine Or.inr ⟨fun h => Outcome.noConfusion h, chkerr_of_stop fun c h => ?_⟩
    rw [hx] at h
    cases h

/-- The run of the steps of `render_configure` before `create_device`, in any state:
first calls of `render_destroy_pipeline` and `get_queue_props`, then present-support
queries; a query that fails is the last call, and the code is then
`RENDER_ERROR_VULKAN_QUEUE_INDICES`. -/
theorem configure_before_device_run (w : World) (s : State) :
    ∃ es0 es1 : List Event,
      (configure_before_device w s).st.trace = s.trace ++ (es0 ++ es1) ∧
      (∀ e ∈ es0, e.call.op ∈ render_destroy_pipeline_ops ++ get_queue_props_ops) ∧
      (∀ e ∈ es1, e.call.op = .vk .vkGetPhysicalDeviceSurfaceSupportKHR) ∧
      (∀ e ∈ es1, e.reply.result ≠ VK_SUCCESS →
        (configure_before_device w s).val = .ret RENDER_ERROR_VULKAN_QUEUE_INDICES ∧
        es1.getLast? = some e) := by
  obtain ⟨esd, hd1, hd2⟩ := keeps_calls (render_destroy_pipeline_foot w .valid) s
  unfold configure_before_device
  rw [bind_apply]
  cases hd : (render_destroy_pipeline w .valid s).val with
  | nullCall f =>
    exact ⟨esd, [], by simpa using hd1, fun e he => List.mem_append_left _ (hd2 e he),
      fun e he => absurd he (List.not_mem_nil e), fun e he => absurd he (List.not_mem_nil e)⟩
  | nullDeref =>
    exact ⟨esd, [], by simpa using hd1, fun e he => List.mem_append_left _ (hd2 e he),
      fun e he => absurd he (List.not_mem_nil e), fun e he => absurd he (List.not_mem_nil e)⟩
  | ret u =>
    simp only []
    rw [setR_bind]
    generalize hs0 : ({ (render_destroy_pipeline w .valid s).st with r := _ } : State) = s0
    have ht0 : s0.trace = s.trace ++ esd := by rw [← hs0]; exact hd1
    obtain ⟨esq, hq1, hq2⟩ := keeps_calls (get_queue_props_foot w) s0
    have hes0 : ∀ e ∈ esd ++ esq,
        e.call.op ∈ render_destroy_pipeline_ops ++ get_queue_props_ops := by
      intro e he
      rcases List.mem_append.mp he with h | h
      · exact List.mem_append_left _ (hd2 e h)
      · exact List.mem_append_right _ (hq2 e h)
    rcases chkerr_cases (get_queue_props w)
      (chkerr (get_present_and_graphics_indices w) (pure RENDER_ERROR_NONE)) s0
      with ⟨-, hq⟩ | ⟨-, hq⟩
    · rw [hq]
      obtain ⟨es1, g1, -, g3, g4⟩ :=
        get_present_and_graphics_indices_run w (get_queue_props w s0).st
      have hops := get_present_and_graphics_indices_calls _ es1 g3
      rcases chkerr_cases (get_present_and_graphics_indices w) (pure RENDER_ERROR_NONE)
        (get_queue_props w s0).st with ⟨hz, hg⟩ | ⟨-, hg⟩
      · rw [hg]
        refine ⟨esd ++ esq, es1, ?_, hes0, hops, ?_⟩
        · show (get_present_and_graphics_indices w (get_queue_props w s0).st).st.trace = _
          rw [g1, hq1, ht0]
          simp only [List.append_assoc]
        · intro e he hne
          have := (g4 e he hne).1
          rw [hz] at this
          cases this
      · rw [hg]
        refine ⟨esd ++ esq, es1, ?_, hes0, hops, ?_⟩
        · rw [g1, hq1, ht0]
          simp only [List.append_assoc]
        · intro e he hne
          exact ⟨(g4 e he hne).1, (g4 e he hne).2.1⟩
    · rw [hq]
      refine ⟨esd ++ esq, [], ?_, hes0, fun e he => absurd he (List.not_mem_nil e),
        fun e he => absurd he (List.not_mem_nil e)⟩
      rw [hq1, ht0]
      simp only [List.append_assoc, List.append_nil]

/-- The run of `render_configure` on a valid context, in any state: a present-support
query that fails is its last call, the code is then
`RENDER_ERROR_VULKAN_QUEUE_INDICES`, and `vkCreateDevice` was not called. -/
theorem render_configure_support_run (w : World) (width height vshader fshader : Nat)
    (s : State) :
    ∃ es : List Event,
      (render_configure w .valid width height vshader fshader s).st.trace = s.trace ++ es ∧
      ∀ e ∈ es, e.call.op = .vk .vkGetPhysicalDeviceSurfaceSupportKHR →
        e.reply.result ≠ VK_SUCCESS →
        (render_configure w .valid width height vshader fshader s).val
            = .ret RENDER_ERROR_VULKAN_QUEUE_INDICES ∧
        es.getLast? = some e ∧ ∀ e' ∈ es, e'.call.op ≠ .vk .vkCreateDevice := by
  obtain ⟨es0, es1, h1, h2, h3, h4⟩ := configure_before_device_run w s
  have hno0 : ∀ e ∈ es0, e.call.op ≠ .vk .vkGetPhysicalDeviceSurfaceSupportKHR := by
    intro e he h
    have := h2 e he
    rw [h] at this
    revert this
    decide
  rw [render_configure_eq_device]
  rcases chkerr_cases (configure_before_device w) (configure_from_device w vshader fshader) s
    with ⟨hz, hc⟩ | ⟨-, hc⟩
  · rw [hc]
    obtain ⟨es2, k1, k2⟩ :=
      keeps_calls (configure_from_device_foot w vshader fshader) (configure_before_device w s).st
    refine ⟨es0 ++ es1 ++ es2, by rw [k1, h1, List.append_assoc], ?_⟩
    intro e he hop hne
    exfalso
    rcases List.mem_append.mp he with h | h
    · rcases List.mem_append.mp h with h | h
      · exact hno0 e h hop
      · have := (h4 e h hne).1
        rw [hz] at this
        cases this
    · have := k2 e h
      rw [hop] at this
      revert this
      decide
  · rw [hc]
    refine ⟨es0 ++ es1, h1, ?_⟩
    intro e he hop hne
    rcases List.mem_append.mp he with h | h
    · exact absurd hop (hno0 e h)
    · obtain ⟨a, b⟩ := h4 e h hne
      refine ⟨a, ?_, ?_⟩
      · rw [List.getLast?_append, b]
        rfl
      · intro e' he' hop'
        rcases List.mem_append.mp he' with h' | h'
        · have := h2 e' h'
          rw [hop'] at this
          revert this
          decide
        · have := h3 e' h'
          rw [hop'] at this
          cases this

/-- C21: a failing present-support query.  In any state, the calls of
`get_present_and_graphics_indices` are the present-support queries for families 0, 1,
... in order, and if the query for a family returned a result other than `VK_SUCCESS`
then the function returns `RENDER_ERROR_VULKAN_QUEUE_INDICES`, that query is its last
call, and the number of queries is the family index plus one: no later family is
queried.  If a present-support query made by `render_configure` on a valid context
returned a result other than `VK_SUCCESS`, then `render_configure` returns
`RENDER_ERROR_VULKAN_QUEUE_INDICES`, that query is its last call, and it did not call
`vkCreateDevice`. -/
theorem present_support_query_failure (w : World) (width height vshader fshader : Nat)
    (s : State) :
    ((∀ j, j < (calls_since s (get_present_and_graphics_indices w s)).length →
        ((calls_since s (get_present_and_graphics_indices w s)).getD j no_event).call
          = support_call s j) ∧
     ∀ e ∈ calls_since s (get_present_and_graphics_indices w s),
       e.reply.result ≠ VK_SUCCESS →
       (get_present_and_graphics_indices w s).val
           = .ret RENDER_ERROR_VULKAN_QUEUE_INDICES ∧
       (calls_since s (get_present_and_graphics_indices w s)).getLast? = some e ∧
       (calls_since s (get_present_and_graphics_indices w s)).length
         = e.call.args.getD 1 0 + 1) ∧
    (∀ e ∈ calls_since s (render_configure w .valid width height vshader fshader s),
       e.call.op = .vk .vkGetPhysicalDeviceSurfaceSupportKHR →
       e.reply.result ≠ VK_SUCCESS →
       (render_configure w .valid width height vshader fshader s).val
           = .ret RENDER_ERROR_VULKAN_QUEUE_INDICES ∧
       (calls_since s (render_configure w .valid width height vshader fshader s)).getLast?
         = some e ∧
       ∀ e' ∈ calls_since s (render_configure w .valid width height vshader fshader s),
         e'.call.op ≠ .vk .vkCreateDevice) := by
  obtain ⟨es, e1, -, e3, e4⟩ := get_present_and_graphics_indices_run w s
  obtain ⟨es', f1, f2⟩ := render_configure_support_run w width height vshader fshader s
  rw [calls_since_eq _ _ es e1, calls_since_eq _ _ es' f1]
  exact ⟨⟨e3, e4⟩, f2⟩

set_option maxRecDepth 1000000 in
/-- Witness for C21: in `noSupportWorld`, with three queue families and a failing query
for family 1, `get_present_and_graphics_indices` returns
`RENDER_ERROR_VULKAN_QUEUE_INDICES` after two queries, and `render_configure` returns
the same code without calling `vkCreateDevice`. -/
theorem present_support_query_failure_witness :
    noSupportState.r.n_queue_props = 3 ∧
    (get_present_and_graphics_indices noSupportWorld noSupportState).val
        = .ret RENDER_ERROR_VULKAN_QUEUE_INDICES ∧
    (calls_since noSupportState
      (get_present_and_graphics_indices noSupportWorld noSupportState)).length = 2 ∧
    (render_configure noSupportWorld .valid 640 480 1 2 noSupportInit).val
        = .ret RENDER_ERROR_VULKAN_QUEUE_INDICES ∧
    ∀ e ∈ calls_since noSupportInit
        (render_configure noSupportWorld .valid 640 480 1 2 noSupportInit),
      e.call.op ≠ .vk .vkCreateDevice :=
  have A := (present_support_query_failure noSupportWorld 640 480 1 2 noSupportState).1.2
    ⟨support_call noSupportState 1, { result := -1 }⟩ (by decide) (by decide)
  have B := (present_support_query_failure noSupportWorld 640 480 1 2 noSupportInit).2
    ⟨support_call noSupportInit 1, { result := -1 }⟩ (by decide) (by decide) (by decide)
  ⟨by decide, A.1, A.2.2, B.1, B.2.2⟩


/-! ## C24: queue families none of which matches -/

theorem last_match_none (p : Nat → Bool) (n i d : Nat)
    (h : ∀ j, i ≤ j → j < i + n → p j = false) : last_match p n i d = d := by
  rcases last_match_spec p n i d with ⟨h1, -⟩ | ⟨h1, h2, h3, -⟩
  · exact h1
  · rw [h _ h1 h2] at h3
    cases h3

/-- One iteration with the locals kept ends in the same state, with the same code, as
the iteration without them, whatever the values of the locals. -/
theorem queue_index_step_locals_eq (w : World) (i : Nat) (isset : Int × Int) (s : State) :
    (queue_index_step_locals w i isset s).st = (queue_index_step w i s).st ∧
    (queue_index_step_locals w i isset s).val.code = (queue_index_step w i s).val := by
  unfold queue_index_step_locals queue_index_step
  simp only [getS_bind, deref_bind, phys_device_bind, ite_bind,
    ite_apply_state, setR_bind, pure_bind_apply, invoke_bind, pure_apply, bind_assoc]
  by_cases hqp : s.r.queue_props = 0
  · simp [hqp, Outcome.code]
  by_cases hpd : s.r.phys_devices = 0
  · by_cases hc : (s.mem.queue_props.getD i ⟨0, 0⟩).queueCount > 0 <;>
    by_cases hf : Nat.land (s.mem.queue_props.getD i ⟨0, 0⟩).queueFlags VK_QUEUE_GRAPHICS_BIT = 0 <;>
    simp [hqp, hpd, hc, hf, Outcome.code, -List.getD_eq_getElem?_getD]
  by_cases hfn : s.r.fn .vkGetPhysicalDeviceSurfaceSupportKHR = 0
  · by_cases hc : (s.mem.queue_props.getD i ⟨0, 0⟩).queueCount > 0 <;>
    by_cases hf : Nat.land (s.mem.queue_props.getD i ⟨0, 0⟩).queueFlags VK_QUEUE_GRAPHICS_BIT = 0 <;>
    simp [hqp, hpd, hfn, hc, hf, Outcome.code, -List.getD_eq_getElem?_getD]
  by_cases hres : (w s.trace { op := .vk .vkGetPhysicalDeviceSurfaceSupportKHR, args := [s.mem.phys_devices.getD s.r.phys_id 0, i, s.r.surface] }).result = VK_SUCCESS <;>
  by_cases hc : (s.mem.queue_props.getD i ⟨0, 0⟩).queueCount > 0 <;>
  by_cases hf : Nat.land (s.mem.queue_props.getD i ⟨0, 0⟩).queueFlags VK_QUEUE_GRAPHICS_BIT = 0 <;>
  by_cases hv : (w s.trace { op := .vk .vkGetPhysicalDeviceSurfaceSupportKHR, args := [s.mem.phys_devices.getD s.r.phys_id 0, i, s.r.surface] }).value = 0 <;>
  simp [hqp, hpd, hc, hf, hv, hfn, hres, Outcome.code, -List.getD_eq_getElem?_getD]

/-- The loop with the locals kept ends in the same state, with the same code, as the
loop without them. -/
theorem for_loop_locals_eq (w : World) :
    ∀ (n i : Nat) (isset : Int × Int) (s : State),
      (for_loop_locals (queue_index_step_locals w) n i isset s).st
        = (for_loop (queue_index_step w) n i s).st ∧
      (for_loop_locals (queue_index_step_locals w) n i isset s).val.code
        = (for_loop (queue_index_step w) n i s).val
  | 0, _, _, _ => ⟨rfl, rfl⟩
  | n + 1, i, isset, s => by
    obtain ⟨hst, hval⟩ := queue_index_step_locals_eq w i isset s
    unfold for_loop_locals for_loop
    rw [chkerr_apply, bind_apply, ← hval, ← hst]
    cases (queue_index_step_locals w i isset s).val with
    | ret a =>
      simp only [Outcome.code]
      by_cases ha : a.1 = 0
      · simp only [ha, ne_eq, not_true_eq_false, if_false]
        exact for_loop_locals_eq w n (i + 1) a.2 _
      · simp only [ha, ne_eq, not_false_eq_true, if_true]
        exact ⟨rfl, rfl⟩
    | nullCall f => exact ⟨rfl, rfl⟩
    | nullDeref => exact ⟨rfl, rfl⟩

/-- The function with the locals kept ends in the same state, with the same code, as
`get_present_and_graphics_indices`. -/
theorem get_present_and_graphics_indices_locals_eq (w : World) (g0 p0 : Int) (s : State) :
    (get_present_and_graphics_indices_locals w g0 p0 s).st
      = (get_present_and_graphics_indices w s).st ∧
    (get_present_and_graphics_indices_locals w g0 p0 s).val.code
      = (get_present_and_graphics_indices w s).val := by
  obtain ⟨hst, hval⟩ := for_loop_locals_eq w s.r.n_queue_props 0 (g0, p0) s
  unfold get_present_and_graphics_indices_locals get_present_and_graphics_indices
  rw [getR_bind, getR_bind, chkerr_apply, bind_apply, ← hval, ← hst]
  cases (for_loop_locals (queue_index_step_locals w) s.r.n_queue_props 0 (g0, p0) s).val with
  | ret a =>
    simp only [Outcome.code]
    by_cases ha : a.1 = 0
    · simp only [ha, ne_eq, not_true_eq_false, if_false]
      exact ⟨rfl, rfl⟩
    · simp only [ha, ne_eq, not_false_eq_true, if_true]
      exact ⟨rfl, rfl⟩
  | nullCall f => exact ⟨rfl, rfl⟩
  | nullDeref => exact ⟨rfl, rfl⟩

/-- With equal queue indices stored, the device array present and the entry resolved,
`create_device` passes its check: its first call is `vkCreateDevice` with the two
indices, and it does not return `RENDER_ERROR_VULKAN_QUEUE_INDEX_MISMATCH`. -/
theorem create_device_attempt (w : World) (s : State)
    (heq : s.r.queue_index_present = s.r.queue_index_graphics)
    (hpd : s.r.phys_devices ≠ 0) (hfn : s.r.fn .vkCreateDevice ≠ 0) :
    ((calls_since s (create_device w s)).head?).map Event.call
      = some { op := .vk .vkCreateDevice,
               args := [s.mem.phys_devices.getD s.r.phys_id 0, s.r.queue_index_graphics,
                        s.r.queue_index_present] } ∧
    (create_device w s).val ≠ .ret RENDER_ERROR_VULKAN_QUEUE_INDEX_MISMATCH := by
  unfold calls_since create_device
  simp only [getR_bind, phys_device_bind, invoke_bind, setR_bind, ite_apply_state,
    pure_apply, heq, ne_eq, not_true_eq_false, if_false, hpd, hfn]
  by_cases hres : (w s.trace { op := .vk .vkCreateDevice, args := [s.mem.phys_devices.getD s.r.phys_id 0, s.r.queue_index_graphics, s.r.queue_index_graphics] }).result = VK_SUCCESS
  · by_cases hq : s.r.fn .vkGetDeviceQueue = 0
    · simp [hres, hq, -List.getD_eq_getElem?_getD]
    · simp [hres, hq, -List.getD_eq_getElem?_getD]
  · simp [hres, -List.getD_eq_getElem?_getD]

/-- C24: queue families none of which matches.  With the present-support entry resolved,
the property and device arrays present and every present-support query succeeding,
`get_present_and_graphics_indices` returns `RENDER_ERROR_NONE` also when no family
matches: if no family has queues and the graphics bit, `queue_index_graphics` keeps the
value it had; if no family has queues and a query that answered "supported",
`queue_index_present` keeps the value it had; and if both hold and both indices were 0,
`create_device`, run next with `vkCreateDevice` resolved, passes its equality check and
calls `vkCreateDevice` with the indices 0 and 0.  The function with the locals
`graphics_isset` and `present_isset` kept ends in the same state and with the same code
as the function without them, whatever the initial values of the locals.  After
`render_init`, whatever its outcome, both indices are 0. -/
theorem unmatched_queue_index_kept (w : World) (s : State) (g0 p0 : Int) (win : Nat)
    (s0 : State) :
    (s.r.fn .vkGetPhysicalDeviceSurfaceSupportKHR ≠ 0 →
     s.r.queue_props ≠ 0 → s.r.phys_devices ≠ 0 →
     (∀ t c, c.op = .vk .vkGetPhysicalDeviceSurfaceSupportKHR →
        (w t c).result = VK_SUCCESS) →
       (get_present_and_graphics_indices w s).val = .ret RENDER_ERROR_NONE ∧
       ((∀ j, j < s.r.n_queue_props → is_graphics_family s.mem.queue_props j = false) →
         (get_present_and_graphics_indices w s).st.r.queue_index_graphics
           = s.r.queue_index_graphics) ∧
       ((∀ j, j < s.r.n_queue_props →
           is_present_family s.mem.queue_props
             (calls_since s (get_present_and_graphics_indices w s)) j = false) →
         (get_present_and_graphics_indices w s).st.r.queue_index_present
           = s.r.queue_index_present) ∧
       ((∀ j, j < s.r.n_queue_props → is_graphics_family s.mem.queue_props j = false) →
        (∀ j, j < s.r.n_queue_props →
           is_present_family s.mem.queue_props
             (calls_since s (get_present_and_graphics_indices w s)) j = false) →
        s.r.queue_index_graphics = 0 → s.r.queue_index_present = 0 →
        s.r.fn .vkCreateDevice ≠ 0 →
          ((calls_since (get_present_and_graphics_indices w s).st
              (create_device w (get_present_and_graphics_indices w s).st)).head?).map
              Event.call
            = some { op := .vk .vkCreateDevice,
                     args := [s.mem.phys_devices.getD s.r.phys_id 0, 0, 0] } ∧
          (create_device w (get_present_and_graphics_indices w s).st).val
            ≠ .ret RENDER_ERROR_VULKAN_QUEUE_INDEX_MISMATCH)) ∧
    ((get_present_and_graphics_indices_locals w g0 p0 s).st
        = (get_present_and_graphics_indices w s).st ∧
     (get_present_and_graphics_indices_locals w g0 p0 s).val.code
        = (get_present_and_graphics_indices w s).val) ∧
    ((render_init w .valid win s0).st.r.queue_index_graphics = 0 ∧
     (render_init w .valid win s0).st.r.queue_index_present = 0) := by
  refine ⟨?_, get_present_and_graphics_indices_locals_eq w g0 p0 s,
    congrArg Render.queue_index_graphics (render_init_erase w win s0),
    congrArg Render.queue_index_present (render_init_erase w win s0)⟩
  intro hfn hqp hpd hw
  obtain ⟨es, e1, e2, e3, e4, e5, e6⟩ := queue_index_loop w hw s.r.n_queue_props 0 s hfn hqp hpd
  have hrun : get_present_and_graphics_indices w s
      = ⟨.ret RENDER_ERROR_NONE, (for_loop (queue_index_step w) s.r.n_queue_props 0 s).st⟩ := by
    unfold get_present_and_graphics_indices
    rw [getR_bind, chkerr_of_zero e1]
    rfl
  have hcs : calls_since s (get_present_and_graphics_indices w s) = es :=
    calls_since_eq _ _ es (by rw [hrun]; exact e3)
  rw [hcs, hrun]
  have hg : (∀ j, j < s.r.n_queue_props → is_graphics_family s.mem.queue_props j = false) →
      (for_loop (queue_index_step w) s.r.n_queue_props 0 s).st.r.queue_index_graphics
        = s.r.queue_index_graphics := by
    intro h
    rw [e6]
    exact last_match_none _ _ _ _ fun j _ hj => h j (by omega)
  have hp : (∀ j, j < s.r.n_queue_props →
      is_present_family s.mem.queue_props es j = false) →
      (for_loop (queue_index_step w) s.r.n_queue_props 0 s).st.r.queue_index_present
        = s.r.queue_index_present := by
    intro h
    rw [e6]
    exact last_match_none _ _ _ _ fun j _ hj => h j (by omega)
  refine ⟨rfl, hg, hp, ?_⟩
  intro h1 h2 z1 z2 hcd
  have r1 := hg h1
  have r2 := hp h2
  have hphys : (for_loop (queue_index_step w) s.r.n_queue_props 0 s).st.r.phys_devices
      = s.r.phys_devices := by rw [e6]
  have hid : (for_loop (queue_index_step w) s.r.n_queue_props 0 s).st.r.phys_id
      = s.r.phys_id := by rw [e6]
  have hf : (for_loop (queue_index_step w) s.r.n_queue_props 0 s).st.r.fn = s.r.fn := by
    rw [e6]
  have A := create_device_attempt w (for_loop (queue_index_step w) s.r.n_queue_props 0 s).st
    (by rw [r1, r2, z1, z2]) (by rw [hphys]; exact hpd) (by rw [hf]; exact hcd)
  rw [r1, r2, z1, z2, e2, hid] at A
  exact A

set_option maxRecDepth 1000000 in
/-- Witness for C24: in `noQueueWorld`, with a compute-only and a transfer-only family
and no present support, `get_present_and_graphics_indices` returns `RENDER_ERROR_NONE`
and leaves both indices 0, `create_device` then calls `vkCreateDevice` on device 7 with
the indices 0 and 0, and the whole `render_configure` returns `RENDER_ERROR_NONE`. -/
theorem unmatched_queue_index_kept_witness :
    (get_present_and_graphics_indices noQueueWorld noQueueState).val
      = .ret RENDER_ERROR_NONE ∧
    (get_present_and_graphics_indices noQueueWorld noQueueState).st.r.queue_index_graphics
      = 0 ∧
    (get_present_and_graphics_indices noQueueWorld noQueueState).st.r.queue_index_present
      = 0 ∧
    ((calls_since (get_present_and_graphics_indices noQueueWorld noQueueState).st
        (create_device noQueueWorld
          (get_present_and_graphics_indices noQueueWorld noQueueState).st)).head?).map
        Event.call
      = some { op := .vk .vkCreateDevice, args := [7, 0, 0] } ∧
    (render_configure noQueueWorld .valid 640 480 1 2 noQueueInit).val
      = .ret RENDER_ERROR_NONE :=
  have T := (unmatched_queue_index_kept noQueueWorld noQueueState 0 0 5 State.zero).1
    (by decide) (by decide) (by decide) (fun t c h => by simp only [noQueueWorld, h])
  ⟨T.1, (T.2.1 (by decide)).trans (by decide), (T.2.2.1 (by decide)).trans (by decide),
    (T.2.2.2 (by decide) (by decide) (by decide) (by decide) (by decide)).1.trans
      (by decide),
    by decide⟩


/-! ## C25: the memory type when none matches -/

theorem heap_index_from_none (types : List Nat) (flags n i : Nat)
    (h : ∀ j, i ≤ j → j < i + n → has_flags types flags j = false) :
    heap_index_from types flags n i = 0 := by
  rcases heap_index_from_spec types flags n i with ⟨h1, -⟩ | ⟨h1, h2, h3, -⟩
  · exact h1
  · rw [h _ h1 h2] at h3
    cases h3

/-- The run of `get_heap_index` with the entry resolved and the device array present. -/
theorem get_heap_index_run (w : World) (flags : Nat) (s : State)
    (hfn : s.r.fn .vkGetPhysicalDeviceMemoryProperties ≠ 0) (hpd : s.r.phys_devices ≠ 0) :
    get_heap_index w flags s
      = ⟨.ret (heap_index_from (w s.trace (memory_props_call s)).values flags
                (w s.trace (memory_props_call s)).value 0),
         { s with trace := s.trace ++
             [⟨memory_props_call s, w s.trace (memory_props_call s)⟩] }⟩ := by
  unfold get_heap_index memory_props_call
  simp only [phys_device_bind, hpd, if_false, invoke_bind, hfn, pure_apply]

/-- The run of `allocate_buffer` with its four entries resolved and the device array
present: the first three calls are always made, and the code is
`RENDER_ERROR_VULKAN_MEMORY` when the allocation or the binding fails and
`RENDER_ERROR_NONE` otherwise. -/
theorem allocate_buffer_run (w : World) (buf : Nat) (out_mem : Nat → Render → Render)
    (s : State) (hout : ∀ h r, (out_mem h r).fn = r.fn)
    (h1 : s.r.fn .vkGetBufferMemoryRequirements ≠ 0)
    (h2 : s.r.fn .vkGetPhysicalDeviceMemoryProperties ≠ 0)
    (h3 : s.r.fn .vkAllocateMemory ≠ 0) (h4 : s.r.fn .vkBindBufferMemory ≠ 0)
    (hpd : s.r.phys_devices ≠ 0) :
    (((allocate_buffer_events w buf s).getD 2 no_event).reply.result ≠ VK_SUCCESS →
      allocate_buffer w buf out_mem s
        = ⟨.ret RENDER_ERROR_VULKAN_MEMORY,
           { s with r := out_mem ((allocate_buffer_events w buf s).getD 2 no_event).reply.value
                           s.r,
                    trace := s.trace ++ (allocate_buffer_events w buf s).take 3 }⟩) ∧
    (((allocate_buffer_events w buf s).getD 2 no_event).reply.result = VK_SUCCESS →
      allocate_buffer w buf out_mem s
        = ⟨.ret (if ((allocate_buffer_events w buf s).getD 3 no_event).reply.result
                      ≠ VK_SUCCESS
                 then RENDER_ERROR_VULKAN_MEMORY else RENDER_ERROR_NONE),
           { s with r := out_mem ((allocate_buffer_events w buf s).getD 2 no_event).reply.value
                           s.r,
                    trace := s.trace ++ allocate_buffer_events w buf s }⟩) := by
  have hg := get_heap_index_run w VK_MEMORY_PROPERTY_HOST_VISIBLE_BIT
    { s with trace := s.trace ++
        [⟨{ op := .vk .vkGetBufferMemoryRequirements, args := [s.r.device, buf] },
          w s.trace { op := .vk .vkGetBufferMemoryRequirements, args := [s.r.device, buf] }⟩] }
    h2 hpd
  unfold allocate_buffer
  simp only [getR_bind, invoke_bind, h1, if_false]
  rw [bind_apply, hg]
  simp only [invoke_bind, h3, if_false, setR_bind, ite_apply_state, pure_apply, hout, h4]
  unfold allocate_buffer_events
  simp only [List.getD_cons_succ, List.getD_cons_zero, memory_props_call, List.take,
    List.append_assoc, List.singleton_append, List.cons_append, List.nil_append]
  constructor
  · intro hne
    rw [if_pos hne]
  · intro he
    rw [if_neg (not_not.mpr he)]
    split <;> rfl

/-- C25: the memory type when none matches.  With the entry resolved and the device
array present, `get_heap_index` returns 0 when no memory type of the reported table has
one of the requested bits, in particular when the table is empty, and it also returns 0
when type 0 has one: for any two tables, one in which type 0 matches and one in which
nothing matches, the loop gives the same result.  In `allocate_buffer`, with its entries
resolved, when no reported type is host-visible, the third call is `vkAllocateMemory`
with the size from the memory requirements and memory type 0, and the code is
`RENDER_ERROR_NONE` exactly when the allocation and the binding succeed: the absence of
a match is not reported. -/
theorem get_heap_index_unmatched_zero (w : World) (s : State) (flags buf : Nat)
    (out_mem : Nat → Render → Render) :
    (s.r.fn .vkGetPhysicalDeviceMemoryProperties ≠ 0 → s.r.phys_devices ≠ 0 →
      ((∀ j, j < (w s.trace (memory_props_call s)).value →
          has_flags (w s.trace (memory_props_call s)).values flags j = false) →
        (get_heap_index w flags s).val = .ret 0) ∧
      ((w s.trace (memory_props_call s)).value = 0 →
        (get_heap_index w flags s).val = .ret 0) ∧
      (0 < (w s.trace (memory_props_call s)).value →
        has_flags (w s.trace (memory_props_call s)).values flags 0 = true →
        (get_heap_index w flags s).val = .ret 0)) ∧
    (∀ (t1 t2 : List Nat) (n1 n2 : Nat), 0 < n1 → has_flags t1 flags 0 = true →
      (∀ j, j < n2 → has_flags t2 flags j = false) →
      heap_index_from t1 flags n1 0 = heap_index_from t2 flags n2 0) ∧
    ((∀ h r, (out_mem h r).fn = r.fn) →
     s.r.fn .vkGetBufferMemoryRequirements ≠ 0 →
     s.r.fn .vkGetPhysicalDeviceMemoryProperties ≠ 0 →
     s.r.fn .vkAllocateMemory ≠ 0 → s.r.fn .vkBindBufferMemory ≠ 0 →
     s.r.phys_devices ≠ 0 →
     (∀ j, j < ((allocate_buffer_events w buf s).getD 1 no_event).reply.value →
        has_flags ((allocate_buffer_events w buf s).getD 1 no_event).reply.values
          VK_MEMORY_PROPERTY_HOST_VISIBLE_BIT j = false) →
       (calls_since s (allocate_buffer w buf out_mem s)).take 3
         = (allocate_buffer_events w buf s).take 3 ∧
       ((allocate_buffer_events w buf s).getD 2 no_event).call
         = { op := .vk .vkAllocateMemory,
             args := [s.r.device,
                      ((allocate_buffer_events w buf s).getD 0 no_event).reply.value, 0] } ∧
       ((allocate_buffer w buf out_mem s).val = .ret RENDER_ERROR_NONE ↔
         ((allocate_buffer_events w buf s).getD 2 no_event).reply.result = VK_SUCCESS ∧
         ((allocate_buffer_events w buf s).getD 3 no_event).reply.result = VK_SUCCESS)) := by
  refine ⟨?_, ?_, ?_⟩
  · intro hfn hpd
    rw [get_heap_index_run w flags s hfn hpd]
    refine ⟨fun h => ?_, fun h => ?_, fun h0 h1 => ?_⟩
    · exact congrArg Outcome.ret (heap_index_from_none _ _ _ _ fun j _ hj => h j (by omega))
    · show Outcome.ret _ = _
      rw [h]
      rfl
    · rcases heap_index_from_spec (w s.trace (memory_props_call s)).values flags
        (w s.trace (memory_props_call s)).value 0 with ⟨e, -⟩ | ⟨-, -, -, e⟩
      · exact congrArg Outcome.ret e
      · refine congrArg Outcome.ret ?_
        by_contra hne
        have := e 0 (Nat.le_refl 0) (Nat.pos_of_ne_zero hne)
        rw [h1] at this
        cases this
  · intro t1 t2 n1 n2 h0 h1 h2
    rw [heap_index_from_none t2 flags n2 0 fun j _ hj => h2 j (by omega)]
    rcases heap_index_from_spec t1 flags n1 0 with ⟨e, -⟩ | ⟨-, -, -, e⟩
    · exact e
    · by_contra hne
      have := e 0 (Nat.le_refl 0) (Nat.pos_of_ne_zero hne)
      rw [h1] at this
      cases this
  · intro hout h1 h2 h3 h4 hpd hno
    obtain ⟨hbad, hok⟩ := allocate_buffer_run w buf out_mem s hout h1 h2 h3 h4 hpd
    refine ⟨?_, ?_, ?_⟩
    · by_cases hr : ((allocate_buffer_events w buf s).getD 2 no_event).reply.result
          = VK_SUCCESS
      · rw [calls_since_eq s _ (allocate_buffer_events w buf s) (by rw [hok hr])]
      · rw [calls_since_eq s _ ((allocate_buffer_events w buf s).take 3) (by rw [hbad hr])]
        rfl
    · have hz := heap_index_from_none
        ((allocate_buffer_events w buf s).getD 1 no_event).reply.values
        VK_MEMORY_PROPERTY_HOST_VISIBLE_BIT
        ((allocate_buffer_events w buf s).getD 1 no_event).reply.value 0
        fun j _ hj => hno j (by omega)
      unfold allocate_buffer_events at hz ⊢
      simp only [List.getD_cons_succ, List.getD_cons_zero] at hz ⊢
      rw [hz]
    · by_cases hr : ((allocate_buffer_events w buf s).getD 2 no_event).reply.result
          = VK_SUCCESS
      · rw [hok hr]
        by_cases hb : ((allocate_buffer_events w buf s).getD 3 no_event).reply.result
            = VK_SUCCESS
        · rw [if_neg (not_not.mpr hb)]
          exact ⟨fun _ => ⟨hr, hb⟩, fun _ => rfl⟩
        · rw [if_pos hb]
          exact ⟨fun h => absurd (Outcome.ret.inj h) (by decide), fun h => absurd h.2 hb⟩
      · rw [hbad hr]
        exact ⟨fun h => absurd (Outcome.ret.inj h) (by decide), fun h => absurd h.1 hr⟩

set_option maxRecDepth 1000000 in
/-- Witness for C25: in `noHostVisibleWorld`, whose two memory types are device-local
only, `get_heap_index` returns 0 and `allocate_buffer` asks for memory type 0 and
returns `RENDER_ERROR_NONE`, as does the whole `render_configure`; a table whose type 0
is host-visible gives the same index. -/
theorem get_heap_index_unmatched_zero_witness :
    (get_heap_index noHostVisibleWorld VK_MEMORY_PROPERTY_HOST_VISIBLE_BIT
      noHostVisibleState).val = .ret 0 ∧
    heap_index_from [2] VK_MEMORY_PROPERTY_HOST_VISIBLE_BIT 1 0
      = heap_index_from [1, 1] VK_MEMORY_PROPERTY_HOST_VISIBLE_BIT 2 0 ∧
    ((allocate_buffer_events noHostVisibleWorld noHostVisibleState.r.vertex_buffer
        noHostVisibleState).getD 2 no_event).call
      = { op := .vk .vkAllocateMemory, args := [noHostVisibleState.r.device, 256, 0] } ∧
    (allocate_buffer noHostVisibleWorld noHostVisibleState.r.vertex_buffer
        (fun h r => { r with vertex_memory := h }) noHostVisibleState).val
      = .ret RENDER_ERROR_NONE ∧
    (render_configure noHostVisibleWorld .valid 640 480 1 2 initState).val
      = .ret RENDER_ERROR_NONE ∧
    (render_configure noMemoryTypeWorld .valid 640 480 1 2 initState).val
      = .ret RENDER_ERROR_NONE :=
  have T := get_heap_index_unmatched_zero noHostVisibleWorld noHostVisibleState
    VK_MEMORY_PROPERTY_HOST_VISIBLE_BIT noHostVisibleState.r.vertex_buffer
    (fun h r => { r with vertex_memory := h })
  have A := T.2.2 (fun _ _ => rfl) (by decide) (by decide) (by decide) (by decide)
    (by decide) (by decide)
  ⟨(T.1 (by decide) (by decide)).1 (by decide),
   T.2.1 [2] [1, 1] 1 2 (by decide) (by decide) (by decide),
   A.2.1.trans (by decide), A.2.2.mpr ⟨by decide, by decide⟩, by decide, by decide⟩


/-! ## C26: no call through an unresolved entry -/

theorem resolves_pure (R : List Fn) {α : Type} (a : α) : Resolves R (pure a : M α) :=
  fun _ h => ⟨fun _ h' => Outcome.noConfusion h', h⟩

theorem resolves_bind {R : List Fn} {α β : Type} {m : M α} {k : α → M β}
    (hm : Resolves R m) (hk : ∀ a, Resolves R (k a)) : Resolves R (m >>= k) := by
  intro s hs
  obtain ⟨h1, h2⟩ := hm s hs
  rw [bind_apply]
  cases h : (m s).val with
  | ret a => exact hk a _ h2
  | nullCall f => exact absurd h (h1 f)
  | nullDeref => exact ⟨fun _ h' => Outcome.noConfusion h', h2⟩

theorem resolves_ite {R : List Fn} {α : Type} {c : Prop} [Decidable c] {a b : M α}
    (ha : Resolves R a) (hb : Resolves R b) : Resolves R (if c then a else b) := by
  split <;> assumption

theorem resolves_getS (R : List Fn) : Resolves R getS :=
  fun _ h => ⟨fun _ h' => Outcome.noConfusion h', h⟩

theorem resolves_getR (R : List Fn) : Resolves R getR :=
  fun _ h => ⟨fun _ h' => Outcome.noConfusion h', h⟩

theorem resolves_deref (R : List Fn) {α : Type} (p : Nat) (xs : List α) (i : Nat) (d : α) :
    Resolves R (deref p xs i d) := by
  intro s hs
  unfold Librender.deref
  split
  · exact ⟨fun _ h' => Outcome.noConfusion h', hs⟩
  · exact ⟨fun _ h' => Outcome.noConfusion h', hs⟩

theorem resolves_phys_device (R : List Fn) : Resolves R phys_device := by
  unfold phys_device
  exact resolves_bind (resolves_getS R) fun _ => resolves_deref R _ _ _ _

theorem resolves_setR {R : List Fn} {f : Render → Render} (h : ∀ r, (f r).fn = r.fn) :
    Resolves R (setR f) := by
  intro s hs
  refine ⟨fun _ h' => Outcome.noConfusion h', fun g hg => ?_⟩
  show (f s.r).fn g ≠ 0
  rw [h]
  exact hs g hg

theorem resolves_setMem (R : List Fn) (f : Arrays → Arrays) : Resolves R (setMem f) :=
  fun _ h => ⟨fun _ h' => Outcome.noConfusion h', h⟩

theorem resolves_extcall (R : List Fn) (w : World) (c : Call) : Resolves R (extcall w c) :=
  fun _ h => ⟨fun _ h' => Outcome.noConfusion h', h⟩

theorem resolves_invoke {R : List Fn} {w : World} {f : Fn} {args : List Nat}
    {sym : Option Fn} {data : List Nat} (h : f ∈ R) : Resolves R (invoke w f args sym data) := by
  intro s hs
  unfold Librender.invoke
  rw [if_neg (hs f h)]
  exact resolves_extcall R w _ s hs

theorem resolves_chkerr {R : List Fn} {x k : M Int} (hx : Resolves R x) (hk : Resolves R k) :
    Resolves R (chkerr x k) := by
  unfold Librender.chkerr
  exact resolves_bind hx fun _ => resolves_ite (resolves_pure R _) hk

theorem resolves_chkerr_out {R : List Fn} {β : Type} {x : M (Int × β)} {k : β → M Int}
    (hx : Resolves R x) (hk : ∀ b, Resolves R (k b)) : Resolves R (chkerr_out x k) := by
  unfold Librender.chkerr_out
  exact resolves_bind hx fun _ => resolves_ite (resolves_pure R _) (hk _)

theorem resolves_for_loop {R : List Fn} {body : Nat → M Int} (hb : ∀ i, Resolves R (body i)) :
    ∀ n i, Resolves R (for_loop body n i)
  | 0, _ => resolves_pure R 0
  | n + 1, i => resolves_chkerr (hb i) (resolves_for_loop hb n (i + 1))

/-- A first part that, when it returns 0, has resolved the entries of `R2` lets the
continuation rely on them. -/
theorem resolves_chkerr_more {R R2 : List Fn} {x k : M Int} (hx : Resolves R x)
    (hup : ∀ s, (∀ f ∈ R, s.r.fn f ≠ 0) → (x s).val = .ret 0 → ∀ f ∈ R2, (x s).st.r.fn f ≠ 0)
    (hk : Resolves R2 k) (hsub : ∀ f ∈ R, f ∈ R2) : Resolves R (chkerr x k) := by
  intro s hs
  obtain ⟨h1, h2⟩ := hx s hs
  rcases chkerr_cases x k s with ⟨hz, e⟩ | ⟨-, e⟩
  · rw [e]
    obtain ⟨k1, k2⟩ := hk _ (hup s hs hz)
    exact ⟨k1, fun f hf => k2 f (hsub f hf)⟩
  · rw [e]
    exact ⟨h1, h2⟩

theorem get_queue_props_resolves (w : World) :
    Resolves kept_instance_functions (get_queue_props w) := by
  unfold get_queue_props
  with_reducible repeat' first
    | exact resolves_pure _ _
    | exact resolves_getS _
    | exact resolves_getR _
    | exact resolves_deref _ _ _ _ _
    | exact resolves_phys_device _
    | exact resolves_setMem _ _
    | exact resolves_extcall _ _ _
    | refine resolves_bind ?_ (fun _ => ?_)
    | refine resolves_ite ?_ ?_
    | refine resolves_chkerr ?_ ?_
    | refine resolves_chkerr_out ?_ (fun _ => ?_)
    | refine resolves_for_loop (fun _ => ?_) _ _
    | refine resolves_setR ?_
    | refine resolves_invoke ?_
  all_goals first | (intro _; rfl) | decide

theorem queue_index_step_resolves (w : World) (i : Nat) :
    Resolves kept_instance_functions (queue_index_step w i) := by
  unfold queue_index_step
  with_reducible repeat' first
    | exact resolves_pure _ _
    | exact resolves_getS _
    | exact resolves_getR _
    | exact resolves_deref _ _ _ _ _
    | exact resolves_phys_device _
    | exact resolves_setMem _ _
    | exact resolves_extcall _ _ _
    | refine resolves_bind ?_ (fun _ => ?_)
    | refine resolves_ite ?_ ?_
    | refine resolves_chkerr ?_ ?_
    | refine resolves_chkerr_out ?_ (fun _ => ?_)
    | refine resolves_for_loop (fun _ => ?_) _ _
    | refine resolves_setR ?_
    | refine resolves_invoke ?_
  all_goals first | (intro _; rfl) | decide

theorem get_present_and_graphics_indices_resolves (w : World) :
    Resolves kept_instance_functions (get_present_and_graphics_indices w) := by
  unfold get_present_and_graphics_indices
  with_reducible repeat' first
    | exact resolves_pure _ _
    | exact resolves_getS _
    | exact resolves_getR _
    | exact resolves_deref _ _ _ _ _
    | exact resolves_phys_device _
    | exact resolves_setMem _ _
    | exact resolves_extcall _ _ _
    | exact queue_index_step_resolves w _
    | refine resolves_bind ?_ (fun _ => ?_)
    | refine resolves_ite ?_ ?_
    | refine resolves_chkerr ?_ ?_
    | refine resolves_chkerr_out ?_ (fun _ => ?_)
    | refine resolves_for_loop (fun _ => ?_) _ _
    | refine resolves_setR ?_
    | refine resolves_invoke ?_
  all_goals first | (intro _; rfl) | decide

theorem create_device_resolves (w : World) :
    Resolves kept_instance_functions (create_device w) := by
  unfold create_device
  with_reducible repeat' first
    | exact resolves_pure _ _
    | exact resolves_getS _
    | exact resolves_getR _
    | exact resolves_deref _ _ _ _ _
    | exact resolves_phys_device _
    | exact resolves_setMem _ _
    | exact resolves_extcall _ _ _
    | refine resolves_bind ?_ (fun _ => ?_)
    | refine resolves_ite ?_ ?_
    | refine resolves_chkerr ?_ ?_
    | refine resolves_chkerr_out ?_ (fun _ => ?_)
    | refine resolves_for_loop (fun _ => ?_) _ _
    | refine resolves_setR ?_
    | refine resolves_invoke ?_
  all_goals first | (intro _; rfl) | decide

theorem get_surface_format_resolves (w : World) :
    Resolves all_functions (get_surface_format w) := by
  unfold get_surface_format
  with_reducible repeat' first
    | exact resolves_pure _ _
    | exact resolves_getS _
    | exact resolves_getR _
    | exact resolves_deref _ _ _ _ _
    | exact resolves_phys_device _
    | exact resolves_setMem _ _
    | exact resolves_extcall _ _ _
    | refine resolves_bind ?_ (fun _ => ?_)
    | refine resolves_ite ?_ ?_
    | refine resolves_chkerr ?_ ?_
    | refine resolves_chkerr_out ?_ (fun _ => ?_)
    | refine resolves_for_loop (fun _ => ?_) _ _
    | refine resolves_setR ?_
    | refine resolves_invoke ?_
  all_goals first | (intro _; rfl) | decide

theorem get_surface_caps_resolves (w : World) :
    Resolves all_functions (get_surface_caps w) := by
  unfold get_surface_caps
  with_reducible repeat' first
    | exact resolves_pure _ _
    | exact resolves_getS _
    | exact resolves_getR _
    | exact resolves_deref _ _ _ _ _
    | exact resolves_phys_device _
    | exact resolves_setMem _ _
    | exact resolves_extcall _ _ _
    | refine resolves_bind ?_ (fun _ => ?_)
    | refine resolves_ite ?_ ?_
    | refine resolves_chkerr ?_ ?_
    | refine resolves_chkerr_out ?_ (fun _ => ?_)
    | refine resolves_for_loop (fun _ => ?_) _ _
    | refine resolves_setR ?_
    | refine resolves_invoke ?_
  all_goals first | (intro _; rfl) | decide

theorem get_swapchain_images_resolves (w : World) :
    Resolves all_functions (get_swapchain_images w) := by
  unfold get_swapchain_images
  with_reducible repeat' first
    | exact resolves_pure _ _
    | exact resolves_getS _
    | exact resolves_getR _
    | exact resolves_deref _ _ _ _ _
    | exact resolves_phys_device _
    | exact resolves_setMem _ _
    | exact resolves_extcall _ _ _
    | refine resolves_bind ?_ (fun _ => ?_)
    | refine resolves_ite ?_ ?_
    | refine resolves_chkerr ?_ ?_
    | refine resolves_chkerr_out ?_ (fun _ => ?_)
    | refine resolves_for_loop (fun _ => ?_) _ _
    | refine resolves_setR ?_
    | refine resolves_invoke ?_
  all_goals first | (intro _; rfl) | decide

theorem create_swapchain_resolves (w : World) :
    Resolves all_functions (create_swapchain w) := by
  unfold create_swapchain
  with_reducible repeat' first
    | exact resolves_pure _ _
    | exact resolves_getS _
    | exact resolves_getR _
    | exact resolves_deref _ _ _ _ _
    | exact resolves_phys_device _
    | exact resolves_setMem _ _
    | exact resolves_extcall _ _ _
    | exact get_surface_caps_resolves w
    | exact get_swapchain_images_resolves w
    | refine resolves_bind ?_ (fun _ => ?_)
    | refine resolves_ite ?_ ?_
    | refine resolves_chkerr ?_ ?_
    | refine resolves_chkerr_out ?_ (fun _ => ?_)
    | refine resolves_for_loop (fun _ => ?_) _ _
    | refine resolves_setR ?_
    | refine resolves_invoke ?_
  all_goals first | (intro _; rfl) | decide

theorem read_shader_resolves (w : World) (filename : Nat) :
    Resolves all_functions (read_shader w filename) := by
  unfold read_shader
  with_reducible repeat' first
    | exact resolves_pure _ _
    | exact resolves_getS _
    | exact resolves_getR _
    | exact resolves_deref _ _ _ _ _
    | exact resolves_phys_device _
    | exact resolves_setMem _ _
    | exact resolves_extcall _ _ _
    | refine resolves_bind ?_ (fun _ => ?_)
    | refine resolves_ite ?_ ?_
    | refine resolves_chkerr ?_ ?_
    | refine resolves_chkerr_out ?_ (fun _ => ?_)
    | refine resolves_for_loop (fun _ => ?_) _ _
    | refine resolves_setR ?_
    | refine resolves_invoke ?_
  all_goals first | (intro _; rfl) | decide

theorem create_pipeline_layout_resolves (w : World) :
    Resolves all_functions (create_pipeline_layout w) := by
  unfold create_pipeline_layout
  with_reducible repeat' first
    | exact resolves_pure _ _
    | exact resolves_getS _
    | exact resolves_getR _
    | exact resolves_deref _ _ _ _ _
    | exact resolves_phys_device _
    | exact resolves_setMem _ _
    | exact resolves_extcall _ _ _
    | refine resolves_bind ?_ (fun _ => ?_)
    | refine resolves_ite ?_ ?_
    | refine resolves_chkerr ?_ ?_
    | refine resolves_chkerr_out ?_ (fun _ => ?_)
    | refine resolves_for_loop (fun _ => ?_) _ _
    | refine resolves_setR ?_
    | refine resolves_invoke ?_
  all_goals first | (intro _; rfl) | decide

theorem create_render_pass_resolves (w : World) :
    Resolves all_functions (create_render_pass w) := by
  unfold create_render_pass
  with_reducible repeat' first
    | exact resolves_pure _ _
    | exact resolves_getS _
    | exact resolves_getR _
    | exact resolves_deref _ _ _ _ _
    | exact resolves_phys_device _
    | exact resolves_setMem _ _
    | exact resolves_extcall _ _ _
    | refine resolves_bind ?_ (fun _ => ?_)
    | refine resolves_ite ?_ ?_
    | refine resolves_chkerr ?_ ?_
    | refine resolves_chkerr_out ?_ (fun _ => ?_)
    | refine resolves_for_loop (fun _ => ?_) _ _
    | refine resolves_setR ?_
    | refine resolves_invoke ?_
  all_goals first | (intro _; rfl) | decide

theorem create_pipeline_resolves (w : World) (vshader fshader : Nat) :
    Resolves all_functions (create_pipeline w vshader fshader) := by
  unfold create_pipeline create_shader
  with_reducible repeat' first
    | exact resolves_pure _ _
    | exact resolves_getS _
    | exact resolves_getR _
    | exact resolves_deref _ _ _ _ _
    | exact resolves_phys_device _
    | exact resolves_setMem _ _
    | exact resolves_extcall _ _ _
    | exact read_shader_resolves w _
    | exact create_pipeline_layout_resolves w
    | exact create_render_pass_resolves w
    | refine resolves_bind ?_ (fun _ => ?_)
    | refine resolves_ite ?_ ?_
    | refine resolves_chkerr ?_ ?_
    | refine resolves_chkerr_out ?_ (fun _ => ?_)
    | refine resolves_for_loop (fun _ => ?_) _ _
    | refine resolves_setR ?_
    | refine resolves_invoke ?_
  all_goals first | (intro _; rfl) | decide

theorem create_image_view_resolves (w : World) (i : Nat) :
    Resolves all_functions (create_image_view w i) := by
  unfold create_image_view
  with_reducible repeat' first
    | exact resolves_pure _ _
    | exact resolves_getS _
    | exact resolves_getR _
    | exact resolves_deref _ _ _ _ _
    | exact resolves_phys_device _
    | exact resolves_setMem _ _
    | exact resolves_extcall _ _ _
    | refine resolves_bind ?_ (fun _ => ?_)
    | refine resolves_ite ?_ ?_
    | refine resolves_chkerr ?_ ?_
    | refine resolves_chkerr_out ?_ (fun _ => ?_)
    | refine resolves_for_loop (fun _ => ?_) _ _
    | refine resolves_setR ?_
    | refine resolves_invoke ?_
  all_goals first | (intro _; rfl) | decide

theorem create_framebuffer_step_resolves (w : World) (i : Nat) :
    Resolves all_functions (create_framebuffer_step w i) := by
  unfold create_framebuffer_step
  with_reducible repeat' first
    | exact resolves_pure _ _
    | exact resolves_getS _
    | exact resolves_getR _
    | exact resolves_deref _ _ _ _ _
    | exact resolves_phys_device _
    | exact resolves_setMem _ _
    | exact resolves_extcall _ _ _
    | refine resolves_bind ?_ (fun _ => ?_)
    | refine resolves_ite ?_ ?_
    | refine resolves_chkerr ?_ ?_
    | refine resolves_chkerr_out ?_ (fun _ => ?_)
    | refine resolves_for_loop (fun _ => ?_) _ _
    | refine resolves_setR ?_
    | refine resolves_invoke ?_
  all_goals first | (intro _; rfl) | decide

theorem create_framebuffers_resolves (w : World) :
    Resolves all_functions (create_framebuffers w) := by
  unfold create_framebuffers
  with_reducible repeat' first
    | exact resolves_pure _ _
    | exact resolves_getS _
    | exact resolves_getR _
    | exact resolves_deref _ _ _ _ _
    | exact resolves_phys_device _
    | exact resolves_setMem _ _
    | exact resolves_extcall _ _ _
    | exact create_image_view_resolves w _
    | exact create_framebuffer_step_resolves w _
    | refine resolves_bind ?_ (fun _ => ?_)
    | refine resolves_ite ?_ ?_
    | refine resolves_chkerr ?_ ?_
    | refine resolves_chkerr_out ?_ (fun _ => ?_)
    | refine resolves_for_loop (fun _ => ?_) _ _
    | refine resolves_setR ?_
    | refine resolves_invoke ?_
  all_goals first | (intro _; rfl) | decide

theorem create_command_pool_resolves (w : World) :
    Resolves all_functions (create_command_pool w) := by
  unfold create_command_pool
  with_reducible repeat' first
    | exact resolves_pure _ _
    | exact resolves_getS _
    | exact resolves_getR _
    | exact resolves_deref _ _ _ _ _
    | exact resolves_phys_device _
    | exact resolves_setMem _ _
    | exact resolves_extcall _ _ _
    | refine resolves_bind ?_ (fun _ => ?_)
    | refine resolves_ite ?_ ?_
    | refine resolves_chkerr ?_ ?_
    | refine resolves_chkerr_out ?_ (fun _ => ?_)
    | refine resolves_for_loop (fun _ => ?_) _ _
    | refine resolves_setR ?_
    | refine resolves_invoke ?_
  all_goals first | (intro _; rfl) | decide

theorem create_command_buffers_resolves (w : World) :
    Resolves all_functions (create_command_buffers w) := by
  unfold create_command_buffers
  with_reducible repeat' first
    | exact resolves_pure _ _
    | exact resolves_getS _
    | exact resolves_getR _
    | exact resolves_deref _ _ _ _ _
    | exact resolves_phys_device _
    | exact resolves_setMem _ _
    | exact resolves_extcall _ _ _
    | refine resolves_bind ?_ (fun _ => ?_)
    | refine resolves_ite ?_ ?_
    | refine resolves_chkerr ?_ ?_
    | refine resolves_chkerr_out ?_ (fun _ => ?_)
    | refine resolves_for_loop (fun _ => ?_) _ _
    | refine resolves_setR ?_
    | refine resolves_invoke ?_
  all_goals first | (intro _; rfl) | decide

theorem get_heap_index_resolves (w : World) (flags : Nat) :
    Resolves all_functions (get_heap_index w flags) := by
  unfold get_heap_index
  with_reducible repeat' first
    | exact resolves_pure _ _
    | exact resolves_getS _
    | exact resolves_getR _
    | exact resolves_deref _ _ _ _ _
    | exact resolves_phys_device _
    | exact resolves_setMem _ _
    | exact resolves_extcall _ _ _
    | refine resolves_bind ?_ (fun _ => ?_)
    | refine resolves_ite ?_ ?_
    | refine resolves_chkerr ?_ ?_
    | refine resolves_chkerr_out ?_ (fun _ => ?_)
    | refine resolves_for_loop (fun _ => ?_) _ _
    | refine resolves_setR ?_
    | refine resolves_invoke ?_
  all_goals first | (intro _; rfl) | decide

theorem write_data_resolves (w : World) (mem : Nat) (data : List Nat) (size : Nat) :
    Resolves all_functions (write_data w mem data size) := by
  unfold write_data
  with_reducible repeat' first
    | exact resolves_pure _ _
    | exact resolves_getS _
    | exact resolves_getR _
    | exact resolves_deref _ _ _ _ _
    | exact resolves_phys_device _
    | exact resolves_setMem _ _
    | exact resolves_extcall _ _ _
    | refine resolves_bind ?_ (fun _ => ?_)
    | refine resolves_ite ?_ ?_
    | refine resolves_chkerr ?_ ?_
    | refine resolves_chkerr_out ?_ (fun _ => ?_)
    | refine resolves_for_loop (fun _ => ?_) _ _
    | refine resolves_setR ?_
    | refine resolves_invoke ?_
  all_goals first | (intro _; rfl) | decide

theorem create_vertex_data_resolves (w : World) :
    Resolves all_functions (create_vertex_data w) := by
  unfold create_vertex_data create_buffer allocate_buffer
  with_reducible repeat' first
    | exact resolves_pure _ _
    | exact resolves_getS _
    | exact resolves_getR _
    | exact resolves_deref _ _ _ _ _
    | exact resolves_phys_device _
    | exact resolves_setMem _ _
    | exact resolves_extcall _ _ _
    | exact get_heap_index_resolves w _
    | exact write_data_resolves w _ _ _
    | refine resolves_bind ?_ (fun _ => ?_)
    | refine resolves_ite ?_ ?_
    | refine resolves_chkerr ?_ ?_
    | refine resolves_chkerr_out ?_ (fun _ => ?_)
    | refine resolves_for_loop (fun _ => ?_) _ _
    | refine resolves_setR ?_
    | refine resolves_invoke ?_
  all_goals first | (intro _; rfl) | decide

theorem write_buffers_step_resolves (w : World) (i : Nat) :
    Resolves all_functions (write_buffers_step w i) := by
  unfold write_buffers_step
  with_reducible repeat' first
    | exact resolves_pure _ _
    | exact resolves_getS _
    | exact resolves_getR _
    | exact resolves_deref _ _ _ _ _
    | exact resolves_phys_device _
    | exact resolves_setMem _ _
    | exact resolves_extcall _ _ _
    | refine resolves_bind ?_ (fun _ => ?_)
    | refine resolves_ite ?_ ?_
    | refine resolves_chkerr ?_ ?_
    | refine resolves_chkerr_out ?_ (fun _ => ?_)
    | refine resolves_for_loop (fun _ => ?_) _ _
    | refine resolves_setR ?_
    | refine resolves_invoke ?_
  all_goals first | (intro _; rfl) | decide

theorem write_buffers_resolves (w : World) :
    Resolves all_functions (write_buffers w) := by
  unfold write_buffers
  with_reducible repeat' first
    | exact resolves_pure _ _
    | exact resolves_getS _
    | exact resolves_getR _
    | exact resolves_deref _ _ _ _ _
    | exact resolves_phys_device _
    | exact resolves_setMem _ _
    | exact resolves_extcall _ _ _
    | exact write_buffers_step_resolves w _
    | refine resolves_bind ?_ (fun _ => ?_)
    | refine resolves_ite ?_ ?_
    | refine resolves_chkerr ?_ ?_
    | refine resolves_chkerr_out ?_ (fun _ => ?_)
    | refine resolves_for_loop (fun _ => ?_) _ _
    | refine resolves_setR ?_
    | refine resolves_invoke ?_
  all_goals first | (intro _; rfl) | decide

theorem create_semaphores_resolves (w : World) :
    Resolves all_functions (create_semaphores w) := by
  unfold create_semaphores
  with_reducible repeat' first
    | exact resolves_pure _ _
    | exact resolves_getS _
    | exact resolves_getR _
    | exact resolves_deref _ _ _ _ _
    | exact resolves_phys_device _
    | exact resolves_setMem _ _
    | exact resolves_extcall _ _ _
    | refine resolves_bind ?_ (fun _ => ?_)
    | refine resolves_ite ?_ ?_
    | refine resolves_chkerr ?_ ?_
    | refine resolves_chkerr_out ?_ (fun _ => ?_)
    | refine resolves_for_loop (fun _ => ?_) _ _
    | refine resolves_setR ?_
    | refine resolves_invoke ?_
  all_goals first | (intro _; rfl) | decide

theorem destroy_image_step_resolves (w : World) (i : Nat) :
    Resolves all_functions (destroy_image_step w i) := by
  unfold destroy_image_step
  with_reducible repeat' first
    | exact resolves_pure _ _
    | exact resolves_getS _
    | exact resolves_getR _
    | exact resolves_deref _ _ _ _ _
    | exact resolves_phys_device _
    | exact resolves_setMem _ _
    | exact resolves_extcall _ _ _
    | refine resolves_bind ?_ (fun _ => ?_)
    | refine resolves_ite ?_ ?_
    | refine resolves_chkerr ?_ ?_
    | refine resolves_chkerr_out ?_ (fun _ => ?_)
    | refine resolves_for_loop (fun _ => ?_) _ _
    | refine resolves_setR ?_
    | refine resolves_invoke ?_
  all_goals first | (intro _; rfl) | decide

theorem render_destroy_pipeline_resolves (w : World) (p : RenderPtr) :
    Resolves all_functions (render_destroy_pipeline w p) := by
  cases p
  · exact resolves_pure _ _
  unfold render_destroy_pipeline
  with_reducible repeat' first
    | exact resolves_pure _ _
    | exact resolves_getS _
    | exact resolves_getR _
    | exact resolves_deref _ _ _ _ _
    | exact resolves_phys_device _
    | exact resolves_setMem _ _
    | exact resolves_extcall _ _ _
    | exact destroy_image_step_resolves w _
    | refine resolves_bind ?_ (fun _ => ?_)
    | refine resolves_ite ?_ ?_
    | refine resolves_chkerr ?_ ?_
    | refine resolves_chkerr_out ?_ (fun _ => ?_)
    | refine resolves_for_loop (fun _ => ?_) _ _
    | refine resolves_setR ?_
    | refine resolves_invoke ?_
  all_goals first | (intro _; rfl) | decide

theorem render_update_resolves (w : World) :
    Resolves device_functions (render_update w .valid) := by
  unfold render_update
  with_reducible repeat' first
    | exact resolves_pure _ _
    | exact resolves_getS _
    | exact resolves_getR _
    | exact resolves_deref _ _ _ _ _
    | exact resolves_phys_device _
    | exact resolves_setMem _ _
    | exact resolves_extcall _ _ _
    | refine resolves_bind ?_ (fun _ => ?_)
    | refine resolves_ite ?_ ?_
    | refine resolves_chkerr ?_ ?_
    | refine resolves_chkerr_out ?_ (fun _ => ?_)
    | refine resolves_for_loop (fun _ => ?_) _ _
    | refine resolves_setR ?_
    | refine resolves_invoke ?_
  all_goals first | (intro _; rfl) | decide
theorem load_device_resolves (w : World) (f : Fn) (hf : f ∈ device_functions) :
    Resolves kept_instance_functions (load_device w f) := by
  intro s hs
  unfold load_device
  simp only [getR_bind, invoke_bind, setFn, setR_bind, ite_apply_state, pure_apply]
  rw [if_neg (hs .vkGetDeviceProcAddr (by decide))]
  have hkeep : ∀ (p : Nat) (g : Fn), g ∈ kept_instance_functions →
      Function.update s.r.fn f p g ≠ 0 := by
    intro p g hg
    have hne : g ≠ f := by
      intro e
      rw [e] at hg
      have : f ∉ device_functions := by
        have := (List.mem_filter.mp hg).2
        exact of_decide_eq_true this
      exact this hf
    rw [Function.update_noteq hne]
    exact hs g hg
  split
  · exact ⟨fun _ h' => Outcome.noConfusion h', fun g hg => hkeep _ g hg⟩
  · exact ⟨fun _ h' => Outcome.noConfusion h', fun g hg => hkeep _ g hg⟩

theorem resolves_load_all {R : List Fn} {load : Fn → M Int} :
    ∀ fs : List Fn, (∀ f ∈ fs, Resolves R (load f)) → Resolves R (load_all load fs)
  | [], _ => resolves_pure R _
  | f :: fs, h =>
    resolves_chkerr (h f (List.mem_cons_self f fs))
      (resolves_load_all fs fun g hg => h g (List.mem_cons_of_mem f hg))

theorem load_device_functions_resolves (w : World) :
    Resolves kept_instance_functions (load_device_functions w) :=
  resolves_load_all device_functions fun f hf => load_device_resolves w f hf

/-- A `load_device_functions` that returns 0 has resolved every device-level entry and
kept the resolved ones. -/
theorem load_device_functions_all (w : World) (s : State)
    (hs : ∀ f ∈ kept_instance_functions, s.r.fn f ≠ 0)
    (h : (load_device_functions w s).val = .ret 0) :
    ∀ f ∈ all_functions, (load_device_functions w s).st.r.fn f ≠ 0 := by
  intro f hf
  rcases load_all_ret (load_device_ret w) device_functions s 0 h with e | ⟨-, k⟩
  · exact absurd e (by decide)
  · rcases List.mem_append.mp hf with h1 | h1
    · exact k f (Or.inr (hs f h1))
    · exact k f (Or.inl h1)

/-- The steps of `render_configure` after `load_device_functions`, with every entry
resolved. -/
theorem configure_loaded_resolves (w : World) (vshader fshader : Nat) :
    Resolves all_functions
      (((configure_steps w vshader fshader).drop 4).foldr chkerr
        (do setR fun r => { r with has_pipeline := 1 }
            pure RENDER_ERROR_NONE)) := by
  unfold configure_steps
  simp only [List.drop, List.foldr]
  with_reducible repeat' first
    | exact resolves_pure _ _
    | exact get_surface_format_resolves w
    | exact create_swapchain_resolves w
    | exact create_pipeline_resolves w _ _
    | exact create_framebuffers_resolves w
    | exact create_command_pool_resolves w
    | exact create_command_buffers_resolves w
    | exact create_vertex_data_resolves w
    | exact write_buffers_resolves w
    | exact create_semaphores_resolves w
    | refine resolves_bind ?_ (fun _ => ?_)
    | refine resolves_chkerr ?_ ?_
    | refine resolves_setR ?_
  all_goals first | (intro _; rfl) | decide

theorem configure_steps_split (w : World) (vshader fshader : Nat) (fin : M Int) :
    (configure_steps w vshader fshader).foldr chkerr fin
      = chkerr (get_queue_props w) (chkerr (get_present_and_graphics_indices w)
          (chkerr (create_device w) (chkerr (load_device_functions w)
            (((configure_steps w vshader fshader).drop 4).foldr chkerr fin)))) := rfl

/-- The steps of `render_configure` after `render_destroy_pipeline`, with the kept
instance-level entries resolved. -/
theorem configure_steps_resolves (w : World) (vshader fshader : Nat) :
    Resolves kept_instance_functions
      ((configure_steps w vshader fshader).foldr chkerr
        (do setR fun r => { r with has_pipeline := 1 }
            pure RENDER_ERROR_NONE)) := by
  rw [configure_steps_split]
  refine resolves_chkerr (get_queue_props_resolves w) ?_
  refine resolves_chkerr (get_present_and_graphics_indices_resolves w) ?_
  refine resolves_chkerr (create_device_resolves w) ?_
  exact resolves_chkerr_more (load_device_functions_resolves w)
    (load_device_functions_all w) (configure_loaded_resolves w vshader fshader)
    (fun f hf => List.mem_append_left _ hf)

/-- When the steps of `render_configure` after `render_destroy_pipeline` return 0 from a
state with the kept instance-level entries resolved, every entry is resolved. -/
theorem configure_steps_ok_resolved (w : World) (vshader fshader : Nat) (s : State)
    (hs : ∀ f ∈ kept_instance_functions, s.r.fn f ≠ 0)
    (h : ((configure_steps w vshader fshader).foldr chkerr
        (do setR fun r => { r with has_pipeline := 1 }
            pure RENDER_ERROR_NONE) s).val = .ret 0) :
    ∀ f ∈ all_functions,
      ((configure_steps w vshader fshader).foldr chkerr
        (do setR fun r => { r with has_pipeline := 1 }
            pure RENDER_ERROR_NONE) s).st.r.fn f ≠ 0 := by
  rw [configure_steps_split] at h ⊢
  obtain ⟨a1, h, e1⟩ := chkerr_ret_zero h
  rw [e1]
  have s1 := (get_queue_props_resolves w s hs).2
  revert h s1
  generalize (get_queue_props w s).st = t1
  intro h s1
  obtain ⟨a2, h, e2⟩ := chkerr_ret_zero h
  rw [e2]
  have s2 := (get_present_and_graphics_indices_resolves w t1 s1).2
  revert h s2
  generalize (get_present_and_graphics_indices w t1).st = t2
  intro h s2
  obtain ⟨a3, h, e3⟩ := chkerr_ret_zero h
  rw [e3]
  have s3 := (create_device_resolves w t2 s2).2
  revert h s3
  generalize (create_device w t2).st = t3
  intro h s3
  obtain ⟨a4, h, e4⟩ := chkerr_ret_zero h
  rw [e4]
  exact (configure_loaded_resolves w vshader fshader _
    (load_device_functions_all w t3 s3 a4)).2

/-- With the kept instance-level entries resolved, and the device-level ones too when the
flag `has_pipeline` is set, `render_destroy_pipeline` does not call through a null
entry. -/
theorem render_destroy_pipeline_safe (w : World) (s : State)
    (hk : ∀ f ∈ kept_instance_functions, s.r.fn f ≠ 0)
    (hd : s.r.has_pipeline ≠ 0 → ∀ f ∈ device_functions, s.r.fn f ≠ 0) :
    ∀ f, (render_destroy_pipeline w .valid s).val ≠ .nullCall f := by
  by_cases h0 : s.r.has_pipeline = 0
  · rw [render_destroy_pipeline_noop w .valid s h0]
    exact fun _ h => Outcome.noConfusion h
  · refine (render_destroy_pipeline_resolves w .valid s fun f hf => ?_).1
    rcases List.mem_append.mp hf with h | h
    · exact hk f h
    · exact hd h0 f h

theorem render_destroy_pipeline_fn (w : World) (s : State) :
    (render_destroy_pipeline w .valid s).st.r.fn = s.r.fn :=
  keeps_field (render_destroy_pipeline_foot w .valid) (fun r => r.fn) (fun _ => rfl) s

/-- With the kept instance-level entries resolved, and the device-level ones too when the
flag `has_pipeline` is set, `render_configure` does not call through a null entry and
leaves the kept instance-level entries resolved. -/
theorem render_configure_safe (w : World) (width height vshader fshader : Nat) (s : State)
    (hk : ∀ f ∈ kept_instance_functions, s.r.fn f ≠ 0)
    (hd : s.r.has_pipeline ≠ 0 → ∀ f ∈ device_functions, s.r.fn f ≠ 0) :
    (∀ f, (render_configure w .valid width height vshader fshader s).val ≠ .nullCall f) ∧
    ∀ f ∈ kept_instance_functions,
      (render_configure w .valid width height vshader fshader s).st.r.fn f ≠ 0 := by
  have hfn := render_destroy_pipeline_fn w s
  cases hv : (render_destroy_pipeline w .valid s).val with
  | ret u =>
    rw [render_configure_eq_chain w width height vshader fshader s hv]
    refine configure_steps_resolves w vshader fshader (configure_start w s) fun f hf => ?_
    show (render_destroy_pipeline w .valid s).st.r.fn f ≠ 0
    rw [hfn]
    exact hk f hf
  | nullCall f => exact absurd hv (render_destroy_pipeline_safe w s hk hd f)
  | nullDeref =>
    have e : render_configure w .valid width height vshader fshader s
        = ⟨.nullDeref, (render_destroy_pipeline w .valid s).st⟩ := by
      unfold render_configure
      simp only []
      rw [bind_apply, hv]
    rw [e]
    refine ⟨fun _ h => Outcome.noConfusion h, fun f hf => ?_⟩
    show (render_destroy_pipeline w .valid s).st.r.fn f ≠ 0
    rw [hfn]
    exact hk f hf

/-- A `render_configure` that returns `RENDER_ERROR_NONE` from a state with the kept
instance-level entries resolved leaves every entry resolved. -/
theorem render_configure_ok_resolved (w : World) (width height vshader fshader : Nat)
    (s : State) (hk : ∀ f ∈ kept_instance_functions, s.r.fn f ≠ 0)
    (h : (render_configure w .valid width height vshader fshader s).val
      = .ret RENDER_ERROR_NONE) :
    ∀ f ∈ all_functions,
      (render_configure w .valid width height vshader fshader s).st.r.fn f ≠ 0 := by
  have hfn := render_destroy_pipeline_fn w s
  cases hv : (render_destroy_pipeline w .valid s).val with
  | ret u =>
    rw [render_configure_eq_chain w width height vshader fshader s hv] at h ⊢
    refine configure_steps_ok_resolved w vshader fshader (configure_start w s)
      (fun f hf => ?_) h
    show (render_destroy_pipeline w .valid s).st.r.fn f ≠ 0
    rw [hfn]
    exact hk f hf
  | nullCall f =>
    unfold render_configure at h
    simp only [] at h
    rw [bind_apply, hv] at h
    cases h
  | nullDeref =>
    unfold render_configure at h
    simp only [] at h
    rw [bind_apply, hv] at h
    cases h

/-- A computation that keeps the entries of `R` resolved, followed by one that does not
call through a null entry when they are, does not call through a null entry. -/
theorem no_null_bind {R : List Fn} {α β : Type} {m : M α} {k : α → M β}
    (hm : Resolves R m)
    (hk : ∀ a s, (∀ f ∈ R, s.r.fn f ≠ 0) → ∀ f, (k a s).val ≠ .nullCall f) :
    ∀ s, (∀ f ∈ R, s.r.fn f ≠ 0) → ∀ f, ((m >>= k) s).val ≠ .nullCall f := by
  intro s hs
  obtain ⟨h1, h2⟩ := hm s hs
  rw [bind_apply]
  cases h : (m s).val with
  | ret a => exact hk a _ h2
  | nullCall f => exact absurd h (h1 f)
  | nullDeref => exact fun _ h' => Outcome.noConfusion h'

/-- With the kept instance-level entries resolved, and the device-level ones too when the
flag `has_pipeline` is set, `render_deinit` does not call through a null entry. -/
theorem render_deinit_safe (w : World) (s : State)
    (hk : ∀ f ∈ kept_instance_functions, s.r.fn f ≠ 0)
    (hd : s.r.has_pipeline ≠ 0 → ∀ f ∈ device_functions, s.r.fn f ≠ 0) :
    ∀ f, (render_deinit w .valid s).val ≠ .nullCall f := by
  have hfn := render_destroy_pipeline_fn w s
  unfold render_deinit
  simp only []
  rw [bind_apply]
  cases hv : (render_destroy_pipeline w .valid s).val with
  | ret u =>
    simp only []
    have hk2 : ∀ f ∈ kept_instance_functions,
        (render_destroy_pipeline w .valid s).st.r.fn f ≠ 0 := by
      intro f hf
      rw [hfn]
      exact hk f hf
    revert hk2
    generalize (render_destroy_pipeline w .valid s).st = t
    revert t
    refine no_null_bind (resolves_getR _) (fun _ => ?_)
    refine no_null_bind (resolves_extcall _ _ _) (fun _ => ?_)
    refine no_null_bind (resolves_invoke (by decide)) (fun _ => ?_)
    refine no_null_bind (resolves_invoke (by decide)) (fun _ => ?_)
    refine no_null_bind (resolves_invoke (by decide)) (fun _ => ?_)
    refine no_null_bind (resolves_invoke (by decide)) (fun _ => ?_)
    refine no_null_bind (resolves_extcall _ _ _) (fun _ => ?_)
    exact fun _ _ _ h => Outcome.noConfusion h
  | nullCall f => exact absurd hv (render_destroy_pipeline_safe w s hk hd f)
  | nullDeref => exact fun _ h => Outcome.noConfusion h

/-- The invariant of the reachable contexts: the kept instance-level entries are
resolved, the device-level ones are when the most recent `render_configure` succeeded,
and the flag `has_pipeline` is only set then. -/
theorem reachable_inv (w : World) (b : Bool) (s : State) (h : Reachable w b s) :
    (∀ f ∈ kept_instance_functions, s.r.fn f ≠ 0) ∧
    (b = true → ∀ f ∈ device_functions, s.r.fn f ≠ 0) ∧
    (s.r.has_pipeline ≠ 0 → b = true) := by
  induction h with
  | init win s h =>
    obtain ⟨h0, h1⟩ := render_init_resolved w win s RENDER_ERROR_NONE h
      (by decide) (by decide) (by decide) (by decide)
    exact ⟨fun f hf => h1 f (List.mem_filter.mp hf).1, fun e => Bool.noConfusion e,
      fun e => absurd h0 e⟩
  | configure b width height vshader fshader s c _ hc ih =>
    obtain ⟨k, d, fl⟩ := ih
    have hd : s.r.has_pipeline ≠ 0 → ∀ f ∈ device_functions, s.r.fn f ≠ 0 :=
      fun e => d (fl e)
    refine ⟨(render_configure_safe w width height vshader fshader s k hd).2, ?_, ?_⟩
    · intro e
      have e' : c = RENDER_ERROR_NONE := of_decide_eq_true e
      rw [e'] at hc
      exact fun f hf => render_configure_ok_resolved w width height vshader fshader s k hc f
        (List.mem_append_right _ hf)
    · intro e
      by_contra hb
      have hne : c ≠ 0 := fun e0 => hb (decide_eq_true e0)
      exact e (render_configure_failed_flag w width height vshader fshader s c hc hne)
  | update s c _ _ ih =>
    have e : (render_update w .valid s).st.r = s.r :=
      keeps_field (render_update_foot w .valid) (fun r => r) (fun _ => rfl) s
    rw [e]
    exact ih
  | destroy b s _ hr ih =>
    obtain ⟨k, d, -⟩ := ih
    rw [render_destroy_pipeline_fn]
    exact ⟨k, d, fun e => absurd (render_destroy_pipeline_clears w s hr) e⟩

/-- C26: no call through an unresolved entry.  In every context reachable from a
`render_init` that returned `RENDER_ERROR_NONE` by calls of `render_configure`, of
`render_update` after a `render_configure` that succeeded, and of
`render_destroy_pipeline`: when `has_pipeline` is set, every entry that `render_update`
and `render_destroy_pipeline` call is resolved; the entries that `render_deinit` calls
itself, after its `render_destroy_pipeline`, are resolved; the entries of `render_update`
are resolved whenever the most recent `render_configure` succeeded; and none of
`render_destroy_pipeline`, `render_deinit`, `render_configure` and, after a
`render_configure` that succeeded, `render_update` ends in a call through a null
entry. -/
theorem reachable_no_unresolved_call (w : World) (b : Bool) (s : State)
    (h : Reachable w b s) :
    (s.r.has_pipeline ≠ 0 →
      (∀ f ∈ entries render_update_ops, s.r.fn f ≠ 0) ∧
      (∀ f ∈ entries render_destroy_pipeline_ops, s.r.fn f ≠ 0)) ∧
    (∀ f ∈ entries render_deinit_ops, f ∉ entries render_destroy_pipeline_ops →
      s.r.fn f ≠ 0) ∧
    (b = true → ∀ f ∈ entries render_update_ops, s.r.fn f ≠ 0) ∧
    (∀ f, (render_destroy_pipeline w .valid s).val ≠ .nullCall f) ∧
    (∀ f, (render_deinit w .valid s).val ≠ .nullCall f) ∧
    (∀ (width height vshader fshader : Nat) (f : Fn),
      (render_configure w .valid width height vshader fshader s).val ≠ .nullCall f) ∧
    (b = true → ∀ f, (render_update w .valid s).val ≠ .nullCall f) := by
  obtain ⟨k, d, fl⟩ := reachable_inv w b s h
  have hd : s.r.has_pipeline ≠ 0 → ∀ f ∈ device_functions, s.r.fn f ≠ 0 :=
    fun e => d (fl e)
  have hu : ∀ f ∈ entries render_update_ops, f ∈ device_functions := by decide
  have hp : ∀ f ∈ entries render_destroy_pipeline_ops, f ∈ all_functions := by decide
  have hi : ∀ f ∈ entries render_deinit_ops, f ∉ entries render_destroy_pipeline_ops →
      f ∈ kept_instance_functions := by decide
  refine ⟨fun e => ⟨fun f hf => hd e f (hu f hf), fun f hf => ?_⟩,
    fun f hf hn => k f (hi f hf hn), fun e f hf => d e f (hu f hf),
    render_destroy_pipeline_safe w s k hd, render_deinit_safe w s k hd,
    fun width height vshader fshader =>
      (render_configure_safe w width height vshader fshader s k hd).1,
    fun e => (render_update_resolves w s (d e)).1⟩
  rcases List.mem_append.mp (hp f hf) with h1 | h1
  · exact k f h1
  · exact hd e f h1

set_option maxRecDepth 1000000 in
/-- Witness for C26: the context after `render_init` and a `render_configure` in
`goodWorld` is reachable with the flag set, and so is, with the flag clear, the context
after `render_init` and a `render_configure` that fails in its last step in
`noSemaphoreWorld`. -/
theorem reachable_no_unresolved_call_witness :
    configuredState.r.has_pipeline ≠ 0 ∧
    (∀ f ∈ entries render_update_ops, configuredState.r.fn f ≠ 0) ∧
    (∀ f, (render_update goodWorld .valid configuredState).val ≠ .nullCall f) ∧
    (∀ f, (render_deinit goodWorld .valid configuredState).val ≠ .nullCall f) ∧
    (∀ f, (render_deinit noSemaphoreWorld .valid failedConfigureState).val ≠ .nullCall f) :=
  have T := reachable_no_unresolved_call goodWorld true configuredState
    (Reachable.configure false 640 480 1 2 initState RENDER_ERROR_NONE
      (Reachable.init 5 State.zero (by decide)) (by decide))
  have U := reachable_no_unresolved_call noSemaphoreWorld false failedConfigureState
    (Reachable.configure false 640 480 1 2 (render_init noSemaphoreWorld .valid 5 State.zero).st
      RENDER_ERROR_VULKAN_SEMAPHORE
      (Reachable.init 5 State.zero (by decide)) (by decide))
  ⟨by decide, T.2.2.1 rfl, T.2.2.2.2.2.2 rfl, T.2.2.2.2.1, U.2.2.2.2.1⟩

end Librender
